import Mathlib

/-!
# LDAP authentication provider (`server/providers/ldap/ldap_auth.c`)

A shallow embedding of the asynchronous PAM state machine of the LDAP back end.

* The LDAP client library, the BER encoder, the event loop and the credential
  store are external collaborators.  They are modelled as an interface
  `LdapLib W` of functions over an arbitrary world state `W`, so every theorem
  that quantifies over `lib` and `w` holds for every behaviour of the
  collaborators.
* Every call into a collaborator, and every invocation of the dispatcher
  callback `req->fn`, is recorded in an event log carried by the system state.
* An `LDAPMessage` chain is a list.  The walk over the search result calls
  `ldap_msgfree(result)` on the first entry and goes on with
  `ldap_next_message` on the chain it has released: what it reads there is an
  oracle of the interface (`freed_chain`).
* A call that need not return (a null pointer is dereferenced,
  `talloc_set_destructor` is handed a null pointer, `ber_bvfree` is handed an
  uninitialised pointer) is an oracle of the interface; when it does not
  return the process is down (`crashed`) and nothing runs afterwards.
* Allocation is assumed to succeed where the source does not test the result
  (`talloc`, `talloc_asprintf`, `talloc_strdup`); where the source tests it
  (`talloc_zero` and `talloc_strndup` in the caching hand-off) the allocator is
  an oracle of the interface.
-/

namespace Sdap

/-! ## Constants of the headers -/

/-- Return code `LDAP_SUCCESS` of `ldap.h`. -/
def LDAP_SUCCESS : Int := 0
/-- Return code `LDAP_OPT_SUCCESS` of `ldap.h`. -/
def LDAP_OPT_SUCCESS : Int := 0
/-- Result code `LDAP_INVALID_CREDENTIALS` (0x31) of `ldap.h`. -/
def LDAP_INVALID_CREDENTIALS : Int := 49
/-- Result code `LDAP_OTHER` (0x50) of `ldap.h`. -/
def LDAP_OTHER : Int := 80
/-- API error `LDAP_SERVER_DOWN` of `ldap.h`. -/
def LDAP_SERVER_DOWN : Int := -1
/-- Message type `LDAP_RES_SEARCH_ENTRY` (0x64) of `ldap.h`. -/
def LDAP_RES_SEARCH_ENTRY : Int := 100
/-- Message type `LDAP_RES_SEARCH_RESULT` (0x65) of `ldap.h`. -/
def LDAP_RES_SEARCH_RESULT : Int := 101
/-- Message type `LDAP_RES_SEARCH_REFERENCE` (0x73) of `ldap.h`. -/
def LDAP_RES_SEARCH_REFERENCE : Int := 115
/-- Message type `LDAP_RES_BIND` (0x61) of `ldap.h`. -/
def LDAP_RES_BIND : Int := 97
/-- Message type `LDAP_RES_EXTENDED` (0x78) of `ldap.h`. -/
def LDAP_RES_EXTENDED : Int := 120
/-- Search scope `LDAP_SCOPE_SUBTREE` of `ldap.h`. -/
def LDAP_SCOPE_SUBTREE : Int := 2
/-- Attribute list entry `LDAP_NO_ATTRS` of `ldap.h`. -/
def LDAP_NO_ATTRS : String := "1.1"
/-- Protocol version `LDAP_VERSION3` of `ldap.h`. -/
def LDAP_VERSION3 : Int := 3
/-- Object identifier `LDAP_EXOP_MODIFY_PASSWD` of `ldap.h`. -/
def LDAP_EXOP_MODIFY_PASSWD : String := "1.3.6.1.4.1.4203.1.11.1"

/-- The `EOK` of `util/util.h`. -/
def EOK : Int := 0
/-- The `EIO` of `errno.h`. -/
def EIO_ : Int := 5
/-- The `EAGAIN` of `errno.h`. -/
def EAGAIN : Int := 11
/-- The `EINVAL` of `errno.h`. -/
def EINVAL : Int := 22
/-- The `ENOMEM` of `errno.h`. -/
def ENOMEM : Int := 12

/-- The PAM return codes of `security/_pam_types.h` that the provider produces. -/
inductive PamStatus where
  | PAM_SUCCESS
  | PAM_SYSTEM_ERR
  | PAM_CRED_INSUFFICIENT
  | PAM_AUTHINFO_UNAVAIL
  | PAM_USER_UNKNOWN
  deriving DecidableEq, Repr

/-- The request codes of `sss_cli.h`; `other` stands for any code that is none
of the six PAM requests. -/
inductive PamCmd where
  | SSS_PAM_AUTHENTICATE
  | SSS_PAM_SETCRED
  | SSS_PAM_ACCT_MGMT
  | SSS_PAM_OPEN_SESSION
  | SSS_PAM_CLOSE_SESSION
  | SSS_PAM_CHAUTHTOK
  | other (code : Nat)
  deriving DecidableEq, Repr

/-! ## Data model -/

/-- A byte string (`uint8_t *` together with its size). -/
abbrev Bytes := List Nat

/-- The `struct sdap_ctx`. -/
structure sdap_ctx where
  ldap_uri : String
  default_bind_dn : Option String
  user_search_base : String
  user_name_attribute : String
  user_object_class : String
  default_authtok_type : Option String
  default_authtok_size : Nat
  default_authtok : Option Bytes
  network_timeout : Int
  opt_timeout : Int
  deriving DecidableEq, Repr

/-- The `enum sdap_auth_steps`; `unknown` stands for any other integer. -/
inductive sdap_auth_steps where
  | SDAP_NOOP
  | SDAP_OP_INIT
  | SDAP_CHECK_INIT_RESULT
  | SDAP_CHECK_STD_BIND
  | SDAP_CHECK_SEARCH_DN_RESULT
  | SDAP_CHECK_USER_BIND
  | unknown (code : Nat)
  deriving DecidableEq, Repr

/-- The fields of `struct pam_data` that the provider reads or writes; the
sizes `authtok_size` and `newauthtok_size` are the lengths of the byte strings. -/
structure pam_data where
  cmd : PamCmd
  user : String
  authtok : Bytes
  newauthtok : Bytes
  pam_status : PamStatus
  deriving DecidableEq, Repr

/-- The `struct berval`: a length and a possibly null value. -/
structure berval where
  bv_len : Nat
  bv_val : Option Bytes
  deriving DecidableEq, Repr

/-- One message of an `LDAPMessage` chain: its `ldap_msgtype` and what
`ldap_get_dn` returns for it (`none` for `NULL`). -/
structure LDAPMessage where
  msgtype : Int
  dn : Option String
  deriving DecidableEq, Repr

/-- What `ldap_result` stores in `*result`: the chain of messages walked by
`ldap_first_message` / `ldap_next_message`, and what `ldap_parse_result`
answers for it (its return value and the `errcodep` it stores). -/
structure LDAPResult where
  msgs : List LDAPMessage
  parse_ret : Int
  ldap_ret : Int
  deriving DecidableEq, Repr

/-- The `tevent_fd_handler_t next_task`: null or `sdap_pam_loop`. -/
inductive NextTask where
  | null
  | sdap_pam_loop
  deriving DecidableEq, Repr

/-- The `struct sdap_req`; `req` is represented by the log of the system,
`ldap` is `none` for `NULL` and otherwise the handle given by the library. -/
structure sdap_req where
  pd : pam_data
  sdap_ctx : sdap_ctx
  ldap : Option Nat
  user_dn : Option String
  next_task : NextTask
  next_step : sdap_auth_steps
  msgid : Int
  deriving DecidableEq, Repr

/-- An option set by `sdap_init` with its value. -/
inductive LdapOpt where
  | LDAP_OPT_PROTOCOL_VERSION (v : Int)
  | LDAP_OPT_NETWORK_TIMEOUT (tv_sec tv_usec : Int)
  | LDAP_OPT_TIMEOUT (tv_sec tv_usec : Int)
  deriving DecidableEq, Repr

/-- The external collaborators over a world state `W`: the LDAP client
library, the BER encoder, the event loop, the allocator where the source
tests its result, and the credential store.  Every function receives the
world and returns its answer with the new world. -/
structure LdapLib (W : Type) where
  /-- Returns the return code and the handle stored in `lr->ldap`. -/
  ldap_init : W → String → (Int × Option Nat) × W
  ldap_set_option : W → Option Nat → LdapOpt → Int × W
  /-- Returns the return code and the message id. -/
  ldap_start_tls : W → Option Nat → (Int × Int) × W
  ldap_install_tls : W → Option Nat → Int × W
  /-- Simple bind with a DN and a password; returns code and message id. -/
  ldap_sasl_bind : W → Option Nat → Option String → berval → (Int × Int) × W
  /-- Arguments: base, scope, filter, attrs; returns code and message id. -/
  ldap_search_ext : W → Option Nat → String → Int → String → List String →
    (Int × Int) × W
  /-- Arguments: msgid, all, blocking; returns the code and `*result`. -/
  ldap_result : W → Option Nat → Int → Bool → Bool → (Int × LDAPResult) × W
  ldap_unbind_ext : W → Option Nat → W
  /-- What `ldap_next_message` reads once `ldap_msgfree(result)` has released
  the chain that is being walked (the argument): the messages that the released
  memory shows after the entry at hand.  The reads are taken to return; a
  process that goes down in them is not modelled. -/
  freed_chain : W → List LDAPMessage → List LDAPMessage
  /-- The `ldap_get_option(LDAP_OPT_DESC)`: return code and descriptor. -/
  ldap_get_option_desc : W → Option Nat → (Int × Int) × W
  /-- True when `ber_alloc_t` returns a non-null element. -/
  ber_alloc_t : W → Bool × W
  /-- The `ber_printf` of the three tagged strings: user DN, old, new. -/
  ber_printf : W → Option String → Bytes → Bytes → Int × W
  ber_flatten : W → Int × W
  /-- True when `ber_bvfree` returns although it is handed the pointer `bv`
  that nothing has initialised. -/
  ber_bvfree : W → Bool × W
  /-- Arguments: the OID and the three encoded fields; code and message id. -/
  ldap_extended_operation : W → Option Nat → String → Option String → Bytes →
    Bytes → (Int × Int) × W
  gettimeofday : W → Int × W
  /-- True when `tevent_add_timer` returns a non-null timer. -/
  tevent_add_timer : W → Bool × W
  /-- True when `tevent_add_fd` returns a non-null event. -/
  tevent_add_fd : W → Int → Bool × W
  /-- True when `talloc_zero` of the `struct sdap_pw_cache` succeeds. -/
  talloc_zero : W → Bool × W
  /-- True when `talloc_strndup` of the password succeeds. -/
  talloc_strndup : W → Bool × W
  /-- True when `talloc_set_destructor` returns although it is handed the null
  pointer of a failed `talloc_strndup`. -/
  talloc_set_destructor : W → Bool × W
  /-- Returns the return code of `sysdb_transaction`. -/
  sysdb_transaction : W → Int × W
  /-- Arguments: user name and password; returns the return code. -/
  sysdb_set_cached_password : W → String → Bytes → Int × W
  sysdb_transaction_done : W → Int → W

/-- The observable events of a session, in the order in which they happen:
the calls into the collaborators with their arguments and answers, the
release of the session and the dispatcher callback `req->fn`. -/
inductive Event where
  | ev_ldap_init (uri : String) (ret : Int) (handle : Option Nat)
  | ev_set_option (handle : Option Nat) (opt : LdapOpt) (ret : Int)
  | ev_start_tls (handle : Option Nat) (ret msgid : Int)
  | ev_install_tls (handle : Option Nat) (ret : Int)
  | ev_sasl_bind (handle : Option Nat) (dn : Option String) (pw : berval)
      (ret msgid : Int)
  | ev_search_ext (handle : Option Nat) (base : String) (scope : Int)
      (filter : String) (attrs : List String) (ret msgid : Int)
  | ev_result (step : sdap_auth_steps) (handle : Option Nat) (msgid : Int)
      (all : Bool) (ret : Int) (res : LDAPResult)
  | ev_unbind_ext (handle : Option Nat)
  | ev_get_option_desc (handle : Option Nat) (ret fd : Int)
  | ev_ber_alloc_t (ok : Bool)
  | ev_ber_printf (dn : Option String) (old new : Bytes) (ret : Int)
  | ev_ber_flatten (ret : Int)
  | ev_bvfree_uninit (returned : Bool)
  | ev_extended_operation (handle : Option Nat) (oid : String)
      (dn : Option String) (old new : Bytes) (ret msgid : Int)
  | ev_exop_result (handle : Option Nat) (msgid : Int) (ret : Int)
      (res : LDAPResult)
  | ev_gettimeofday (ret : Int)
  | ev_add_timer (ok : Bool)
  | ev_add_fd (fd : Int) (ok : Bool)
  | ev_talloc_zero (ok : Bool)
  | ev_talloc_strndup (ok : Bool)
  | ev_set_destructor_null (returned : Bool)
  | ev_transaction (ret : Int)
  | ev_set_cached_password (user : String) (password : Bytes) (ret : Int)
  | ev_transaction_done (error : Int)
  | ev_free_lr
  | ev_reply (status : PamStatus)
  deriving DecidableEq, Repr

/-- Callback of the credential store that is outstanding. -/
inductive Pending where
  | nothing
  | txn
  | pw
  deriving DecidableEq, Repr

/-- The state of one session and of its surroundings. -/
structure Sys (W : Type) where
  /-- State of the external collaborators. -/
  w : W
  /-- The session `lr`. -/
  lr : sdap_req
  /-- The `domain->cache_credentials` of the back end. -/
  cache_credentials : Bool
  /-- Events so far, oldest first. -/
  log : List Event
  /-- The zero-delay timer for `sdap_start` is armed. -/
  timer : Bool
  /-- The FD watch created by `wait_for_fd` is registered (a talloc child of
  `lr`, so released with it). -/
  fde : Bool
  /-- The session `lr` has not been freed. -/
  alive : Bool
  /-- Callback of the credential store still to be delivered. -/
  pending : Pending
  /-- The process dereferenced a null pointer. -/
  crashed : Bool

variable {W : Type}

/-- Append an event to the log. -/
def emit (e : Event) (s : Sys W) : Sys W :=
  { s with log := s.log ++ [e] }

/-- Replace the world. -/
def setW (w : W) (s : Sys W) : Sys W :=
  { s with w := w }

/-- Replace the session. -/
def setLr (lr : sdap_req) (s : Sys W) : Sys W :=
  { s with lr := lr }

/-- The status of a dispatcher callback event. -/
@[simp] def replyOf : Event → Option PamStatus
  | Event.ev_reply st => some st
  | _ => none

/-- The statuses passed to the dispatcher callback, oldest first. -/
def replies (log : List Event) : List PamStatus :=
  log.filterMap replyOf

/-- The DN and password of a bind event. -/
@[simp] def bindOf : Event → Option (Option String × berval)
  | Event.ev_sasl_bind _ dn pw _ _ => some (dn, pw)
  | _ => none

/-- The binds submitted, oldest first: DN and password of each. -/
def binds (log : List Event) : List (Option String × berval) :=
  log.filterMap bindOf

/-- The handle of an unbind event. -/
@[simp] def unbindOf : Event → Option (Option Nat)
  | Event.ev_unbind_ext h => some h
  | _ => none

/-- The handles passed to `ldap_unbind_ext`, oldest first. -/
def unbinds (log : List Event) : List (Option Nat) :=
  log.filterMap unbindOf

/-- The result of a poll of step `step` that delivered a result (`ldap_result`
returned neither -1 nor 0). -/
@[simp] def readyOf (step : sdap_auth_steps) : Event → Option LDAPResult
  | Event.ev_result st _ _ _ ret res =>
    if st = step ∧ ret ≠ -1 ∧ ret ≠ 0 then some res else none
  | _ => none

/-- The results delivered to the polls of step `step`, oldest first. -/
def ready (step : sdap_auth_steps) (log : List Event) : List LDAPResult :=
  log.filterMap (readyOf step)

/-- The return code of a `ldap_start_tls` event. -/
@[simp] def tlsOf : Event → Option Int
  | Event.ev_start_tls _ ret _ => some ret
  | _ => none

/-- The return codes of `ldap_start_tls`, oldest first. -/
def tls_rets (log : List Event) : List Int :=
  log.filterMap tlsOf

/-- The return code of a `ldap_initialize` or `ldap_set_option` event. -/
@[simp] def setupOf : Event → Option Int
  | Event.ev_ldap_init _ ret _ => some ret
  | Event.ev_set_option _ _ ret => some ret
  | _ => none

/-- The return codes of `ldap_initialize` and `ldap_set_option`, oldest first. -/
def setup_rets (log : List Event) : List Int :=
  log.filterMap setupOf

/-- The OID and the three fields of a password-modify submission. -/
@[simp] def exopOf : Event → Option (String × Option String × Bytes × Bytes)
  | Event.ev_extended_operation _ oid dn old new _ _ => some (oid, dn, old, new)
  | _ => none

/-- The extended operations submitted, oldest first. -/
def exops (log : List Event) : List (String × Option String × Bytes × Bytes) :=
  log.filterMap exopOf

/-- The parsed result of a collected extended operation, when `ldap_result`
did not fail and `ldap_parse_result` succeeded. -/
@[simp] def exopResOf : Event → Option Int
  | Event.ev_exop_result _ _ ret res =>
    if ret ≠ -1 ∧ res.parse_ret = LDAP_SUCCESS then some res.ldap_ret else none
  | _ => none

/-- The parsed LDAP result codes of the extended operations, oldest first. -/
def exop_codes (log : List Event) : List Int :=
  log.filterMap exopResOf

/-- The `sdap_reply`, and every direct call of `req->fn`. -/
def sdap_reply (st : PamStatus) (s : Sys W) : Sys W :=
  emit (Event.ev_reply st) s

/-- The `ldap_unbind_ext(lr->ldap, NULL, NULL)`. -/
def do_unbind (lib : LdapLib W) (s : Sys W) : Sys W :=
  emit (Event.ev_unbind_ext s.lr.ldap) (setW (lib.ldap_unbind_ext s.w s.lr.ldap) s)

/-- The `talloc_free(lr)`: the session and its children (the FD watch) go. -/
def free_lr (s : Sys W) : Sys W :=
  emit Event.ev_free_lr { s with alive := false, fde := false }

/-- The `ldap_result(lr->ldap, lr->msgid, all, &no_timeout, &result)` of the
step `step`. -/
def poll (lib : LdapLib W) (step : sdap_auth_steps) (all : Bool) (s : Sys W) :
    (Int × LDAPResult) × Sys W :=
  let r := lib.ldap_result s.w s.lr.ldap s.lr.msgid all false
  (r.1, emit (Event.ev_result step s.lr.ldap s.lr.msgid all r.1.1 r.1.2) (setW r.2 s))

/-- The `schedule_next_task(lr, tv, sdap_start)`. -/
def schedule_next_task (lib : LdapLib W) (s : Sys W) : Int × Sys W :=
  let r := lib.gettimeofday s.w
  let s1 := emit (Event.ev_gettimeofday r.1) (setW r.2 s)
  if r.1 = -1 then (r.1, s1)
  else
    let t := lib.tevent_add_timer s1.w
    let s2 := emit (Event.ev_add_timer t.1) (setW t.2 s1)
    if t.1 = false then ( EIO_, s2)
    else (EOK, { s2 with timer := true })

/-- The `wait_for_fd(lr)`. -/
def wait_for_fd (lib : LdapLib W) (s : Sys W) : Int × Sys W :=
  let r := lib.ldap_get_option_desc s.w s.lr.ldap
  let s1 := emit (Event.ev_get_option_desc s.lr.ldap r.1.1 r.1.2) (setW r.2 s)
  if r.1.1 ≠ LDAP_OPT_SUCCESS then (r.1.1, s1)
  else
    let t := lib.tevent_add_fd s1.w r.1.2
    let s2 := emit (Event.ev_add_fd r.1.2 t.1) (setW t.2 s1)
    if t.1 = false then ( EIO_, s2)
    else (EOK, { s2 with fde := true })

/-- The `ldap_set_option(lr->ldap, opt, &value)`. -/
def set_opt (lib : LdapLib W) (opt : LdapOpt) (s : Sys W) : Int × Sys W :=
  let r := lib.ldap_set_option s.w s.lr.ldap opt
  (r.1, emit (Event.ev_set_option s.lr.ldap opt r.1) (setW r.2 s))

/-- The `cleanup:` label of `sdap_init`. -/
def sdap_init_cleanup (lib : LdapLib W) (status : Int) (s : Sys W) : Int × Sys W :=
  let s1 := do_unbind lib s
  (status, setLr { s1.lr with ldap := none } s1)

/-- The `ldap_start_tls(lr->ldap, NULL, NULL, &msgid)`. -/
def start_tls (lib : LdapLib W) (s : Sys W) : (Int × Int) × Sys W :=
  let r := lib.ldap_start_tls s.w s.lr.ldap
  (r.1, emit (Event.ev_start_tls s.lr.ldap r.1.1 r.1.2) (setW r.2 s))

/-- The `sdap_init(lr)`: returns `EOK`, `EAGAIN` or `EIO`. -/
def sdap_init (lib : LdapLib W) (s : Sys W) : Int × Sys W :=
  let r := lib.ldap_init s.w s.lr.sdap_ctx.ldap_uri
  let s1 := emit (Event.ev_ldap_init s.lr.sdap_ctx.ldap_uri r.1.1 r.1.2)
    (setLr { s.lr with ldap := r.1.2 } (setW r.2 s))
  if r.1.1 ≠ LDAP_SUCCESS then ( EIO_, s1)
  else
    let a := set_opt lib (LdapOpt.LDAP_OPT_PROTOCOL_VERSION LDAP_VERSION3) s1
    if a.1 ≠ LDAP_OPT_SUCCESS then sdap_init_cleanup lib EIO_ a.2
    else
      let b := set_opt lib
        (LdapOpt.LDAP_OPT_NETWORK_TIMEOUT s.lr.sdap_ctx.network_timeout 0) a.2
      if b.1 ≠ LDAP_OPT_SUCCESS then sdap_init_cleanup lib EIO_ b.2
      else
        let c := set_opt lib
          (LdapOpt.LDAP_OPT_TIMEOUT s.lr.sdap_ctx.opt_timeout 0) b.2
        if c.1 ≠ LDAP_OPT_SUCCESS then sdap_init_cleanup lib EIO_ c.2
        else
          let t := start_tls lib c.2
          if t.1.1 ≠ LDAP_SUCCESS then
            sdap_init_cleanup lib (if t.1.1 = LDAP_SERVER_DOWN then EAGAIN else EIO_) t.2
          else (EOK, setLr { t.2.lr with msgid := t.1.2 } t.2)

/-- The DN chosen by `sdap_bind`. -/
def bind_dn (lr : sdap_req) : Option String :=
  if lr.user_dn ≠ none then lr.user_dn
  else if lr.sdap_ctx.default_bind_dn ≠ none then lr.sdap_ctx.default_bind_dn
  else none

/-- The password chosen by `sdap_bind`. -/
def bind_pw (lr : sdap_req) : berval :=
  if lr.user_dn ≠ none then ⟨lr.pd.authtok.length, some lr.pd.authtok⟩
  else if lr.sdap_ctx.default_bind_dn ≠ none then
    ⟨lr.sdap_ctx.default_authtok_size, lr.sdap_ctx.default_authtok⟩
  else ⟨0, none⟩

/-- The `sdap_bind(lr)`: returns `LDAP_SUCCESS` or `LDAP_OTHER`. -/
def sdap_bind (lib : LdapLib W) (s : Sys W) : Int × Sys W :=
  let r := lib.ldap_sasl_bind s.w s.lr.ldap (bind_dn s.lr) (bind_pw s.lr)
  let s1 := emit (Event.ev_sasl_bind s.lr.ldap (bind_dn s.lr) (bind_pw s.lr) r.1.1 r.1.2)
    (setW r.2 s)
  if r.1.1 = -1 ∨ r.1.2 = -1 then (LDAP_OTHER, s1)
  else (LDAP_SUCCESS, setLr { s1.lr with msgid := r.1.2 } s1)

/-- The bytes of a C string: up to the first NUL. -/
def cstr (b : Bytes) : Bytes :=
  b.takeWhile (fun x => x != 0)

/-- The `cleanup:` label of `sdap_pam_chauthtok` when it is reached before
`ber_flatten` has set `bv`: the source calls `ber_bvfree(bv)` on the
uninitialised pointer, and the function returns (with `PAM_SYSTEM_ERR`) only
if that call does; `none` stands for a call that does not return. -/
def chauthtok_cleanup_uninit (lib : LdapLib W) (s : Sys W) : Option PamStatus × Sys W :=
  let v := lib.ber_bvfree s.w
  let s1 := emit (Event.ev_bvfree_uninit v.1) (setW v.2 s)
  if v.1 = false then (none, s1) else (some PamStatus.PAM_SYSTEM_ERR, s1)

/-- The `sdap_pam_chauthtok(lr)`: the password-modify extended operation,
collected synchronously.  The format `s` of `ber_printf` encodes the old and
the new password as C strings, up to their first NUL byte.  The result is
`none` when the function does not return. -/
def sdap_pam_chauthtok (lib : LdapLib W) (s : Sys W) : Option PamStatus × Sys W :=
  let a := lib.ber_alloc_t s.w
  let s1 := emit (Event.ev_ber_alloc_t a.1) (setW a.2 s)
  if a.1 = false then (some PamStatus.PAM_SYSTEM_ERR, s1)
  else
    let p := lib.ber_printf s1.w s1.lr.user_dn (cstr s1.lr.pd.authtok)
      (cstr s1.lr.pd.newauthtok)
    let s2 := emit (Event.ev_ber_printf s1.lr.user_dn (cstr s1.lr.pd.authtok)
      (cstr s1.lr.pd.newauthtok) p.1) (setW p.2 s1)
    if p.1 = -1 then chauthtok_cleanup_uninit lib s2
    else
      let f := lib.ber_flatten s2.w
      let s3 := emit (Event.ev_ber_flatten f.1) (setW f.2 s2)
      if f.1 = -1 then chauthtok_cleanup_uninit lib s3
      else
        let x := lib.ldap_extended_operation s3.w s3.lr.ldap LDAP_EXOP_MODIFY_PASSWD
          s3.lr.user_dn (cstr s3.lr.pd.authtok) (cstr s3.lr.pd.newauthtok)
        let s4 := emit (Event.ev_extended_operation s3.lr.ldap LDAP_EXOP_MODIFY_PASSWD
          s3.lr.user_dn (cstr s3.lr.pd.authtok) (cstr s3.lr.pd.newauthtok) x.1.1 x.1.2)
          (setW x.2 s3)
        if x.1.1 ≠ LDAP_SUCCESS then (some PamStatus.PAM_SYSTEM_ERR, s4)
        else
          let r := lib.ldap_result s4.w s4.lr.ldap x.1.2 false true
          let s5 := emit (Event.ev_exop_result s4.lr.ldap x.1.2 r.1.1 r.1.2) (setW r.2 s4)
          if r.1.1 = -1 then (some PamStatus.PAM_SYSTEM_ERR, s5)
          else if r.1.2.parse_ret ≠ LDAP_SUCCESS then (some PamStatus.PAM_SYSTEM_ERR, s5)
          else if r.1.2.ldap_ret ≠ LDAP_SUCCESS then (some PamStatus.PAM_SYSTEM_ERR, s5)
          else (some PamStatus.PAM_SUCCESS, s5)

/-- The `talloc_strndup(ctx, p, n)`: at most `n` bytes, up to the first NUL. -/
def strndup (p : Bytes) (n : Nat) : Bytes :=
  (p.take n).takeWhile (fun b => b != 0)

/-- The `sdap_cache_password(lr)`.  When `talloc_zero` fails the source
evaluates `data->lr->req` with `data == NULL`. -/
def sdap_cache_password (lib : LdapLib W) (s : Sys W) : Sys W :=
  let a := lib.talloc_zero s.w
  let s1 := emit (Event.ev_talloc_zero a.1) (setW a.2 s)
  if a.1 = false then { s1 with crashed := true }
  else
    let t := lib.sysdb_transaction s1.w
    let s2 := emit (Event.ev_transaction t.1) (setW t.2 s1)
    if t.1 ≠ EOK then sdap_reply s2.lr.pd.pam_status s2
    else { s2 with pending := Pending.txn }

/-- The `sdap_cache_pw_op(req, pvt)`, the transaction callback.  The source
calls `talloc_set_destructor(password, password_destructor)` before it tests
`password`: with a null `password` the session goes on only if that call
returns. -/
def sdap_cache_pw_op (lib : LdapLib W) (s : Sys W) : Sys W :=
  match s.lr.pd.cmd with
  | PamCmd.SSS_PAM_AUTHENTICATE | PamCmd.SSS_PAM_CHAUTHTOK =>
    let a := lib.talloc_strndup s.w
    let s1 := emit (Event.ev_talloc_strndup a.1) (setW a.2 s)
    if a.1 = false then
      let d := lib.talloc_set_destructor s1.w
      let s2 := emit (Event.ev_set_destructor_null d.1) (setW d.2 s1)
      if d.1 = false then { s2 with crashed := true }
      else sdap_reply s2.lr.pd.pam_status s2
    else
      let password :=
        if s.lr.pd.cmd = PamCmd.SSS_PAM_AUTHENTICATE then
          strndup s.lr.pd.authtok s.lr.pd.authtok.length
        else strndup s.lr.pd.newauthtok s.lr.pd.newauthtok.length
      let r := lib.sysdb_set_cached_password s1.w s1.lr.pd.user password
      let s2 := emit (Event.ev_set_cached_password s1.lr.pd.user password r.1) (setW r.2 s1)
      if r.1 ≠ EOK then sdap_reply s2.lr.pd.pam_status s2
      else { s2 with pending := Pending.pw }
  | _ => sdap_reply s.lr.pd.pam_status s

/-- The `sdap_cache_pw_callback(pvt, error, ignore)`, the completion callback. -/
def sdap_cache_pw_callback (lib : LdapLib W) (error : Int) (s : Sys W) : Sys W :=
  let s1 := emit (Event.ev_transaction_done error)
    (setW (lib.sysdb_transaction_done s.w error) s)
  sdap_reply s1.lr.pd.pam_status s1

/-- The `done:` label of `sdap_pam_loop`. -/
def loop_done (lib : LdapLib W) (pam_status : PamStatus) (s : Sys W) : Sys W :=
  let s1 := if s.lr.ldap ≠ none then do_unbind lib s else s
  let s2 := setLr { s1.lr with pd := { s1.lr.pd with pam_status := pam_status } } s1
  if (s2.lr.pd.cmd = PamCmd.SSS_PAM_AUTHENTICATE ∨ s2.lr.pd.cmd = PamCmd.SSS_PAM_CHAUTHTOK) ∧
      s2.lr.pd.pam_status = PamStatus.PAM_SUCCESS ∧ s2.cache_credentials = true then
    sdap_cache_password lib s2
  else sdap_reply pam_status (free_lr s2)

/-- The `do ... while` over the message chain once `ldap_msgfree(result)` has
released it: `lr->user_dn` is set from here on, so a message that reads as a
`SearchEntry` ends the walk with `PAM_SYSTEM_ERR`, and every other message is
ignored. -/
def walk_released (user_dn : Option String) :
    List LDAPMessage → Option PamStatus × Option String
  | [] => (none, user_dn)
  | m :: ms =>
    if m.msgtype = LDAP_RES_SEARCH_ENTRY then (some PamStatus.PAM_SYSTEM_ERR, user_dn)
    else walk_released user_dn ms

/-- The `do ... while` over the message chain in `SDAP_CHECK_SEARCH_DN_RESULT`:
returns the status of a `goto done` taken inside the loop (`none` when the loop
runs to its end) and the value left in `lr->user_dn`.  On the first entry with
a DN that is not empty the source calls `ldap_msgfree(result)` and goes on with
`ldap_next_message` on the released chain: from there on the walk reads
`released`, not the rest of the chain. -/
def search_walk (released : List LDAPMessage) (user_dn : Option String) :
    List LDAPMessage → Option PamStatus × Option String
  | [] => (none, user_dn)
  | m :: ms =>
    if m.msgtype = LDAP_RES_SEARCH_ENTRY then
      if user_dn ≠ none then (some PamStatus.PAM_SYSTEM_ERR, user_dn)
      else
        match m.dn with
        | none => (some PamStatus.PAM_SYSTEM_ERR, none)
        | some d =>
          if d = "" then (some PamStatus.PAM_USER_UNKNOWN, some d)
          else walk_released (some d) released
    else search_walk released user_dn ms

/-- The second `switch (lr->pd->cmd)` of `sdap_pam_loop`, after a successful
user bind.  When `sdap_pam_chauthtok` does not return, the process is down and
nothing follows. -/
def after_user_bind (lib : LdapLib W) (s : Sys W) : Sys W :=
  match s.lr.pd.cmd with
  | PamCmd.SSS_PAM_AUTHENTICATE => loop_done lib PamStatus.PAM_SUCCESS s
  | PamCmd.SSS_PAM_CHAUTHTOK =>
    let r := sdap_pam_chauthtok lib s
    match r.1 with
    | none => { r.2 with crashed := true }
    | some st => loop_done lib st r.2
  | PamCmd.SSS_PAM_ACCT_MGMT | PamCmd.SSS_PAM_SETCRED
  | PamCmd.SSS_PAM_OPEN_SESSION | PamCmd.SSS_PAM_CLOSE_SESSION =>
    loop_done lib PamStatus.PAM_SUCCESS s
  | PamCmd.other _ => loop_done lib PamStatus.PAM_SYSTEM_ERR s

/-- The code of `sdap_pam_loop` from `case SDAP_CHECK_USER_BIND:` on. -/
def case_check_user_bind (lib : LdapLib W) (s : Sys W) : Sys W :=
  let r := poll lib sdap_auth_steps.SDAP_CHECK_USER_BIND false s
  if r.1.1 = -1 then loop_done lib PamStatus.PAM_SYSTEM_ERR r.2
  else if r.1.1 = 0 then
    setLr { r.2.lr with next_task := NextTask.sdap_pam_loop,
                        next_step := sdap_auth_steps.SDAP_CHECK_USER_BIND } r.2
  else
    let s1 := setLr { r.2.lr with next_step := sdap_auth_steps.SDAP_NOOP } r.2
    if r.1.2.parse_ret ≠ LDAP_SUCCESS then loop_done lib PamStatus.PAM_SYSTEM_ERR s1
    else if r.1.2.ldap_ret = LDAP_SUCCESS then after_user_bind lib s1
    else if r.1.2.ldap_ret = LDAP_INVALID_CREDENTIALS then
      loop_done lib PamStatus.PAM_CRED_INSUFFICIENT s1
    else loop_done lib PamStatus.PAM_SYSTEM_ERR s1

/-- The first `switch (lr->pd->cmd)` of `sdap_pam_loop`, after the walk over
the search result, and the user bind that follows it. -/
def after_search (lib : LdapLib W) (s : Sys W) : Sys W :=
  match s.lr.pd.cmd with
  | PamCmd.SSS_PAM_AUTHENTICATE | PamCmd.SSS_PAM_CHAUTHTOK =>
    let b := sdap_bind lib s
    if b.1 ≠ LDAP_SUCCESS then loop_done lib PamStatus.PAM_SYSTEM_ERR b.2
    else case_check_user_bind lib b.2
  | PamCmd.SSS_PAM_ACCT_MGMT | PamCmd.SSS_PAM_SETCRED
  | PamCmd.SSS_PAM_OPEN_SESSION | PamCmd.SSS_PAM_CLOSE_SESSION =>
    loop_done lib PamStatus.PAM_SUCCESS s
  | PamCmd.other _ => loop_done lib PamStatus.PAM_SYSTEM_ERR s

/-- The code of `sdap_pam_loop` from `case SDAP_CHECK_SEARCH_DN_RESULT:` on. -/
def case_check_search_dn_result (lib : LdapLib W) (s : Sys W) : Sys W :=
  let r := poll lib sdap_auth_steps.SDAP_CHECK_SEARCH_DN_RESULT true s
  if r.1.1 = -1 then loop_done lib PamStatus.PAM_SYSTEM_ERR r.2
  else if r.1.1 = 0 then
    setLr { r.2.lr with next_task := NextTask.sdap_pam_loop,
                        next_step := sdap_auth_steps.SDAP_CHECK_SEARCH_DN_RESULT } r.2
  else
    let s1 := setLr { r.2.lr with next_step := sdap_auth_steps.SDAP_NOOP } r.2
    match r.1.2.msgs with
    | [] => loop_done lib PamStatus.PAM_SYSTEM_ERR s1
    | m :: ms =>
      let k := search_walk (lib.freed_chain s1.w (m :: ms)) s1.lr.user_dn (m :: ms)
      let s2 := setLr { s1.lr with user_dn := k.2 } s1
      match k.1 with
      | some st => loop_done lib st s2
      | none => after_search lib s2

/-- The filter built by `talloc_asprintf` for the user search. -/
def search_filter (lr : sdap_req) : String :=
  "(&(" ++ lr.sdap_ctx.user_name_attribute ++ "=" ++ lr.pd.user ++
    ")(objectclass=" ++ lr.sdap_ctx.user_object_class ++ "))"

/-- The `ldap_search_ext` call of `sdap_pam_loop`; stores the message id in
`lr->msgid`. -/
def search_ext (lib : LdapLib W) (s : Sys W) : Int × Sys W :=
  let r := lib.ldap_search_ext s.w s.lr.ldap s.lr.sdap_ctx.user_search_base
    LDAP_SCOPE_SUBTREE (search_filter s.lr) [LDAP_NO_ATTRS]
  (r.1.1, emit (Event.ev_search_ext s.lr.ldap s.lr.sdap_ctx.user_search_base
      LDAP_SCOPE_SUBTREE (search_filter s.lr) [LDAP_NO_ATTRS] r.1.1 r.1.2)
    (setLr { s.lr with msgid := r.1.2 } (setW r.2 s)))

/-- The code of `sdap_pam_loop` from `case SDAP_CHECK_STD_BIND:` on. -/
def case_check_std_bind (lib : LdapLib W) (s : Sys W) : Sys W :=
  let r := poll lib sdap_auth_steps.SDAP_CHECK_STD_BIND false s
  if r.1.1 = -1 then loop_done lib PamStatus.PAM_SYSTEM_ERR r.2
  else if r.1.1 = 0 then
    setLr { r.2.lr with next_task := NextTask.sdap_pam_loop,
                        next_step := sdap_auth_steps.SDAP_CHECK_STD_BIND } r.2
  else
    let s1 := setLr { r.2.lr with next_step := sdap_auth_steps.SDAP_NOOP } r.2
    if r.1.2.parse_ret ≠ LDAP_SUCCESS then loop_done lib PamStatus.PAM_SYSTEM_ERR s1
    else if r.1.2.ldap_ret ≠ LDAP_SUCCESS then loop_done lib PamStatus.PAM_SYSTEM_ERR s1
    else
      let q := search_ext lib s1
      if q.1 ≠ LDAP_SUCCESS then loop_done lib PamStatus.PAM_SYSTEM_ERR q.2
      else case_check_search_dn_result lib q.2

/-- The `ldap_install_tls(lr->ldap)`. -/
def install_tls (lib : LdapLib W) (s : Sys W) : Int × Sys W :=
  let r := lib.ldap_install_tls s.w s.lr.ldap
  (r.1, emit (Event.ev_install_tls s.lr.ldap r.1) (setW r.2 s))

/-- The code of `sdap_pam_loop` from `case SDAP_CHECK_INIT_RESULT:` on. -/
def case_check_init_result (lib : LdapLib W) (s : Sys W) : Sys W :=
  let r := poll lib sdap_auth_steps.SDAP_CHECK_INIT_RESULT false s
  if r.1.1 = -1 then loop_done lib PamStatus.PAM_SYSTEM_ERR r.2
  else if r.1.1 = 0 then
    setLr { r.2.lr with next_task := NextTask.sdap_pam_loop,
                        next_step := sdap_auth_steps.SDAP_CHECK_INIT_RESULT } r.2
  else
    let s1 := setLr { r.2.lr with next_step := sdap_auth_steps.SDAP_NOOP } r.2
    if r.1.2.parse_ret ≠ LDAP_SUCCESS then loop_done lib PamStatus.PAM_SYSTEM_ERR s1
    else if r.1.2.ldap_ret ≠ LDAP_SUCCESS then loop_done lib PamStatus.PAM_SYSTEM_ERR s1
    else
      let i := install_tls lib s1
      if i.1 ≠ LDAP_SUCCESS then loop_done lib PamStatus.PAM_SYSTEM_ERR i.2
      else
        let b := sdap_bind lib i.2
        if b.1 ≠ LDAP_SUCCESS then loop_done lib PamStatus.PAM_SYSTEM_ERR b.2
        else case_check_std_bind lib b.2

/-- The code of `sdap_pam_loop` from `case SDAP_OP_INIT:` on. -/
def case_op_init (lib : LdapLib W) (s : Sys W) : Sys W :=
  let r := sdap_init lib s
  if r.1 ≠ EOK then
    loop_done lib
      (if r.1 = EAGAIN then PamStatus.PAM_AUTHINFO_UNAVAIL else PamStatus.PAM_SYSTEM_ERR)
      (setLr { r.2.lr with ldap := none } r.2)
  else case_check_init_result lib r.2

/-- The `sdap_pam_loop(ev, te, fd, pvt)`, one readiness callback. -/
def sdap_pam_loop (lib : LdapLib W) (s : Sys W) : Sys W :=
  match s.lr.next_step with
  | sdap_auth_steps.SDAP_OP_INIT => case_op_init lib s
  | sdap_auth_steps.SDAP_CHECK_INIT_RESULT => case_check_init_result lib s
  | sdap_auth_steps.SDAP_CHECK_STD_BIND => case_check_std_bind lib s
  | sdap_auth_steps.SDAP_CHECK_SEARCH_DN_RESULT => case_check_search_dn_result lib s
  | sdap_auth_steps.SDAP_CHECK_USER_BIND => case_check_user_bind lib s
  | sdap_auth_steps.SDAP_NOOP => s
  | sdap_auth_steps.unknown _ => loop_done lib PamStatus.PAM_SYSTEM_ERR s

/-- The `done:` label of `sdap_start`. -/
def start_done (lib : LdapLib W) (pam_status : PamStatus) (s : Sys W) : Sys W :=
  let s1 := if s.lr.ldap ≠ none then do_unbind lib s else s
  let s2 := setLr { s1.lr with pd := { s1.lr.pd with pam_status := pam_status } } s1
  sdap_reply pam_status (free_lr s2)

/-- The `sdap_start(ev, te, tv, pvt)`, the timer callback. -/
def sdap_start (lib : LdapLib W) (s : Sys W) : Sys W :=
  let r := sdap_init lib s
  if r.1 ≠ EOK then
    start_done lib
      (if r.1 = EAGAIN then PamStatus.PAM_AUTHINFO_UNAVAIL else PamStatus.PAM_SYSTEM_ERR)
      (setLr { r.2.lr with ldap := none } r.2)
  else
    let s1 := setLr { r.2.lr with next_task := NextTask.sdap_pam_loop,
                                  next_step := sdap_auth_steps.SDAP_CHECK_INIT_RESULT } r.2
    let f := wait_for_fd lib s1
    if f.1 ≠ EOK then start_done lib PamStatus.PAM_SYSTEM_ERR f.2
    else f.2

/-- The `sdap_pam_handler(req)`: creates the session for the request `pd`
with the provider context `ctx`.  The field `msgid`, which the source leaves
uninitialised, is given by `msgid0`. -/
def sdap_pam_handler (lib : LdapLib W) (w : W) (ctx : sdap_ctx) (pd : pam_data)
    (cache_credentials : Bool) (msgid0 : Int) : Sys W :=
  let s0 : Sys W :=
    { w := w
      lr := { pd := pd, sdap_ctx := ctx, ldap := none, user_dn := none,
              next_task := NextTask.null, next_step := sdap_auth_steps.SDAP_NOOP,
              msgid := msgid0 }
      cache_credentials := cache_credentials
      log := []
      timer := false
      fde := false
      alive := true
      pending := Pending.nothing
      crashed := false }
  let r := schedule_next_task lib s0
  if r.1 ≠ EOK then
    let s1 := free_lr r.2
    sdap_reply PamStatus.PAM_SYSTEM_ERR
      (setLr { s1.lr with pd := { s1.lr.pd with pam_status := PamStatus.PAM_SYSTEM_ERR } } s1)
  else r.2

/-- What the event loop and the credential store deliver to the session. -/
inductive Input where
  /-- The zero-delay timer fires. -/
  | timer
  /-- The LDAP socket is readable. -/
  | fd_ready
  /-- The credential store runs the transaction callback. -/
  | txn_ready
  /-- The credential store completes `sysdb_set_cached_password`. -/
  | pw_done (error : Int)
  deriving DecidableEq, Repr

/-- One delivery.  A callback runs only while it is registered: the timer is
one-shot, the FD watch lives as long as the session, the credential store
calls back once for each request it accepted.  Nothing runs after a crash. -/
def step (lib : LdapLib W) (s : Sys W) : Input → Sys W
  | Input.timer =>
    if s.crashed = false ∧ s.timer = true then sdap_start lib { s with timer := false }
    else s
  | Input.fd_ready =>
    if s.crashed = false ∧ s.fde = true then sdap_pam_loop lib s else s
  | Input.txn_ready =>
    if s.crashed = false ∧ s.pending = Pending.txn then
      sdap_cache_pw_op lib { s with pending := Pending.nothing }
    else s
  | Input.pw_done error =>
    if s.crashed = false ∧ s.pending = Pending.pw then
      sdap_cache_pw_callback lib error { s with pending := Pending.nothing }
    else s

/-- A whole execution: the deliveries `inputs` in order. -/
def run (lib : LdapLib W) (s : Sys W) (inputs : List Input) : Sys W :=
  inputs.foldl (step lib) s

/-- The `SearchEntry` messages of a chain, in order. -/
def entries (msgs : List LDAPMessage) : List LDAPMessage :=
  msgs.filter (fun m => decide (m.msgtype = LDAP_RES_SEARCH_ENTRY))

/-! ## The invariant of a session -/

/-- The request is `Authenticate` or `ChangeAuthTok`. -/
def is_auth (c : PamCmd) : Prop :=
  c = PamCmd.SSS_PAM_AUTHENTICATE ∨ c = PamCmd.SSS_PAM_CHAUTHTOK

/-- The request is `AcctMgmt`, `SetCred`, `OpenSession` or `CloseSession`. -/
def is_session_cmd (c : PamCmd) : Prop :=
  c = PamCmd.SSS_PAM_ACCT_MGMT ∨ c = PamCmd.SSS_PAM_SETCRED ∨
  c = PamCmd.SSS_PAM_OPEN_SESSION ∨ c = PamCmd.SSS_PAM_CLOSE_SESSION

/-- The credentials of the service bind: what `sdap_bind` chooses while
`lr->user_dn` is null. -/
def svc_bind (ctx : sdap_ctx) : Option String × berval :=
  if ctx.default_bind_dn ≠ none then
    (ctx.default_bind_dn, ⟨ctx.default_authtok_size, ctx.default_authtok⟩)
  else (none, ⟨0, none⟩)

/-- The fields that a session never changes: the provider context, the
request (except its status slot) and the domain's caching switch. -/
def Keeps (ctx : sdap_ctx) (pd : pam_data) (cc : Bool) (s : Sys W) : Prop :=
  s.lr.sdap_ctx = ctx ∧ s.lr.pd.cmd = pd.cmd ∧ s.lr.pd.user = pd.user ∧
  s.lr.pd.authtok = pd.authtok ∧ s.lr.pd.newauthtok = pd.newauthtok ∧
  s.cache_credentials = cc

/-- What links the outcome `st` of a session to what the collaborators
answered, as recorded in `log`; `dn` is the final `lr->user_dn`.  Of the walk
over a search result only the part before the release of the chain is read
off the log: `search_walk []` is the walk that finds nothing in the released
chain. -/
structure Facts (pd : pam_data) (st : PamStatus) (dn : Option String)
    (log : List Event) : Prop where
  f_tls : ∀ r ∈ tls_rets log, r ≠ LDAP_SUCCESS →
    st = if r = LDAP_SERVER_DOWN then PamStatus.PAM_AUTHINFO_UNAVAIL
         else PamStatus.PAM_SYSTEM_ERR
  f_setup : ∀ r ∈ setup_rets log, r ≠ LDAP_SUCCESS → st = PamStatus.PAM_SYSTEM_ERR
  f_search_err : ∀ res ∈ ready sdap_auth_steps.SDAP_CHECK_SEARCH_DN_RESULT log,
    ∀ e, (search_walk [] none res.msgs).1 = some e → st = e ∧ (binds log).length = 1
  f_ubind : ∀ res ∈ ready sdap_auth_steps.SDAP_CHECK_USER_BIND log,
    res.parse_ret = LDAP_SUCCESS →
    (res.ldap_ret = LDAP_INVALID_CREDENTIALS → st = PamStatus.PAM_CRED_INSUFFICIENT) ∧
    (res.ldap_ret ≠ LDAP_SUCCESS → res.ldap_ret ≠ LDAP_INVALID_CREDENTIALS →
      st = PamStatus.PAM_SYSTEM_ERR) ∧
    (res.ldap_ret = LDAP_SUCCESS → pd.cmd = PamCmd.SSS_PAM_AUTHENTICATE →
      st = PamStatus.PAM_SUCCESS) ∧
    (res.ldap_ret = LDAP_SUCCESS → pd.cmd = PamCmd.SSS_PAM_CHAUTHTOK →
      st = if LDAP_SUCCESS ∈ exop_codes log then PamStatus.PAM_SUCCESS
           else PamStatus.PAM_SYSTEM_ERR)
  f_exops : ∀ x ∈ exops log,
    x = (LDAP_EXOP_MODIFY_PASSWD, dn, cstr pd.authtok, cstr pd.newauthtok)
  f_codes : exop_codes log ≠ [] →
    exops log = [(LDAP_EXOP_MODIFY_PASSWD, dn, cstr pd.authtok, cstr pd.newauthtok)]

/-- A session between two callbacks of the state machine: nothing has been
reported, the open of the connection succeeded, and neither the user bind nor
the password change has been answered. -/
structure Mid (ctx : sdap_ctx) (pd : pam_data) (cc : Bool) (s : Sys W) : Prop where
  keeps : Keeps ctx pd cc s
  timer : s.timer = false
  fde : s.fde = true
  pending : s.pending = Pending.nothing
  crashed : s.crashed = false
  no_reply : replies s.log = []
  no_ubind : ready sdap_auth_steps.SDAP_CHECK_USER_BIND s.log = []
  tls_ok : tls_rets s.log = [LDAP_SUCCESS]
  setup_ok : setup_rets s.log = [LDAP_SUCCESS, LDAP_SUCCESS, LDAP_SUCCESS, LDAP_SUCCESS]
  no_exop : exops s.log = []
  no_code : exop_codes s.log = []

/-- Progress before the service bind is submitted. -/
def Lev0 (s : Sys W) : Prop :=
  binds s.log = [] ∧ s.lr.user_dn = none ∧
  ready sdap_auth_steps.SDAP_CHECK_SEARCH_DN_RESULT s.log = []

/-- Progress after the service bind, before the search is answered. -/
def Lev1 (ctx : sdap_ctx) (s : Sys W) : Prop :=
  binds s.log = [svc_bind ctx] ∧ s.lr.user_dn = none ∧
  ready sdap_auth_steps.SDAP_CHECK_SEARCH_DN_RESULT s.log = []

/-- Progress after the search has been answered and walked without leaving
the loop early. -/
def Lev2 (ctx : sdap_ctx) (s : Sys W) : Prop :=
  binds s.log = [svc_bind ctx] ∧
  ∃ res, ready sdap_auth_steps.SDAP_CHECK_SEARCH_DN_RESULT s.log = [res] ∧
    res.msgs ≠ [] ∧ search_walk [] none res.msgs = (none, s.lr.user_dn)

/-- Progress after the second bind has been submitted. -/
def Lev3 (ctx : sdap_ctx) (pd : pam_data) (s : Sys W) : Prop :=
  is_auth pd.cmd ∧
  binds s.log = [svc_bind ctx, (bind_dn s.lr, bind_pw s.lr)] ∧
  ∃ res, ready sdap_auth_steps.SDAP_CHECK_SEARCH_DN_RESULT s.log = [res] ∧
    res.msgs ≠ [] ∧ search_walk [] none res.msgs = (none, s.lr.user_dn)

/-- The session waits for the zero-delay timer. -/
def TimerP (ctx : sdap_ctx) (pd : pam_data) (cc : Bool) (s : Sys W) : Prop :=
  Keeps ctx pd cc s ∧ s.timer = true ∧ s.fde = false ∧ s.pending = Pending.nothing ∧
  s.crashed = false ∧ s.lr.user_dn = none ∧ s.lr.ldap = none ∧
  replies s.log = [] ∧ binds s.log = [] ∧ tls_rets s.log = [] ∧ setup_rets s.log = [] ∧
  exops s.log = [] ∧ exop_codes s.log = [] ∧
  ready sdap_auth_steps.SDAP_CHECK_SEARCH_DN_RESULT s.log = [] ∧
  ready sdap_auth_steps.SDAP_CHECK_USER_BIND s.log = []

/-- The session waits for the answer awaited by `lr->next_step`. -/
def WaitP (ctx : sdap_ctx) (pd : pam_data) (cc : Bool) (s : Sys W) : Prop :=
  Mid ctx pd cc s ∧
  ((s.lr.next_step = sdap_auth_steps.SDAP_CHECK_INIT_RESULT ∧ Lev0 s) ∨
   (s.lr.next_step = sdap_auth_steps.SDAP_CHECK_STD_BIND ∧ Lev1 ctx s) ∨
   (s.lr.next_step = sdap_auth_steps.SDAP_CHECK_SEARCH_DN_RESULT ∧ Lev1 ctx s) ∨
   (s.lr.next_step = sdap_auth_steps.SDAP_CHECK_USER_BIND ∧ Lev3 ctx pd s))

/-- The session has reported and is released: nothing is registered. -/
def TermP (ctx : sdap_ctx) (pd : pam_data) (cc : Bool) (s : Sys W) : Prop :=
  Keeps ctx pd cc s ∧ s.timer = false ∧ s.fde = false ∧ s.pending = Pending.nothing ∧
  replies s.log = [s.lr.pd.pam_status] ∧
  Facts pd s.lr.pd.pam_status s.lr.user_dn s.log

/-- The session has been handed to the credential cache. -/
def CacheP (ctx : sdap_ctx) (pd : pam_data) (cc : Bool) (s : Sys W) : Prop :=
  Keeps ctx pd cc s ∧ s.timer = false ∧
  s.lr.next_step = sdap_auth_steps.SDAP_NOOP ∧
  s.lr.pd.pam_status = PamStatus.PAM_SUCCESS ∧ is_auth pd.cmd ∧ cc = true ∧
  Facts pd PamStatus.PAM_SUCCESS s.lr.user_dn s.log ∧
  (replies s.log = [] ∨ (replies s.log = [PamStatus.PAM_SUCCESS] ∧ s.pending = Pending.nothing)) ∧
  (s.crashed = true → s.pending = Pending.nothing ∧ replies s.log = [])

/-- The process went down inside `sdap_pam_chauthtok`, after the user bind
was accepted and before the password change was submitted: nothing has been
reported. -/
def CrashP (ctx : sdap_ctx) (pd : pam_data) (cc : Bool) (s : Sys W) : Prop :=
  Keeps ctx pd cc s ∧ s.crashed = true ∧ s.timer = false ∧ s.pending = Pending.nothing ∧
  replies s.log = [] ∧ tls_rets s.log = [LDAP_SUCCESS] ∧
  setup_rets s.log = [LDAP_SUCCESS, LDAP_SUCCESS, LDAP_SUCCESS, LDAP_SUCCESS] ∧
  exops s.log = [] ∧ exop_codes s.log = [] ∧
  (∀ res ∈ ready sdap_auth_steps.SDAP_CHECK_USER_BIND s.log,
    res.parse_ret = LDAP_SUCCESS ∧ res.ldap_ret = LDAP_SUCCESS) ∧
  (∀ res ∈ ready sdap_auth_steps.SDAP_CHECK_SEARCH_DN_RESULT s.log,
    (search_walk [] none res.msgs).1 = none)

/-- An event that contributes to no summary but possibly `replies`. -/
def quiet (e : Event) : Prop :=
  bindOf e = none ∧ readyOf sdap_auth_steps.SDAP_CHECK_SEARCH_DN_RESULT e = none ∧
  readyOf sdap_auth_steps.SDAP_CHECK_USER_BIND e = none ∧ tlsOf e = none ∧
  setupOf e = none ∧ exopOf e = none ∧ exopResOf e = none

/-- The invariant of every reachable state of a session. -/
def Inv (ctx : sdap_ctx) (pd : pam_data) (cc : Bool) (s : Sys W) : Prop :=
  TimerP ctx pd cc s ∨ WaitP ctx pd cc s ∨ TermP ctx pd cc s ∨ CacheP ctx pd cc s ∨
  CrashP ctx pd cc s

/-! ## A stub directory -/

/-- The state of the stub directory and of the stub credential store. -/
structure Stub where
  /-- The password stored for each DN. -/
  passwords : List (String × Bytes)
  /-- The DNs of the entries matching each search filter. -/
  entries : List (String × List String)
  /-- Message type and result of the operation submitted last. -/
  last : Int × LDAPResult
  /-- The password cached for each user name. -/
  cache : List (String × Bytes)
  deriving DecidableEq, Repr

/-- A result chain of one message carrying the result code `code`. -/
def single_result (msgtype code : Int) : Int × LDAPResult :=
  (msgtype, ⟨[⟨msgtype, none⟩], LDAP_SUCCESS, code⟩)

/-- Replace the value stored under a key. -/
def store {α : Type} (k : String) (v : α) : List (String × α) → List (String × α)
  | [] => [(k, v)]
  | (k1, v1) :: rest => if k1 = k then (k, v) :: rest else (k1, v1) :: store k v rest

/-- Result code of a simple bind against the stub: an anonymous bind is
accepted, a bind with a DN is accepted iff the password is the stored one. -/
def stub_bind_code (passwords : List (String × Bytes)) (dn : Option String)
    (pw : berval) : Int :=
  match dn with
  | none => LDAP_SUCCESS
  | some d =>
    if passwords.lookup d = some ((pw.bv_val.getD []).take pw.bv_len) then LDAP_SUCCESS
    else LDAP_INVALID_CREDENTIALS

/-- The chain answered to a search: one `SearchEntry` for each matching DN,
then the `SearchResultDone`. -/
def stub_search_chain (entries : List (String × List String)) (filter : String) :
    List LDAPMessage :=
  ((entries.lookup filter).getD []).map (fun d => ⟨LDAP_RES_SEARCH_ENTRY, some d⟩) ++
    [⟨LDAP_RES_SEARCH_RESULT, none⟩]

/-- The messages that follow the first `SearchEntry` of a chain. -/
def after_entry : List LDAPMessage → List LDAPMessage
  | [] => []
  | m :: ms => if m.msgtype = LDAP_RES_SEARCH_ENTRY then ms else after_entry ms

/-- The password-modify operation of the stub on the stored passwords: the
three fields are read as C strings; the password of an existing DN is replaced
when the old password is the stored one. -/
def stub_passwd_store (passwords : List (String × Bytes)) (dn : Option String)
    (old new : Bytes) : List (String × Bytes) :=
  match dn with
  | none => passwords
  | some d => if passwords.lookup d = some (cstr old) then store d (cstr new) passwords
    else passwords

/-- The result code of the password-modify operation of the stub. -/
def stub_passwd_code (passwords : List (String × Bytes)) (dn : Option String)
    (old : Bytes) : Int :=
  match dn with
  | none => LDAP_OTHER
  | some d => if passwords.lookup d = some (cstr old) then LDAP_SUCCESS
    else LDAP_INVALID_CREDENTIALS

/-- The password-modify operation of the stub. -/
def stub_passwd (w : Stub) (dn : Option String) (old new : Bytes) : Stub :=
  { w with passwords := stub_passwd_store w.passwords dn old new,
           last := single_result LDAP_RES_EXTENDED (stub_passwd_code w.passwords dn old) }

/-- Modelled from the spec: the stub directory of the round-trip property and
of the end-to-end scenarios (no stub is part of the source).  It stores one
password per DN, accepts a bind iff the password matches, applies
password-modify on success, answers every poll at once, and its event loop,
allocator and credential store never fail; memory that has been released
still reads as it did. -/
def stub : LdapLib Stub where
  ldap_init := fun w _ => ((LDAP_SUCCESS, some 1), w)
  ldap_set_option := fun w _ _ => (LDAP_OPT_SUCCESS, w)
  ldap_start_tls := fun w _ =>
    ((LDAP_SUCCESS, 1), { w with last := single_result LDAP_RES_EXTENDED LDAP_SUCCESS })
  ldap_install_tls := fun w _ => (LDAP_SUCCESS, w)
  ldap_sasl_bind := fun w _ dn pw =>
    ((LDAP_SUCCESS, 1), { w with last := single_result LDAP_RES_BIND (stub_bind_code w.passwords dn pw) })
  ldap_search_ext := fun w _ _ _ filter _ =>
    ((LDAP_SUCCESS, 1),
      { w with last := (LDAP_RES_SEARCH_RESULT,
                        ⟨stub_search_chain w.entries filter, LDAP_SUCCESS, LDAP_SUCCESS⟩) })
  ldap_result := fun w _ _ _ _ => (w.last, w)
  ldap_unbind_ext := fun w _ => w
  freed_chain := fun _ msgs => after_entry msgs
  ldap_get_option_desc := fun w _ => ((LDAP_OPT_SUCCESS, 3), w)
  ber_alloc_t := fun w => (true, w)
  ber_printf := fun w _ _ _ => (0, w)
  ber_flatten := fun w => (0, w)
  ber_bvfree := fun w => (true, w)
  ldap_extended_operation := fun w _ _ dn old new => ((LDAP_SUCCESS, 1), stub_passwd w dn old new)
  gettimeofday := fun w => (0, w)
  tevent_add_timer := fun w => (true, w)
  tevent_add_fd := fun w _ => (true, w)
  talloc_zero := fun w => (true, w)
  talloc_strndup := fun w => (true, w)
  talloc_set_destructor := fun w => (true, w)
  sysdb_transaction := fun w => (EOK, w)
  sysdb_set_cached_password := fun w user password =>
    (EOK, { w with cache := store user password w.cache })
  sysdb_transaction_done := fun w _ => w

/-- The bytes of a string of ASCII characters. -/
def ascii (s : String) : Bytes :=
  s.toList.map Char.toNat

/-- The configuration of the end-to-end scenarios. -/
def scenario_ctx : sdap_ctx where
  ldap_uri := "ldap://stub"
  default_bind_dn := some "cn=svc"
  user_search_base := "ou=p,dc=x"
  user_name_attribute := "uid"
  user_object_class := "posixAccount"
  default_authtok_type := none
  default_authtok_size := 5
  default_authtok := some (ascii "svcpw")
  network_timeout := 5
  opt_timeout := 5

/-- The directory of the end-to-end scenarios: the service account and
`alice` with password `s3cret`; the name `bob` matches two entries and the
name `void` matches an entry whose DN is empty. -/
def scenario_dir : Stub where
  passwords := [("cn=svc", ascii "svcpw"), ("uid=alice,ou=p,dc=x", ascii "s3cret")]
  entries := [("(&(uid=alice)(objectclass=posixAccount))", ["uid=alice,ou=p,dc=x"]),
    ("(&(uid=bob)(objectclass=posixAccount))", ["uid=bob,ou=p,dc=x", "uid=bob,ou=q,dc=x"]),
    ("(&(uid=void)(objectclass=posixAccount))", [""])]
  last := single_result LDAP_RES_BIND LDAP_OTHER
  cache := []

/-- A request of the end-to-end scenarios. -/
def scenario_pd (cmd : PamCmd) (user authtok newauthtok : String) : pam_data where
  cmd := cmd
  user := user
  authtok := ascii authtok
  newauthtok := ascii newauthtok
  pam_status := PamStatus.PAM_SUCCESS

/-- A configuration whose service account is `alice` herself. -/
def scenario_self_ctx : sdap_ctx :=
  { scenario_ctx with default_bind_dn := some "uid=alice,ou=p,dc=x",
                      default_authtok_size := 6,
                      default_authtok := some (ascii "s3cret") }

/-- The stub directory behind a server that is down: `ldap_start_tls` fails
with `LDAP_SERVER_DOWN`. -/
def stub_server_down : LdapLib Stub :=
  { stub with ldap_start_tls := fun w _ => ((LDAP_SERVER_DOWN, 0), w) }

/-- The stub directory with an allocator that fails to allocate the
`struct sdap_pw_cache`. -/
def stub_no_memory : LdapLib Stub :=
  { stub with talloc_zero := fun w => (false, w) }

/-- The deliveries of a session in which no poll has to wait: the timer, one
readiness event, and the two callbacks of the credential store. -/
def full_schedule : List Input :=
  [Input.timer, Input.fd_ready, Input.txn_ready, Input.pw_done 0]

/-! ## Milestones, failures and searches in the event log -/

/-- The events that open, close, hand off or report a session: the
`ldap_initialize`, the unbind, the calls of the caching hand-off, the release
of the session and the dispatcher callback. -/
@[simp] def milestoneOf : Event → Option Event
  | Event.ev_ldap_init uri ret h => some (Event.ev_ldap_init uri ret h)
  | Event.ev_unbind_ext h => some (Event.ev_unbind_ext h)
  | Event.ev_talloc_zero ok => some (Event.ev_talloc_zero ok)
  | Event.ev_transaction ret => some (Event.ev_transaction ret)
  | Event.ev_talloc_strndup ok => some (Event.ev_talloc_strndup ok)
  | Event.ev_set_destructor_null r => some (Event.ev_set_destructor_null r)
  | Event.ev_set_cached_password u p ret => some (Event.ev_set_cached_password u p ret)
  | Event.ev_transaction_done e => some (Event.ev_transaction_done e)
  | Event.ev_free_lr => some Event.ev_free_lr
  | Event.ev_reply st => some (Event.ev_reply st)
  | _ => none

/-- The milestones of a log, oldest first. -/
def milestones (log : List Event) : List Event :=
  log.filterMap milestoneOf

/-- A step that the code takes to have failed on an open handle: a refused
option, a failed `ldap_start_tls`, a failure inside `wait_for_fd`, a failed
poll, a result that does not parse or is not `LDAP_SUCCESS` (the search result
is not parsed), a failed `ldap_install_tls`, a failed search submission, and a
bind submission under the test of `sdap_bind` (`ret == -1 || msgid == -1`). -/
@[simp] def failOf : Event → Option Event
  | Event.ev_set_option h o ret =>
    if ret ≠ LDAP_OPT_SUCCESS then some (Event.ev_set_option h o ret) else none
  | Event.ev_start_tls h ret m =>
    if ret ≠ LDAP_SUCCESS then some (Event.ev_start_tls h ret m) else none
  | Event.ev_get_option_desc h ret fd =>
    if ret ≠ LDAP_OPT_SUCCESS then some (Event.ev_get_option_desc h ret fd) else none
  | Event.ev_add_fd fd ok => if ok = false then some (Event.ev_add_fd fd ok) else none
  | Event.ev_result st h m a ret res =>
    if ret = -1 ∨ (ret ≠ 0 ∧ st ≠ sdap_auth_steps.SDAP_CHECK_SEARCH_DN_RESULT ∧
        (res.parse_ret ≠ LDAP_SUCCESS ∨ res.ldap_ret ≠ LDAP_SUCCESS)) then
      some (Event.ev_result st h m a ret res)
    else none
  | Event.ev_install_tls h ret =>
    if ret ≠ LDAP_SUCCESS then some (Event.ev_install_tls h ret) else none
  | Event.ev_sasl_bind h dn pw ret m =>
    if ret = -1 ∨ m = -1 then some (Event.ev_sasl_bind h dn pw ret m) else none
  | Event.ev_search_ext h b sc f at_ ret m =>
    if ret ≠ LDAP_SUCCESS then some (Event.ev_search_ext h b sc f at_ ret m) else none
  | _ => none

/-- The failed steps of a log, oldest first. -/
def failures (log : List Event) : List Event :=
  log.filterMap failOf

/-- Base, scope, filter and attribute list of a search submission. -/
@[simp] def searchOf : Event → Option (String × Int × String × List String)
  | Event.ev_search_ext _ b sc f at_ _ _ => some (b, sc, f, at_)
  | _ => none

/-- The searches submitted, oldest first. -/
def searches (log : List Event) : List (String × Int × String × List String) :=
  log.filterMap searchOf

/-- User name and password of a `sysdb_set_cached_password` call. -/
@[simp] def writeOf : Event → Option (String × Bytes)
  | Event.ev_set_cached_password u p _ => some (u, p)
  | _ => none

/-- The writes to the credential cache that were attempted, oldest first. -/
def writes (log : List Event) : List (String × Bytes) :=
  log.filterMap writeOf

/-- The answer of the allocation that starts the caching hand-off. -/
@[simp] def handoffOf : Event → Option Bool
  | Event.ev_talloc_zero ok => some ok
  | _ => none

/-- The caching hand-offs started, oldest first. -/
def handoffs (log : List Event) : List Bool :=
  log.filterMap handoffOf

/-- A failure during caching: the transaction does not start, the password
is not copied, `sysdb_set_cached_password` fails at once, or an error is
delivered to the completion callback. -/
@[simp] def cacheFailOf : Event → Option Event
  | Event.ev_transaction ret => if ret ≠ EOK then some (Event.ev_transaction ret) else none
  | Event.ev_talloc_strndup ok =>
    if ok = false then some (Event.ev_talloc_strndup ok) else none
  | Event.ev_set_cached_password u p ret =>
    if ret ≠ EOK then some (Event.ev_set_cached_password u p ret) else none
  | Event.ev_transaction_done e => if e ≠ EOK then some (Event.ev_transaction_done e) else none
  | _ => none

/-- The failures during caching, oldest first. -/
def cache_failures (log : List Event) : List Event :=
  log.filterMap cacheFailOf

/-! ## The second invariant: shape of the milestones -/

/-- The state `s1` continues the session `s` by the events `d`: only the
world, the log and the fields `user_dn`, `next_task`, `next_step` and `msgid`
of the session differ. -/
def Ext (s s1 : Sys W) (d : List Event) : Prop :=
  ∃ (w : W) (dn : Option String) (task : NextTask) (step : sdap_auth_steps) (msgid : Int),
    s1 = { s with w := w, log := s.log ++ d,
                  lr := { s.lr with user_dn := dn, next_task := task, next_step := step,
                                    msgid := msgid } }

/-- The arguments of the user search of the session `lr`. -/
def search_args (lr : sdap_req) : String × Int × String × List String :=
  (lr.sdap_ctx.user_search_base, LDAP_SCOPE_SUBTREE, search_filter lr, [LDAP_NO_ATTRS])

/-- The steps that bring TLS up: an answer delivered to the poll of the
StartTLS result, and `ldap_install_tls`. -/
@[simp] def tlsStepOf : Event → Option Event
  | Event.ev_result st h m a ret res =>
    if st = sdap_auth_steps.SDAP_CHECK_INIT_RESULT ∧ ret ≠ -1 ∧ ret ≠ 0 then
      some (Event.ev_result st h m a ret res)
    else none
  | Event.ev_install_tls h ret => some (Event.ev_install_tls h ret)
  | _ => none

/-- The TLS steps of a log, oldest first. -/
def tls_steps (log : List Event) : List Event :=
  log.filterMap tlsStepOf

/-- The operations submitted to the directory: binds, searches and extended
operations. -/
@[simp] def opOf : Event → Option Event
  | Event.ev_sasl_bind h dn pw ret m => some (Event.ev_sasl_bind h dn pw ret m)
  | Event.ev_search_ext h b sc f at_ ret m => some (Event.ev_search_ext h b sc f at_ ret m)
  | Event.ev_extended_operation h oid dn old new ret m =>
    some (Event.ev_extended_operation h oid dn old new ret m)
  | _ => none

/-- The operations submitted, oldest first. -/
def ops (log : List Event) : List Event :=
  log.filterMap opOf

/-- Events without a milestone and without a TLS step, whose searches are the
user search. -/
def Clean (lr : sdap_req) (d : List Event) : Prop :=
  milestones d = [] ∧ tls_steps d = [] ∧ ∀ x ∈ searches d, x = search_args lr

/-- The steps at which `sdap_pam_loop` polls for an answer. -/
def Awaited (st : sdap_auth_steps) : Prop :=
  st = sdap_auth_steps.SDAP_CHECK_INIT_RESULT ∨ st = sdap_auth_steps.SDAP_CHECK_STD_BIND ∨
  st = sdap_auth_steps.SDAP_CHECK_SEARCH_DN_RESULT ∨ st = sdap_auth_steps.SDAP_CHECK_USER_BIND

/-- The steps that poll for an answer after TLS is up. -/
def Later (st : sdap_auth_steps) : Prop :=
  st = sdap_auth_steps.SDAP_CHECK_STD_BIND ∨
  st = sdap_auth_steps.SDAP_CHECK_SEARCH_DN_RESULT ∨ st = sdap_auth_steps.SDAP_CHECK_USER_BIND

/-- How the code of `sdap_pam_loop` after the TLS set-up leaves a state `s`:
it returns `r` to wait for an answer, nothing having failed, or it reaches the
`done:` label in a state `s1` with a status `st`, or the process goes down
inside `sdap_pam_chauthtok`, nothing having failed before. -/
def Out (lib : LdapLib W) (s r : Sys W) : Prop :=
  (∃ d, Ext s r d ∧ Clean s.lr d ∧ failures d = [] ∧ Later r.lr.next_step) ∨
  (∃ s1 d st, Ext s s1 d ∧ Clean s.lr d ∧
    (st = PamStatus.PAM_SUCCESS → s1.lr.next_step = sdap_auth_steps.SDAP_NOOP) ∧
    r = loop_done lib st s1) ∨
  (∃ s1 d, Ext s s1 d ∧ Clean s.lr d ∧ failures d = [] ∧ r = { s1 with crashed := true })

/-- TLS is up: the StartTLS result was delivered, parsed and is
`LDAP_SUCCESS`, `ldap_install_tls` succeeded next on the same handle, and
before the two nothing was submitted to the directory. -/
def TlsUp (log : List Event) : Prop :=
  ∃ l1 l2 h m a ret res,
    log = l1 ++ [Event.ev_result sdap_auth_steps.SDAP_CHECK_INIT_RESULT h m a ret res,
                 Event.ev_install_tls h LDAP_SUCCESS] ++ l2 ∧
    ops l1 = [] ∧ tls_steps l1 = [] ∧ tls_steps l2 = [] ∧ ret ≠ -1 ∧ ret ≠ 0 ∧
    res.parse_ret = LDAP_SUCCESS ∧ res.ldap_ret = LDAP_SUCCESS

/-- TLS was refused: the StartTLS result does not parse or is not
`LDAP_SUCCESS`, or `ldap_install_tls` failed. -/
def TlsBad (log : List Event) : Prop :=
  (∃ h m a ret res,
    tls_steps log = [Event.ev_result sdap_auth_steps.SDAP_CHECK_INIT_RESULT h m a ret res] ∧
    (res.parse_ret ≠ LDAP_SUCCESS ∨ res.ldap_ret ≠ LDAP_SUCCESS)) ∨
  (∃ h m a ret res r,
    tls_steps log = [Event.ev_result sdap_auth_steps.SDAP_CHECK_INIT_RESULT h m a ret res,
                     Event.ev_install_tls h r] ∧ r ≠ LDAP_SUCCESS)

/-- How far the TLS set-up of a session with outcome `st` has come: not
answered (and nothing submitted), up, or refused (nothing submitted and the
outcome is `PAM_SYSTEM_ERR`). -/
def Stage (st : PamStatus) (log : List Event) : Prop :=
  (tls_steps log = [] ∧ ops log = []) ∨ TlsUp log ∨
  (TlsBad log ∧ ops log = [] ∧ st = PamStatus.PAM_SYSTEM_ERR)

/-- The milestones up to the end of the connection: none, an
`ldap_initialize` that failed or gave no handle, or a successful
`ldap_initialize` and the one unbind of its handle. -/
def Closed (pre : List Event) : Prop :=
  pre = [] ∨
  (∃ uri r h, pre = [Event.ev_ldap_init uri r h] ∧ (r = LDAP_SUCCESS → h = none)) ∨
  (∃ uri h, pre = [Event.ev_ldap_init uri LDAP_SUCCESS h, Event.ev_unbind_ext h])

/-- Every search of the log is the user search of the request. -/
def SearchOK (ctx : sdap_ctx) (pd : pam_data) (log : List Event) : Prop :=
  ∀ x ∈ searches log,
    x = (ctx.user_search_base, LDAP_SCOPE_SUBTREE,
         "(&(" ++ ctx.user_name_attribute ++ "=" ++ pd.user ++
           ")(objectclass=" ++ ctx.user_object_class ++ "))", [LDAP_NO_ATTRS])

/-- The password that `sdap_cache_pw_op` copies for the request `pd`. -/
def cached_password (pd : pam_data) : Bytes :=
  if pd.cmd = PamCmd.SSS_PAM_AUTHENTICATE then strndup pd.authtok pd.authtok.length
  else strndup pd.newauthtok pd.newauthtok.length

/-- The milestones of the caching hand-off, with what is outstanding. -/
def CTail (s : Sys W) (user : String) (password : Bytes) (tail : List Event) : Prop :=
  (tail = [Event.ev_talloc_zero false] ∧ s.crashed = true ∧ s.pending = Pending.nothing) ∨
  (∃ r, r ≠ EOK ∧ s.pending = Pending.nothing ∧
    tail = [Event.ev_talloc_zero true, Event.ev_transaction r,
            Event.ev_reply PamStatus.PAM_SUCCESS]) ∨
  (s.pending = Pending.txn ∧
    tail = [Event.ev_talloc_zero true, Event.ev_transaction EOK]) ∨
  (s.crashed = true ∧ s.pending = Pending.nothing ∧
    tail = [Event.ev_talloc_zero true, Event.ev_transaction EOK,
            Event.ev_talloc_strndup false, Event.ev_set_destructor_null false]) ∨
  (s.pending = Pending.nothing ∧
    tail = [Event.ev_talloc_zero true, Event.ev_transaction EOK,
            Event.ev_talloc_strndup false, Event.ev_set_destructor_null true,
            Event.ev_reply PamStatus.PAM_SUCCESS]) ∨
  (∃ r, r ≠ EOK ∧ s.pending = Pending.nothing ∧
    tail = [Event.ev_talloc_zero true, Event.ev_transaction EOK,
            Event.ev_talloc_strndup true, Event.ev_set_cached_password user password r,
            Event.ev_reply PamStatus.PAM_SUCCESS]) ∨
  (s.pending = Pending.pw ∧
    tail = [Event.ev_talloc_zero true, Event.ev_transaction EOK,
            Event.ev_talloc_strndup true, Event.ev_set_cached_password user password EOK]) ∨
  (∃ e, s.pending = Pending.nothing ∧
    tail = [Event.ev_talloc_zero true, Event.ev_transaction EOK,
            Event.ev_talloc_strndup true, Event.ev_set_cached_password user password EOK,
            Event.ev_transaction_done e, Event.ev_reply PamStatus.PAM_SUCCESS])

/-- The session waits for the zero-delay timer: nothing has happened. -/
def T2 (ctx : sdap_ctx) (pd : pam_data) (cc : Bool) (s : Sys W) : Prop :=
  Keeps ctx pd cc s ∧ s.timer = true ∧ s.fde = false ∧ s.pending = Pending.nothing ∧
  s.crashed = false ∧ s.lr.ldap = none ∧ milestones s.log = [] ∧ failures s.log = [] ∧
  searches s.log = [] ∧ tls_steps s.log = [] ∧ ops s.log = []

/-- The connection of the session is open: nothing has failed, nothing has
been unbound, handed off or reported. -/
def Open2 (ctx : sdap_ctx) (pd : pam_data) (cc : Bool) (s : Sys W) : Prop :=
  Keeps ctx pd cc s ∧ s.timer = false ∧ s.fde = true ∧ s.pending = Pending.nothing ∧
  s.crashed = false ∧
  (∃ uri, milestones s.log = [Event.ev_ldap_init uri LDAP_SUCCESS s.lr.ldap]) ∧
  failures s.log = [] ∧ SearchOK ctx pd s.log

/-- The session waits for an answer: for the StartTLS result, nothing having
been submitted, or for a later answer, TLS being up. -/
def W2 (ctx : sdap_ctx) (pd : pam_data) (cc : Bool) (s : Sys W) : Prop :=
  Open2 ctx pd cc s ∧
  ((s.lr.next_step = sdap_auth_steps.SDAP_CHECK_INIT_RESULT ∧ tls_steps s.log = [] ∧
      ops s.log = []) ∨
   (Later s.lr.next_step ∧ TlsUp s.log))

/-- The session is released and has reported, without a hand-off. -/
def D2 (ctx : sdap_ctx) (pd : pam_data) (cc : Bool) (s : Sys W) : Prop :=
  Keeps ctx pd cc s ∧ s.timer = false ∧ s.fde = false ∧ s.pending = Pending.nothing ∧
  SearchOK ctx pd s.log ∧
  ¬ (is_auth pd.cmd ∧ s.lr.pd.pam_status = PamStatus.PAM_SUCCESS ∧ cc = true) ∧
  Stage s.lr.pd.pam_status s.log ∧
  ∃ pre, Closed pre ∧
    milestones s.log = pre ++ [Event.ev_free_lr, Event.ev_reply s.lr.pd.pam_status]

/-- The session has been handed to the credential cache. -/
def C2 (ctx : sdap_ctx) (pd : pam_data) (cc : Bool) (s : Sys W) : Prop :=
  Keeps ctx pd cc s ∧ s.timer = false ∧ s.lr.next_step = sdap_auth_steps.SDAP_NOOP ∧
  s.lr.pd.pam_status = PamStatus.PAM_SUCCESS ∧ is_auth pd.cmd ∧ cc = true ∧
  SearchOK ctx pd s.log ∧ TlsUp s.log ∧
  ∃ pre tail, Closed pre ∧ milestones s.log = pre ++ tail ∧
    CTail s pd.user (cached_password pd) tail

/-- The process went down inside `sdap_pam_chauthtok`: the connection is open
with TLS up, nothing has failed, nothing has been unbound, handed off or
reported. -/
def X2 (ctx : sdap_ctx) (pd : pam_data) (cc : Bool) (s : Sys W) : Prop :=
  Keeps ctx pd cc s ∧ s.timer = false ∧ s.pending = Pending.nothing ∧ s.crashed = true ∧
  (∃ uri, milestones s.log = [Event.ev_ldap_init uri LDAP_SUCCESS s.lr.ldap]) ∧
  failures s.log = [] ∧ SearchOK ctx pd s.log ∧ TlsUp s.log

/-- The second invariant of every reachable state of a session. -/
def Inv2 (ctx : sdap_ctx) (pd : pam_data) (cc : Bool) (s : Sys W) : Prop :=
  T2 ctx pd cc s ∨ W2 ctx pd cc s ∨ D2 ctx pd cc s ∨ C2 ctx pd cc s ∨ X2 ctx pd cc s

/-! ## Scenarios with failures -/

/-- The stub directory that has no answer ready: every poll reports
`NotReady`. -/
def stub_not_ready : LdapLib Stub :=
  { stub with ldap_result := fun w _ _ _ _ => ((0, w.last.2), w) }

/-- The stub directory with a credential store whose writes fail at once. -/
def stub_store_fails : LdapLib Stub :=
  { stub with sysdb_set_cached_password := fun w _ _ => ( EIO_, w) }

/-- The stub directory on a heap that scrubs what is released: after
`ldap_msgfree(result)` the walk finds the end of the chain. -/
def stub_scrubbed : LdapLib Stub :=
  { stub with freed_chain := fun _ _ => [] }

/-- The stub directory on a heap where released memory is reused: every
message that followed the entry reads as a `SearchEntry` after
`ldap_msgfree(result)`. -/
def stub_stale : LdapLib Stub :=
  { stub with freed_chain := fun _ msgs =>
      (after_entry msgs).map (fun _ => ⟨LDAP_RES_SEARCH_ENTRY, none⟩) }

/-- The stub directory whose `ldap_sasl_bind` fails to encode the request: it
returns `LDAP_ENCODING_ERROR` (-3) and leaves the message id as it was, 7
here.  Nothing was sent, so that no answer is at hand afterwards: the polls
that follow report `NotReady`. -/
def stub_bind_error : LdapLib Stub :=
  { stub with ldap_sasl_bind := fun w _ _ _ => ((-3, 7), { w with last := (0, w.last.2) }) }

/-- The stub directory with an allocator that fails to copy the password for
the cache, and a `talloc_set_destructor` that faults on the null pointer. -/
def stub_copy_fails : LdapLib Stub :=
  { stub with talloc_strndup := fun w => (false, w),
              talloc_set_destructor := fun w => (false, w) }

/-- The stub directory with an encoder that fails in `ber_printf`, and a
`ber_bvfree` that faults on the uninitialised pointer. -/
def stub_encode_fails : LdapLib Stub :=
  { stub with ber_printf := fun w _ _ _ => (-1, w),
              ber_bvfree := fun w => (false, w) }

/-- A directory whose answer at hand is a search result with the entry of
`alice` alone. -/
def entry_dir : Stub :=
  { scenario_dir with
    last := (LDAP_RES_SEARCH_RESULT,
      ⟨[⟨LDAP_RES_SEARCH_ENTRY, some "uid=alice,ou=p,dc=x"⟩], LDAP_SUCCESS, LDAP_SUCCESS⟩) }

/-- A directory whose answer at hand is a search result with the entry of
`alice` and the `SearchResultDone` after it. -/
def entry_done_dir : Stub :=
  { scenario_dir with
    last := (LDAP_RES_SEARCH_RESULT,
      ⟨[⟨LDAP_RES_SEARCH_ENTRY, some "uid=alice,ou=p,dc=x"⟩,
        ⟨LDAP_RES_SEARCH_RESULT, none⟩], LDAP_SUCCESS, LDAP_SUCCESS⟩) }

/-- A directory in which the password of `alice` has a NUL byte. -/
def nul_dir : Stub :=
  { scenario_dir with passwords := [("cn=svc", ascii "svcpw"),
                                    ("uid=alice,ou=p,dc=x", [97, 0, 98])] }

/-- The stub directory that refuses StartTLS: the operation is submitted and
its result is `LDAP_OTHER`. -/
def stub_tls_refused : LdapLib Stub :=
  { stub with ldap_start_tls := fun w _ =>
      ((LDAP_SUCCESS, 1), { w with last := single_result LDAP_RES_EXTENDED LDAP_OTHER }) }

/-- The request of `alice` with a password that has a NUL byte. -/
def nul_pd : pam_data where
  cmd := PamCmd.SSS_PAM_AUTHENTICATE
  user := "alice"
  authtok := [97, 0, 98]
  newauthtok := []
  pam_status := PamStatus.PAM_SUCCESS

/-- A directory whose answer at hand is a search result with a referral in
front of the entry of `alice`. -/
def referral_dir : Stub :=
  { scenario_dir with
    last := (LDAP_RES_SEARCH_RESULT,
      ⟨[⟨LDAP_RES_SEARCH_REFERENCE, none⟩,
        ⟨LDAP_RES_SEARCH_ENTRY, some "uid=alice,ou=p,dc=x"⟩,
        ⟨LDAP_RES_SEARCH_RESULT, none⟩], LDAP_SUCCESS, LDAP_SUCCESS⟩) }

/-! ## Delayed answers -/

/-- The library `lib` behind a connection on which answers arrive late.  The
world carries, for each poll to come, the number of `NotReady` answers that
precede the answer of `lib`; the blocking `ldap_result` of the password
change is not delayed. -/
def delayed (lib : LdapLib W) : LdapLib (List Nat × W) where
  ldap_init := fun w uri => ((lib.ldap_init w.2 uri).1, (w.1, (lib.ldap_init w.2 uri).2))
  ldap_set_option := fun w h o =>
    ((lib.ldap_set_option w.2 h o).1, (w.1, (lib.ldap_set_option w.2 h o).2))
  ldap_start_tls := fun w h =>
    ((lib.ldap_start_tls w.2 h).1, (w.1, (lib.ldap_start_tls w.2 h).2))
  ldap_install_tls := fun w h =>
    ((lib.ldap_install_tls w.2 h).1, (w.1, (lib.ldap_install_tls w.2 h).2))
  ldap_sasl_bind := fun w h dn pw =>
    ((lib.ldap_sasl_bind w.2 h dn pw).1, (w.1, (lib.ldap_sasl_bind w.2 h dn pw).2))
  ldap_search_ext := fun w h b sc f at_ =>
    ((lib.ldap_search_ext w.2 h b sc f at_).1, (w.1, (lib.ldap_search_ext w.2 h b sc f at_).2))
  ldap_result := fun w h m all blocking =>
    match blocking, w.1 with
    | false, (k + 1) :: ds => ((0, ⟨[], 0, 0⟩), (k :: ds, w.2))
    | false, 0 :: ds =>
      ((lib.ldap_result w.2 h m all false).1, (ds, (lib.ldap_result w.2 h m all false).2))
    | _, _ =>
      ((lib.ldap_result w.2 h m all blocking).1,
        (w.1, (lib.ldap_result w.2 h m all blocking).2))
  ldap_unbind_ext := fun w h => (w.1, lib.ldap_unbind_ext w.2 h)
  freed_chain := fun w msgs => lib.freed_chain w.2 msgs
  ldap_get_option_desc := fun w h =>
    ((lib.ldap_get_option_desc w.2 h).1, (w.1, (lib.ldap_get_option_desc w.2 h).2))
  ber_alloc_t := fun w => ((lib.ber_alloc_t w.2).1, (w.1, (lib.ber_alloc_t w.2).2))
  ber_printf := fun w dn old new =>
    ((lib.ber_printf w.2 dn old new).1, (w.1, (lib.ber_printf w.2 dn old new).2))
  ber_flatten := fun w => ((lib.ber_flatten w.2).1, (w.1, (lib.ber_flatten w.2).2))
  ber_bvfree := fun w => ((lib.ber_bvfree w.2).1, (w.1, (lib.ber_bvfree w.2).2))
  ldap_extended_operation := fun w h oid dn old new =>
    ((lib.ldap_extended_operation w.2 h oid dn old new).1,
      (w.1, (lib.ldap_extended_operation w.2 h oid dn old new).2))
  gettimeofday := fun w => ((lib.gettimeofday w.2).1, (w.1, (lib.gettimeofday w.2).2))
  tevent_add_timer := fun w =>
    ((lib.tevent_add_timer w.2).1, (w.1, (lib.tevent_add_timer w.2).2))
  tevent_add_fd := fun w fd =>
    ((lib.tevent_add_fd w.2 fd).1, (w.1, (lib.tevent_add_fd w.2 fd).2))
  talloc_zero := fun w => ((lib.talloc_zero w.2).1, (w.1, (lib.talloc_zero w.2).2))
  talloc_strndup := fun w => ((lib.talloc_strndup w.2).1, (w.1, (lib.talloc_strndup w.2).2))
  talloc_set_destructor := fun w =>
    ((lib.talloc_set_destructor w.2).1, (w.1, (lib.talloc_set_destructor w.2).2))
  sysdb_transaction := fun w =>
    ((lib.sysdb_transaction w.2).1, (w.1, (lib.sysdb_transaction w.2).2))
  sysdb_set_cached_password := fun w u p =>
    ((lib.sysdb_set_cached_password w.2 u p).1,
      (w.1, (lib.sysdb_set_cached_password w.2 u p).2))
  sysdb_transaction_done := fun w e => (w.1, lib.sysdb_transaction_done w.2 e)

/-- A poll that reported `NotReady`. -/
def is_not_ready : Event → Bool
  | Event.ev_result _ _ _ _ ret _ => decide (ret = 0)
  | _ => false

/-- The log without the polls that reported `NotReady`. -/
def strip (log : List Event) : List Event :=
  log.filter (fun e => !is_not_ready e)

/-- The session over the answers themselves that a session over delayed
answers stands for: the world of the library without the delays, the log
without the `NotReady` polls, and the resumption fields as given. -/
def und (sd : Sys (List Nat × W)) (task : NextTask) (step : sdap_auth_steps) : Sys W :=
  { w := sd.w.2
    lr := { sd.lr with next_task := task, next_step := step }
    cache_credentials := sd.cache_credentials
    log := strip sd.log
    timer := sd.timer
    fde := sd.fde
    alive := sd.alive
    pending := sd.pending
    crashed := sd.crashed }

/-- A session over delayed answers agrees with a session over the answers
themselves: same world of the library, same log up to the `NotReady` polls,
same session up to the resumption fields `next_task` and `next_step`. -/
def Agree (sd : Sys (List Nat × W)) (s : Sys W) : Prop :=
  ∃ (task : NextTask) (step : sdap_auth_steps), s = und sd task step

/-- A session on which a readiness event has no effect: its watch is gone,
its step is `SDAP_NOOP`, or the process is down. -/
def Settled (s : Sys W) : Prop :=
  s.fde = false ∨ s.lr.next_step = sdap_auth_steps.SDAP_NOOP ∨ s.crashed = true

/-- Both sessions have come to rest and agree. -/
def Landed (sd : Sys (List Nat × W)) (s : Sys W) : Prop :=
  Agree sd s ∧ Settled sd ∧ Settled s ∧ sd.timer = false

/-- Both sessions are running and agree, and the delays left sum up to at most
`n`. -/
def Pre (n : Nat) (sd : Sys (List Nat × W)) (s : Sys W) : Prop :=
  Agree sd s ∧ sd.w.1.sum ≤ n ∧ sd.fde = true ∧ sd.crashed = false ∧ sd.timer = false

/-- The stub directory with definitive answers: a poll with nothing at hand
fails instead of reporting `NotReady`. -/
def stub_definitive : LdapLib Stub :=
  { stub with ldap_result := fun w _ _ _ _ =>
      ((if w.last.1 = 0 then -1 else w.last.1, w.last.2), w) }

/-- The state `r` is the state `s` suspended at the step `step`: the poll of
the step reported `NotReady`, the resumption fields point to the step, and
nothing else happened: every other field of the session and every
registration (timer, FD watch, pending callback) is as before. -/
def Suspends (step : sdap_auth_steps) (s r : Sys W) : Prop :=
  r.lr = { s.lr with next_task := NextTask.sdap_pam_loop, next_step := step } ∧
  (∃ all res, r.log = s.log ++ [Event.ev_result step s.lr.ldap s.lr.msgid all 0 res]) ∧
  r.cache_credentials = s.cache_credentials ∧ r.timer = s.timer ∧ r.fde = s.fde ∧
  r.alive = s.alive ∧ r.pending = s.pending ∧ r.crashed = s.crashed

/-! ## Initialisation of the provider -/

/-- Level `LDAP_OPT_X_TLS_NEVER` of `ldap.h`. -/
def LDAP_OPT_X_TLS_NEVER : Int := 0
/-- Level `LDAP_OPT_X_TLS_HARD` of `ldap.h`. -/
def LDAP_OPT_X_TLS_HARD : Int := 1
/-- Level `LDAP_OPT_X_TLS_DEMAND` of `ldap.h`. -/
def LDAP_OPT_X_TLS_DEMAND : Int := 2
/-- Level `LDAP_OPT_X_TLS_ALLOW` of `ldap.h`. -/
def LDAP_OPT_X_TLS_ALLOW : Int := 3
/-- Level `LDAP_OPT_X_TLS_TRY` of `ldap.h`. -/
def LDAP_OPT_X_TLS_TRY : Int := 4

/-- What `sssm_ldap_auth_init` finds around it: the allocator, the section of
the configuration database of the back end, and the LDAP library. -/
structure InitEnv where
  /-- True when `talloc(bectx, struct sdap_ctx)` succeeds. -/
  talloc_ok : Bool
  /-- The string configured under a key, `none` when the key is absent. -/
  strings : String → Option String
  /-- The integer configured under a key, `none` when the key is absent. -/
  ints : String → Option Int
  /-- Return code of the lookup of a key in the configuration database. -/
  lookup_ret : String → Int
  /-- Return code of `ldap_set_option(NULL, LDAP_OPT_X_TLS_REQUIRE_CERT, &level)`. -/
  require_cert_ret : Int → Int

/-- Modelled from the spec: the `confdb_get_string` of the configuration
database (not part of the source) called with a non-null default: the return
code and the configured string, the default when the key is absent. -/
def confdb_get_string (env : InitEnv) (key dflt : String) : Int × String :=
  (env.lookup_ret key, (env.strings key).getD dflt)

/-- Modelled from the spec: the `confdb_get_string` of the configuration
database (not part of the source) called with the default `NULL`: the return
code and the configured string, `none` when the key is absent. -/
def confdb_get_string_null (env : InitEnv) (key : String) : Int × Option String :=
  (env.lookup_ret key, env.strings key)

/-- Modelled from the spec: the `confdb_get_int` of the configuration database
(not part of the source): the return code and the configured integer, the
default when the key is absent. -/
def confdb_get_int (env : InitEnv) (key : String) (dflt : Int) : Int × Int :=
  (env.lookup_ret key, (env.ints key).getD dflt)

/-- The `tolower` of the C locale on the code of a character. -/
def tolower (c : Char) : Nat :=
  if 65 ≤ c.toNat ∧ c.toNat ≤ 90 then c.toNat + 32 else c.toNat

/-- The `strcasecmp` on the characters of two strings: the difference of the
first two characters that differ after `tolower`, 0 when there is none. -/
def strcasecmp_chars : List Char → List Char → Int
  | [], [] => 0
  | [], b :: _ => 0 - (tolower b : Int)
  | a :: _, [] => (tolower a : Int)
  | a :: as, b :: bs =>
    if tolower a = tolower b then strcasecmp_chars as bs
    else (tolower a : Int) - (tolower b : Int)

/-- The `strcasecmp(a, b)` of `strings.h` in the C locale. -/
def strcasecmp (a b : String) : Int :=
  strcasecmp_chars a.toList b.toList

/-- Two strings are equal when the case of the letters A to Z is ignored. -/
def eq_ignoring_case (a b : String) : Prop :=
  a.toList.map tolower = b.toList.map tolower

instance (a b : String) : Decidable (eq_ignoring_case a b) := by
  unfold eq_ignoring_case
  infer_instance

/-- What `sssm_ldap_auth_init` leaves behind. -/
structure InitResult where
  /-- The return value. -/
  ret : Int
  /-- The operations table was stored in `*ops`. -/
  ops : Bool
  /-- The context stored in `*pvt_data`, `none` when nothing was stored. -/
  pvt_data : Option sdap_ctx
  /-- The levels passed to `ldap_set_option(NULL, LDAP_OPT_X_TLS_REQUIRE_CERT, ...)`. -/
  require_cert : List Int
  /-- The context, with the strings it owns, as `talloc_free(ctx)` releases
  it; `none` when it is not released. -/
  freed : Option sdap_ctx
  deriving DecidableEq, Repr

/-- The `done:` label of `sssm_ldap_auth_init` reached with `ret != EOK`. -/
def init_failed (ret : Int) (ctx : sdap_ctx) (levels : List Int) : InitResult :=
  { ret := ret, ops := false, pvt_data := none, require_cert := levels, freed := some ctx }

/-- The level that `sssm_ldap_auth_init` chooses for a `tls_reqcert` string,
`none` for an unknown value. -/
def reqcert_level (v : String) : Option Int :=
  if strcasecmp v "never" = 0 then some LDAP_OPT_X_TLS_NEVER
  else if strcasecmp v "allow" = 0 then some LDAP_OPT_X_TLS_ALLOW
  else if strcasecmp v "try" = 0 then some LDAP_OPT_X_TLS_TRY
  else if strcasecmp v "demand" = 0 then some LDAP_OPT_X_TLS_DEMAND
  else if strcasecmp v "hard" = 0 then some LDAP_OPT_X_TLS_HARD
  else none

/-- The `sssm_ldap_auth_init(bectx, ops, pvt_data)`; `ctx0` is the content of
the fresh `talloc(bectx, struct sdap_ctx)`, which is not initialised. -/
def sssm_ldap_auth_init (env : InitEnv) (ctx0 : sdap_ctx) : InitResult :=
  if env.talloc_ok = false then
    { ret := ENOMEM, ops := false, pvt_data := none, require_cert := [], freed := none }
  else
  let a := confdb_get_string env "ldapUri" "ldap://localhost"
  if a.1 ≠ EOK then init_failed a.1 ctx0 [] else
  let c1 := { ctx0 with ldap_uri := a.2 }
  let b := confdb_get_string_null env "defaultBindDn"
  if b.1 ≠ EOK then init_failed b.1 c1 [] else
  let c2 := { c1 with default_bind_dn := b.2 }
  let c := confdb_get_string_null env "defaultAuthtokType"
  if c.1 ≠ EOK then init_failed c.1 c2 [] else
  let c3 := { c2 with default_authtok_type := c.2 }
  let d := confdb_get_string_null env "userSearchBase"
  if d.1 ≠ EOK then init_failed d.1 c3 [] else
  match d.2 with
  | none => init_failed EINVAL c3 []
  | some user_search_base =>
  let c4 := { c3 with user_search_base := user_search_base }
  let e := confdb_get_string env "userNameAttribute" "uid"
  if e.1 ≠ EOK then init_failed e.1 c4 [] else
  let c5 := { c4 with user_name_attribute := e.2 }
  let f := confdb_get_string env "userObjectClass" "posixAccount"
  if f.1 ≠ EOK then init_failed f.1 c5 [] else
  let c6 := { c5 with user_object_class := f.2 }
  let g := confdb_get_string_null env "defaultAuthtok"
  if g.1 ≠ EOK then init_failed g.1 c6 [] else
  let c7 := { c6 with default_authtok := g.2.map ascii,
                      default_authtok_size :=
                        match g.2 with
                        | none => 0
                        | some v => (cstr (ascii v)).length }
  let n := confdb_get_int env "network_timeout" 5
  if n.1 ≠ EOK then init_failed n.1 c7 [] else
  let c8 := { c7 with network_timeout := n.2 }
  let o := confdb_get_int env "opt_timeout" 5
  if o.1 ≠ EOK then init_failed o.1 c8 [] else
  let c9 := { c8 with network_timeout := o.2 }
  let t := confdb_get_string_null env "tls_reqcert"
  if t.1 ≠ EOK then init_failed t.1 c9 [] else
  match t.2 with
  | none =>
    { ret := EOK, ops := true, pvt_data := some c9, require_cert := [], freed := none }
  | some tls_reqcert =>
    match reqcert_level tls_reqcert with
    | none => init_failed EINVAL c9 []
    | some level =>
      if env.require_cert_ret level ≠ LDAP_OPT_SUCCESS then init_failed EIO_ c9 [level]
      else
        { ret := EOK, ops := true, pvt_data := some c9, require_cert := [level],
          freed := none }

/-- The `password_destructor(memctx)` on the bytes of the string `memctx`
(its terminating NUL is the end of the list): the loop writes NUL over every
byte that it finds before the first NUL. -/
def password_destructor : Bytes → Bytes
  | [] => []
  | b :: rest => if b = 0 then b :: rest else 0 :: password_destructor rest

/-- A configuration of the end-to-end scenarios: the keys of the stub
configuration, with the given `tls_reqcert`, base and timeouts. -/
def scenario_env (reqcert base : Option String) (network_timeout opt_timeout : Option Int) :
    InitEnv where
  talloc_ok := true
  strings := fun k =>
    if k = "ldapUri" then some "ldap://stub"
    else if k = "defaultBindDn" then some "cn=svc"
    else if k = "defaultAuthtok" then some "svcpw"
    else if k = "userSearchBase" then base
    else if k = "tls_reqcert" then reqcert
    else none
  ints := fun k =>
    if k = "network_timeout" then network_timeout
    else if k = "opt_timeout" then opt_timeout
    else none
  lookup_ret := fun _ => EOK
  require_cert_ret := fun _ => LDAP_OPT_SUCCESS

/-! ## Lemmas on the event log -/

theorem fm_cons {α : Type} (f : Event → Option α) (e : Event) (l : List Event) :
    List.filterMap f (e :: l) = (f e).toList ++ List.filterMap f l := by
  cases h : f e <;> simp [List.filterMap_cons, h]

@[simp] theorem replies_nil : replies [] = [] := rfl
@[simp] theorem replies_cons (e : Event) (l : List Event) :
    replies (e :: l) = (replyOf e).toList ++ replies l := fm_cons _ e l
@[simp] theorem replies_append (a b : List Event) : replies (a ++ b) = replies a ++ replies b := by
  simp [replies]

@[simp] theorem binds_nil : binds [] = [] := rfl
@[simp] theorem binds_cons (e : Event) (l : List Event) :
    binds (e :: l) = (bindOf e).toList ++ binds l := fm_cons _ e l
@[simp] theorem binds_append (a b : List Event) : binds (a ++ b) = binds a ++ binds b := by
  simp [binds]

@[simp] theorem unbinds_nil : unbinds [] = [] := rfl
@[simp] theorem unbinds_cons (e : Event) (l : List Event) :
    unbinds (e :: l) = (unbindOf e).toList ++ unbinds l := fm_cons _ e l
@[simp] theorem unbinds_append (a b : List Event) : unbinds (a ++ b) = unbinds a ++ unbinds b := by
  simp [unbinds]

@[simp] theorem tls_rets_nil : tls_rets [] = [] := rfl
@[simp] theorem tls_rets_cons (e : Event) (l : List Event) :
    tls_rets (e :: l) = (tlsOf e).toList ++ tls_rets l := fm_cons _ e l
@[simp] theorem tls_rets_append (a b : List Event) : tls_rets (a ++ b) = tls_rets a ++ tls_rets b := by
  simp [tls_rets]

@[simp] theorem setup_rets_nil : setup_rets [] = [] := rfl
@[simp] theorem setup_rets_cons (e : Event) (l : List Event) :
    setup_rets (e :: l) = (setupOf e).toList ++ setup_rets l := fm_cons _ e l
@[simp] theorem setup_rets_append (a b : List Event) : setup_rets (a ++ b) = setup_rets a ++ setup_rets b := by
  simp [setup_rets]

@[simp] theorem exops_nil : exops [] = [] := rfl
@[simp] theorem exops_cons (e : Event) (l : List Event) :
    exops (e :: l) = (exopOf e).toList ++ exops l := fm_cons _ e l
@[simp] theorem exops_append (a b : List Event) : exops (a ++ b) = exops a ++ exops b := by
  simp [exops]

@[simp] theorem exop_codes_nil : exop_codes [] = [] := rfl
@[simp] theorem exop_codes_cons (e : Event) (l : List Event) :
    exop_codes (e :: l) = (exopResOf e).toList ++ exop_codes l := fm_cons _ e l
@[simp] theorem exop_codes_append (a b : List Event) : exop_codes (a ++ b) = exop_codes a ++ exop_codes b := by
  simp [exop_codes]

@[simp] theorem ready_nil (st : sdap_auth_steps) : ready st [] = [] := rfl
@[simp] theorem ready_cons (st : sdap_auth_steps) (e : Event) (l : List Event) :
    ready st (e :: l) = (readyOf st e).toList ++ ready st l := fm_cons _ e l
@[simp] theorem ready_append (st : sdap_auth_steps) (a b : List Event) :
    ready st (a ++ b) = ready st a ++ ready st b := by
  simp [ready]

theorem Facts_quiet {pd : pam_data} {st : PamStatus} {dn : Option String} {log : List Event}
    (h : Facts pd st dn log) (d : List Event) (q : ∀ e ∈ d, quiet e) :
    Facts pd st dn (log ++ d) := by
  have e1 : binds d = [] := by
    simp only [binds, List.filterMap_eq_nil_iff]; exact fun e he => (q e he).1
  have e2 : ready sdap_auth_steps.SDAP_CHECK_SEARCH_DN_RESULT d = [] := by
    simp only [ready, List.filterMap_eq_nil_iff]; exact fun e he => (q e he).2.1
  have e3 : ready sdap_auth_steps.SDAP_CHECK_USER_BIND d = [] := by
    simp only [ready, List.filterMap_eq_nil_iff]; exact fun e he => (q e he).2.2.1
  have e4 : tls_rets d = [] := by
    simp only [tls_rets, List.filterMap_eq_nil_iff]; exact fun e he => (q e he).2.2.2.1
  have e5 : setup_rets d = [] := by
    simp only [setup_rets, List.filterMap_eq_nil_iff]; exact fun e he => (q e he).2.2.2.2.1
  have e6 : exops d = [] := by
    simp only [exops, List.filterMap_eq_nil_iff]; exact fun e he => (q e he).2.2.2.2.2.1
  have e7 : exop_codes d = [] := by
    simp only [exop_codes, List.filterMap_eq_nil_iff]; exact fun e he => (q e he).2.2.2.2.2.2
  constructor
  · simpa [e4] using h.f_tls
  · simpa [e5] using h.f_setup
  · simpa [e1, e2] using h.f_search_err
  · simpa [e3, e7] using h.f_ubind
  · simpa [e6] using h.f_exops
  · simpa [e6, e7] using h.f_codes

theorem inv_done_tail (lib : LdapLib W) (ctx : sdap_ctx) (pd : pam_data) (cc : Bool)
    (st : PamStatus) (s : Sys W)
    (hK : Keeps ctx pd cc s) (ht : s.timer = false) (hp : s.pending = Pending.nothing)
    (hc : s.crashed = false) (hr : replies s.log = [])
    (hn : st = PamStatus.PAM_SUCCESS → s.lr.next_step = sdap_auth_steps.SDAP_NOOP)
    (hF : Facts pd st s.lr.user_dn s.log) :
    Inv ctx pd cc
      (if (s.lr.pd.cmd = PamCmd.SSS_PAM_AUTHENTICATE ∨ s.lr.pd.cmd = PamCmd.SSS_PAM_CHAUTHTOK) ∧
          st = PamStatus.PAM_SUCCESS ∧ s.cache_credentials = true then
        sdap_cache_password lib (setLr { s.lr with pd := { s.lr.pd with pam_status := st } } s)
      else sdap_reply st (free_lr (setLr { s.lr with pd := { s.lr.pd with pam_status := st } } s))) := by
  obtain ⟨k1, k2, k3, k4, k5, k6⟩ := hK
  split_ifs with hcond
  · obtain ⟨ha, hs, hcc⟩ := hcond
    subst hs
    right; right; right; left
    have hn2 := hn rfl
    unfold sdap_cache_password
    simp only [setLr, setW, emit, sdap_reply]
    split_ifs with h1 h2
    · refine ⟨⟨k1, k2, k3, k4, k5, k6⟩, ht, hn2, rfl, by rw [← k2]; exact ha, by rw [← k6]; exact hcc, ?_, ?_, ?_⟩
      · exact Facts_quiet hF _ (by simp [quiet])
      · left; simp [hr]
      · intro _; exact ⟨hp, by simp [hr]⟩
    · refine ⟨⟨k1, k2, k3, k4, k5, k6⟩, ht, hn2, rfl, by rw [← k2]; exact ha, by rw [← k6]; exact hcc, ?_, ?_, ?_⟩
      · simp only [List.append_assoc]
        exact Facts_quiet hF _ (by simp [quiet])
      · right; simp [hr, hp]
      · intro h; simp [hc] at h
    · refine ⟨⟨k1, k2, k3, k4, k5, k6⟩, ht, hn2, rfl, by rw [← k2]; exact ha, by rw [← k6]; exact hcc, ?_, ?_, ?_⟩
      · simp only [List.append_assoc]
        exact Facts_quiet hF _ (by simp [quiet])
      · left; simp [hr]
      · intro h; simp [hc] at h
  · right; right; left
    simp only [setLr, emit, sdap_reply, free_lr]
    refine ⟨⟨k1, k2, k3, k4, k5, k6⟩, ht, rfl, hp, ?_, ?_⟩
    · simp [hr]
    · simp only [List.append_assoc]
      exact Facts_quiet hF _ (by simp [quiet])

theorem inv_loop_done (lib : LdapLib W) (ctx : sdap_ctx) (pd : pam_data) (cc : Bool)
    (st : PamStatus) (s : Sys W)
    (hK : Keeps ctx pd cc s) (ht : s.timer = false) (hp : s.pending = Pending.nothing)
    (hc : s.crashed = false) (hr : replies s.log = [])
    (hn : st = PamStatus.PAM_SUCCESS → s.lr.next_step = sdap_auth_steps.SDAP_NOOP)
    (hF : Facts pd st s.lr.user_dn s.log) : Inv ctx pd cc (loop_done lib st s) := by
  unfold loop_done
  by_cases hl : s.lr.ldap = none
  · have e : (if s.lr.ldap ≠ none then do_unbind lib s else s) = s := by simp [hl]
    simp only [e]
    exact inv_done_tail lib ctx pd cc st s hK ht hp hc hr hn hF
  · have e : (if s.lr.ldap ≠ none then do_unbind lib s else s) = do_unbind lib s := by simp [hl]
    simp only [e]
    exact inv_done_tail lib ctx pd cc st (do_unbind lib s) hK ht hp hc
      (by simp [do_unbind, emit, setW, hr]) hn
      (Facts_quiet hF _ (by simp [quiet]))
theorem not_session_of_auth {c : PamCmd} (h : is_auth c) : ¬ is_session_cmd c := by
  rcases h with h | h <;> simp [h, is_session_cmd]

/-- In a waiting session that has submitted the second bind, every fact that
does not involve the answer to that bind holds for every outcome. -/
theorem Facts_lev3 {ctx : sdap_ctx} {pd : pam_data} {cc : Bool} {s : Sys W}
    (hM : Mid ctx pd cc s) (hL : Lev3 ctx pd s) (st : PamStatus) :
    Facts pd st s.lr.user_dn s.log := by
  obtain ⟨ha, hb, res, hr, hne, hw⟩ := hL
  constructor
  · simp [hM.tls_ok]
  · simp [hM.setup_ok]
  · simp [hr, hw]
  · simp [hM.no_ubind]
  · simp [hM.no_exop]
  · simp [hM.no_code]

/-- What `sdap_pam_chauthtok` leaves unchanged, and what it adds to the log. -/
theorem chauthtok_spec (lib : LdapLib W) (s : Sys W) :
    (sdap_pam_chauthtok lib s).2.lr = s.lr ∧
    (sdap_pam_chauthtok lib s).2.cache_credentials = s.cache_credentials ∧
    (sdap_pam_chauthtok lib s).2.timer = s.timer ∧
    (sdap_pam_chauthtok lib s).2.fde = s.fde ∧
    (sdap_pam_chauthtok lib s).2.alive = s.alive ∧
    (sdap_pam_chauthtok lib s).2.pending = s.pending ∧
    (sdap_pam_chauthtok lib s).2.crashed = s.crashed ∧
    ∃ d, (sdap_pam_chauthtok lib s).2.log = s.log ++ d ∧
      replies d = [] ∧ binds d = [] ∧ unbinds d = [] ∧
      (∀ st, ready st d = []) ∧ tls_rets d = [] ∧ setup_rets d = [] ∧
      (∀ x ∈ exops d, x = (LDAP_EXOP_MODIFY_PASSWD, s.lr.user_dn, cstr s.lr.pd.authtok,
        cstr s.lr.pd.newauthtok)) ∧
      (exop_codes d ≠ [] → exops d = [(LDAP_EXOP_MODIFY_PASSWD, s.lr.user_dn,
        cstr s.lr.pd.authtok, cstr s.lr.pd.newauthtok)]) ∧
      ((sdap_pam_chauthtok lib s).1 =
          some (if LDAP_SUCCESS ∈ exop_codes d then PamStatus.PAM_SUCCESS
            else PamStatus.PAM_SYSTEM_ERR) ∨
        ((sdap_pam_chauthtok lib s).1 = none ∧ exops d = [] ∧ exop_codes d = [])) := by
  unfold sdap_pam_chauthtok
  simp only [chauthtok_cleanup_uninit, emit, setW]
  generalize lib.ber_alloc_t s.w = a
  obtain ⟨a1, wa⟩ := a
  dsimp only
  generalize lib.ber_printf wa s.lr.user_dn (cstr s.lr.pd.authtok) (cstr s.lr.pd.newauthtok) = p
  obtain ⟨p1, wp⟩ := p
  dsimp only
  generalize lib.ber_bvfree wp = v1
  obtain ⟨v11, wv1⟩ := v1
  generalize lib.ber_flatten wp = f
  obtain ⟨f1, wf⟩ := f
  dsimp only
  generalize lib.ber_bvfree wf = v2
  obtain ⟨v21, wv2⟩ := v2
  generalize lib.ldap_extended_operation wf s.lr.ldap LDAP_EXOP_MODIFY_PASSWD s.lr.user_dn
    (cstr s.lr.pd.authtok) (cstr s.lr.pd.newauthtok) = x
  obtain ⟨⟨x1, x2⟩, wx⟩ := x
  dsimp only
  generalize lib.ldap_result wx s.lr.ldap x2 false true = r
  obtain ⟨⟨r1, r2⟩, wr⟩ := r
  dsimp only
  split_ifs with h1 h2 h3 h4 h5 h6 h7 h8 h9 <;>
    refine ⟨rfl, rfl, rfl, rfl, rfl, rfl, rfl, _, by simp only [List.append_assoc]; rfl, ?_⟩
  all_goals first
    | (simp; done)
    | (simp [*]; done)
    | (have h8a := not_not.mp h8
       have h9a := not_not.mp h9
       simp [h7, h8a, h9a])

/-- The facts after the user bind has been answered and the events `d` of the
password change have followed. -/
theorem Facts_after_ubind {ctx : sdap_ctx} {pd : pam_data} {cc : Bool} {s : Sys W}
    (hM : Mid ctx pd cc s) (hL : Lev3 ctx pd s) (h : Option Nat) (m : Int) (a : Bool)
    (ret : Int) (res : LDAPResult) (d : List Event) (st : PamStatus)
    (hd : binds d = [] ∧ (∀ st, ready st d = []) ∧ tls_rets d = [] ∧ setup_rets d = [])
    (hx : ∀ x ∈ exops d,
      x = (LDAP_EXOP_MODIFY_PASSWD, s.lr.user_dn, cstr pd.authtok, cstr pd.newauthtok))
    (hc : exop_codes d ≠ [] →
      exops d = [(LDAP_EXOP_MODIFY_PASSWD, s.lr.user_dn, cstr pd.authtok, cstr pd.newauthtok)])
    (hst : ret ≠ -1 → ret ≠ 0 → res.parse_ret = LDAP_SUCCESS →
      (res.ldap_ret = LDAP_INVALID_CREDENTIALS → st = PamStatus.PAM_CRED_INSUFFICIENT) ∧
      (res.ldap_ret ≠ LDAP_SUCCESS → res.ldap_ret ≠ LDAP_INVALID_CREDENTIALS →
        st = PamStatus.PAM_SYSTEM_ERR) ∧
      (res.ldap_ret = LDAP_SUCCESS → pd.cmd = PamCmd.SSS_PAM_AUTHENTICATE →
        st = PamStatus.PAM_SUCCESS) ∧
      (res.ldap_ret = LDAP_SUCCESS → pd.cmd = PamCmd.SSS_PAM_CHAUTHTOK →
        st = if LDAP_SUCCESS ∈ exop_codes d then PamStatus.PAM_SUCCESS
             else PamStatus.PAM_SYSTEM_ERR)) :
    Facts pd st s.lr.user_dn
      (s.log ++ Event.ev_result sdap_auth_steps.SDAP_CHECK_USER_BIND h m a ret res :: d) := by
  obtain ⟨ha, hb, res0, hr, hne, hw⟩ := hL
  obtain ⟨d1, d2, d3, d4⟩ := hd
  constructor
  · simp [hM.tls_ok, d3]
  · simp [hM.setup_ok, d4]
  · simp [hr, hw, d2]
  · intro r hr2 hp
    simp only [ready_append, ready_cons, readyOf, hM.no_ubind, d2, List.nil_append,
      List.append_nil, true_and] at hr2
    by_cases hq : ret ≠ -1 ∧ ret ≠ 0
    · rw [if_pos hq] at hr2
      simp at hr2
      subst hr2
      have := hst hq.1 hq.2 hp
      simpa [hM.no_code] using this
    · rw [if_neg hq] at hr2
      simp at hr2
  · simpa [hM.no_exop] using hx
  · simpa [hM.no_exop, hM.no_code] using hc

theorem inv_user_bind (lib : LdapLib W) {ctx : sdap_ctx} {pd : pam_data} {cc : Bool}
    {s : Sys W} (hM : Mid ctx pd cc s) (hL : Lev3 ctx pd s) :
    Inv ctx pd cc (case_check_user_bind lib s) := by
  have hF := fun st => Facts_lev3 hM hL st
  have hK := hM.keeps
  obtain ⟨k1, k2, k3, k4, k5, k6⟩ := hM.keeps
  unfold case_check_user_bind poll
  generalize lib.ldap_result s.w s.lr.ldap s.lr.msgid false false = q
  obtain ⟨⟨ret, res⟩, w1⟩ := q
  simp only [emit, setW, setLr]
  split_ifs with h1 h2 h3 h4 h5
  · exact inv_loop_done lib ctx pd cc _ _ hK hM.timer hM.pending hM.crashed
      (by simp [hM.no_reply]) (by simp) (Facts_quiet (hF _) _ (by simp [quiet, h1]))
  · right; left
    refine ⟨⟨hK, hM.timer, hM.fde, hM.pending, hM.crashed, ?_, ?_, ?_, ?_, ?_, ?_⟩, ?_⟩
    · simp [hM.no_reply]
    · simp [hM.no_ubind, h2]
    · simp [hM.tls_ok]
    · simp [hM.setup_ok]
    · simp [hM.no_exop]
    · simp [hM.no_code]
    · right; right; right
      refine ⟨rfl, ?_⟩
      obtain ⟨ha, hb, hc⟩ := hL
      refine ⟨ha, ?_, ?_⟩
      · simpa [bind_dn, bind_pw] using hb
      · simpa [h2] using hc
  · exact inv_loop_done lib ctx pd cc _ _ hK hM.timer hM.pending hM.crashed
      (by simp [hM.no_reply]) (by simp)
      (Facts_after_ubind hM hL _ _ _ _ _ [] _ (by simp) (by simp) (by simp)
        (fun _ _ h => absurd h h3))
  · have h3' := not_not.mp h3
    rcases hL.1 with ha | ha
    · have hcmd : s.lr.pd.cmd = PamCmd.SSS_PAM_AUTHENTICATE := k2.trans ha
      simp only [after_user_bind, hcmd]
      exact inv_loop_done lib ctx pd cc _ _ hK hM.timer hM.pending hM.crashed
        (by simp [hM.no_reply]) (by simp)
        (Facts_after_ubind hM hL _ _ _ _ _ [] _ (by simp) (by simp) (by simp)
          (fun _ _ _ => ⟨fun h => by rw [h4] at h; exact absurd h (by decide),
            fun h => absurd h4 h, fun _ _ => rfl, fun _ h => by rw [ha] at h; exact absurd h (by decide)⟩))
    · have hcmd : s.lr.pd.cmd = PamCmd.SSS_PAM_CHAUTHTOK := k2.trans ha
      simp only [after_user_bind, hcmd]
      have key := chauthtok_spec lib (Sys.mk w1
        { s.lr with next_step := sdap_auth_steps.SDAP_NOOP } s.cache_credentials
        (s.log ++ [Event.ev_result sdap_auth_steps.SDAP_CHECK_USER_BIND s.lr.ldap s.lr.msgid
          false ret res]) s.timer s.fde s.alive s.pending s.crashed)
      generalize sdap_pam_chauthtok lib _ = r at key ⊢
      dsimp only at key
      obtain ⟨c1, c2, c3, _, _, c6, c7, d, c8, d1, d2, _, d4, d5, d6, d7, d8, d9⟩ := key
      rcases d9 with d9 | ⟨d9, dx, dc⟩
      · rw [d9]
        dsimp only
        refine inv_loop_done lib ctx pd cc _ _ ?_ (by rw [c3]; exact hM.timer)
          (by rw [c6]; exact hM.pending) (by rw [c7]; exact hM.crashed)
          (by rw [c8]; simp [hM.no_reply, d1]) (by intro _; rw [c1]) ?_
        · unfold Keeps
          rw [c1, c2]
          exact ⟨k1, k2, k3, k4, k5, k6⟩
        · rw [c1, c8, List.append_assoc]
          simp only [k4, k5] at d7 d8
          exact Facts_after_ubind hM hL _ _ _ _ _ d _ ⟨d2, d4, d5, d6⟩ d7 d8
            (fun _ _ _ => ⟨fun h => by rw [h4] at h; exact absurd h (by decide),
              fun h => absurd h4 h, fun _ h => by rw [ha] at h; exact absurd h (by decide),
              fun _ _ => rfl⟩)
      · rw [d9]
        dsimp only
        right; right; right; right
        obtain ⟨_, _, res0, hr0, _, hw0⟩ := hL
        refine ⟨?_, rfl, c3.trans hM.timer, c6.trans hM.pending, ?_, ?_, ?_, ?_, ?_, ?_, ?_⟩
        · unfold Keeps
          show r.2.lr.sdap_ctx = ctx ∧ r.2.lr.pd.cmd = pd.cmd ∧ r.2.lr.pd.user = pd.user ∧
            r.2.lr.pd.authtok = pd.authtok ∧ r.2.lr.pd.newauthtok = pd.newauthtok ∧
            r.2.cache_credentials = cc
          rw [c1, c2]
          exact ⟨k1, k2, k3, k4, k5, k6⟩
        · show replies r.2.log = []
          rw [c8]; simp [hM.no_reply, d1]
        · show tls_rets r.2.log = _
          rw [c8]; simp [hM.tls_ok, d5]
        · show setup_rets r.2.log = _
          rw [c8]; simp [hM.setup_ok, d6]
        · show exops r.2.log = []
          rw [c8]; simp [hM.no_exop, dx]
        · show exop_codes r.2.log = []
          rw [c8]; simp [hM.no_code, dc]
        · show ∀ x ∈ ready sdap_auth_steps.SDAP_CHECK_USER_BIND r.2.log, _
          rw [c8]
          intro x hx
          simp only [ready_append, ready_cons, readyOf, hM.no_ubind, d4, ready_nil,
            List.nil_append, List.append_nil, true_and] at hx
          rw [if_pos ⟨h1, h2⟩] at hx
          simp at hx
          subst hx
          exact ⟨not_not.mp h3, h4⟩
        · show ∀ x ∈ ready sdap_auth_steps.SDAP_CHECK_SEARCH_DN_RESULT r.2.log, _
          rw [c8]
          intro x hx
          simp [hr0, d4] at hx
          subst hx
          rw [hw0]
  · exact inv_loop_done lib ctx pd cc _ _ hK hM.timer hM.pending hM.crashed
      (by simp [hM.no_reply]) (by simp)
      (Facts_after_ubind hM hL _ _ _ _ _ [] _ (by simp) (by simp) (by simp)
        (fun _ _ _ => ⟨fun _ => rfl, fun _ h => absurd h5 h, fun h => absurd h h4, fun h => absurd h h4⟩))
  · exact inv_loop_done lib ctx pd cc _ _ hK hM.timer hM.pending hM.crashed
      (by simp [hM.no_reply]) (by simp)
      (Facts_after_ubind hM hL _ _ _ _ _ [] _ (by simp) (by simp) (by simp)
        (fun _ _ _ => ⟨fun h => absurd h h5, fun _ _ => rfl, fun h => absurd h h4, fun h => absurd h h4⟩))
/-- The facts of a session whose user bind has not been answered and whose
password change has not been attempted. -/
theorem Facts_base {pd : pam_data} {st : PamStatus} {dn : Option String} {log : List Event}
    (htls : tls_rets log = [LDAP_SUCCESS])
    (hsetup : setup_rets log = [LDAP_SUCCESS, LDAP_SUCCESS, LDAP_SUCCESS, LDAP_SUCCESS])
    (hU : ready sdap_auth_steps.SDAP_CHECK_USER_BIND log = [])
    (hx : exops log = []) (hc : exop_codes log = [])
    (h1 : ∀ res ∈ ready sdap_auth_steps.SDAP_CHECK_SEARCH_DN_RESULT log,
      ∀ e, (search_walk [] none res.msgs).1 = some e → st = e ∧ (binds log).length = 1) :
    Facts pd st dn log := by
  constructor
  · simp [htls]
  · simp [hsetup]
  · exact h1
  · simp [hU]
  · simp [hx]
  · simp [hc]

/-- A state that differs from a waiting state by events that answer neither
the user bind nor anything of the open or of the password change. -/
theorem Mid_ext {ctx : sdap_ctx} {pd : pam_data} {cc : Bool} {s : Sys W}
    (hM : Mid ctx pd cc s) (s1 : Sys W) (hk : Keeps ctx pd cc s1) (ht : s1.timer = false)
    (hf : s1.fde = true) (hp : s1.pending = Pending.nothing) (hc : s1.crashed = false)
    (d : List Event) (hlog : s1.log = s.log ++ d)
    (hd : replies d = [] ∧ ready sdap_auth_steps.SDAP_CHECK_USER_BIND d = [] ∧
      tls_rets d = [] ∧ setup_rets d = [] ∧ exops d = [] ∧ exop_codes d = []) :
    Mid ctx pd cc s1 := by
  obtain ⟨d1, d2, d3, d4, d5, d6⟩ := hd
  refine ⟨hk, ht, hf, hp, hc, ?_, ?_, ?_, ?_, ?_, ?_⟩ <;> rw [hlog]
  · simp [hM.no_reply, d1]
  · simp [hM.no_ubind, d2]
  · simp [hM.tls_ok, d3]
  · simp [hM.setup_ok, d4]
  · simp [hM.no_exop, d5]
  · simp [hM.no_code, d6]

theorem inv_after_search (lib : LdapLib W) {ctx : sdap_ctx} {pd : pam_data} {cc : Bool}
    {s : Sys W} (hM : Mid ctx pd cc s) (hL : Lev2 ctx s)
    (hn : s.lr.next_step = sdap_auth_steps.SDAP_NOOP) :
    Inv ctx pd cc (after_search lib s) := by
  have hK := hM.keeps
  obtain ⟨k1, k2, k3, k4, k5, k6⟩ := hM.keeps
  obtain ⟨hb, res, hr, hne, hw⟩ := hL
  have hauth : is_auth pd.cmd → Inv ctx pd cc
      (let b := sdap_bind lib s
       if b.1 ≠ LDAP_SUCCESS then loop_done lib PamStatus.PAM_SYSTEM_ERR b.2
       else case_check_user_bind lib b.2) := by
    intro ha
    unfold sdap_bind
    generalize lib.ldap_sasl_bind s.w s.lr.ldap (bind_dn s.lr) (bind_pw s.lr) = q
    obtain ⟨⟨ret, mid⟩, w1⟩ := q
    simp only [emit, setW, setLr]
    by_cases h1 : ret = -1 ∨ mid = -1
    · rw [if_pos h1]
      dsimp only
      rw [if_pos (by decide)]
      exact inv_loop_done lib ctx pd cc _ _ hK hM.timer hM.pending hM.crashed
        (by simp [hM.no_reply]) (by simp)
        (Facts_base (by simp [hM.tls_ok]) (by simp [hM.setup_ok]) (by simp [hM.no_ubind])
          (by simp [hM.no_exop]) (by simp [hM.no_code]) (by simp [hr, hw]))
    · rw [if_neg h1]
      dsimp only
      rw [if_neg (by decide)]
      refine inv_user_bind lib (Mid_ext hM _ hK hM.timer hM.fde hM.pending hM.crashed [_] rfl
        (by simp)) ⟨ha, ?_, res, ?_, hne, hw⟩
      · simp [hb, bind_dn, bind_pw]
      · simp [hr]
  have hsess : is_session_cmd pd.cmd → Inv ctx pd cc (loop_done lib PamStatus.PAM_SUCCESS s) :=
    fun hs => inv_loop_done lib ctx pd cc _ _ hK hM.timer hM.pending hM.crashed
      hM.no_reply (fun _ => hn)
      (Facts_base hM.tls_ok hM.setup_ok hM.no_ubind hM.no_exop hM.no_code (by simp [hr, hw]))
  unfold after_search
  split
  · exact hauth (Or.inl (by rw [← k2]; assumption))
  · exact hauth (Or.inr (by rw [← k2]; assumption))
  · exact hsess (Or.inl (by rw [← k2]; assumption))
  · exact hsess (Or.inr (Or.inl (by rw [← k2]; assumption)))
  · exact hsess (Or.inr (Or.inr (Or.inl (by rw [← k2]; assumption))))
  · exact hsess (Or.inr (Or.inr (Or.inr (by rw [← k2]; assumption))))
  · rename_i c hc
    exact inv_loop_done lib ctx pd cc _ _ hK hM.timer hM.pending hM.crashed
      hM.no_reply (by simp)
      (Facts_base hM.tls_ok hM.setup_ok hM.no_ubind hM.no_exop hM.no_code (by simp [hr, hw]))

theorem walk_released_snd (u : Option String) (l : List LDAPMessage) :
    (walk_released u l).2 = u := by
  induction l with
  | nil => rfl
  | cons m ms ih =>
    simp only [walk_released]
    split_ifs
    · rfl
    · exact ih

/-- A walk that runs to its end would also do so if the released chain showed
nothing, and leaves the same `user_dn`. -/
theorem search_walk_none (rel : List LDAPMessage) (u : Option String)
    (msgs : List LDAPMessage) (h : (search_walk rel u msgs).1 = none) :
    search_walk [] u msgs = (none, (search_walk rel u msgs).2) := by
  induction msgs with
  | nil => rfl
  | cons m ms ih =>
    by_cases hm : m.msgtype = LDAP_RES_SEARCH_ENTRY
    · by_cases hu : u ≠ none
      · simp [search_walk, hm, hu] at h
      · cases hd : m.dn with
        | none => simp [search_walk, hm, hu, hd] at h
        | some d =>
          by_cases he : d = ""
          · simp [search_walk, hm, hu, hd, he] at h
          · simp [search_walk, hm, hu, hd, he, walk_released, walk_released_snd]
    · simp only [search_walk, hm, if_false] at h ⊢
      exact ih h

/-- A status that the walk gives before the chain is released is the status
of the walk. -/
theorem search_walk_some (rel : List LDAPMessage) (u : Option String)
    (msgs : List LDAPMessage) (e : PamStatus) (h : (search_walk [] u msgs).1 = some e) :
    (search_walk rel u msgs).1 = some e := by
  induction msgs with
  | nil => exact absurd h (by simp [search_walk])
  | cons m ms ih =>
    simp only [search_walk] at h ⊢
    by_cases hm : m.msgtype = LDAP_RES_SEARCH_ENTRY
    · rw [if_pos hm] at h ⊢
      by_cases hu : u ≠ none
      · rw [if_pos hu] at h ⊢
        exact h
      · rw [if_neg hu] at h ⊢
        cases hd : m.dn with
        | none => rw [hd] at h; exact h
        | some d =>
          rw [hd] at h
          dsimp only at h ⊢
          by_cases he : d = ""
          · rw [if_pos he] at h ⊢
            exact h
          · rw [if_neg he] at h
            exact absurd h (by simp [walk_released])
    · rw [if_neg hm] at h ⊢
      exact ih h

/-- The facts of a session before the search has been answered hold for every
outcome. -/
theorem Facts_lev01 {ctx : sdap_ctx} {pd : pam_data} {cc : Bool} {s : Sys W}
    (hM : Mid ctx pd cc s)
    (hr : ready sdap_auth_steps.SDAP_CHECK_SEARCH_DN_RESULT s.log = [])
    (st : PamStatus) : Facts pd st s.lr.user_dn s.log :=
  Facts_base hM.tls_ok hM.setup_ok hM.no_ubind hM.no_exop hM.no_code (by simp [hr])

theorem inv_search (lib : LdapLib W) {ctx : sdap_ctx} {pd : pam_data} {cc : Bool}
    {s : Sys W} (hM : Mid ctx pd cc s) (hL : Lev1 ctx s) :
    Inv ctx pd cc (case_check_search_dn_result lib s) := by
  have hK := hM.keeps
  obtain ⟨k1, k2, k3, k4, k5, k6⟩ := hM.keeps
  obtain ⟨hb, hdn, hr⟩ := hL
  have hF := fun st => Facts_lev01 hM hr st
  unfold case_check_search_dn_result poll
  generalize lib.ldap_result s.w s.lr.ldap s.lr.msgid true false = q
  obtain ⟨⟨ret, res⟩, w1⟩ := q
  simp only [emit, setW, setLr]
  split_ifs with h1 h2
  · exact inv_loop_done lib ctx pd cc _ _ hK hM.timer hM.pending hM.crashed
      (by simp [hM.no_reply]) (by simp) (Facts_quiet (hF _) _ (by simp [quiet, h1]))
  · right; left
    refine ⟨Mid_ext hM _ hK hM.timer hM.fde hM.pending hM.crashed [_] rfl (by simp), ?_⟩
    right; right; left
    exact ⟨rfl, by simp [hb], hdn, by simp [hr, h2]⟩
  · have hrdy : ready sdap_auth_steps.SDAP_CHECK_SEARCH_DN_RESULT
        (s.log ++ [Event.ev_result sdap_auth_steps.SDAP_CHECK_SEARCH_DN_RESULT s.lr.ldap
          s.lr.msgid true ret res]) = [res] := by
      simp [hr, h1, h2]
    split
    · rename_i hnil
      exact inv_loop_done lib ctx pd cc _ _ hK hM.timer hM.pending hM.crashed
        (by simp [hM.no_reply]) (by simp)
        (Facts_base (by simp [hM.tls_ok]) (by simp [hM.setup_ok]) (by simp [hM.no_ubind])
          (by simp [hM.no_exop]) (by simp [hM.no_code])
          (by rw [hrdy]; simp [hnil, search_walk]))
    · rename_i m ms hcons
      rw [hdn]
      split
      · rename_i st hst
        exact inv_loop_done lib ctx pd cc _ _ hK hM.timer hM.pending hM.crashed
          (by simp [hM.no_reply]) (by simp)
          (Facts_base (by simp [hM.tls_ok]) (by simp [hM.setup_ok]) (by simp [hM.no_ubind])
            (by simp [hM.no_exop]) (by simp [hM.no_code])
            (by
              rw [hrdy]
              intro r hr2 e he
              simp only [List.mem_singleton] at hr2
              subst hr2
              rw [hcons] at he
              have h3 := search_walk_some (lib.freed_chain w1 (m :: ms)) _ _ _ he
              rw [hst] at h3
              exact ⟨Option.some.inj h3, by simp [hb]⟩))
      · rename_i hst
        refine inv_after_search lib
          (Mid_ext hM _ hK hM.timer hM.fde hM.pending hM.crashed [_] rfl (by simp))
          ⟨by simp [hb], res, hrdy, by simp [hcons], ?_⟩ rfl
        rw [hcons]
        exact search_walk_none _ _ _ hst

theorem inv_std_bind (lib : LdapLib W) {ctx : sdap_ctx} {pd : pam_data} {cc : Bool}
    {s : Sys W} (hM : Mid ctx pd cc s) (hL : Lev1 ctx s) :
    Inv ctx pd cc (case_check_std_bind lib s) := by
  have hK := hM.keeps
  obtain ⟨k1, k2, k3, k4, k5, k6⟩ := hM.keeps
  obtain ⟨hb, hdn, hr⟩ := hL
  have hF := fun st => Facts_lev01 hM hr st
  unfold case_check_std_bind poll
  generalize lib.ldap_result s.w s.lr.ldap s.lr.msgid false false = q
  obtain ⟨⟨ret, res⟩, w1⟩ := q
  simp only [emit, setW, setLr]
  split_ifs with h1 h2 h3 h4 h5
  · exact inv_loop_done lib ctx pd cc _ _ hK hM.timer hM.pending hM.crashed
      (by simp [hM.no_reply]) (by simp) (Facts_quiet (hF _) _ (by simp [quiet]))
  · right; left
    refine ⟨Mid_ext hM _ hK hM.timer hM.fde hM.pending hM.crashed [_] rfl (by simp), ?_⟩
    right; left
    exact ⟨rfl, by simp [hb], hdn, by simp [hr]⟩
  · exact inv_loop_done lib ctx pd cc _ _ hK hM.timer hM.pending hM.crashed
      (by simp [hM.no_reply]) (by simp) (Facts_quiet (hF _) _ (by simp [quiet]))
  · exact inv_loop_done lib ctx pd cc _ _ hK hM.timer hM.pending hM.crashed
      (by simp [hM.no_reply]) (by simp) (Facts_quiet (hF _) _ (by simp [quiet]))
  · unfold search_ext
    simp only [emit, setW, setLr]
    exact inv_loop_done lib ctx pd cc _ _ hK hM.timer hM.pending hM.crashed
      (by simp [hM.no_reply]) (by simp)
      (Facts_quiet (Facts_quiet (hF _) [_] (by simp [quiet])) [_] (by simp [quiet]))
  · unfold search_ext
    simp only [emit, setW, setLr]
    exact inv_search lib
      (Mid_ext hM _ hK hM.timer hM.fde hM.pending hM.crashed _ (List.append_assoc _ _ _) (by simp))
      ⟨by simp [hb], hdn, by simp [hr]⟩

theorem svc_bind_eq (lr : sdap_req) (h : lr.user_dn = none) :
    (bind_dn lr, bind_pw lr) = svc_bind lr.sdap_ctx := by
  unfold bind_dn bind_pw svc_bind
  rw [h]
  split_ifs <;> simp_all

theorem inv_init_result (lib : LdapLib W) {ctx : sdap_ctx} {pd : pam_data} {cc : Bool}
    {s : Sys W} (hM : Mid ctx pd cc s) (hL : Lev0 s) :
    Inv ctx pd cc (case_check_init_result lib s) := by
  have hK := hM.keeps
  obtain ⟨k1, k2, k3, k4, k5, k6⟩ := hM.keeps
  obtain ⟨hb, hdn, hr⟩ := hL
  have hF := fun st => Facts_lev01 hM hr st
  unfold case_check_init_result poll
  generalize lib.ldap_result s.w s.lr.ldap s.lr.msgid false false = q
  obtain ⟨⟨ret, res⟩, w1⟩ := q
  simp only [emit, setW, setLr]
  split_ifs with h1 h2 h3 h4 h5 h6
  · exact inv_loop_done lib ctx pd cc _ _ hK hM.timer hM.pending hM.crashed
      (by simp [hM.no_reply]) (by simp) (Facts_quiet (hF _) _ (by simp [quiet]))
  · right; left
    refine ⟨Mid_ext hM _ hK hM.timer hM.fde hM.pending hM.crashed [_] rfl (by simp), ?_⟩
    left
    exact ⟨rfl, by simp [hb], hdn, by simp [hr]⟩
  · exact inv_loop_done lib ctx pd cc _ _ hK hM.timer hM.pending hM.crashed
      (by simp [hM.no_reply]) (by simp) (Facts_quiet (hF _) _ (by simp [quiet]))
  · exact inv_loop_done lib ctx pd cc _ _ hK hM.timer hM.pending hM.crashed
      (by simp [hM.no_reply]) (by simp) (Facts_quiet (hF _) _ (by simp [quiet]))
  · unfold install_tls
    simp only [emit, setW, setLr]
    exact inv_loop_done lib ctx pd cc _ _ hK hM.timer hM.pending hM.crashed
      (by simp [hM.no_reply]) (by simp)
      (Facts_quiet (Facts_quiet (hF _) [_] (by simp [quiet])) [_] (by simp [quiet]))
  · unfold sdap_bind install_tls at h6 ⊢
    simp only [emit, setW, setLr] at h6 ⊢
    generalize lib.ldap_install_tls w1 s.lr.ldap = qi at h5 h6 ⊢
    obtain ⟨ri, w2⟩ := qi
    dsimp only at h6 ⊢
    generalize lib.ldap_sasl_bind w2 s.lr.ldap _ _ = qb at h6 ⊢
    obtain ⟨⟨rb, mb⟩, w3⟩ := qb
    dsimp only at h6 ⊢
    by_cases hc : rb = -1 ∨ mb = -1
    · rw [if_pos hc]
      dsimp only
      exact inv_loop_done lib ctx pd cc _ _ hK hM.timer hM.pending hM.crashed
        (by simp [hM.no_reply]) (by simp)
        (Facts_base (by simp [hM.tls_ok]) (by simp [hM.setup_ok]) (by simp [hM.no_ubind])
          (by simp [hM.no_exop]) (by simp [hM.no_code]) (by simp [hr]))
    · rw [if_neg hc] at h6
      exact absurd rfl h6
  · unfold sdap_bind install_tls at h6 ⊢
    simp only [emit, setW, setLr] at h6 ⊢
    generalize lib.ldap_install_tls w1 s.lr.ldap = qi at h5 h6 ⊢
    obtain ⟨ri, w2⟩ := qi
    dsimp only at h6 ⊢
    generalize lib.ldap_sasl_bind w2 s.lr.ldap _ _ = qb at h6 ⊢
    obtain ⟨⟨rb, mb⟩, w3⟩ := qb
    dsimp only at h6 ⊢
    by_cases hc : rb = -1 ∨ mb = -1
    · rw [if_pos hc] at h6
      exact absurd (show LDAP_OTHER ≠ LDAP_SUCCESS by decide) h6
    · rw [if_neg hc]
      dsimp only
      refine inv_std_bind lib
        (Mid_ext hM _ hK hM.timer hM.fde hM.pending hM.crashed _
          ((List.append_assoc _ _ _).trans (List.append_assoc _ _ _)) (by simp))
        ⟨?_, hdn, by simp [hr]⟩
      have := svc_bind_eq { s.lr with next_step := sdap_auth_steps.SDAP_NOOP } hdn
      simp only [binds_append, hb, binds_cons, bindOf, binds_nil, Option.toList,
        List.nil_append, List.append_nil, List.singleton_append]
      rw [this, k1]

theorem inv_pam_loop (lib : LdapLib W) {ctx : sdap_ctx} {pd : pam_data} {cc : Bool}
    {s : Sys W} (h : WaitP ctx pd cc s) : Inv ctx pd cc (sdap_pam_loop lib s) := by
  obtain ⟨hM, hs⟩ := h
  unfold sdap_pam_loop
  rcases hs with ⟨e, hL⟩ | ⟨e, hL⟩ | ⟨e, hL⟩ | ⟨e, hL⟩ <;> rw [e]
  · exact inv_init_result lib hM hL
  · exact inv_std_bind lib hM hL
  · exact inv_search lib hM hL
  · exact inv_user_bind lib hM hL

/-- The facts of a session that has not passed the open of the connection. -/
theorem Facts_open {pd : pam_data} {st : PamStatus} {dn : Option String} {log : List Event}
    (htls : ∀ r ∈ tls_rets log, r ≠ LDAP_SUCCESS →
      st = if r = LDAP_SERVER_DOWN then PamStatus.PAM_AUTHINFO_UNAVAIL
           else PamStatus.PAM_SYSTEM_ERR)
    (hsetup : ∀ r ∈ setup_rets log, r ≠ LDAP_SUCCESS → st = PamStatus.PAM_SYSTEM_ERR)
    (hS : ready sdap_auth_steps.SDAP_CHECK_SEARCH_DN_RESULT log = [])
    (hU : ready sdap_auth_steps.SDAP_CHECK_USER_BIND log = [])
    (hx : exops log = []) (hc : exop_codes log = []) :
    Facts pd st dn log := by
  constructor
  · exact htls
  · exact hsetup
  · simp [hS]
  · simp [hU]
  · simp [hx]
  · simp [hc]

theorem inv_start_done (lib : LdapLib W) (ctx : sdap_ctx) (pd : pam_data) (cc : Bool)
    (st : PamStatus) (s : Sys W)
    (hK : Keeps ctx pd cc s) (ht : s.timer = false) (hp : s.pending = Pending.nothing)
    (hr : replies s.log = []) (hF : Facts pd st s.lr.user_dn s.log) :
    Inv ctx pd cc (start_done lib st s) := by
  obtain ⟨k1, k2, k3, k4, k5, k6⟩ := hK
  right; right; left
  unfold start_done
  by_cases hl : s.lr.ldap = none
  · have e : (if s.lr.ldap ≠ none then do_unbind lib s else s) = s := by simp [hl]
    simp only [e]
    simp only [setLr, emit, sdap_reply, free_lr]
    refine ⟨⟨k1, k2, k3, k4, k5, k6⟩, ht, rfl, hp, by simp [hr], ?_⟩
    simp only [List.append_assoc]
    exact Facts_quiet hF _ (by simp [quiet])
  · have e : (if s.lr.ldap ≠ none then do_unbind lib s else s) = do_unbind lib s := by
      simp [hl]
    simp only [e]
    simp only [setLr, emit, sdap_reply, free_lr, do_unbind, setW]
    refine ⟨⟨k1, k2, k3, k4, k5, k6⟩, ht, rfl, hp, by simp [hr], ?_⟩
    simp only [List.append_assoc]
    exact Facts_quiet hF _ (by simp [quiet])

/-- What `sdap_init` leaves unchanged, what it adds to the log, and how its
return value depends on the answers of the library. -/
theorem sdap_init_spec (lib : LdapLib W) (s : Sys W) (r : Int × Sys W)
    (hr : sdap_init lib s = r) :
    r.2.lr.pd = s.lr.pd ∧
    r.2.lr.sdap_ctx = s.lr.sdap_ctx ∧
    r.2.lr.user_dn = s.lr.user_dn ∧
    r.2.lr.next_step = s.lr.next_step ∧
    r.2.cache_credentials = s.cache_credentials ∧
    r.2.timer = s.timer ∧
    r.2.fde = s.fde ∧
    r.2.alive = s.alive ∧
    r.2.pending = s.pending ∧
    r.2.crashed = s.crashed ∧
    ∃ d, r.2.log = s.log ++ d ∧
      replies d = [] ∧ binds d = [] ∧ (∀ st, ready st d = []) ∧ exops d = [] ∧
      exop_codes d = [] ∧
      (r.1 = EOK →
        setup_rets d = [LDAP_SUCCESS, LDAP_SUCCESS, LDAP_SUCCESS, LDAP_SUCCESS] ∧
        tls_rets d = [LDAP_SUCCESS]) ∧
      (r.1 ≠ EOK →
        (∀ x ∈ tls_rets d, x ≠ LDAP_SUCCESS →
          (if r.1 = EAGAIN then PamStatus.PAM_AUTHINFO_UNAVAIL
            else PamStatus.PAM_SYSTEM_ERR) =
          if x = LDAP_SERVER_DOWN then PamStatus.PAM_AUTHINFO_UNAVAIL
          else PamStatus.PAM_SYSTEM_ERR) ∧
        (∀ x ∈ setup_rets d, x ≠ LDAP_SUCCESS →
          (if r.1 = EAGAIN then PamStatus.PAM_AUTHINFO_UNAVAIL
            else PamStatus.PAM_SYSTEM_ERR) = PamStatus.PAM_SYSTEM_ERR)) := by
  unfold sdap_init at hr
  generalize lib.ldap_init s.w s.lr.sdap_ctx.ldap_uri = q0 at hr
  obtain ⟨⟨r0, h0⟩, w0⟩ := q0
  dsimp only at hr
  by_cases c0 : r0 ≠ LDAP_SUCCESS
  · rw [if_pos c0] at hr
    subst hr
    refine ⟨rfl, rfl, rfl, rfl, rfl, rfl, rfl, rfl, rfl, rfl, [_], rfl, ?_⟩
    simp [EIO_, EOK, EAGAIN, c0]
  rw [if_neg c0] at hr
  have c0' := not_not.mp c0
  subst c0'
  unfold set_opt at hr
  simp only [emit, setW, setLr] at hr
  rcases hq1 : lib.ldap_set_option w0 h0 (LdapOpt.LDAP_OPT_PROTOCOL_VERSION LDAP_VERSION3)
    with ⟨r1, w1⟩
  simp only [hq1] at hr
  by_cases c1 : r1 ≠ LDAP_OPT_SUCCESS
  · rw [if_pos c1] at hr
    subst hr
    refine ⟨rfl, rfl, rfl, rfl, rfl, rfl, rfl, rfl, rfl, rfl, _,
      by simp only [sdap_init_cleanup, do_unbind, emit, setW, setLr, List.append_assoc]; rfl, ?_⟩
    simp [EIO_, EOK, EAGAIN, sdap_init_cleanup]
  rw [if_neg c1] at hr
  have c1' : r1 = LDAP_SUCCESS := not_not.mp c1
  subst c1'
  rcases hq2 : lib.ldap_set_option w1 h0
    (LdapOpt.LDAP_OPT_NETWORK_TIMEOUT s.lr.sdap_ctx.network_timeout 0) with ⟨r2, w2⟩
  simp only [hq2] at hr
  by_cases c2 : r2 ≠ LDAP_OPT_SUCCESS
  · rw [if_pos c2] at hr
    subst hr
    refine ⟨rfl, rfl, rfl, rfl, rfl, rfl, rfl, rfl, rfl, rfl, _,
      by simp only [sdap_init_cleanup, do_unbind, emit, setW, setLr, List.append_assoc]; rfl, ?_⟩
    simp [EIO_, EOK, EAGAIN, sdap_init_cleanup]
  rw [if_neg c2] at hr
  have c2' : r2 = LDAP_SUCCESS := not_not.mp c2
  subst c2'
  rcases hq3 : lib.ldap_set_option w2 h0
    (LdapOpt.LDAP_OPT_TIMEOUT s.lr.sdap_ctx.opt_timeout 0) with ⟨r3, w3⟩
  simp only [hq3] at hr
  by_cases c3 : r3 ≠ LDAP_OPT_SUCCESS
  · rw [if_pos c3] at hr
    subst hr
    refine ⟨rfl, rfl, rfl, rfl, rfl, rfl, rfl, rfl, rfl, rfl, _,
      by simp only [sdap_init_cleanup, do_unbind, emit, setW, setLr, List.append_assoc]; rfl, ?_⟩
    simp [EIO_, EOK, EAGAIN, sdap_init_cleanup]
  rw [if_neg c3] at hr
  have c3' : r3 = LDAP_SUCCESS := not_not.mp c3
  subst c3'
  unfold start_tls at hr
  simp only [emit, setW, setLr] at hr
  rcases hq4 : lib.ldap_start_tls w3 h0 with ⟨⟨r4, m4⟩, w4⟩
  simp only [hq4] at hr
  by_cases c4 : r4 ≠ LDAP_SUCCESS
  · rw [if_pos c4] at hr
    subst hr
    refine ⟨rfl, rfl, rfl, rfl, rfl, rfl, rfl, rfl, rfl, rfl, _,
      by simp only [sdap_init_cleanup, do_unbind, emit, setW, setLr, List.append_assoc]; rfl, ?_⟩
    by_cases c5 : r4 = LDAP_SERVER_DOWN
    · simp [EIO_, EOK, EAGAIN, c5, sdap_init_cleanup]
    · simp [EIO_, EOK, EAGAIN, c5, sdap_init_cleanup]
  · rw [if_neg c4] at hr
    have c4' : r4 = LDAP_SUCCESS := not_not.mp c4
    subst c4'
    subst hr
    refine ⟨rfl, rfl, rfl, rfl, rfl, rfl, rfl, rfl, rfl, rfl, _,
      by simp only [List.append_assoc]; rfl, ?_⟩
    simp [EOK]

theorem inv_start (lib : LdapLib W) {ctx : sdap_ctx} {pd : pam_data} {cc : Bool}
    {s : Sys W} (h : TimerP ctx pd cc s) :
    Inv ctx pd cc (sdap_start lib { s with timer := false }) := by
  obtain ⟨hK, _, hf, hp, hc, hdn, hld, hr, hb, htl, hse, hx, hco, hS, hU⟩ := h
  obtain ⟨k1, k2, k3, k4, k5, k6⟩ := hK
  unfold sdap_start
  have sp := sdap_init_spec lib { s with timer := false } _ rfl
  generalize sdap_init lib { s with timer := false } = r at sp ⊢
  obtain ⟨ret, s1⟩ := r
  dsimp only at sp ⊢
  obtain ⟨e1, e2, e3, e4, e5, e6, e7, e8, e9, e10, d, e11, d1, d2, d3, d4, d5, d6, d7⟩ := sp
  have hK1 : Keeps ctx pd cc s1 := by
    unfold Keeps
    rw [e1, e2, e5]
    exact ⟨k1, k2, k3, k4, k5, k6⟩
  by_cases c : ret ≠ EOK
  · rw [if_pos c]
    obtain ⟨f1, f2⟩ := d7 c
    refine inv_start_done lib ctx pd cc _ _ hK1 e6 (e9.trans hp) ?_ ?_
    · simp [setLr, e11, hr, d1]
    · simp only [setLr, e11]
      exact Facts_open (by simpa [htl] using f1) (by simpa [hse] using f2)
        (by simp [hS, d3]) (by simp [hU, d3]) (by simp [hx, d4]) (by simp [hco, d5])
  · rw [if_neg c]
    obtain ⟨g1, g2⟩ := d6 (not_not.mp c)
    unfold wait_for_fd
    simp only [setLr, setW, emit]
    rcases hq1 : lib.ldap_get_option_desc s1.w s1.lr.ldap with ⟨⟨r1, fd⟩, w1⟩
    dsimp only
    have hFq : ∀ (st : PamStatus) (q : List Event), (∀ e ∈ q, quiet e) →
        Facts pd st s1.lr.user_dn (s1.log ++ q) := by
      intro st q hq
      refine Facts_quiet ?_ q hq
      rw [e11]
      exact Facts_open (by simp [htl, g2]) (by simp [hse, g1])
        (by simp [hS, d3]) (by simp [hU, d3]) (by simp [hx, d4]) (by simp [hco, d5])
    by_cases c1 : r1 ≠ LDAP_OPT_SUCCESS
    · rw [if_pos c1]
      rw [if_pos (show r1 ≠ EOK from c1)]
      refine inv_start_done lib ctx pd cc _ _ hK1 e6 (e9.trans hp) ?_ ?_
      · simp [e11, hr, d1]
      · exact hFq _ [_] (by simp [quiet])
    · rw [if_neg c1]
      rcases hq2 : lib.tevent_add_fd w1 fd with ⟨ok, w2⟩
      dsimp only
      by_cases c2 : ok = false
      · rw [if_pos c2]
        rw [if_pos (show EIO_ ≠ EOK by decide)]
        refine inv_start_done lib ctx pd cc _ _ hK1 e6 (e9.trans hp) ?_ ?_
        · simp [e11, hr, d1]
        · rw [List.append_assoc]
          exact hFq _ _ (by simp [quiet])
      · rw [if_neg c2]
        rw [if_neg (show ¬ (EOK ≠ EOK) by decide)]
        right; left
        refine ⟨⟨hK1, e6, rfl, e9.trans hp, e10.trans hc, ?_, ?_, ?_, ?_, ?_, ?_⟩, ?_⟩
        · simp [e11, hr, d1]
        · simp [e11, hU, d3]
        · simp [e11, htl, g2]
        · simp [e11, hse, g1]
        · simp [e11, hx, d4]
        · simp [e11, hco, d5]
        · left
          exact ⟨rfl, by simp [e11, hb, d2], e3.trans hdn, by simp [e11, hS, d3]⟩

theorem inv_handler (lib : LdapLib W) (w : W) (ctx : sdap_ctx) (pd : pam_data) (cc : Bool)
    (msgid0 : Int) : Inv ctx pd cc (sdap_pam_handler lib w ctx pd cc msgid0) := by
  unfold sdap_pam_handler schedule_next_task
  simp only [emit, setW, setLr]
  rcases hq1 : lib.gettimeofday w with ⟨r1, w1⟩
  dsimp only
  by_cases c1 : r1 = -1
  · rw [if_pos c1]
    rw [if_pos (show r1 ≠ EOK by rw [c1]; decide)]
    right; right; left
    refine ⟨⟨rfl, rfl, rfl, rfl, rfl, rfl⟩, rfl, rfl, rfl, by simp [sdap_reply, free_lr, emit], ?_⟩
    exact Facts_open (by simp [sdap_reply, free_lr, emit]) (by simp [sdap_reply, free_lr, emit])
      (by simp [sdap_reply, free_lr, emit]) (by simp [sdap_reply, free_lr, emit])
      (by simp [sdap_reply, free_lr, emit]) (by simp [sdap_reply, free_lr, emit])
  · rw [if_neg c1]
    rcases hq2 : lib.tevent_add_timer w1 with ⟨ok, w2⟩
    dsimp only
    by_cases c2 : ok = false
    · rw [if_pos c2]
      rw [if_pos (show EIO_ ≠ EOK by decide)]
      right; right; left
      refine ⟨⟨rfl, rfl, rfl, rfl, rfl, rfl⟩, rfl, rfl, rfl, by simp [sdap_reply, free_lr, emit], ?_⟩
      exact Facts_open (by simp [sdap_reply, free_lr, emit]) (by simp [sdap_reply, free_lr, emit])
        (by simp [sdap_reply, free_lr, emit]) (by simp [sdap_reply, free_lr, emit])
        (by simp [sdap_reply, free_lr, emit]) (by simp [sdap_reply, free_lr, emit])
    · rw [if_neg c2]
      rw [if_neg (show ¬ (EOK ≠ EOK) by decide)]
      left
      exact ⟨⟨rfl, rfl, rfl, rfl, rfl, rfl⟩, rfl, rfl, rfl, rfl, rfl, rfl, by simp, by simp,
        by simp, by simp, by simp, by simp, by simp, by simp⟩

theorem inv_cache_pw_op (lib : LdapLib W) {ctx : sdap_ctx} {pd : pam_data} {cc : Bool}
    {s : Sys W} (h : CacheP ctx pd cc s) (hp : s.pending = Pending.txn)
    (hc : s.crashed = false) :
    Inv ctx pd cc (sdap_cache_pw_op lib { s with pending := Pending.nothing }) := by
  obtain ⟨hK, ht, hn, hst, ha, hcc, hF, hr, hcr⟩ := h
  have hr0 : replies s.log = [] := by
    rcases hr with hr | ⟨_, hr⟩
    · exact hr
    · rw [hp] at hr; exact absurd hr (by decide)
  obtain ⟨k1, k2, k3, k4, k5, k6⟩ := hK
  right; right; right; left
  unfold sdap_cache_pw_op
  have hcmd : s.lr.pd.cmd = PamCmd.SSS_PAM_AUTHENTICATE ∨
      s.lr.pd.cmd = PamCmd.SSS_PAM_CHAUTHTOK := by rw [k2]; exact ha
  rcases hcmd with hcmd | hcmd <;>
  · simp only [hcmd, emit, setW, sdap_reply]
    split_ifs <;> first
    | contradiction
    | refine ⟨⟨k1, k2, k3, k4, k5, k6⟩, ht, hn, hst, ha, hcc, ?_, ?_, ?_⟩
      · simp only [List.append_assoc]
        exact Facts_quiet hF _ (by simp [quiet])
      · first
        | (right; simp [hr0, hst]; done)
        | (left; simp [hr0])
      · first
        | (intro h; rw [hc] at h; exact absurd h (by decide))
        | (intro _; exact ⟨rfl, by simp [hr0]⟩)

theorem inv_cache_pw_callback (lib : LdapLib W) {ctx : sdap_ctx} {pd : pam_data} {cc : Bool}
    {s : Sys W} (h : CacheP ctx pd cc s) (hp : s.pending = Pending.pw)
    (hc : s.crashed = false) (error : Int) :
    Inv ctx pd cc (sdap_cache_pw_callback lib error { s with pending := Pending.nothing }) := by
  obtain ⟨hK, ht, hn, hst, ha, hcc, hF, hr, hcr⟩ := h
  have hr0 : replies s.log = [] := by
    rcases hr with hr | ⟨_, hr⟩
    · exact hr
    · rw [hp] at hr; exact absurd hr (by decide)
  obtain ⟨k1, k2, k3, k4, k5, k6⟩ := hK
  right; right; right; left
  unfold sdap_cache_pw_callback
  simp only [emit, setW, sdap_reply]
  refine ⟨⟨k1, k2, k3, k4, k5, k6⟩, ht, hn, hst, ha, hcc, ?_, ?_, ?_⟩
  · simp only [List.append_assoc]
    exact Facts_quiet hF _ (by simp [quiet])
  · right; simp [hr0, hst]
  · intro h; rw [hc] at h; exact absurd h (by decide)

/-- Every delivery preserves the invariant. -/
theorem inv_step (lib : LdapLib W) {ctx : sdap_ctx} {pd : pam_data} {cc : Bool}
    {s : Sys W} (h : Inv ctx pd cc s) (i : Input) : Inv ctx pd cc (step lib s i) := by
  have hI := h
  rcases h with h | h | h | h | h
  · -- the timer is armed
    have h' := h
    obtain ⟨_, ht, hf, hp, hc, _⟩ := h'
    cases i with
    | timer =>
      simp only [step]
      rw [if_pos ⟨hc, ht⟩]
      exact inv_start lib h
    | fd_ready =>
      simp only [step]
      rw [if_neg (fun c => by rw [hf] at c; exact absurd c.2 (by decide))]
      exact hI
    | txn_ready =>
      simp only [step]
      rw [if_neg (fun c => by rw [hp] at c; exact absurd c.2 (by decide))]
      exact hI
    | pw_done e =>
      simp only [step]
      rw [if_neg (fun c => by rw [hp] at c; exact absurd c.2 (by decide))]
      exact hI
  · -- the state machine waits
    have hM := h.1
    cases i with
    | timer =>
      simp only [step]
      rw [if_neg (fun c => by rw [hM.timer] at c; exact absurd c.2 (by decide))]
      exact hI
    | fd_ready =>
      simp only [step]
      rw [if_pos ⟨hM.crashed, hM.fde⟩]
      exact inv_pam_loop lib h
    | txn_ready =>
      simp only [step]
      rw [if_neg (fun c => by rw [hM.pending] at c; exact absurd c.2 (by decide))]
      exact hI
    | pw_done e =>
      simp only [step]
      rw [if_neg (fun c => by rw [hM.pending] at c; exact absurd c.2 (by decide))]
      exact hI
  · -- the session is released
    have h' := h
    obtain ⟨_, ht, hf, hp, _⟩ := h'
    cases i with
    | timer =>
      simp only [step]
      rw [if_neg (fun c => by rw [ht] at c; exact absurd c.2 (by decide))]
      exact hI
    | fd_ready =>
      simp only [step]
      rw [if_neg (fun c => by rw [hf] at c; exact absurd c.2 (by decide))]
      exact hI
    | txn_ready =>
      simp only [step]
      rw [if_neg (fun c => by rw [hp] at c; exact absurd c.2 (by decide))]
      exact hI
    | pw_done e =>
      simp only [step]
      rw [if_neg (fun c => by rw [hp] at c; exact absurd c.2 (by decide))]
      exact hI
  · -- the session is with the credential cache
    have h' := h
    obtain ⟨_, ht, hn, _, _, _, _, _, hcr⟩ := h'
    cases i with
    | timer =>
      simp only [step]
      rw [if_neg (fun c => by rw [ht] at c; exact absurd c.2 (by decide))]
      exact hI
    | fd_ready =>
      simp only [step, sdap_pam_loop, hn]
      split_ifs <;> exact hI
    | txn_ready =>
      simp only [step]
      split_ifs with c
      · exact inv_cache_pw_op lib h c.2 c.1
      · exact hI
    | pw_done e =>
      simp only [step]
      split_ifs with c
      · exact inv_cache_pw_callback lib h c.2 c.1 e
      · exact hI
  · -- the process is down
    have hc := h.2.1
    cases i <;> simp only [step] <;>
      rw [if_neg (fun c => by rw [hc] at c; exact absurd c.1 (by decide))] <;> exact hI

/-- Every execution preserves the invariant. -/
theorem inv_run (lib : LdapLib W) {ctx : sdap_ctx} {pd : pam_data} {cc : Bool}
    (inputs : List Input) {s : Sys W} (h : Inv ctx pd cc s) :
    Inv ctx pd cc (run lib s inputs) := by
  induction inputs generalizing s with
  | nil => exact h
  | cons i rest ih => exact ih (inv_step lib h i)

/-- The invariant holds in every state that a session reaches. -/
theorem inv_reach (lib : LdapLib W) (w : W) (ctx : sdap_ctx) (pd : pam_data) (cc : Bool)
    (msgid0 : Int) (inputs : List Input) :
    Inv ctx pd cc (run lib (sdap_pam_handler lib w ctx pd cc msgid0) inputs) :=
  inv_run lib inputs (inv_handler lib w ctx pd cc msgid0)

/-! ## The walk over the search result -/

/-- For a given reading of the released chain, the walk over a chain only
looks at its `SearchEntry` messages. -/
theorem search_walk_entries (rel : List LDAPMessage) (u : Option String)
    (msgs : List LDAPMessage) :
    search_walk rel u msgs = search_walk rel u (entries msgs) := by
  induction msgs with
  | nil => rfl
  | cons m ms ih =>
    by_cases hm : m.msgtype = LDAP_RES_SEARCH_ENTRY
    · have he : entries (m :: ms) = m :: entries ms := by simp [entries, hm]
      rw [he]
      simp only [search_walk, hm, if_true]
    · have he : entries (m :: ms) = entries ms := by simp [entries, hm]
      rw [he]
      simp only [search_walk, hm, if_false]
      exact ih

theorem entries_msgtype {msgs : List LDAPMessage} {e : LDAPMessage} (h : e ∈ entries msgs) :
    e.msgtype = LDAP_RES_SEARCH_ENTRY := by
  simpa using (List.mem_filter.mp h).2

theorem walk_released_ne_success (u : Option String) (l : List LDAPMessage) :
    (walk_released u l).1 ≠ some PamStatus.PAM_SUCCESS := by
  induction l with
  | nil => simp [walk_released]
  | cons m ms ih =>
    simp only [walk_released]
    split_ifs
    · simp
    · exact ih

/-- The walk never leaves its loop with `PAM_SUCCESS`. -/
theorem search_walk_ne_success (rel : List LDAPMessage) (u : Option String)
    (msgs : List LDAPMessage) :
    (search_walk rel u msgs).1 ≠ some PamStatus.PAM_SUCCESS := by
  induction msgs with
  | nil => simp [search_walk]
  | cons m ms ih =>
    simp only [search_walk]
    split_ifs
    · simp
    · split
      · simp
      · split_ifs
        · simp
        · exact walk_released_ne_success _ _
    · exact ih

/-- A single entry with the empty DN makes the walk end in `PAM_USER_UNKNOWN`,
before the chain is released. -/
theorem search_walk_empty_dn (msgs : List LDAPMessage) (e : LDAPMessage)
    (h1 : entries msgs = [e]) (hdn : e.dn = some "") :
    (search_walk [] none msgs).1 = some PamStatus.PAM_USER_UNKNOWN := by
  rw [search_walk_entries, h1]
  have t : e.msgtype = LDAP_RES_SEARCH_ENTRY := entries_msgtype (by rw [h1]; simp)
  simp [search_walk, t, hdn]

/-- A delivered poll result recorded in the log is among the results of its
step. -/
theorem mem_ready {st : sdap_auth_steps} {h : Option Nat} {m : Int} {a : Bool} {ret : Int}
    {res : LDAPResult} {log : List Event}
    (hev : Event.ev_result st h m a ret res ∈ log) (h1 : ret ≠ -1) (h0 : ret ≠ 0) :
    res ∈ ready st log := by
  induction log with
  | nil => simp at hev
  | cons e es ih =>
    rcases List.mem_cons.mp hev with he | he
    · subst he
      simp [h1, h0]
    · simp only [ready_cons, List.mem_append]
      exact Or.inr (ih he)

theorem mem_tls_rets {h : Option Nat} {ret m : Int} {log : List Event}
    (hev : Event.ev_start_tls h ret m ∈ log) : ret ∈ tls_rets log := by
  induction log with
  | nil => simp at hev
  | cons e es ih =>
    rcases List.mem_cons.mp hev with he | he
    · subst he; simp
    · simp only [tls_rets_cons, List.mem_append]
      exact Or.inr (ih he)

theorem mem_setup_init {uri : String} {ret : Int} {h : Option Nat} {log : List Event}
    (hev : Event.ev_ldap_init uri ret h ∈ log) : ret ∈ setup_rets log := by
  induction log with
  | nil => simp at hev
  | cons e es ih =>
    rcases List.mem_cons.mp hev with he | he
    · subst he; simp
    · simp only [setup_rets_cons, List.mem_append]
      exact Or.inr (ih he)

theorem mem_setup_option {h : Option Nat} {opt : LdapOpt} {ret : Int} {log : List Event}
    (hev : Event.ev_set_option h opt ret ∈ log) : ret ∈ setup_rets log := by
  induction log with
  | nil => simp at hev
  | cons e es ih =>
    rcases List.mem_cons.mp hev with he | he
    · subst he; simp
    · simp only [setup_rets_cons, List.mem_append]
      exact Or.inr (ih he)

/-! ## Outcomes read off the invariant -/

/-- A search result whose walk leaves the loop early decides the outcome, and
only the service bind has been submitted. -/
theorem outcome_search_err {ctx : sdap_ctx} {pd : pam_data} {cc : Bool} {s : Sys W}
    (hI : Inv ctx pd cc s) {res : LDAPResult}
    (hres : res ∈ ready sdap_auth_steps.SDAP_CHECK_SEARCH_DN_RESULT s.log)
    {e : PamStatus} (hw : (search_walk [] none res.msgs).1 = some e) :
    replies s.log = [e] ∧ (binds s.log).length = 1 := by
  rcases hI with h | h | h | h | h
  · obtain ⟨_, _, _, _, _, _, _, _, _, _, _, _, _, hS, _⟩ := h
    rw [hS] at hres; simp at hres
  · obtain ⟨hM, hs⟩ := h
    rcases hs with ⟨_, _, _, hS⟩ | ⟨_, _, _, hS⟩ | ⟨_, _, _, hS⟩ | ⟨_, _, _, r0, hS, _, hw0⟩
    · rw [hS] at hres; simp at hres
    · rw [hS] at hres; simp at hres
    · rw [hS] at hres; simp at hres
    · rw [hS] at hres
      simp at hres
      subst hres
      rw [hw0] at hw
      simp at hw
  · obtain ⟨_, _, _, _, hr, hF⟩ := h
    obtain ⟨h1, h2⟩ := hF.f_search_err res hres e hw
    rw [hr, h1]
    exact ⟨rfl, h2⟩
  · obtain ⟨_, _, _, _, _, _, hF, _, _⟩ := h
    obtain ⟨h1, _⟩ := hF.f_search_err res hres e hw
    rw [← h1] at hw
    exact absurd hw (search_walk_ne_success _ _ _)
  · obtain ⟨_, _, _, _, _, _, _, _, _, _, hS⟩ := h
    rw [hS res hres] at hw
    exact absurd hw (by simp)

/-- An answered user bind puts the session in a final state: released,
handed to the credential cache, or down inside the password change. -/
theorem final_of_ubind {ctx : sdap_ctx} {pd : pam_data} {cc : Bool} {s : Sys W}
    (hI : Inv ctx pd cc s) {res : LDAPResult}
    (hres : res ∈ ready sdap_auth_steps.SDAP_CHECK_USER_BIND s.log) :
    TermP ctx pd cc s ∨ CacheP ctx pd cc s ∨ CrashP ctx pd cc s := by
  rcases hI with h | h | h | h | h
  · obtain ⟨_, _, _, _, _, _, _, _, _, _, _, _, _, _, hU⟩ := h
    rw [hU] at hres; simp at hres
  · have := h.1.no_ubind
    rw [this] at hres; simp at hres
  · exact Or.inl h
  · exact Or.inr (Or.inl h)
  · exact Or.inr (Or.inr h)

/-- A failed open of the connection decides the outcome. -/
theorem outcome_open {ctx : sdap_ctx} {pd : pam_data} {cc : Bool} {s : Sys W}
    (hI : Inv ctx pd cc s) :
    (∀ r ∈ tls_rets s.log, r ≠ LDAP_SUCCESS →
      replies s.log = [if r = LDAP_SERVER_DOWN then PamStatus.PAM_AUTHINFO_UNAVAIL
                       else PamStatus.PAM_SYSTEM_ERR]) ∧
    (∀ r ∈ setup_rets s.log, r ≠ LDAP_SUCCESS → replies s.log = [PamStatus.PAM_SYSTEM_ERR]) := by
  rcases hI with h | h | h | h | h
  · obtain ⟨_, _, _, _, _, _, _, _, _, hT, hS, _⟩ := h
    rw [hT, hS]; simp
  · have h1 := h.1.tls_ok
    have h2 := h.1.setup_ok
    rw [h1, h2]
    simp
  · obtain ⟨_, _, _, _, hr, hF⟩ := h
    rw [hr]
    exact ⟨fun r hr1 hr2 => by rw [hF.f_tls r hr1 hr2],
      fun r hr1 hr2 => by rw [hF.f_setup r hr1 hr2]⟩
  · obtain ⟨_, _, _, _, _, _, hF, _, _⟩ := h
    refine ⟨fun r hr1 hr2 => ?_, fun r hr1 hr2 => ?_⟩
    · have := hF.f_tls r hr1 hr2
      split_ifs at this
    · exact absurd (hF.f_setup r hr1 hr2) (by decide)
  · obtain ⟨_, _, _, _, _, h1, h2, _⟩ := h
    rw [h1, h2]
    simp

/-- The dispatcher callback is never invoked twice. -/
theorem replies_le_one {ctx : sdap_ctx} {pd : pam_data} {cc : Bool} {s : Sys W}
    (hI : Inv ctx pd cc s) : (replies s.log).length ≤ 1 := by
  rcases hI with h | h | h | h | h
  · obtain ⟨_, _, _, _, _, _, _, hr, _⟩ := h
    rw [hr]; simp
  · rw [h.1.no_reply]; simp
  · obtain ⟨_, _, _, _, hr, _⟩ := h
    rw [hr]; simp
  · obtain ⟨_, _, _, _, _, _, _, hr, _⟩ := h
    rcases hr with hr | ⟨hr, _⟩ <;> rw [hr] <;> simp
  · obtain ⟨_, _, _, _, hr, _⟩ := h
    rw [hr]; simp

/-- Nothing runs after the crash. -/
theorem run_crashed (lib : LdapLib W) (s : Sys W) (h : s.crashed = true)
    (inputs : List Input) : run lib s inputs = s := by
  induction inputs with
  | nil => rfl
  | cons i rest ih =>
    have hs : step lib s i = s := by
      cases i <;> simp [step, h]
    show run lib (step lib s i) rest = s
    rw [hs]
    exact ih

theorem run_append (lib : LdapLib W) (s : Sys W) (a b : List Input) :
    run lib s (a ++ b) = run lib (run lib s a) b := by
  simp [run, List.foldl_append]

/-! ## The claims on the state machine -/

/-- C3: in every execution, when the poll of the user bind delivers a result
that parses, `LDAP_INVALID_CREDENTIALS` makes the dispatcher receive exactly
`PAM_CRED_INSUFFICIENT` (the provider's code for bad credentials), and every
result other than success and invalid credentials makes it receive exactly
`PAM_SYSTEM_ERR`. -/
theorem user_bind_failure_outcome (lib : LdapLib W) (w : W) (ctx : sdap_ctx) (pd : pam_data)
    (cc : Bool) (msgid0 : Int) (inputs : List Input) (h : Option Nat) (m : Int) (a : Bool)
    (ret : Int) (res : LDAPResult)
    (hev : Event.ev_result sdap_auth_steps.SDAP_CHECK_USER_BIND h m a ret res ∈
      (run lib (sdap_pam_handler lib w ctx pd cc msgid0) inputs).log)
    (hret : ret ≠ -1) (hrdy : ret ≠ 0) (hparse : res.parse_ret = LDAP_SUCCESS) :
    (res.ldap_ret = LDAP_INVALID_CREDENTIALS →
      replies (run lib (sdap_pam_handler lib w ctx pd cc msgid0) inputs).log =
        [PamStatus.PAM_CRED_INSUFFICIENT]) ∧
    (res.ldap_ret ≠ LDAP_SUCCESS → res.ldap_ret ≠ LDAP_INVALID_CREDENTIALS →
      replies (run lib (sdap_pam_handler lib w ctx pd cc msgid0) inputs).log =
        [PamStatus.PAM_SYSTEM_ERR]) := by
  have hI := inv_reach lib w ctx pd cc msgid0 inputs
  have hres := mem_ready hev hret hrdy
  rcases final_of_ubind hI hres with hT | hC | hX
  · obtain ⟨_, _, _, _, hr, hF⟩ := hT
    obtain ⟨f1, f2, _, _⟩ := hF.f_ubind res hres hparse
    rw [hr]
    exact ⟨fun c => by rw [f1 c], fun c1 c2 => by rw [f2 c1 c2]⟩
  · obtain ⟨_, _, _, _, _, _, hF, _, _⟩ := hC
    obtain ⟨f1, f2, _, _⟩ := hF.f_ubind res hres hparse
    exact ⟨fun c => absurd (f1 c) (by decide), fun c1 c2 => absurd (f2 c1 c2) (by decide)⟩
  · obtain ⟨_, _, _, _, _, _, _, _, _, hU, _⟩ := hX
    have hs := (hU res hres).2
    exact ⟨fun c => by rw [hs] at c; exact absurd c (by decide), fun c1 _ => absurd hs c1⟩

/-- Witness of C3: `alice` with a wrong password against the stub directory. -/
theorem user_bind_failure_outcome_witness :
    Event.ev_result sdap_auth_steps.SDAP_CHECK_USER_BIND (some 1) 1 false LDAP_RES_BIND
        ⟨[⟨LDAP_RES_BIND, none⟩], LDAP_SUCCESS, LDAP_INVALID_CREDENTIALS⟩ ∈
      (run stub (sdap_pam_handler stub scenario_dir scenario_ctx
        (scenario_pd PamCmd.SSS_PAM_AUTHENTICATE "alice" "wrong" "") true 0) full_schedule).log ∧
    replies (run stub (sdap_pam_handler stub scenario_dir scenario_ctx
        (scenario_pd PamCmd.SSS_PAM_AUTHENTICATE "alice" "wrong" "") true 0) full_schedule).log =
      [PamStatus.PAM_CRED_INSUFFICIENT] :=
  ⟨by decide,
   (user_bind_failure_outcome stub scenario_dir scenario_ctx
      (scenario_pd PamCmd.SSS_PAM_AUTHENTICATE "alice" "wrong" "") true 0 full_schedule
      (some 1) 1 false LDAP_RES_BIND
      ⟨[⟨LDAP_RES_BIND, none⟩], LDAP_SUCCESS, LDAP_INVALID_CREDENTIALS⟩
      (by decide) (by decide) (by decide) rfl).1 rfl⟩

/-- C4 (the code at the failing input): the name `bob` matches two entries of
the directory, each with a DN that is not empty, and the memory released by
`ldap_msgfree(result)` after the first entry is scrubbed.  The walk goes on on
the released chain, finds its end, and the second entry is never seen: an
`AcctMgmt` request is answered with `PAM_SUCCESS`, and an `Authenticate`
request submits a user bind with the DN of the first entry. -/
theorem ambiguous_search_accepted :
    ready sdap_auth_steps.SDAP_CHECK_SEARCH_DN_RESULT
      (run stub_scrubbed (sdap_pam_handler stub_scrubbed scenario_dir scenario_ctx
        (scenario_pd PamCmd.SSS_PAM_ACCT_MGMT "bob" "" "") false 0) full_schedule).log =
      [⟨[⟨LDAP_RES_SEARCH_ENTRY, some "uid=bob,ou=p,dc=x"⟩,
         ⟨LDAP_RES_SEARCH_ENTRY, some "uid=bob,ou=q,dc=x"⟩,
         ⟨LDAP_RES_SEARCH_RESULT, none⟩], LDAP_SUCCESS, LDAP_SUCCESS⟩] ∧
    replies (run stub_scrubbed (sdap_pam_handler stub_scrubbed scenario_dir scenario_ctx
      (scenario_pd PamCmd.SSS_PAM_ACCT_MGMT "bob" "" "") false 0) full_schedule).log =
      [PamStatus.PAM_SUCCESS] ∧
    binds (run stub_scrubbed (sdap_pam_handler stub_scrubbed scenario_dir scenario_ctx
      (scenario_pd PamCmd.SSS_PAM_AUTHENTICATE "bob" "pw" "") false 0) full_schedule).log =
      [(some "cn=svc", ⟨5, some (ascii "svcpw")⟩),
       (some "uid=bob,ou=p,dc=x", ⟨2, some (ascii "pw")⟩)] ∧
    replies (run stub_scrubbed (sdap_pam_handler stub_scrubbed scenario_dir scenario_ctx
      (scenario_pd PamCmd.SSS_PAM_AUTHENTICATE "bob" "pw" "") false 0) full_schedule).log =
      [PamStatus.PAM_CRED_INSUFFICIENT] := by
  decide

/-- C5: in every execution, when the poll of the search delivers a result whose
single `SearchEntry` has the empty DN, the dispatcher receives exactly
`PAM_USER_UNKNOWN` and a single bind, the service bind, has been submitted. -/
theorem search_empty_dn_outcome (lib : LdapLib W) (w : W) (ctx : sdap_ctx) (pd : pam_data)
    (cc : Bool) (msgid0 : Int) (inputs : List Input) (h : Option Nat) (m : Int) (a : Bool)
    (ret : Int) (res : LDAPResult) (e : LDAPMessage)
    (hev : Event.ev_result sdap_auth_steps.SDAP_CHECK_SEARCH_DN_RESULT h m a ret res ∈
      (run lib (sdap_pam_handler lib w ctx pd cc msgid0) inputs).log)
    (hret : ret ≠ -1) (hrdy : ret ≠ 0)
    (h1 : entries res.msgs = [e]) (hdn : e.dn = some "") :
    replies (run lib (sdap_pam_handler lib w ctx pd cc msgid0) inputs).log =
      [PamStatus.PAM_USER_UNKNOWN] ∧
    (binds (run lib (sdap_pam_handler lib w ctx pd cc msgid0) inputs).log).length = 1 :=
  outcome_search_err (inv_reach lib w ctx pd cc msgid0 inputs) (mem_ready hev hret hrdy)
    (search_walk_empty_dn res.msgs e h1 hdn)

/-- Witness of C5: the name `void` matches an entry with the empty DN. -/
theorem search_empty_dn_outcome_witness :
    replies (run stub (sdap_pam_handler stub scenario_dir scenario_ctx
        (scenario_pd PamCmd.SSS_PAM_AUTHENTICATE "void" "pw" "") true 0) full_schedule).log =
      [PamStatus.PAM_USER_UNKNOWN] ∧
    (binds (run stub (sdap_pam_handler stub scenario_dir scenario_ctx
        (scenario_pd PamCmd.SSS_PAM_AUTHENTICATE "void" "pw" "") true 0) full_schedule).log).length
      = 1 :=
  search_empty_dn_outcome stub scenario_dir scenario_ctx
    (scenario_pd PamCmd.SSS_PAM_AUTHENTICATE "void" "pw" "") true 0 full_schedule
    (some 1) 1 true LDAP_RES_SEARCH_RESULT
    ⟨[⟨LDAP_RES_SEARCH_ENTRY, some ""⟩, ⟨LDAP_RES_SEARCH_RESULT, none⟩],
      LDAP_SUCCESS, LDAP_SUCCESS⟩
    ⟨LDAP_RES_SEARCH_ENTRY, some ""⟩
    (by decide) (by decide) (by decide) (by decide) rfl

/-- C6: in every execution, a `ldap_start_tls` that fails with
`LDAP_SERVER_DOWN` makes the dispatcher receive exactly `PAM_AUTHINFO_UNAVAIL`;
a `ldap_start_tls` that fails with another code, a failing `ldap_initialize`
and a failing `ldap_set_option` make it receive exactly `PAM_SYSTEM_ERR`. -/
theorem open_failure_outcome (lib : LdapLib W) (w : W) (ctx : sdap_ctx) (pd : pam_data)
    (cc : Bool) (msgid0 : Int) (inputs : List Input) :
    (∀ h ret m, Event.ev_start_tls h ret m ∈
        (run lib (sdap_pam_handler lib w ctx pd cc msgid0) inputs).log →
      ret = LDAP_SERVER_DOWN →
      replies (run lib (sdap_pam_handler lib w ctx pd cc msgid0) inputs).log =
        [PamStatus.PAM_AUTHINFO_UNAVAIL]) ∧
    (∀ h ret m, Event.ev_start_tls h ret m ∈
        (run lib (sdap_pam_handler lib w ctx pd cc msgid0) inputs).log →
      ret ≠ LDAP_SUCCESS → ret ≠ LDAP_SERVER_DOWN →
      replies (run lib (sdap_pam_handler lib w ctx pd cc msgid0) inputs).log =
        [PamStatus.PAM_SYSTEM_ERR]) ∧
    (∀ uri ret h, Event.ev_ldap_init uri ret h ∈
        (run lib (sdap_pam_handler lib w ctx pd cc msgid0) inputs).log →
      ret ≠ LDAP_SUCCESS →
      replies (run lib (sdap_pam_handler lib w ctx pd cc msgid0) inputs).log =
        [PamStatus.PAM_SYSTEM_ERR]) ∧
    (∀ h opt ret, Event.ev_set_option h opt ret ∈
        (run lib (sdap_pam_handler lib w ctx pd cc msgid0) inputs).log →
      ret ≠ LDAP_OPT_SUCCESS →
      replies (run lib (sdap_pam_handler lib w ctx pd cc msgid0) inputs).log =
        [PamStatus.PAM_SYSTEM_ERR]) := by
  obtain ⟨h1, h2⟩ := outcome_open (inv_reach lib w ctx pd cc msgid0 inputs)
  refine ⟨fun h ret m hev hr => ?_, fun h ret m hev hr hd => ?_,
    fun uri ret h hev hr => h2 ret (mem_setup_init hev) hr,
    fun h opt ret hev hr => h2 ret (mem_setup_option hev) hr⟩
  · have := h1 ret (mem_tls_rets hev) (by rw [hr]; decide)
    rw [this, if_pos hr]
  · have := h1 ret (mem_tls_rets hev) hr
    rw [this, if_neg hd]

/-- Witness of C6: the stub directory behind a server that is down. -/
theorem open_failure_outcome_witness :
    replies (run stub_server_down (sdap_pam_handler stub_server_down scenario_dir scenario_ctx
        (scenario_pd PamCmd.SSS_PAM_AUTHENTICATE "alice" "s3cret" "") true 0)
        full_schedule).log = [PamStatus.PAM_AUTHINFO_UNAVAIL] :=
  (open_failure_outcome stub_server_down scenario_dir scenario_ctx
    (scenario_pd PamCmd.SSS_PAM_AUTHENTICATE "alice" "s3cret" "") true 0 full_schedule).1
    (some 1) LDAP_SERVER_DOWN 0 (by decide) rfl

/-- C7 (the code at the failing input): `AcctMgmt` for `alice`, whose name
matches exactly one entry, with a DN that is not empty; TLS and the service
bind succeed.  After `ldap_msgfree(result)` the walk reads the released chain,
and when the memory of the `SearchResultDone` that followed the entry reads as
a `SearchEntry`, the session ends with `PAM_SYSTEM_ERR` (`Found more than one
object`), not with `PAM_SUCCESS`. -/
theorem session_cmd_single_entry_fails :
    ready sdap_auth_steps.SDAP_CHECK_SEARCH_DN_RESULT
      (run stub_stale (sdap_pam_handler stub_stale scenario_dir scenario_ctx
        (scenario_pd PamCmd.SSS_PAM_ACCT_MGMT "alice" "" "") false 0) full_schedule).log =
      [⟨[⟨LDAP_RES_SEARCH_ENTRY, some "uid=alice,ou=p,dc=x"⟩,
         ⟨LDAP_RES_SEARCH_RESULT, none⟩], LDAP_SUCCESS, LDAP_SUCCESS⟩] ∧
    binds (run stub_stale (sdap_pam_handler stub_stale scenario_dir scenario_ctx
      (scenario_pd PamCmd.SSS_PAM_ACCT_MGMT "alice" "" "") false 0) full_schedule).log =
      [(some "cn=svc", ⟨5, some (ascii "svcpw")⟩)] ∧
    replies (run stub_stale (sdap_pam_handler stub_stale scenario_dir scenario_ctx
      (scenario_pd PamCmd.SSS_PAM_ACCT_MGMT "alice" "" "") false 0) full_schedule).log =
      [PamStatus.PAM_SYSTEM_ERR] := by
  decide

/-- What holds of the password change while the process is up: in every
execution of a `ChangeAuthTok` request in which the poll of the user bind
delivers a result that parses to `LDAP_SUCCESS`, every password-modify
operation submitted carries the OID of RFC 3062 with `user_dn` and the old and
the new password up to their first NUL byte; the recorded outcome is
`PAM_SUCCESS` when the operation was collected and parsed to `LDAP_SUCCESS`
and `PAM_SYSTEM_ERR` in every other case; the dispatcher receives nothing but
the recorded outcome, exactly once when credentials are not cached. -/
theorem chauthtok_outcome (lib : LdapLib W) (w : W) (ctx : sdap_ctx) (pd : pam_data)
    (cc : Bool) (msgid0 : Int) (inputs : List Input) (h : Option Nat) (m : Int) (a : Bool)
    (ret : Int) (res : LDAPResult)
    (hcmd : pd.cmd = PamCmd.SSS_PAM_CHAUTHTOK)
    (hev : Event.ev_result sdap_auth_steps.SDAP_CHECK_USER_BIND h m a ret res ∈
      (run lib (sdap_pam_handler lib w ctx pd cc msgid0) inputs).log)
    (hret : ret ≠ -1) (hrdy : ret ≠ 0) (hparse : res.parse_ret = LDAP_SUCCESS)
    (hcode : res.ldap_ret = LDAP_SUCCESS)
    (hup : (run lib (sdap_pam_handler lib w ctx pd cc msgid0) inputs).crashed = false) :
    (run lib (sdap_pam_handler lib w ctx pd cc msgid0) inputs).lr.pd.pam_status =
      (if LDAP_SUCCESS ∈ exop_codes (run lib (sdap_pam_handler lib w ctx pd cc msgid0) inputs).log
       then PamStatus.PAM_SUCCESS else PamStatus.PAM_SYSTEM_ERR) ∧
    (∀ r ∈ replies (run lib (sdap_pam_handler lib w ctx pd cc msgid0) inputs).log,
      r = (run lib (sdap_pam_handler lib w ctx pd cc msgid0) inputs).lr.pd.pam_status) ∧
    (cc = false →
      replies (run lib (sdap_pam_handler lib w ctx pd cc msgid0) inputs).log =
        [(run lib (sdap_pam_handler lib w ctx pd cc msgid0) inputs).lr.pd.pam_status]) ∧
    (∀ x ∈ exops (run lib (sdap_pam_handler lib w ctx pd cc msgid0) inputs).log,
      x = (LDAP_EXOP_MODIFY_PASSWD,
        (run lib (sdap_pam_handler lib w ctx pd cc msgid0) inputs).lr.user_dn,
        cstr pd.authtok, cstr pd.newauthtok)) ∧
    (LDAP_SUCCESS ∈ exop_codes (run lib (sdap_pam_handler lib w ctx pd cc msgid0) inputs).log →
      exops (run lib (sdap_pam_handler lib w ctx pd cc msgid0) inputs).log =
        [(LDAP_EXOP_MODIFY_PASSWD,
          (run lib (sdap_pam_handler lib w ctx pd cc msgid0) inputs).lr.user_dn,
          cstr pd.authtok, cstr pd.newauthtok)]) := by
  have hI := inv_reach lib w ctx pd cc msgid0 inputs
  have hres := mem_ready hev hret hrdy
  generalize run lib (sdap_pam_handler lib w ctx pd cc msgid0) inputs = s at hI hres hup ⊢
  rcases final_of_ubind hI hres with hT | hC | hX
  · obtain ⟨_, _, _, _, hr, hF⟩ := hT
    obtain ⟨_, _, _, f4⟩ := hF.f_ubind res hres hparse
    refine ⟨f4 hcode hcmd, ?_, fun _ => hr, hF.f_exops, fun hm => ?_⟩
    · rw [hr]; simp
    · exact hF.f_codes (List.ne_nil_of_mem hm)
  · obtain ⟨_, _, _, hst, _, hcc, hF, hr, _⟩ := hC
    obtain ⟨_, _, _, f4⟩ := hF.f_ubind res hres hparse
    refine ⟨by rw [hst]; exact f4 hcode hcmd, ?_, fun c => ?_, hF.f_exops, fun hm => ?_⟩
    · rw [hst]
      rcases hr with hr | ⟨hr, _⟩ <;> rw [hr] <;> simp
    · rw [hcc] at c; exact absurd c (by decide)
    · exact hF.f_codes (List.ne_nil_of_mem hm)
  · rw [hX.2.1] at hup
    exact absurd hup (by decide)

/-- C8 (the code at the failing inputs).  When `ber_printf` fails after the
user bind of a `ChangeAuthTok` request was accepted, the `cleanup:` label of
`sdap_pam_chauthtok` hands the uninitialised `bv` to `ber_bvfree`; with a
`ber_bvfree` that faults on it the process is down, nothing is unbound and the
dispatcher is never called, whatever is delivered afterwards.  And a new
password `n\0w` is submitted as `n`: the operation does not carry the
newauthtok of the request. -/
theorem chauthtok_encode_failure_no_reply (more : List Input) :
    ready sdap_auth_steps.SDAP_CHECK_USER_BIND
      (run stub_encode_fails (sdap_pam_handler stub_encode_fails scenario_dir scenario_ctx
        (scenario_pd PamCmd.SSS_PAM_CHAUTHTOK "alice" "s3cret" "n3w") false 0)
        (full_schedule ++ more)).log =
      [⟨[⟨LDAP_RES_BIND, none⟩], LDAP_SUCCESS, LDAP_SUCCESS⟩] ∧
    (run stub_encode_fails (sdap_pam_handler stub_encode_fails scenario_dir scenario_ctx
      (scenario_pd PamCmd.SSS_PAM_CHAUTHTOK "alice" "s3cret" "n3w") false 0)
      (full_schedule ++ more)).crashed = true ∧
    replies (run stub_encode_fails (sdap_pam_handler stub_encode_fails scenario_dir scenario_ctx
      (scenario_pd PamCmd.SSS_PAM_CHAUTHTOK "alice" "s3cret" "n3w") false 0)
      (full_schedule ++ more)).log = [] ∧
    unbinds (run stub_encode_fails (sdap_pam_handler stub_encode_fails scenario_dir scenario_ctx
      (scenario_pd PamCmd.SSS_PAM_CHAUTHTOK "alice" "s3cret" "n3w") false 0)
      (full_schedule ++ more)).log = [] ∧
    exops (run stub (sdap_pam_handler stub scenario_dir scenario_ctx
      { scenario_pd PamCmd.SSS_PAM_CHAUTHTOK "alice" "s3cret" "" with
        newauthtok := [110, 0, 119] } false 0) full_schedule).log =
      [(LDAP_EXOP_MODIFY_PASSWD, some "uid=alice,ou=p,dc=x", ascii "s3cret", [110])] := by
  rw [run_append, run_crashed _ _ (by decide)]
  decide

/-- C1 (the code at the failing input): `Authenticate` for the name `ghost`,
which matches no entry of the stub directory, with a password that is nobody's.
The second bind is submitted with the DN and password of the service account,
and the dispatcher receives `PAM_SUCCESS`. -/
theorem authenticate_unknown_user_succeeds :
    replies (run stub (sdap_pam_handler stub scenario_dir scenario_ctx
      (scenario_pd PamCmd.SSS_PAM_AUTHENTICATE "ghost" "wrong" "") false 0)
      full_schedule).log = [PamStatus.PAM_SUCCESS] ∧
    binds (run stub (sdap_pam_handler stub scenario_dir scenario_ctx
      (scenario_pd PamCmd.SSS_PAM_AUTHENTICATE "ghost" "wrong" "") false 0)
      full_schedule).log =
      [(some "cn=svc", ⟨5, some (ascii "svcpw")⟩), (some "cn=svc", ⟨5, some (ascii "svcpw")⟩)] ∧
    (run stub (sdap_pam_handler stub scenario_dir scenario_ctx
      (scenario_pd PamCmd.SSS_PAM_AUTHENTICATE "ghost" "wrong" "") false 0)
      full_schedule).lr.user_dn = none := by
  decide

/-- C2 (the code at the failing input): `AcctMgmt` for the name `ghost`, which
matches no entry of the stub directory.  The search result holds the
`SearchResultDone` message alone, and the dispatcher receives `PAM_SUCCESS`,
not `PAM_USER_UNKNOWN`. -/
theorem search_without_entry_succeeds :
    ready sdap_auth_steps.SDAP_CHECK_SEARCH_DN_RESULT
      (run stub (sdap_pam_handler stub scenario_dir scenario_ctx
        (scenario_pd PamCmd.SSS_PAM_ACCT_MGMT "ghost" "" "") false 0) full_schedule).log =
      [⟨[⟨LDAP_RES_SEARCH_RESULT, none⟩], LDAP_SUCCESS, LDAP_SUCCESS⟩] ∧
    replies (run stub (sdap_pam_handler stub scenario_dir scenario_ctx
      (scenario_pd PamCmd.SSS_PAM_ACCT_MGMT "ghost" "" "") false 0) full_schedule).log =
      [PamStatus.PAM_SUCCESS] := by
  decide

/-- C10 (the code at the failing input): a successful `Authenticate` with
credential caching enabled, when `talloc_zero` cannot allocate the
`struct sdap_pw_cache`.  The session has recorded `PAM_SUCCESS`, dereferences
the null pointer, and the dispatcher callback is never invoked, whatever is
delivered afterwards. -/
theorem cache_alloc_failure_no_reply (more : List Input) :
    (run stub_no_memory (sdap_pam_handler stub_no_memory scenario_dir scenario_ctx
      (scenario_pd PamCmd.SSS_PAM_AUTHENTICATE "alice" "s3cret" "") true 0)
      (full_schedule ++ more)).crashed = true ∧
    (run stub_no_memory (sdap_pam_handler stub_no_memory scenario_dir scenario_ctx
      (scenario_pd PamCmd.SSS_PAM_AUTHENTICATE "alice" "s3cret" "") true 0)
      (full_schedule ++ more)).lr.pd.pam_status = PamStatus.PAM_SUCCESS ∧
    replies (run stub_no_memory (sdap_pam_handler stub_no_memory scenario_dir scenario_ctx
      (scenario_pd PamCmd.SSS_PAM_AUTHENTICATE "alice" "s3cret" "") true 0)
      (full_schedule ++ more)).log = [] := by
  rw [run_append, run_crashed _ _ (by decide)]
  decide

/-! ## The round trip against the stub directory -/

theorem stub_start (w : Stub) (ctx : sdap_ctx) (pd : pam_data) (cc : Bool) (m0 : Int) :
    step stub (sdap_pam_handler stub w ctx pd cc m0) Input.timer =
      { w := { w with last := single_result LDAP_RES_EXTENDED LDAP_SUCCESS }
        lr := { pd := pd, sdap_ctx := ctx, ldap := some 1, user_dn := none,
                next_task := NextTask.sdap_pam_loop,
                next_step := sdap_auth_steps.SDAP_CHECK_INIT_RESULT, msgid := 1 }
        cache_credentials := cc
        log := [Event.ev_gettimeofday 0, Event.ev_add_timer true,
          Event.ev_ldap_init ctx.ldap_uri 0 (some 1),
          Event.ev_set_option (some 1) (LdapOpt.LDAP_OPT_PROTOCOL_VERSION 3) 0,
          Event.ev_set_option (some 1) (LdapOpt.LDAP_OPT_NETWORK_TIMEOUT ctx.network_timeout 0) 0,
          Event.ev_set_option (some 1) (LdapOpt.LDAP_OPT_TIMEOUT ctx.opt_timeout 0) 0,
          Event.ev_start_tls (some 1) 0 1,
          Event.ev_get_option_desc (some 1) 0 3,
          Event.ev_add_fd 3 true]
        timer := false, fde := true, alive := true, pending := Pending.nothing,
        crashed := false } := by
  simp [step, sdap_pam_handler, schedule_next_task, sdap_start, sdap_init, set_opt, start_tls,
    wait_for_fd, stub, emit, setW, setLr, EOK, EIO_, LDAP_SUCCESS, LDAP_OPT_SUCCESS,
    LDAP_VERSION3]

theorem stub_result (w : Stub) (h : Option Nat) (m : Int) (a b : Bool) :
    stub.ldap_result w h m a b = (w.last, w) := rfl
theorem stub_install (w : Stub) (h : Option Nat) : stub.ldap_install_tls w h = (0, w) := rfl
theorem stub_sasl_bind (w : Stub) (h : Option Nat) (dn : Option String) (pw : berval) :
    stub.ldap_sasl_bind w h dn pw =
      ((0, 1), { w with last := (97, ⟨[⟨97, none⟩], 0, stub_bind_code w.passwords dn pw⟩) }) :=
  rfl
theorem stub_search (w : Stub) (h : Option Nat) (b : String) (sc : Int) (f : String)
    (at_ : List String) :
    stub.ldap_search_ext w h b sc f at_ =
      ((0, 1), { w with last := (101, ⟨stub_search_chain w.entries f, 0, 0⟩) }) := rfl
theorem stub_unbind (w : Stub) (h : Option Nat) : stub.ldap_unbind_ext w h = w := rfl
theorem stub_ber_alloc (w : Stub) : stub.ber_alloc_t w = (true, w) := rfl
theorem stub_ber_printf (w : Stub) (d : Option String) (a b : Bytes) :
    stub.ber_printf w d a b = (0, w) := rfl
theorem stub_ber_flatten (w : Stub) : stub.ber_flatten w = (0, w) := rfl
theorem stub_exop (w : Stub) (h : Option Nat) (oid : String) (d : Option String) (a b : Bytes) :
    stub.ldap_extended_operation w h oid d a b = ((0, 1), stub_passwd w d a b) := rfl
theorem stub_talloc_zero (w : Stub) : stub.talloc_zero w = (true, w) := rfl
theorem stub_talloc_strndup (w : Stub) : stub.talloc_strndup w = (true, w) := rfl
theorem stub_set_destructor (w : Stub) : stub.talloc_set_destructor w = (true, w) := rfl
theorem stub_transaction (w : Stub) : stub.sysdb_transaction w = (0, w) := rfl
theorem stub_set_cached (w : Stub) (u : String) (p : Bytes) :
    stub.sysdb_set_cached_password w u p = (0, { w with cache := store u p w.cache }) := rfl
theorem stub_transaction_done (w : Stub) (e : Int) : stub.sysdb_transaction_done w e = w := rfl
theorem stub_freed_chain (w : Stub) (msgs : List LDAPMessage) :
    stub.freed_chain w msgs = after_entry msgs := rfl
theorem stub_bvfree (w : Stub) : stub.ber_bvfree w = (true, w) := rfl

/-- Reading a C string twice reads the same bytes. -/
theorem cstr_cstr (b : Bytes) : cstr (cstr b) = cstr b := by
  unfold cstr
  rw [List.takeWhile_eq_self_iff]
  intro x hx
  exact List.mem_takeWhile_imp (p := fun y => y != 0) hx

/-- The stub directory refuses the service bind: `PAM_SYSTEM_ERR`. -/
theorem stub_svc_refused (dir : Stub) (ctx : sdap_ctx) (user : String) (old new : Bytes)
    (st1 : PamStatus) (cc : Bool) (m1 : Int)
    (h1 : stub_bind_code dir.passwords (svc_bind ctx).1 (svc_bind ctx).2 ≠ 0) :
    replies (run stub (sdap_pam_handler stub dir ctx
      ⟨PamCmd.SSS_PAM_CHAUTHTOK, user, old, new, st1⟩ cc m1) full_schedule).log = [PamStatus.PAM_SYSTEM_ERR] := by
  simp only [run, full_schedule, List.foldl]
  rw [stub_start]
  rcases hd : ctx.default_bind_dn with _ | sd
  · simp [svc_bind, hd, stub_bind_code, LDAP_SUCCESS] at h1
  simp [svc_bind, hd, stub_bind_code, LDAP_SUCCESS, LDAP_INVALID_CREDENTIALS] at h1
  cases cc <;>
  simp [step, sdap_pam_loop, case_check_init_result, poll, install_tls, sdap_bind,
    stub_result, stub_install, stub_sasl_bind, stub_bind_code,
    emit, setW, setLr, single_result, LDAP_SUCCESS, LDAP_RES_EXTENDED, LDAP_RES_BIND,
    LDAP_INVALID_CREDENTIALS, bind_dn, bind_pw, case_check_std_bind, stub_unbind,
    loop_done, do_unbind, sdap_reply, free_lr, hd, h1]

/-- The stub directory finds no entry for a `ChangeAuthTok`: the second bind
is the service bind again, and the password change without a DN is refused. -/
theorem stub_no_entry (dir : Stub) (ctx : sdap_ctx) (user : String) (old new : Bytes)
    (st1 : PamStatus) (cc : Bool) (m1 : Int)
    (h1 : stub_bind_code dir.passwords (svc_bind ctx).1 (svc_bind ctx).2 = 0)
    (h2 : (dir.entries.lookup ("(&(" ++ ctx.user_name_attribute ++ "=" ++ user ++
      ")(objectclass=" ++ ctx.user_object_class ++ "))")).getD [] = []) :
    replies (run stub (sdap_pam_handler stub dir ctx
      ⟨PamCmd.SSS_PAM_CHAUTHTOK, user, old, new, st1⟩ cc m1) full_schedule).log = [PamStatus.PAM_SYSTEM_ERR] := by
  simp only [run, full_schedule, List.foldl]
  rw [stub_start]
  rcases hd : ctx.default_bind_dn with _ | sd <;>
  simp [svc_bind, hd, stub_bind_code, LDAP_SUCCESS, LDAP_INVALID_CREDENTIALS] at h1 <;>
  cases cc <;>
  simp [step, sdap_pam_loop, case_check_init_result, poll, install_tls, sdap_bind,
    stub_result, stub_install, stub_sasl_bind, stub_search, stub_unbind, stub_ber_alloc,
    stub_ber_printf, stub_ber_flatten, stub_exop, stub_talloc_zero, stub_talloc_strndup,
    stub_transaction, stub_set_cached, stub_transaction_done, stub_bind_code,
    emit, setW, setLr, single_result, LDAP_SUCCESS, LDAP_RES_EXTENDED, LDAP_RES_BIND,
    LDAP_RES_SEARCH_RESULT, LDAP_RES_SEARCH_ENTRY, LDAP_INVALID_CREDENTIALS, LDAP_OTHER,
    bind_dn, bind_pw, case_check_std_bind, search_ext, search_filter,
    case_check_search_dn_result, stub_search_chain, search_walk, walk_released, after_entry,
    stub_freed_chain, stub_bvfree, chauthtok_cleanup_uninit, cstr_cstr, after_search,
    case_check_user_bind, after_user_bind, sdap_pam_chauthtok, stub_passwd, stub_passwd_code,
    stub_passwd_store, loop_done, do_unbind, sdap_reply, free_lr, sdap_cache_password,
    sdap_cache_pw_op, sdap_cache_pw_callback, EOK, hd, h1, h2]

/-- The first entry that the stub directory finds has the empty DN. -/
theorem stub_empty_dn (dir : Stub) (ctx : sdap_ctx) (user : String) (old new : Bytes)
    (st1 : PamStatus) (cc : Bool) (m1 : Int) (rest : List String)
    (h1 : stub_bind_code dir.passwords (svc_bind ctx).1 (svc_bind ctx).2 = 0)
    (h2 : (dir.entries.lookup ("(&(" ++ ctx.user_name_attribute ++ "=" ++ user ++
      ")(objectclass=" ++ ctx.user_object_class ++ "))")).getD [] = "" :: rest) :
    replies (run stub (sdap_pam_handler stub dir ctx
      ⟨PamCmd.SSS_PAM_CHAUTHTOK, user, old, new, st1⟩ cc m1) full_schedule).log = [PamStatus.PAM_USER_UNKNOWN] := by
  simp only [run, full_schedule, List.foldl]
  rw [stub_start]
  rcases hd : ctx.default_bind_dn with _ | sd <;>
  simp [svc_bind, hd, stub_bind_code, LDAP_SUCCESS, LDAP_INVALID_CREDENTIALS] at h1 <;>
  cases cc <;>
  simp [step, sdap_pam_loop, case_check_init_result, poll, install_tls, sdap_bind,
    stub_result, stub_install, stub_sasl_bind, stub_search, stub_unbind, stub_ber_alloc,
    stub_ber_printf, stub_ber_flatten, stub_exop, stub_talloc_zero, stub_talloc_strndup,
    stub_transaction, stub_set_cached, stub_transaction_done, stub_bind_code,
    emit, setW, setLr, single_result, LDAP_SUCCESS, LDAP_RES_EXTENDED, LDAP_RES_BIND,
    LDAP_RES_SEARCH_RESULT, LDAP_RES_SEARCH_ENTRY, LDAP_INVALID_CREDENTIALS, LDAP_OTHER,
    bind_dn, bind_pw, case_check_std_bind, search_ext, search_filter,
    case_check_search_dn_result, stub_search_chain, search_walk, walk_released, after_entry,
    stub_freed_chain, stub_bvfree, chauthtok_cleanup_uninit, cstr_cstr, after_search,
    case_check_user_bind, after_user_bind, sdap_pam_chauthtok, stub_passwd, stub_passwd_code,
    stub_passwd_store, loop_done, do_unbind, sdap_reply, free_lr, sdap_cache_password,
    sdap_cache_pw_op, sdap_cache_pw_callback, EOK, hd, h1, h2]

/-- The stub directory finds two entries or more. -/
theorem stub_two_entries (dir : Stub) (ctx : sdap_ctx) (user : String) (old new : Bytes)
    (st1 : PamStatus) (cc : Bool) (m1 : Int) (d d2 : String) (rest : List String)
    (h1 : stub_bind_code dir.passwords (svc_bind ctx).1 (svc_bind ctx).2 = 0)
    (h2 : (dir.entries.lookup ("(&(" ++ ctx.user_name_attribute ++ "=" ++ user ++
      ")(objectclass=" ++ ctx.user_object_class ++ "))")).getD [] = d :: d2 :: rest) (h3 : d ≠ "") :
    replies (run stub (sdap_pam_handler stub dir ctx
      ⟨PamCmd.SSS_PAM_CHAUTHTOK, user, old, new, st1⟩ cc m1) full_schedule).log = [PamStatus.PAM_SYSTEM_ERR] := by
  simp only [run, full_schedule, List.foldl]
  rw [stub_start]
  rcases hd : ctx.default_bind_dn with _ | sd <;>
  simp [svc_bind, hd, stub_bind_code, LDAP_SUCCESS, LDAP_INVALID_CREDENTIALS] at h1 <;>
  cases cc <;>
  simp [step, sdap_pam_loop, case_check_init_result, poll, install_tls, sdap_bind,
    stub_result, stub_install, stub_sasl_bind, stub_search, stub_unbind, stub_ber_alloc,
    stub_ber_printf, stub_ber_flatten, stub_exop, stub_talloc_zero, stub_talloc_strndup,
    stub_transaction, stub_set_cached, stub_transaction_done, stub_bind_code,
    emit, setW, setLr, single_result, LDAP_SUCCESS, LDAP_RES_EXTENDED, LDAP_RES_BIND,
    LDAP_RES_SEARCH_RESULT, LDAP_RES_SEARCH_ENTRY, LDAP_INVALID_CREDENTIALS, LDAP_OTHER,
    bind_dn, bind_pw, case_check_std_bind, search_ext, search_filter,
    case_check_search_dn_result, stub_search_chain, search_walk, walk_released, after_entry,
    stub_freed_chain, stub_bvfree, chauthtok_cleanup_uninit, cstr_cstr, after_search,
    case_check_user_bind, after_user_bind, sdap_pam_chauthtok, stub_passwd, stub_passwd_code,
    stub_passwd_store, loop_done, do_unbind, sdap_reply, free_lr, sdap_cache_password,
    sdap_cache_pw_op, sdap_cache_pw_callback, EOK, hd, h1, h2, h3]

/-- The stub directory refuses the user bind of a `ChangeAuthTok`. -/
theorem stub_user_refused (dir : Stub) (ctx : sdap_ctx) (user : String) (old new : Bytes)
    (st1 : PamStatus) (cc : Bool) (m1 : Int) (d : String)
    (h1 : stub_bind_code dir.passwords (svc_bind ctx).1 (svc_bind ctx).2 = 0)
    (h2 : (dir.entries.lookup ("(&(" ++ ctx.user_name_attribute ++ "=" ++ user ++
      ")(objectclass=" ++ ctx.user_object_class ++ "))")).getD [] = [d]) (h3 : d ≠ "")
    (h4 : dir.passwords.lookup d ≠ some old) :
    replies (run stub (sdap_pam_handler stub dir ctx
      ⟨PamCmd.SSS_PAM_CHAUTHTOK, user, old, new, st1⟩ cc m1) full_schedule).log = [PamStatus.PAM_CRED_INSUFFICIENT] := by
  simp only [run, full_schedule, List.foldl]
  rw [stub_start]
  rcases hd : ctx.default_bind_dn with _ | sd <;>
  simp [svc_bind, hd, stub_bind_code, LDAP_SUCCESS, LDAP_INVALID_CREDENTIALS] at h1 <;>
  cases cc <;>
  simp [step, sdap_pam_loop, case_check_init_result, poll, install_tls, sdap_bind,
    stub_result, stub_install, stub_sasl_bind, stub_search, stub_unbind, stub_ber_alloc,
    stub_ber_printf, stub_ber_flatten, stub_exop, stub_talloc_zero, stub_talloc_strndup,
    stub_transaction, stub_set_cached, stub_transaction_done, stub_bind_code,
    emit, setW, setLr, single_result, LDAP_SUCCESS, LDAP_RES_EXTENDED, LDAP_RES_BIND,
    LDAP_RES_SEARCH_RESULT, LDAP_RES_SEARCH_ENTRY, LDAP_INVALID_CREDENTIALS, LDAP_OTHER,
    bind_dn, bind_pw, case_check_std_bind, search_ext, search_filter,
    case_check_search_dn_result, stub_search_chain, search_walk, walk_released, after_entry,
    stub_freed_chain, stub_bvfree, chauthtok_cleanup_uninit, cstr_cstr, after_search,
    case_check_user_bind, after_user_bind, sdap_pam_chauthtok, stub_passwd, stub_passwd_code,
    stub_passwd_store, loop_done, do_unbind, sdap_reply, free_lr, sdap_cache_password,
    sdap_cache_pw_op, sdap_cache_pw_callback, EOK, hd, h1, h2, h3, h4]

/-- The stub directory refuses the password change. -/
theorem stub_passwd_refused (dir : Stub) (ctx : sdap_ctx) (user : String) (old new : Bytes)
    (st1 : PamStatus) (cc : Bool) (m1 : Int) (d : String)
    (h1 : stub_bind_code dir.passwords (svc_bind ctx).1 (svc_bind ctx).2 = 0)
    (h2 : (dir.entries.lookup ("(&(" ++ ctx.user_name_attribute ++ "=" ++ user ++
      ")(objectclass=" ++ ctx.user_object_class ++ "))")).getD [] = [d]) (h3 : d ≠ "")
    (h4 : dir.passwords.lookup d = some old) (h5 : cstr old ≠ old) :
    replies (run stub (sdap_pam_handler stub dir ctx
      ⟨PamCmd.SSS_PAM_CHAUTHTOK, user, old, new, st1⟩ cc m1) full_schedule).log = [PamStatus.PAM_SYSTEM_ERR] := by
  have h5' : ¬ old = cstr old := fun h => h5 h.symm
  simp only [run, full_schedule, List.foldl]
  rw [stub_start]
  rcases hd : ctx.default_bind_dn with _ | sd <;>
  simp [svc_bind, hd, stub_bind_code, LDAP_SUCCESS, LDAP_INVALID_CREDENTIALS] at h1 <;>
  cases cc <;>
  simp [step, sdap_pam_loop, case_check_init_result, poll, install_tls, sdap_bind,
    stub_result, stub_install, stub_sasl_bind, stub_search, stub_unbind, stub_ber_alloc,
    stub_ber_printf, stub_ber_flatten, stub_exop, stub_talloc_zero, stub_talloc_strndup,
    stub_transaction, stub_set_cached, stub_transaction_done, stub_bind_code,
    emit, setW, setLr, single_result, LDAP_SUCCESS, LDAP_RES_EXTENDED, LDAP_RES_BIND,
    LDAP_RES_SEARCH_RESULT, LDAP_RES_SEARCH_ENTRY, LDAP_INVALID_CREDENTIALS, LDAP_OTHER,
    bind_dn, bind_pw, case_check_std_bind, search_ext, search_filter,
    case_check_search_dn_result, stub_search_chain, search_walk, walk_released, after_entry,
    stub_freed_chain, stub_bvfree, chauthtok_cleanup_uninit, cstr_cstr, after_search,
    case_check_user_bind, after_user_bind, sdap_pam_chauthtok, stub_passwd, stub_passwd_code,
    stub_passwd_store, loop_done, do_unbind, sdap_reply, free_lr, sdap_cache_password,
    sdap_cache_pw_op, sdap_cache_pw_callback, EOK, hd, h1, h2, h3, h4, h5']

/-- The stub directory accepts the password change: the stored password of
the user's DN becomes the new password, read as a C string. -/
theorem stub_passwd_accepted (dir : Stub) (ctx : sdap_ctx) (user : String) (old new : Bytes)
    (st1 : PamStatus) (cc : Bool) (m1 : Int) (d : String)
    (h1 : stub_bind_code dir.passwords (svc_bind ctx).1 (svc_bind ctx).2 = 0)
    (h2 : (dir.entries.lookup ("(&(" ++ ctx.user_name_attribute ++ "=" ++ user ++
      ")(objectclass=" ++ ctx.user_object_class ++ "))")).getD [] = [d]) (h3 : d ≠ "")
    (h4 : dir.passwords.lookup d = some old) (h5 : cstr old = old) :
    replies (run stub (sdap_pam_handler stub dir ctx
      ⟨PamCmd.SSS_PAM_CHAUTHTOK, user, old, new, st1⟩ cc m1) full_schedule).log = [PamStatus.PAM_SUCCESS] ∧
    (run stub (sdap_pam_handler stub dir ctx
      ⟨PamCmd.SSS_PAM_CHAUTHTOK, user, old, new, st1⟩ cc m1) full_schedule).w.passwords = store d (cstr new) dir.passwords ∧
    (run stub (sdap_pam_handler stub dir ctx
      ⟨PamCmd.SSS_PAM_CHAUTHTOK, user, old, new, st1⟩ cc m1) full_schedule).w.entries = dir.entries ∧
    (run stub (sdap_pam_handler stub dir ctx
      ⟨PamCmd.SSS_PAM_CHAUTHTOK, user, old, new, st1⟩ cc m1) full_schedule).lr.user_dn = some d := by
  simp only [run, full_schedule, List.foldl]
  rw [stub_start]
  rcases hd : ctx.default_bind_dn with _ | sd <;>
  simp [svc_bind, hd, stub_bind_code, LDAP_SUCCESS, LDAP_INVALID_CREDENTIALS] at h1 <;>
  cases cc <;>
  simp [step, sdap_pam_loop, case_check_init_result, poll, install_tls, sdap_bind,
    stub_result, stub_install, stub_sasl_bind, stub_search, stub_unbind, stub_ber_alloc,
    stub_ber_printf, stub_ber_flatten, stub_exop, stub_talloc_zero, stub_talloc_strndup,
    stub_transaction, stub_set_cached, stub_transaction_done, stub_bind_code,
    emit, setW, setLr, single_result, LDAP_SUCCESS, LDAP_RES_EXTENDED, LDAP_RES_BIND,
    LDAP_RES_SEARCH_RESULT, LDAP_RES_SEARCH_ENTRY, LDAP_INVALID_CREDENTIALS, LDAP_OTHER,
    bind_dn, bind_pw, case_check_std_bind, search_ext, search_filter,
    case_check_search_dn_result, stub_search_chain, search_walk, walk_released, after_entry,
    stub_freed_chain, stub_bvfree, chauthtok_cleanup_uninit, cstr_cstr, after_search,
    case_check_user_bind, after_user_bind, sdap_pam_chauthtok, stub_passwd, stub_passwd_code,
    stub_passwd_store, loop_done, do_unbind, sdap_reply, free_lr, sdap_cache_password,
    sdap_cache_pw_op, sdap_cache_pw_callback, EOK, hd, h1, h2, h3, h4, h5]

/-- The stub directory accepts an `Authenticate` of a user with one entry. -/
theorem stub_authenticate_accepted (dir : Stub) (ctx : sdap_ctx) (user : String)
    (tok new : Bytes) (st1 : PamStatus) (cc : Bool) (m1 : Int) (d : String)
    (h1 : stub_bind_code dir.passwords (svc_bind ctx).1 (svc_bind ctx).2 = 0)
    (h2 : (dir.entries.lookup ("(&(" ++ ctx.user_name_attribute ++ "=" ++ user ++
      ")(objectclass=" ++ ctx.user_object_class ++ "))")).getD [] = [d]) (h3 : d ≠ "")
    (h4 : dir.passwords.lookup d = some tok) :
    replies (run stub (sdap_pam_handler stub dir ctx
      ⟨PamCmd.SSS_PAM_AUTHENTICATE, user, tok, new, st1⟩ cc m1) full_schedule).log = [PamStatus.PAM_SUCCESS] := by
  simp only [run, full_schedule, List.foldl]
  rw [stub_start]
  rcases hd : ctx.default_bind_dn with _ | sd <;>
  simp [svc_bind, hd, stub_bind_code, LDAP_SUCCESS, LDAP_INVALID_CREDENTIALS] at h1 <;>
  cases cc <;>
  simp [step, sdap_pam_loop, case_check_init_result, poll, install_tls, sdap_bind,
    stub_result, stub_install, stub_sasl_bind, stub_search, stub_unbind, stub_ber_alloc,
    stub_ber_printf, stub_ber_flatten, stub_exop, stub_talloc_zero, stub_talloc_strndup,
    stub_transaction, stub_set_cached, stub_transaction_done, stub_bind_code,
    emit, setW, setLr, single_result, LDAP_SUCCESS, LDAP_RES_EXTENDED, LDAP_RES_BIND,
    LDAP_RES_SEARCH_RESULT, LDAP_RES_SEARCH_ENTRY, LDAP_INVALID_CREDENTIALS, LDAP_OTHER,
    bind_dn, bind_pw, case_check_std_bind, search_ext, search_filter,
    case_check_search_dn_result, stub_search_chain, search_walk, walk_released, after_entry,
    stub_freed_chain, stub_bvfree, chauthtok_cleanup_uninit, cstr_cstr, after_search,
    case_check_user_bind, after_user_bind, sdap_pam_chauthtok, stub_passwd, stub_passwd_code,
    stub_passwd_store, loop_done, do_unbind, sdap_reply, free_lr, sdap_cache_password,
    sdap_cache_pw_op, sdap_cache_pw_callback, EOK, hd, h1, h2, h3, h4]

theorem lookup_store_eq {α : Type} (k : String) (v : α) (l : List (String × α)) :
    (store k v l).lookup k = some v := by
  induction l with
  | nil => simp [store, List.lookup]
  | cons p rest ih =>
    obtain ⟨k1, v1⟩ := p
    by_cases h : k1 = k
    · simp [store, h, List.lookup]
    · have h' : (k == k1) = false := by simpa using fun e => h e.symm
      simp [store, h, List.lookup, h', ih]

theorem lookup_store_ne {α : Type} (k k2 : String) (v : α) (l : List (String × α))
    (hne : k2 ≠ k) : (store k v l).lookup k2 = l.lookup k2 := by
  induction l with
  | nil =>
    have h' : (k2 == k) = false := by simpa using hne
    simp [store, List.lookup, h']
  | cons p rest ih =>
    obtain ⟨k1, v1⟩ := p
    by_cases h : k1 = k
    · subst h
      have h' : (k2 == k1) = false := by simpa using hne
      simp [store, List.lookup, h']
    · simp only [store, h, if_false, List.lookup]
      split
      · rfl
      · exact ih

theorem cstr_of_no_nul (b : Bytes) (h : ∀ x ∈ b, x ≠ 0) : cstr b = b := by
  unfold cstr
  rw [List.takeWhile_eq_self_iff]
  intro x hx
  simpa using h x hx

/-- The service bind is answered the same after a password change of another
DN. -/
theorem stub_bind_code_store (passwords : List (String × Bytes)) (d : String) (v : Bytes)
    (dn : Option String) (pw : berval) (hne : dn ≠ some d) :
    stub_bind_code (store d v passwords) dn pw = stub_bind_code passwords dn pw := by
  cases dn with
  | none => rfl
  | some k =>
    have hk : k ≠ d := fun e => hne (by rw [e])
    simp only [stub_bind_code, lookup_store_ne d k v passwords hk]

/-- C9 as amended: against the stub directory, for every user, every old
password and every new password without a NUL byte, when a `ChangeAuthTok`
session reports `PAM_SUCCESS` and the DN found for the user is not the DN of
the service bind, an `Authenticate` session that follows at once for the same
user with the new password reports `PAM_SUCCESS`. -/
theorem chauthtok_then_authenticate (dir : Stub) (ctx : sdap_ctx) (user : String)
    (old new other : Bytes) (st1 st2 : PamStatus) (cc1 cc2 : Bool) (m1 m2 : Int)
    (hnul : ∀ b ∈ new, b ≠ 0)
    (hok : replies (run stub (sdap_pam_handler stub dir ctx
      ⟨PamCmd.SSS_PAM_CHAUTHTOK, user, old, new, st1⟩ cc1 m1) full_schedule).log =
      [PamStatus.PAM_SUCCESS])
    (hsvc : ctx.default_bind_dn ≠ (run stub (sdap_pam_handler stub dir ctx
      ⟨PamCmd.SSS_PAM_CHAUTHTOK, user, old, new, st1⟩ cc1 m1) full_schedule).lr.user_dn) :
    replies (run stub (sdap_pam_handler stub
      (run stub (sdap_pam_handler stub dir ctx
        ⟨PamCmd.SSS_PAM_CHAUTHTOK, user, old, new, st1⟩ cc1 m1) full_schedule).w ctx
      ⟨PamCmd.SSS_PAM_AUTHENTICATE, user, new, other, st2⟩ cc2 m2) full_schedule).log =
      [PamStatus.PAM_SUCCESS] := by
  by_cases h1 : stub_bind_code dir.passwords (svc_bind ctx).1 (svc_bind ctx).2 = 0
  swap
  · rw [stub_svc_refused dir ctx user old new st1 cc1 m1 h1] at hok
    exact absurd hok (by decide)
  rcases hdns : (dir.entries.lookup ("(&(" ++ ctx.user_name_attribute ++ "=" ++ user ++
      ")(objectclass=" ++ ctx.user_object_class ++ "))")).getD [] with _ | ⟨d, _ | ⟨d2, rest⟩⟩
  · rw [stub_no_entry dir ctx user old new st1 cc1 m1 h1 hdns] at hok
    exact absurd hok (by decide)
  · by_cases h3 : d = ""
    · subst h3
      rw [stub_empty_dn dir ctx user old new st1 cc1 m1 [] h1 hdns] at hok
      exact absurd hok (by decide)
    by_cases h4 : dir.passwords.lookup d = some old
    swap
    · rw [stub_user_refused dir ctx user old new st1 cc1 m1 d h1 hdns h3 h4] at hok
      exact absurd hok (by decide)
    by_cases h5 : cstr old = old
    swap
    · rw [stub_passwd_refused dir ctx user old new st1 cc1 m1 d h1 hdns h3 h4 h5] at hok
      exact absurd hok (by decide)
    obtain ⟨_, e1, e2, e3⟩ :=
      stub_passwd_accepted dir ctx user old new st1 cc1 m1 d h1 hdns h3 h4 h5
    rw [e3] at hsvc
    have hsvc' : (svc_bind ctx).1 ≠ some d := by
      unfold svc_bind
      split_ifs with hc
      · exact hsvc
      · simp
    apply stub_authenticate_accepted _ ctx user new other st2 cc2 m2 d
    · rw [e1, stub_bind_code_store _ _ _ _ _ hsvc']
      exact h1
    · rw [e2]
      exact hdns
    · exact h3
    · rw [e1, lookup_store_eq, cstr_of_no_nul new hnul]
  · by_cases h3 : d = ""
    · subst h3
      rw [stub_empty_dn dir ctx user old new st1 cc1 m1 _ h1 hdns] at hok
      exact absurd hok (by decide)
    · rw [stub_two_entries dir ctx user old new st1 cc1 m1 d d2 rest h1 hdns h3] at hok
      exact absurd hok (by decide)

/-- Witness of C9 as amended: `alice` changes her password from `s3cret` to
`n3w` and authenticates with `n3w`. -/
theorem chauthtok_then_authenticate_witness :
    replies (run stub (sdap_pam_handler stub scenario_dir scenario_ctx
      (scenario_pd PamCmd.SSS_PAM_CHAUTHTOK "alice" "s3cret" "n3w") true 0)
      full_schedule).log = [PamStatus.PAM_SUCCESS] ∧
    replies (run stub (sdap_pam_handler stub
      (run stub (sdap_pam_handler stub scenario_dir scenario_ctx
        (scenario_pd PamCmd.SSS_PAM_CHAUTHTOK "alice" "s3cret" "n3w") true 0)
        full_schedule).w scenario_ctx
      (scenario_pd PamCmd.SSS_PAM_AUTHENTICATE "alice" "n3w" "") true 0) full_schedule).log =
      [PamStatus.PAM_SUCCESS] :=
  ⟨by decide,
   chauthtok_then_authenticate scenario_dir scenario_ctx "alice" (ascii "s3cret")
     (ascii "n3w") (ascii "") PamStatus.PAM_SUCCESS PamStatus.PAM_SUCCESS true true 0 0
     (by decide) (by decide) (by decide)⟩

/-- Counterexample to C9 as stated: the service account of the configuration
is `alice` herself.  Her `ChangeAuthTok` reports `PAM_SUCCESS`; the
`Authenticate` that follows with the new password reports `PAM_SYSTEM_ERR`,
because the service bind still uses the configured old password. -/
theorem chauthtok_then_authenticate_fails :
    replies (run stub (sdap_pam_handler stub scenario_dir scenario_self_ctx
      (scenario_pd PamCmd.SSS_PAM_CHAUTHTOK "alice" "s3cret" "n3w") false 0)
      full_schedule).log = [PamStatus.PAM_SUCCESS] ∧
    replies (run stub (sdap_pam_handler stub
      (run stub (sdap_pam_handler stub scenario_dir scenario_self_ctx
        (scenario_pd PamCmd.SSS_PAM_CHAUTHTOK "alice" "s3cret" "n3w") false 0)
        full_schedule).w scenario_self_ctx
      (scenario_pd PamCmd.SSS_PAM_AUTHENTICATE "alice" "n3w" "") false 0) full_schedule).log =
      [PamStatus.PAM_SYSTEM_ERR] := by
  decide

/-- A new password with a NUL byte: the password-modify operation stores the
bytes before the NUL, the bind that follows sends all the bytes, and the
`Authenticate` reports `PAM_CRED_INSUFFICIENT`. -/
theorem chauthtok_nul_then_authenticate_fails :
    replies (run stub (sdap_pam_handler stub scenario_dir scenario_ctx
      ⟨PamCmd.SSS_PAM_CHAUTHTOK, "alice", ascii "s3cret", [110, 0, 119],
        PamStatus.PAM_SUCCESS⟩ false 0) full_schedule).log = [PamStatus.PAM_SUCCESS] ∧
    replies (run stub (sdap_pam_handler stub
      (run stub (sdap_pam_handler stub scenario_dir scenario_ctx
        ⟨PamCmd.SSS_PAM_CHAUTHTOK, "alice", ascii "s3cret", [110, 0, 119],
          PamStatus.PAM_SUCCESS⟩ false 0) full_schedule).w scenario_ctx
      ⟨PamCmd.SSS_PAM_AUTHENTICATE, "alice", [110, 0, 119], [], PamStatus.PAM_SUCCESS⟩
      false 0) full_schedule).log = [PamStatus.PAM_CRED_INSUFFICIENT] := by
  decide

/-! ## Milestones of the log -/

@[simp] theorem milestones_nil : milestones [] = [] := rfl
@[simp] theorem milestones_cons (e : Event) (l : List Event) :
    milestones (e :: l) = (milestoneOf e).toList ++ milestones l := fm_cons _ e l
@[simp] theorem milestones_append (a b : List Event) :
    milestones (a ++ b) = milestones a ++ milestones b := by
  simp [milestones]

@[simp] theorem failures_nil : failures [] = [] := rfl
@[simp] theorem failures_cons (e : Event) (l : List Event) :
    failures (e :: l) = (failOf e).toList ++ failures l := fm_cons _ e l
@[simp] theorem failures_append (a b : List Event) :
    failures (a ++ b) = failures a ++ failures b := by
  simp [failures]

@[simp] theorem searches_nil : searches [] = [] := rfl
@[simp] theorem searches_cons (e : Event) (l : List Event) :
    searches (e :: l) = (searchOf e).toList ++ searches l := fm_cons _ e l
@[simp] theorem searches_append (a b : List Event) :
    searches (a ++ b) = searches a ++ searches b := by
  simp [searches]

@[simp] theorem writes_nil : writes [] = [] := rfl
@[simp] theorem writes_cons (e : Event) (l : List Event) :
    writes (e :: l) = (writeOf e).toList ++ writes l := fm_cons _ e l
@[simp] theorem writes_append (a b : List Event) :
    writes (a ++ b) = writes a ++ writes b := by
  simp [writes]

@[simp] theorem handoffs_nil : handoffs [] = [] := rfl
@[simp] theorem handoffs_cons (e : Event) (l : List Event) :
    handoffs (e :: l) = (handoffOf e).toList ++ handoffs l := fm_cons _ e l
@[simp] theorem handoffs_append (a b : List Event) :
    handoffs (a ++ b) = handoffs a ++ handoffs b := by
  simp [handoffs]

@[simp] theorem cache_failures_nil : cache_failures [] = [] := rfl
@[simp] theorem cache_failures_cons (e : Event) (l : List Event) :
    cache_failures (e :: l) = (cacheFailOf e).toList ++ cache_failures l := fm_cons _ e l
@[simp] theorem cache_failures_append (a b : List Event) :
    cache_failures (a ++ b) = cache_failures a ++ cache_failures b := by
  simp [cache_failures]

@[simp] theorem tls_steps_nil : tls_steps [] = [] := rfl
@[simp] theorem tls_steps_cons (e : Event) (l : List Event) :
    tls_steps (e :: l) = (tlsStepOf e).toList ++ tls_steps l := fm_cons _ e l
@[simp] theorem tls_steps_append (a b : List Event) :
    tls_steps (a ++ b) = tls_steps a ++ tls_steps b := by
  simp [tls_steps]

@[simp] theorem ops_nil : ops [] = [] := rfl
@[simp] theorem ops_cons (e : Event) (l : List Event) :
    ops (e :: l) = (opOf e).toList ++ ops l := fm_cons _ e l
@[simp] theorem ops_append (a b : List Event) : ops (a ++ b) = ops a ++ ops b := by
  simp [ops]

/-- A summary `f` that only reads the events kept by a selection `g` can be
computed on the selected events. -/
theorem summary_of_selection {α : Type} (g : Event → Option Event)
    (hg : ∀ e e2, g e = some e2 → e2 = e) (f : Event → Option α)
    (hf : ∀ e, g e = none → f e = none) (log : List Event) :
    log.filterMap f = (log.filterMap g).filterMap f := by
  induction log with
  | nil => rfl
  | cons e l ih =>
    rw [fm_cons g, List.filterMap_append, ← ih, fm_cons]
    congr 1
    cases h : g e with
    | none => simp [hf e h]
    | some e2 =>
      have := hg e e2 h
      subst this
      cases hfe : f e2 <;> simp [hfe]

theorem milestoneOf_eq (e e2 : Event) (h : milestoneOf e = some e2) : e2 = e := by
  cases e <;> simp at h <;> exact h.symm

theorem opOf_eq (e e2 : Event) (h : opOf e = some e2) : e2 = e := by
  cases e <;> simp at h <;> exact h.symm

theorem summary_of_milestones {α : Type} (f : Event → Option α)
    (hf : ∀ e, milestoneOf e = none → f e = none) (log : List Event) :
    log.filterMap f = (milestones log).filterMap f :=
  summary_of_selection milestoneOf milestoneOf_eq f hf log

theorem binds_ops (log : List Event) : binds log = binds (ops log) :=
  summary_of_selection opOf opOf_eq bindOf (fun e h => by cases e <;> simp at h ⊢) log

theorem searches_ops (log : List Event) : searches log = searches (ops log) :=
  summary_of_selection opOf opOf_eq searchOf (fun e h => by cases e <;> simp at h ⊢) log

theorem exops_ops (log : List Event) : exops log = exops (ops log) :=
  summary_of_selection opOf opOf_eq exopOf (fun e h => by cases e <;> simp at h ⊢) log

theorem unbinds_milestones (log : List Event) : unbinds log = unbinds (milestones log) :=
  summary_of_milestones unbindOf (fun e h => by cases e <;> simp at h ⊢) log

theorem replies_milestones (log : List Event) : replies log = replies (milestones log) :=
  summary_of_milestones replyOf (fun e h => by cases e <;> simp at h ⊢) log

theorem writes_milestones (log : List Event) : writes log = writes (milestones log) :=
  summary_of_milestones writeOf (fun e h => by cases e <;> simp at h ⊢) log

theorem handoffs_milestones (log : List Event) : handoffs log = handoffs (milestones log) :=
  summary_of_milestones handoffOf (fun e h => by cases e <;> simp at h ⊢) log

theorem cache_failures_milestones (log : List Event) :
    cache_failures log = cache_failures (milestones log) :=
  summary_of_milestones cacheFailOf (fun e h => by cases e <;> simp at h ⊢) log

theorem mem_tls_steps {e : Event} {log : List Event} (h : e ∈ log)
    (hm : tlsStepOf e = some e) : e ∈ tls_steps log := by
  unfold tls_steps
  exact List.mem_filterMap.mpr ⟨e, h, hm⟩

/-- A milestone of the log is among its milestones. -/
theorem mem_milestones {e : Event} {log : List Event} (h : e ∈ log)
    (hm : milestoneOf e = some e) : e ∈ milestones log := by
  unfold milestones
  exact List.mem_filterMap.mpr ⟨e, h, hm⟩

/-! ## Ways out of the state machine -/

theorem Ext_refl (s : Sys W) : Ext s s [] :=
  ⟨s.w, s.lr.user_dn, s.lr.next_task, s.lr.next_step, s.lr.msgid, by simp⟩

theorem search_args_ext (lr : sdap_req) (dn : Option String) (task : NextTask)
    (step : sdap_auth_steps) (msgid : Int) :
    search_args { lr with user_dn := dn, next_task := task, next_step := step, msgid := msgid } =
      search_args lr := rfl

theorem Clean_append {lr : sdap_req} {d1 d2 : List Event} (h1 : Clean lr d1)
    (h2 : Clean lr d2) : Clean lr (d1 ++ d2) := by
  obtain ⟨a1, t1, b1⟩ := h1
  obtain ⟨a2, t2, b2⟩ := h2
  refine ⟨by simp [a1, a2], by simp [t1, t2], ?_⟩
  intro x hx
  simp only [searches_append, List.mem_append] at hx
  rcases hx with hx | hx
  · exact b1 x hx
  · exact b2 x hx

/-- Reaching the `done:` label is a way out. -/
theorem out_fin (lib : LdapLib W) {s r : Sys W}
    (h : ∃ s1 d st, Ext s s1 d ∧ Clean s.lr d ∧
      (st = PamStatus.PAM_SUCCESS → s1.lr.next_step = sdap_auth_steps.SDAP_NOOP) ∧
      r = loop_done lib st s1) : Out lib s r :=
  Or.inr (Or.inl h)

/-- The way out of a continuation is a way out of the state it continues. -/
theorem Out_ext (lib : LdapLib W) {s s1 r : Sys W} {d : List Event} (hE : Ext s s1 d)
    (hC : Clean s.lr d) (hF : failures d = []) (hO : Out lib s1 r) : Out lib s r := by
  obtain ⟨w, dn, task, step, msgid, rfl⟩ := hE
  rcases hO with ⟨d2, ⟨w2, dn2, task2, step2, msgid2, rfl⟩, hC2, hF2, hA⟩ |
    ⟨s2, d2, st, ⟨w2, dn2, task2, step2, msgid2, rfl⟩, hC2, hN, rfl⟩ |
    ⟨s2, d2, ⟨w2, dn2, task2, step2, msgid2, rfl⟩, hC2, hF2, rfl⟩
  · left
    refine ⟨d ++ d2, ⟨w2, dn2, task2, step2, msgid2, by simp [List.append_assoc]⟩,
      Clean_append hC hC2, by simp [hF, hF2], hA⟩
  · right; left
    refine ⟨_, d ++ d2, st, ⟨w2, dn2, task2, step2, msgid2, by simp [List.append_assoc]⟩,
      Clean_append hC hC2, hN, rfl⟩
  · right; right
    refine ⟨_, d ++ d2, ⟨w2, dn2, task2, step2, msgid2, by simp [List.append_assoc]⟩,
      Clean_append hC hC2, by simp [hF, hF2], rfl⟩

/-- What `sdap_pam_chauthtok` does to the session. -/
theorem chauthtok_ext (lib : LdapLib W) (s : Sys W) :
    ∃ d, Ext s (sdap_pam_chauthtok lib s).2 d ∧ Clean s.lr d ∧ failures d = [] ∧
      (sdap_pam_chauthtok lib s).2.lr.next_step = s.lr.next_step := by
  unfold sdap_pam_chauthtok
  simp only [chauthtok_cleanup_uninit, emit, setW]
  generalize lib.ber_alloc_t s.w = a
  obtain ⟨a1, wa⟩ := a
  dsimp only
  generalize lib.ber_printf wa s.lr.user_dn (cstr s.lr.pd.authtok) (cstr s.lr.pd.newauthtok) = p
  obtain ⟨p1, wp⟩ := p
  dsimp only
  generalize lib.ber_bvfree wp = v1
  obtain ⟨v11, wv1⟩ := v1
  generalize lib.ber_flatten wp = f
  obtain ⟨f1, wf⟩ := f
  dsimp only
  generalize lib.ber_bvfree wf = v2
  obtain ⟨v21, wv2⟩ := v2
  generalize lib.ldap_extended_operation wf s.lr.ldap LDAP_EXOP_MODIFY_PASSWD s.lr.user_dn
    (cstr s.lr.pd.authtok) (cstr s.lr.pd.newauthtok) = x
  obtain ⟨⟨x1, x2⟩, wx⟩ := x
  dsimp only
  generalize lib.ldap_result wx s.lr.ldap x2 false true = r
  obtain ⟨⟨r1, r2⟩, wr⟩ := r
  dsimp only
  split_ifs <;>
    exact ⟨_, ⟨_, _, _, _, _, by simp only [List.append_assoc]; rfl⟩, by simp [Clean],
      by simp, rfl⟩

theorem out_after_user_bind (lib : LdapLib W) (s : Sys W)
    (hn : s.lr.next_step = sdap_auth_steps.SDAP_NOOP) : Out lib s (after_user_bind lib s) := by
  unfold after_user_bind
  split
  · exact out_fin lib ⟨s, [], _, Ext_refl s, by simp [Clean], fun _ => hn, rfl⟩
  · obtain ⟨d, hE, hC, hF, hs⟩ := chauthtok_ext lib s
    dsimp only
    split
    · exact Or.inr (Or.inr ⟨_, d, hE, hC, hF, rfl⟩)
    · exact out_fin lib ⟨_, d, _, hE, hC, fun _ => hs.trans hn, rfl⟩
  all_goals exact out_fin lib ⟨s, [], _, Ext_refl s, by simp [Clean], fun _ => hn, rfl⟩

theorem out_user_bind (lib : LdapLib W) (s : Sys W) :
    Out lib s (case_check_user_bind lib s) := by
  unfold case_check_user_bind poll
  generalize lib.ldap_result s.w s.lr.ldap s.lr.msgid false false = q
  obtain ⟨⟨ret, res⟩, w1⟩ := q
  simp only [emit, setW, setLr]
  split_ifs with h1 h2 h3 h4 h5
  · exact out_fin lib ⟨_, [_], _, ⟨_, _, _, _, _, rfl⟩, by simp [Clean], by simp, rfl⟩
  · exact Or.inl ⟨[_], ⟨_, _, _, _, _, rfl⟩, by simp [Clean], by simp [h1, h2],
      by simp [Later]⟩
  · exact out_fin lib ⟨_, [_], _, ⟨_, _, _, _, _, rfl⟩, by simp [Clean], by simp, rfl⟩
  · refine Out_ext lib (d := [_]) ⟨_, _, _, _, _, rfl⟩ (by simp [Clean]) ?_
      (out_after_user_bind lib _ rfl)
    have h3' := not_not.mp h3
    simp [h1, h2, h3', h4]
  · exact out_fin lib ⟨_, [_], _, ⟨_, _, _, _, _, rfl⟩, by simp [Clean], by simp, rfl⟩
  · exact out_fin lib ⟨_, [_], _, ⟨_, _, _, _, _, rfl⟩, by simp [Clean], by simp, rfl⟩

theorem out_after_search (lib : LdapLib W) (s : Sys W)
    (hn : s.lr.next_step = sdap_auth_steps.SDAP_NOOP) : Out lib s (after_search lib s) := by
  have hauth : Out lib s
      (let b := sdap_bind lib s
       if b.1 ≠ LDAP_SUCCESS then loop_done lib PamStatus.PAM_SYSTEM_ERR b.2
       else case_check_user_bind lib b.2) := by
    unfold sdap_bind
    generalize lib.ldap_sasl_bind s.w s.lr.ldap (bind_dn s.lr) (bind_pw s.lr) = q
    obtain ⟨⟨ret, mid⟩, w1⟩ := q
    simp only [emit, setW, setLr]
    by_cases h1 : ret = -1 ∨ mid = -1
    · rw [if_pos h1]
      dsimp only
      rw [if_pos (by decide)]
      exact out_fin lib ⟨_, [_], _, ⟨_, _, _, _, _, rfl⟩, by simp [Clean], by simp, rfl⟩
    · rw [if_neg h1]
      dsimp only
      rw [if_neg (by decide)]
      exact Out_ext lib (d := [_]) ⟨_, _, _, _, _, rfl⟩ (by simp [Clean]) (by simp [h1])
        (out_user_bind lib _)
  unfold after_search
  split
  · exact hauth
  · exact hauth
  all_goals exact out_fin lib ⟨s, [], _, Ext_refl s, by simp [Clean], fun _ => hn, rfl⟩

theorem out_search (lib : LdapLib W) (s : Sys W) :
    Out lib s (case_check_search_dn_result lib s) := by
  unfold case_check_search_dn_result poll
  generalize lib.ldap_result s.w s.lr.ldap s.lr.msgid true false = q
  obtain ⟨⟨ret, res⟩, w1⟩ := q
  simp only [emit, setW, setLr]
  split_ifs with h1 h2
  · exact out_fin lib ⟨_, [_], _, ⟨_, _, _, _, _, rfl⟩, by simp [Clean], by simp, rfl⟩
  · exact Or.inl ⟨[_], ⟨_, _, _, _, _, rfl⟩, by simp [Clean], by simp [h1, h2],
      by simp [Later]⟩
  · split
    · exact out_fin lib ⟨_, [_], _, ⟨_, _, _, _, _, rfl⟩, by simp [Clean], by simp, rfl⟩
    · split
      · exact out_fin lib ⟨_, [_], _, ⟨_, _, _, _, _, rfl⟩, by simp [Clean], by simp, rfl⟩
      · exact Out_ext lib (d := [_]) ⟨_, _, _, _, _, rfl⟩ (by simp [Clean]) (by simp [h1])
          (out_after_search lib _ rfl)

theorem out_std_bind (lib : LdapLib W) (s : Sys W) :
    Out lib s (case_check_std_bind lib s) := by
  unfold case_check_std_bind poll
  generalize lib.ldap_result s.w s.lr.ldap s.lr.msgid false false = q
  obtain ⟨⟨ret, res⟩, w1⟩ := q
  simp only [emit, setW, setLr]
  split_ifs with h1 h2 h3 h4 h5
  · exact out_fin lib ⟨_, [_], _, ⟨_, _, _, _, _, rfl⟩, by simp [Clean], by simp, rfl⟩
  · exact Or.inl ⟨[_], ⟨_, _, _, _, _, rfl⟩, by simp [Clean], by simp [h1, h2],
      by simp [Later]⟩
  · exact out_fin lib ⟨_, [_], _, ⟨_, _, _, _, _, rfl⟩, by simp [Clean], by simp, rfl⟩
  · exact out_fin lib ⟨_, [_], _, ⟨_, _, _, _, _, rfl⟩, by simp [Clean], by simp, rfl⟩
  · unfold search_ext
    simp only [emit, setW, setLr]
    exact out_fin lib ⟨_, [_, _], _, ⟨_, _, _, _, _, by simp only [List.append_assoc]; rfl⟩,
      by simp [Clean, search_args, search_filter], by simp, rfl⟩
  · unfold search_ext at h5 ⊢
    simp only [emit, setW, setLr] at h5 ⊢
    have h3' := not_not.mp h3
    have h4' := not_not.mp h4
    have h5' := not_not.mp h5
    exact Out_ext lib (d := [_, _]) ⟨_, _, _, _, _, by simp only [List.append_assoc]; rfl⟩
      (by simp [Clean, search_args, search_filter]) (by simp [h1, h2, h3', h4', h5'])
      (out_search lib _)

/-- What follows a successful `ldap_install_tls` in `SDAP_CHECK_INIT_RESULT`:
the service bind and the code from `SDAP_CHECK_STD_BIND` on. -/
theorem out_service_bind (lib : LdapLib W) (s : Sys W) :
    Out lib s
      (let b := sdap_bind lib s
       if b.1 ≠ LDAP_SUCCESS then loop_done lib PamStatus.PAM_SYSTEM_ERR b.2
       else case_check_std_bind lib b.2) := by
  unfold sdap_bind
  generalize lib.ldap_sasl_bind s.w s.lr.ldap (bind_dn s.lr) (bind_pw s.lr) = q
  obtain ⟨⟨ret, mid⟩, w1⟩ := q
  simp only [emit, setW, setLr]
  by_cases h1 : ret = -1 ∨ mid = -1
  · rw [if_pos h1]
    dsimp only
    rw [if_pos (by decide)]
    exact out_fin lib ⟨_, [_], _, ⟨_, _, _, _, _, rfl⟩, by simp [Clean], by simp, rfl⟩
  · rw [if_neg h1]
    dsimp only
    rw [if_neg (by decide)]
    exact Out_ext lib (d := [_]) ⟨_, _, _, _, _, rfl⟩ (by simp [Clean]) (by simp [h1])
      (out_std_bind lib _)

/-- The three ways through `SDAP_CHECK_INIT_RESULT`: the session waits on, the
TLS set-up fails with `PAM_SYSTEM_ERR` before anything is submitted, or TLS
comes up and the service bind follows. -/
theorem init_result_cases (lib : LdapLib W) (s : Sys W) :
    (∃ d, Ext s (case_check_init_result lib s) d ∧ Clean s.lr d ∧ ops d = [] ∧
      searches d = [] ∧ failures d = [] ∧
      (case_check_init_result lib s).lr.next_step = sdap_auth_steps.SDAP_CHECK_INIT_RESULT) ∨
    (∃ s1 d, Ext s s1 d ∧ milestones d = [] ∧ ops d = [] ∧ searches d = [] ∧
      (tls_steps d = [] ∨ TlsBad d) ∧
      case_check_init_result lib s = loop_done lib PamStatus.PAM_SYSTEM_ERR s1) ∨
    (∃ s1 d, Ext s s1 d ∧ milestones d = [] ∧ ops d = [] ∧ searches d = [] ∧
      failures d = [] ∧ TlsUp d ∧ Out lib s1 (case_check_init_result lib s)) := by
  unfold case_check_init_result poll
  generalize lib.ldap_result s.w s.lr.ldap s.lr.msgid false false = q
  obtain ⟨⟨ret, res⟩, w1⟩ := q
  simp only [emit, setW, setLr]
  by_cases h1 : ret = -1
  · rw [if_pos h1]
    exact Or.inr (Or.inl ⟨_, [_], ⟨_, _, _, _, _, rfl⟩, by simp, by simp, by simp,
      Or.inl (by simp [h1]), rfl⟩)
  rw [if_neg h1]
  by_cases h2 : ret = 0
  · rw [if_pos h2]
    exact Or.inl ⟨[_], ⟨_, _, _, _, _, rfl⟩, by simp [Clean, h2], by simp, by simp,
      by simp [h1, h2], rfl⟩
  rw [if_neg h2]
  by_cases h3 : res.parse_ret ≠ LDAP_SUCCESS
  · rw [if_pos h3]
    exact Or.inr (Or.inl ⟨_, [_], ⟨_, _, _, _, _, rfl⟩, by simp, by simp, by simp,
      Or.inr (Or.inl ⟨s.lr.ldap, s.lr.msgid, false, ret, res, by simp [h1, h2], Or.inl h3⟩), rfl⟩)
  rw [if_neg h3]
  by_cases h4 : res.ldap_ret ≠ LDAP_SUCCESS
  · rw [if_pos h4]
    exact Or.inr (Or.inl ⟨_, [_], ⟨_, _, _, _, _, rfl⟩, by simp, by simp, by simp,
      Or.inr (Or.inl ⟨s.lr.ldap, s.lr.msgid, false, ret, res, by simp [h1, h2], Or.inr h4⟩), rfl⟩)
  rw [if_neg h4]
  unfold install_tls
  simp only [emit, setW, setLr]
  generalize lib.ldap_install_tls w1 s.lr.ldap = qi
  obtain ⟨ri, w2⟩ := qi
  dsimp only
  have h3' := not_not.mp h3
  have h4' := not_not.mp h4
  by_cases h5 : ri ≠ LDAP_SUCCESS
  · rw [if_pos h5]
    exact Or.inr (Or.inl ⟨_, [_, _], ⟨_, _, _, _, _, by simp only [List.append_assoc]; rfl⟩,
      by simp, by simp, by simp,
      Or.inr (Or.inr ⟨s.lr.ldap, s.lr.msgid, false, ret, res, ri, by simp [h1, h2], h5⟩), rfl⟩)
  rw [if_neg h5]
  have h5' := not_not.mp h5
  subst h5'
  exact Or.inr (Or.inr ⟨_, [_, _], ⟨_, _, _, _, _, by simp only [List.append_assoc]; rfl⟩,
    by simp, by simp, by simp, by simp [h1, h2, h3', h4'],
    ⟨[], [], s.lr.ldap, s.lr.msgid, false, ret, res, by simp, by simp, by simp, by simp,
      h1, h2, h3', h4'⟩,
    out_service_bind lib _⟩)

/-! ## The second invariant -/

theorem TlsUp_ext {log d : List Event} (h : TlsUp log) (ht : tls_steps d = []) :
    TlsUp (log ++ d) := by
  obtain ⟨l1, l2, h1, m, a, ret, res, e, o1, t1, t2, r1, r2, p1, p2⟩ := h
  exact ⟨l1, l2 ++ d, h1, m, a, ret, res, by simp [e], o1, t1, by simp [t2, ht], r1, r2,
    p1, p2⟩

theorem TlsUp_pre {log d : List Event} (ho : ops log = []) (ht : tls_steps log = [])
    (h : TlsUp d) : TlsUp (log ++ d) := by
  obtain ⟨l1, l2, h1, m, a, ret, res, e, o1, t1, t2, r1, r2, p1, p2⟩ := h
  exact ⟨log ++ l1, l2, h1, m, a, ret, res, by simp [e], by simp [ho, o1], by simp [ht, t1],
    t2, r1, r2, p1, p2⟩

/-- The TLS steps of a log in which TLS is up. -/
theorem TlsUp_steps {log : List Event} (h : TlsUp log) :
    ∃ h1 m a ret res,
      tls_steps log = [Event.ev_result sdap_auth_steps.SDAP_CHECK_INIT_RESULT h1 m a ret res,
                       Event.ev_install_tls h1 LDAP_SUCCESS] ∧
      res.parse_ret = LDAP_SUCCESS ∧ res.ldap_ret = LDAP_SUCCESS := by
  obtain ⟨l1, l2, h1, m, a, ret, res, e, o1, t1, t2, r1, r2, p1, p2⟩ := h
  exact ⟨h1, m, a, ret, res, by simp [e, t1, t2, r1, r2], p1, p2⟩

theorem Stage_ext {st : PamStatus} {log d : List Event} (h : Stage st log)
    (ht : tls_steps d = []) (ho : ops d = []) : Stage st (log ++ d) := by
  rcases h with ⟨a, b⟩ | h | ⟨h, b, c⟩
  · exact Or.inl ⟨by simp [a, ht], by simp [b, ho]⟩
  · exact Or.inr (Or.inl (TlsUp_ext h ht))
  · refine Or.inr (Or.inr ⟨?_, by simp [b, ho], c⟩)
    rcases h with ⟨h1, m, a, ret, res, e, p⟩ | ⟨h1, m, a, ret, res, r, e, p⟩
    · exact Or.inl ⟨h1, m, a, ret, res, by simp [e, ht], p⟩
    · exact Or.inr ⟨h1, m, a, ret, res, r, by simp [e, ht], p⟩

theorem SearchOK_ext {ctx : sdap_ctx} {pd : pam_data} {log d : List Event}
    (h : SearchOK ctx pd log) (hd : searches d = []) : SearchOK ctx pd (log ++ d) := by
  intro x hx
  simp only [searches_append, hd, List.append_nil] at hx
  exact h x hx

theorem inv2_done_tail (lib : LdapLib W) (ctx : sdap_ctx) (pd : pam_data) (cc : Bool)
    (st : PamStatus) (s : Sys W) (pre : List Event)
    (hK : Keeps ctx pd cc s) (ht : s.timer = false) (hp : s.pending = Pending.nothing)
    (hpre : Closed pre) (hm : milestones s.log = pre)
    (hS : SearchOK ctx pd s.log) (hG : Stage st s.log)
    (hn : st = PamStatus.PAM_SUCCESS →
      s.lr.next_step = sdap_auth_steps.SDAP_NOOP ∧ TlsUp s.log) :
    Inv2 ctx pd cc
      (if (s.lr.pd.cmd = PamCmd.SSS_PAM_AUTHENTICATE ∨ s.lr.pd.cmd = PamCmd.SSS_PAM_CHAUTHTOK) ∧
          st = PamStatus.PAM_SUCCESS ∧ s.cache_credentials = true then
        sdap_cache_password lib (setLr { s.lr with pd := { s.lr.pd with pam_status := st } } s)
      else sdap_reply st (free_lr (setLr { s.lr with pd := { s.lr.pd with pam_status := st } } s))) := by
  obtain ⟨k1, k2, k3, k4, k5, k6⟩ := hK
  split_ifs with hcond
  · obtain ⟨ha, hs, hcc⟩ := hcond
    subst hs
    obtain ⟨hn1, hn2⟩ := hn rfl
    right; right; right; left
    unfold sdap_cache_password
    simp only [setLr, setW, emit, sdap_reply]
    generalize lib.talloc_zero s.w = qa
    obtain ⟨ok, w1⟩ := qa
    dsimp only
    by_cases h1 : ok = false
    · rw [if_pos h1]
      subst h1
      refine ⟨⟨k1, k2, k3, k4, k5, k6⟩, ht, hn1, rfl, by rw [← k2]; exact ha,
        by rw [← k6]; exact hcc, SearchOK_ext hS (by simp), TlsUp_ext hn2 (by simp),
        pre, _, hpre, by simp [hm], Or.inl ⟨rfl, rfl, hp⟩⟩
    · rw [if_neg h1]
      have h1' : ok = true := by simpa using h1
      subst h1'
      generalize lib.sysdb_transaction w1 = qt
      obtain ⟨rt, w2⟩ := qt
      dsimp only
      by_cases h2 : rt ≠ EOK
      · rw [if_pos h2]
        refine ⟨⟨k1, k2, k3, k4, k5, k6⟩, ht, hn1, rfl, by rw [← k2]; exact ha,
          by rw [← k6]; exact hcc, ?_, ?_, pre, _, hpre, ?_,
          Or.inr (Or.inl ⟨rt, h2, hp, rfl⟩)⟩
        · simp only [List.append_assoc]; exact SearchOK_ext hS (by simp)
        · simp only [List.append_assoc]; exact TlsUp_ext hn2 (by simp)
        · simp [hm]
      · rw [if_neg h2]
        have h2' := not_not.mp h2
        subst h2'
        refine ⟨⟨k1, k2, k3, k4, k5, k6⟩, ht, hn1, rfl, by rw [← k2]; exact ha,
          by rw [← k6]; exact hcc, ?_, ?_, pre, _, hpre, ?_,
          Or.inr (Or.inr (Or.inl ⟨rfl, rfl⟩))⟩
        · simp only [List.append_assoc]; exact SearchOK_ext hS (by simp)
        · simp only [List.append_assoc]; exact TlsUp_ext hn2 (by simp)
        · simp [hm]
  · right; right; left
    simp only [setLr, emit, sdap_reply, free_lr]
    refine ⟨⟨k1, k2, k3, k4, k5, k6⟩, ht, rfl, hp, ?_, ?_, ?_, pre, hpre, ?_⟩
    · simp only [List.append_assoc]; exact SearchOK_ext hS (by simp)
    · intro ⟨ha, hs, hcc⟩
      apply hcond
      dsimp only at hs
      exact ⟨by rw [k2]; exact ha, hs, by rw [k6]; exact hcc⟩
    · simp only [List.append_assoc]; exact Stage_ext hG (by simp) (by simp)
    · simp [hm]

theorem inv2_loop_done (lib : LdapLib W) (ctx : sdap_ctx) (pd : pam_data) (cc : Bool)
    (st : PamStatus) (s : Sys W)
    (hK : Keeps ctx pd cc s) (ht : s.timer = false) (hp : s.pending = Pending.nothing)
    (hm : ∃ uri, milestones s.log = [Event.ev_ldap_init uri LDAP_SUCCESS s.lr.ldap])
    (hS : SearchOK ctx pd s.log) (hG : Stage st s.log)
    (hn : st = PamStatus.PAM_SUCCESS →
      s.lr.next_step = sdap_auth_steps.SDAP_NOOP ∧ TlsUp s.log) :
    Inv2 ctx pd cc (loop_done lib st s) := by
  obtain ⟨uri, hm⟩ := hm
  unfold loop_done
  by_cases hl : s.lr.ldap = none
  · have e : (if s.lr.ldap ≠ none then do_unbind lib s else s) = s := by simp [hl]
    simp only [e]
    exact inv2_done_tail lib ctx pd cc st s _ hK ht hp
      (Or.inr (Or.inl ⟨uri, LDAP_SUCCESS, s.lr.ldap, rfl, fun _ => hl⟩)) hm hS hG hn
  · have e : (if s.lr.ldap ≠ none then do_unbind lib s else s) = do_unbind lib s := by
      simp [hl]
    simp only [e]
    refine inv2_done_tail lib ctx pd cc st (do_unbind lib s) _ hK ht hp
      (Or.inr (Or.inr ⟨uri, s.lr.ldap, rfl⟩)) (by simp [do_unbind, emit, setW, hm]) ?_ ?_ ?_
    · exact SearchOK_ext hS (by simp)
    · exact Stage_ext hG (by simp) (by simp)
    · intro h
      exact ⟨(hn h).1, TlsUp_ext (hn h).2 (by simp)⟩

/-- After TLS is up, every way out of an open session keeps the invariant. -/
theorem inv2_of_out (lib : LdapLib W) {ctx : sdap_ctx} {pd : pam_data} {cc : Bool}
    {s r : Sys W} (hO : Open2 ctx pd cc s) (hU : TlsUp s.log) (h : Out lib s r) :
    Inv2 ctx pd cc r := by
  obtain ⟨hK, ht, hf, hp, hc, ⟨uri, hm⟩, hfl, hS⟩ := hO
  have hK' := hK
  obtain ⟨k1, k2, k3, k4, k5, k6⟩ := hK
  have hSd : ∀ d, Clean s.lr d → SearchOK ctx pd (s.log ++ d) := by
    intro d hC x hx
    simp only [searches_append, List.mem_append] at hx
    rcases hx with hx | hx
    · exact hS x hx
    · rw [hC.2.2 x hx]
      simp only [search_args, search_filter, k1, k3]
  rcases h with ⟨d, ⟨w, dn, task, step, msgid, rfl⟩, hC, hF, hL⟩ |
    ⟨s1, d, st, ⟨w, dn, task, step, msgid, rfl⟩, hC, hN, rfl⟩ |
    ⟨s1, d, ⟨w, dn, task, step, msgid, rfl⟩, hC, hF, rfl⟩
  · right; left
    exact ⟨⟨⟨k1, k2, k3, k4, k5, k6⟩, ht, hf, hp, hc, ⟨uri, by simp [hm, hC.1]⟩,
      by simp [hfl, hF], hSd d hC⟩, Or.inr ⟨hL, TlsUp_ext hU hC.2.1⟩⟩
  · exact inv2_loop_done lib ctx pd cc st _ ⟨k1, k2, k3, k4, k5, k6⟩ ht hp
      ⟨uri, by simp [hm, hC.1]⟩ (hSd d hC) (Or.inr (Or.inl (TlsUp_ext hU hC.2.1)))
      (fun h => ⟨hN h, TlsUp_ext hU hC.2.1⟩)
  · right; right; right; right
    exact ⟨⟨k1, k2, k3, k4, k5, k6⟩, ht, hp, rfl, ⟨uri, by simp [hm, hC.1]⟩,
      by simp [hfl, hF], hSd d hC, TlsUp_ext hU hC.2.1⟩

theorem inv2_pam_loop (lib : LdapLib W) {ctx : sdap_ctx} {pd : pam_data} {cc : Bool}
    {s : Sys W} (h : W2 ctx pd cc s) : Inv2 ctx pd cc (sdap_pam_loop lib s) := by
  obtain ⟨hO, hs⟩ := h
  unfold sdap_pam_loop
  rcases hs with ⟨e, hT, hP⟩ | ⟨e | e | e, hU⟩
  · rw [e]
    dsimp only
    obtain ⟨hK, ht, hf, hp, hc, ⟨uri, hm⟩, hfl, hS⟩ := hO
    have hK' := hK
    obtain ⟨k1, k2, k3, k4, k5, k6⟩ := hK
    rcases init_result_cases lib s with
      ⟨d, hE, hC, ho, hsr, hF, hst⟩ | ⟨s1, d, ⟨w, dn, task, step, msgid, rfl⟩, hm1, ho, hsr, hB, hr⟩ |
      ⟨s1, d, ⟨w, dn, task, step, msgid, rfl⟩, hm1, ho, hsr, hF, hU, hOut⟩
    · obtain ⟨w, dn, task, step, msgid, hE⟩ := hE
      rw [hE] at hst ⊢
      right; left
      exact ⟨⟨⟨k1, k2, k3, k4, k5, k6⟩, ht, hf, hp, hc, ⟨uri, by simp [hm, hC.1]⟩,
        by simp [hfl, hF], SearchOK_ext hS hsr⟩,
        Or.inl ⟨hst, by simp [hT, hC.2.1], by simp [hP, ho]⟩⟩
    · rw [hr]
      refine inv2_loop_done lib ctx pd cc _ _ ⟨k1, k2, k3, k4, k5, k6⟩ ht hp
        ⟨uri, by simp [hm, hm1]⟩ (SearchOK_ext hS hsr) ?_ (fun h => by cases h)
      rcases hB with hB | hB
      · exact Or.inl ⟨by simp [hT, hB], by simp [hP, ho]⟩
      · refine Or.inr (Or.inr ⟨?_, by simp [hP, ho], rfl⟩)
        rcases hB with ⟨h1, m, a, ret, res, e, p⟩ | ⟨h1, m, a, ret, res, r, e, p⟩
        · exact Or.inl ⟨h1, m, a, ret, res, by simp [e, hT], p⟩
        · exact Or.inr ⟨h1, m, a, ret, res, r, by simp [e, hT], p⟩
    · refine inv2_of_out lib ?_ ?_ hOut
      · exact ⟨⟨k1, k2, k3, k4, k5, k6⟩, ht, hf, hp, hc,
          ⟨uri, by simp [hm, hm1]⟩, by simp [hfl, hF], SearchOK_ext hS hsr⟩
      · exact TlsUp_pre hP hT hU
  · rw [e]; exact inv2_of_out lib hO hU (out_std_bind lib s)
  · rw [e]; exact inv2_of_out lib hO hU (out_search lib s)
  · rw [e]; exact inv2_of_out lib hO hU (out_user_bind lib s)

/-- The shape of what `sdap_init` adds to the log. -/
theorem sdap_init_shape (lib : LdapLib W) (s : Sys W) (r : Int × Sys W)
    (hr : sdap_init lib s = r) :
    ∃ w h m d,
      r.2 = { s with w := w, log := s.log ++ d, lr := { s.lr with ldap := h, msgid := m } } ∧
      tls_steps d = [] ∧ ops d = [] ∧ searches d = [] ∧
      ((r.1 = EOK ∧ failures d = [] ∧
          milestones d = [Event.ev_ldap_init s.lr.sdap_ctx.ldap_uri LDAP_SUCCESS h]) ∨
       (r.1 ≠ EOK ∧ Closed (milestones d))) := by
  unfold sdap_init at hr
  generalize lib.ldap_init s.w s.lr.sdap_ctx.ldap_uri = q0 at hr
  obtain ⟨⟨r0, h0⟩, w0⟩ := q0
  dsimp only at hr
  by_cases c0 : r0 ≠ LDAP_SUCCESS
  · rw [if_pos c0] at hr
    subst hr
    refine ⟨_, _, _, [_], rfl, by simp, by simp, by simp, Or.inr ⟨show EIO_ ≠ EOK by decide, ?_⟩⟩
    exact Or.inr (Or.inl ⟨s.lr.sdap_ctx.ldap_uri, r0, h0, by simp, fun h => absurd h c0⟩)
  rw [if_neg c0] at hr
  have c0' := not_not.mp c0
  subst c0'
  unfold set_opt at hr
  simp only [emit, setW, setLr] at hr
  rcases hq1 : lib.ldap_set_option w0 h0 (LdapOpt.LDAP_OPT_PROTOCOL_VERSION LDAP_VERSION3)
    with ⟨r1, w1⟩
  simp only [hq1] at hr
  by_cases c1 : r1 ≠ LDAP_OPT_SUCCESS
  · rw [if_pos c1] at hr
    subst hr
    refine ⟨_, _, _, _,
      by simp only [sdap_init_cleanup, do_unbind, emit, setW, setLr, List.append_assoc]; rfl,
      by simp, by simp, by simp, Or.inr ⟨by simp [sdap_init_cleanup, EIO_, EOK], ?_⟩⟩
    exact Or.inr (Or.inr ⟨s.lr.sdap_ctx.ldap_uri, h0, by simp⟩)
  rw [if_neg c1] at hr
  have c1' : r1 = LDAP_SUCCESS := not_not.mp c1
  subst c1'
  rcases hq2 : lib.ldap_set_option w1 h0
    (LdapOpt.LDAP_OPT_NETWORK_TIMEOUT s.lr.sdap_ctx.network_timeout 0) with ⟨r2, w2⟩
  simp only [hq2] at hr
  by_cases c2 : r2 ≠ LDAP_OPT_SUCCESS
  · rw [if_pos c2] at hr
    subst hr
    refine ⟨_, _, _, _,
      by simp only [sdap_init_cleanup, do_unbind, emit, setW, setLr, List.append_assoc]; rfl,
      by simp, by simp, by simp, Or.inr ⟨by simp [sdap_init_cleanup, EIO_, EOK], ?_⟩⟩
    exact Or.inr (Or.inr ⟨s.lr.sdap_ctx.ldap_uri, h0, by simp⟩)
  rw [if_neg c2] at hr
  have c2' : r2 = LDAP_SUCCESS := not_not.mp c2
  subst c2'
  rcases hq3 : lib.ldap_set_option w2 h0
    (LdapOpt.LDAP_OPT_TIMEOUT s.lr.sdap_ctx.opt_timeout 0) with ⟨r3, w3⟩
  simp only [hq3] at hr
  by_cases c3 : r3 ≠ LDAP_OPT_SUCCESS
  · rw [if_pos c3] at hr
    subst hr
    refine ⟨_, _, _, _,
      by simp only [sdap_init_cleanup, do_unbind, emit, setW, setLr, List.append_assoc]; rfl,
      by simp, by simp, by simp, Or.inr ⟨by simp [sdap_init_cleanup, EIO_, EOK], ?_⟩⟩
    exact Or.inr (Or.inr ⟨s.lr.sdap_ctx.ldap_uri, h0, by simp⟩)
  rw [if_neg c3] at hr
  have c3' : r3 = LDAP_SUCCESS := not_not.mp c3
  subst c3'
  unfold start_tls at hr
  simp only [emit, setW, setLr] at hr
  rcases hq4 : lib.ldap_start_tls w3 h0 with ⟨⟨r4, m4⟩, w4⟩
  simp only [hq4] at hr
  by_cases c4 : r4 ≠ LDAP_SUCCESS
  · rw [if_pos c4] at hr
    subst hr
    refine ⟨_, _, _, _,
      by simp only [sdap_init_cleanup, do_unbind, emit, setW, setLr, List.append_assoc]; rfl,
      by simp, by simp, by simp, Or.inr ⟨?_, ?_⟩⟩
    · by_cases c5 : r4 = LDAP_SERVER_DOWN <;> simp [sdap_init_cleanup, EIO_, EOK, EAGAIN, c5]
    · exact Or.inr (Or.inr ⟨s.lr.sdap_ctx.ldap_uri, h0, by simp⟩)
  · rw [if_neg c4] at hr
    have c4' : r4 = LDAP_SUCCESS := not_not.mp c4
    subst c4'
    subst hr
    refine ⟨_, _, _, _, by simp only [List.append_assoc]; rfl,
      by simp, by simp, by simp, Or.inl ⟨rfl, ?_, ?_⟩⟩
    · simp [LDAP_OPT_SUCCESS, LDAP_SUCCESS]
    · simp

theorem inv2_start_done (lib : LdapLib W) (ctx : sdap_ctx) (pd : pam_data) (cc : Bool)
    (st : PamStatus) (s : Sys W) (pre : List Event)
    (hK : Keeps ctx pd cc s) (ht : s.timer = false) (hp : s.pending = Pending.nothing)
    (hst : st ≠ PamStatus.PAM_SUCCESS)
    (hpre : Closed (pre ++ (if s.lr.ldap ≠ none then [Event.ev_unbind_ext s.lr.ldap] else [])))
    (hm : milestones s.log = pre)
    (hS : searches s.log = []) (hT : tls_steps s.log = []) (hO : ops s.log = []) :
    Inv2 ctx pd cc (start_done lib st s) := by
  obtain ⟨k1, k2, k3, k4, k5, k6⟩ := hK
  right; right; left
  unfold start_done
  by_cases hl : s.lr.ldap = none
  · have e : (if s.lr.ldap ≠ none then do_unbind lib s else s) = s := by simp [hl]
    simp only [e]
    simp only [setLr, emit, sdap_reply, free_lr]
    refine ⟨⟨k1, k2, k3, k4, k5, k6⟩, ht, rfl, hp, ?_, ?_, ?_, _, hpre, ?_⟩
    · intro x hx; simp [hS] at hx
    · intro h; exact hst h.2.1
    · exact Or.inl ⟨by simp [hT], by simp [hO]⟩
    · simp [hm, hl]
  · have e : (if s.lr.ldap ≠ none then do_unbind lib s else s) = do_unbind lib s := by
      simp [hl]
    simp only [e]
    simp only [setLr, emit, sdap_reply, free_lr, do_unbind, setW]
    refine ⟨⟨k1, k2, k3, k4, k5, k6⟩, ht, rfl, hp, ?_, ?_, ?_, _, hpre, ?_⟩
    · intro x hx; simp [hS] at hx
    · intro h; exact hst h.2.1
    · exact Or.inl ⟨by simp [hT], by simp [hO]⟩
    · simp [hm, hl]

theorem inv2_start (lib : LdapLib W) {ctx : sdap_ctx} {pd : pam_data} {cc : Bool}
    {s : Sys W} (h : T2 ctx pd cc s) :
    Inv2 ctx pd cc (sdap_start lib { s with timer := false }) := by
  obtain ⟨hK, _, hf, hp, hc, hld, hm, hfl, hS, hT, hO⟩ := h
  obtain ⟨k1, k2, k3, k4, k5, k6⟩ := hK
  unfold sdap_start
  have sp := sdap_init_shape lib { s with timer := false } _ rfl
  generalize sdap_init lib { s with timer := false } = r at sp ⊢
  obtain ⟨ret, s1⟩ := r
  dsimp only at sp ⊢
  obtain ⟨w, h, m, d, e, dT, dO, dS, sp⟩ := sp
  subst e
  rcases sp with ⟨e1, dF, dM⟩ | ⟨e1, dC⟩
  · subst e1
    rw [if_neg (by decide)]
    unfold wait_for_fd
    simp only [setLr, setW, emit]
    rcases hq1 : lib.ldap_get_option_desc w h with ⟨⟨r1, fd⟩, w1⟩
    dsimp only
    by_cases c1 : r1 ≠ LDAP_OPT_SUCCESS
    · rw [if_pos c1]
      rw [if_pos (show r1 ≠ EOK from c1)]
      refine inv2_start_done lib ctx pd cc _ _ _ ⟨k1, k2, k3, k4, k5, k6⟩ rfl hp (by decide)
        ?_ (by simp [hm, dM]; rfl) (by simp [hS, dS]) (by simp [hT, dT]) (by simp [hO, dO])
      dsimp only
      by_cases hh : h = none
      · simp only [hh]
        exact Or.inr (Or.inl ⟨_, _, _, rfl, fun _ => rfl⟩)
      · simp only [ne_eq, hh, not_false_eq_true, if_true]
        exact Or.inr (Or.inr ⟨_, _, rfl⟩)
    · rw [if_neg c1]
      rcases hq2 : lib.tevent_add_fd w1 fd with ⟨ok, w2⟩
      dsimp only
      by_cases c2 : ok = false
      · rw [if_pos c2]
        rw [if_pos (show EIO_ ≠ EOK by decide)]
        refine inv2_start_done lib ctx pd cc _ _ _ ⟨k1, k2, k3, k4, k5, k6⟩ rfl hp (by decide)
          ?_ (by simp [hm, dM]; rfl) (by simp [hS, dS]) (by simp [hT, dT]) (by simp [hO, dO])
        dsimp only
        by_cases hh : h = none
        · simp only [hh]
          exact Or.inr (Or.inl ⟨_, _, _, rfl, fun _ => rfl⟩)
        · simp only [ne_eq, hh, not_false_eq_true, if_true]
          exact Or.inr (Or.inr ⟨_, _, rfl⟩)
      · rw [if_neg c2]
        rw [if_neg (show ¬ (EOK ≠ EOK) by decide)]
        right; left
        have c1' := not_not.mp c1
        refine ⟨⟨⟨k1, k2, k3, k4, k5, k6⟩, rfl, rfl, hp, hc, ⟨_, by simp [hm, dM]; rfl⟩,
          by simp [hfl, dF, c1', c2], ?_⟩, Or.inl ⟨rfl, by simp [hT, dT], by simp [hO, dO]⟩⟩
        intro x hx
        simp [hS, dS] at hx
  · rw [if_pos e1]
    refine inv2_start_done lib ctx pd cc _ _ _ ⟨k1, k2, k3, k4, k5, k6⟩ rfl hp
      (by split_ifs <;> decide) ?_ (by simp [setLr, hm]; rfl) (by simp [setLr, hS, dS])
      (by simp [setLr, hT, dT]) (by simp [setLr, hO, dO])
    simpa [setLr] using dC

theorem inv2_handler (lib : LdapLib W) (w : W) (ctx : sdap_ctx) (pd : pam_data) (cc : Bool)
    (msgid0 : Int) : Inv2 ctx pd cc (sdap_pam_handler lib w ctx pd cc msgid0) := by
  unfold sdap_pam_handler schedule_next_task
  simp only [emit, setW, setLr]
  rcases hq1 : lib.gettimeofday w with ⟨r1, w1⟩
  dsimp only
  by_cases c1 : r1 = -1
  · rw [if_pos c1]
    rw [if_pos (show r1 ≠ EOK by rw [c1]; decide)]
    right; right; left
    refine ⟨⟨rfl, rfl, rfl, rfl, rfl, rfl⟩, rfl, rfl, rfl, ?_, ?_, ?_, [], Or.inl rfl, ?_⟩
    · intro x hx; simp [sdap_reply, free_lr, emit] at hx
    · intro h; simp [sdap_reply, free_lr, emit] at h
    · exact Or.inl ⟨by simp [sdap_reply, free_lr, emit], by simp [sdap_reply, free_lr, emit]⟩
    · simp [sdap_reply, free_lr, emit]
  · rw [if_neg c1]
    rcases hq2 : lib.tevent_add_timer w1 with ⟨ok, w2⟩
    dsimp only
    by_cases c2 : ok = false
    · rw [if_pos c2]
      rw [if_pos (show EIO_ ≠ EOK by decide)]
      right; right; left
      refine ⟨⟨rfl, rfl, rfl, rfl, rfl, rfl⟩, rfl, rfl, rfl, ?_, ?_, ?_, [], Or.inl rfl, ?_⟩
      · intro x hx; simp [sdap_reply, free_lr, emit] at hx
      · intro h; simp [sdap_reply, free_lr, emit] at h
      · exact Or.inl ⟨by simp [sdap_reply, free_lr, emit], by simp [sdap_reply, free_lr, emit]⟩
      · simp [sdap_reply, free_lr, emit]
    · rw [if_neg c2]
      rw [if_neg (show ¬ (EOK ≠ EOK) by decide)]
      left
      exact ⟨⟨rfl, rfl, rfl, rfl, rfl, rfl⟩, rfl, rfl, rfl, rfl, rfl, by simp, by simp,
        by simp, by simp, by simp⟩

theorem cached_password_eq {pd : pam_data} (lr : sdap_req) (k2 : lr.pd.cmd = pd.cmd)
    (k4 : lr.pd.authtok = pd.authtok) (k5 : lr.pd.newauthtok = pd.newauthtok) :
    (if lr.pd.cmd = PamCmd.SSS_PAM_AUTHENTICATE then strndup lr.pd.authtok lr.pd.authtok.length
     else strndup lr.pd.newauthtok lr.pd.newauthtok.length) = cached_password pd := by
  unfold cached_password
  rw [k2, k4, k5]

theorem inv2_cache_pw_op (lib : LdapLib W) {ctx : sdap_ctx} {pd : pam_data} {cc : Bool}
    {s : Sys W} (h : C2 ctx pd cc s) (hp : s.pending = Pending.txn) :
    Inv2 ctx pd cc (sdap_cache_pw_op lib { s with pending := Pending.nothing }) := by
  obtain ⟨hK, ht, hn, hst, ha, hcc, hS, hU, pre, tail, hpre, hm, hCT⟩ := h
  have htail : tail = [Event.ev_talloc_zero true, Event.ev_transaction EOK] := by
    rcases hCT with ⟨_, _, h⟩ | ⟨_, _, h, _⟩ | ⟨_, h⟩ | ⟨_, h, _⟩ | ⟨h, _⟩ | ⟨_, _, h, _⟩ |
      ⟨h, _⟩ | ⟨_, h, _⟩
    all_goals first
      | exact h
      | (rw [hp] at h; cases h)
  subst htail
  obtain ⟨k1, k2, k3, k4, k5, k6⟩ := hK
  have hpw := cached_password_eq s.lr k2 k4 k5
  right; right; right; left
  have key : ∀ x : Sys W, x = sdap_cache_pw_op lib { s with pending := Pending.nothing } →
      C2 ctx pd cc x := by
    intro x hx
    unfold sdap_cache_pw_op at hx
    have hcmd : s.lr.pd.cmd = PamCmd.SSS_PAM_AUTHENTICATE ∨
        s.lr.pd.cmd = PamCmd.SSS_PAM_CHAUTHTOK := by rw [k2]; exact ha
    have hx2 : x =
        (let a := lib.talloc_strndup s.w
         let s1 := emit (Event.ev_talloc_strndup a.1)
           (setW a.2 { s with pending := Pending.nothing })
         if a.1 = false then
           let d := lib.talloc_set_destructor s1.w
           let s2 := emit (Event.ev_set_destructor_null d.1) (setW d.2 s1)
           if d.1 = false then { s2 with crashed := true }
           else sdap_reply s2.lr.pd.pam_status s2
         else
           let r := lib.sysdb_set_cached_password s1.w s1.lr.pd.user (cached_password pd)
           let s2 := emit (Event.ev_set_cached_password s1.lr.pd.user (cached_password pd) r.1)
             (setW r.2 s1)
           if r.1 ≠ EOK then sdap_reply s2.lr.pd.pam_status s2
           else { s2 with pending := Pending.pw }) := by
      rw [← hpw]
      rcases hcmd with hcmd | hcmd <;> simp only [hcmd] at hx ⊢ <;> exact hx
    clear hx
    simp only [emit, setW, sdap_reply] at hx2
    generalize lib.talloc_strndup s.w = qa at hx2
    obtain ⟨ok, w1⟩ := qa
    dsimp only at hx2
    by_cases h1 : ok = false
    · rw [if_pos h1] at hx2
      subst h1
      generalize lib.talloc_set_destructor w1 = qd at hx2
      obtain ⟨rd, w2⟩ := qd
      dsimp only at hx2
      by_cases h2 : rd = false
      · rw [if_pos h2] at hx2
        subst h2
        subst hx2
        refine ⟨⟨k1, k2, k3, k4, k5, k6⟩, ht, hn, hst, ha, hcc, ?_, ?_, pre, _, hpre, ?_,
          Or.inr (Or.inr (Or.inr (Or.inl ⟨rfl, rfl, rfl⟩)))⟩
        · simp only [List.append_assoc]; exact SearchOK_ext hS (by simp)
        · simp only [List.append_assoc]; exact TlsUp_ext hU (by simp)
        · simp [hm]
      · rw [if_neg h2] at hx2
        have h2' : rd = true := by simpa using h2
        subst h2'
        subst hx2
        refine ⟨⟨k1, k2, k3, k4, k5, k6⟩, ht, hn, hst, ha, hcc, ?_, ?_, pre, _, hpre, ?_,
          Or.inr (Or.inr (Or.inr (Or.inr (Or.inl ⟨rfl, rfl⟩))))⟩
        · simp only [List.append_assoc]; exact SearchOK_ext hS (by simp)
        · simp only [List.append_assoc]; exact TlsUp_ext hU (by simp)
        · simp [hm, hst]
    · rw [if_neg h1] at hx2
      have h1' : ok = true := by simpa using h1
      subst h1'
      generalize lib.sysdb_set_cached_password w1 s.lr.pd.user (cached_password pd) = qw at hx2
      obtain ⟨rw1, w2⟩ := qw
      dsimp only at hx2
      by_cases h2 : rw1 ≠ EOK
      · rw [if_pos h2] at hx2
        subst hx2
        refine ⟨⟨k1, k2, k3, k4, k5, k6⟩, ht, hn, hst, ha, hcc, ?_, ?_, pre, _, hpre, ?_,
          Or.inr (Or.inr (Or.inr (Or.inr (Or.inr (Or.inl ⟨rw1, h2, rfl, rfl⟩)))))⟩
        · simp only [List.append_assoc]; exact SearchOK_ext hS (by simp)
        · simp only [List.append_assoc]; exact TlsUp_ext hU (by simp)
        · simp [hm, hst, k3]
      · rw [if_neg h2] at hx2
        have h2' := not_not.mp h2
        subst h2'
        subst hx2
        refine ⟨⟨k1, k2, k3, k4, k5, k6⟩, ht, hn, hst, ha, hcc, ?_, ?_, pre, _, hpre, ?_,
          Or.inr (Or.inr (Or.inr (Or.inr (Or.inr (Or.inr (Or.inl ⟨rfl, rfl⟩))))))⟩
        · simp only [List.append_assoc]; exact SearchOK_ext hS (by simp)
        · simp only [List.append_assoc]; exact TlsUp_ext hU (by simp)
        · simp [hm, k3]
  exact key _ rfl

theorem inv2_cache_pw_callback (lib : LdapLib W) {ctx : sdap_ctx} {pd : pam_data} {cc : Bool}
    {s : Sys W} (h : C2 ctx pd cc s) (hp : s.pending = Pending.pw) (error : Int) :
    Inv2 ctx pd cc (sdap_cache_pw_callback lib error { s with pending := Pending.nothing }) := by
  obtain ⟨hK, ht, hn, hst, ha, hcc, hS, hU, pre, tail, hpre, hm, hCT⟩ := h
  have htail : tail = [Event.ev_talloc_zero true, Event.ev_transaction EOK,
      Event.ev_talloc_strndup true,
      Event.ev_set_cached_password pd.user (cached_password pd) EOK] := by
    rcases hCT with ⟨_, _, h⟩ | ⟨_, _, h, _⟩ | ⟨h, _⟩ | ⟨_, h, _⟩ | ⟨h, _⟩ | ⟨_, _, h, _⟩ |
      ⟨_, h⟩ | ⟨_, h, _⟩
    all_goals first
      | exact h
      | (rw [hp] at h; cases h)
  subst htail
  obtain ⟨k1, k2, k3, k4, k5, k6⟩ := hK
  right; right; right; left
  unfold sdap_cache_pw_callback
  simp only [emit, setW, sdap_reply]
  refine ⟨⟨k1, k2, k3, k4, k5, k6⟩, ht, hn, hst, ha, hcc, ?_, ?_, pre, _, hpre, ?_,
    Or.inr (Or.inr (Or.inr (Or.inr (Or.inr (Or.inr (Or.inr ⟨error, rfl, rfl⟩))))))⟩
  · simp only [List.append_assoc]; exact SearchOK_ext hS (by simp)
  · simp only [List.append_assoc]; exact TlsUp_ext hU (by simp)
  · simp [hm, hst]

/-- Every delivery preserves the second invariant. -/
theorem inv2_step (lib : LdapLib W) {ctx : sdap_ctx} {pd : pam_data} {cc : Bool}
    {s : Sys W} (h : Inv2 ctx pd cc s) (i : Input) : Inv2 ctx pd cc (step lib s i) := by
  have hI := h
  rcases h with h | h | h | h | h
  · have h' := h
    obtain ⟨_, ht, hf, hp, hc, _⟩ := h'
    cases i with
    | timer =>
      simp only [step]
      rw [if_pos ⟨hc, ht⟩]
      exact inv2_start lib h
    | fd_ready =>
      simp only [step]
      rw [if_neg (fun c => by rw [hf] at c; exact absurd c.2 (by decide))]
      exact hI
    | txn_ready =>
      simp only [step]
      rw [if_neg (fun c => by rw [hp] at c; exact absurd c.2 (by decide))]
      exact hI
    | pw_done e =>
      simp only [step]
      rw [if_neg (fun c => by rw [hp] at c; exact absurd c.2 (by decide))]
      exact hI
  · have h' := h
    obtain ⟨⟨_, ht, hf, hp, hc, _⟩, _⟩ := h'
    cases i with
    | timer =>
      simp only [step]
      rw [if_neg (fun c => by rw [ht] at c; exact absurd c.2 (by decide))]
      exact hI
    | fd_ready =>
      simp only [step]
      rw [if_pos ⟨hc, hf⟩]
      exact inv2_pam_loop lib h
    | txn_ready =>
      simp only [step]
      rw [if_neg (fun c => by rw [hp] at c; exact absurd c.2 (by decide))]
      exact hI
    | pw_done e =>
      simp only [step]
      rw [if_neg (fun c => by rw [hp] at c; exact absurd c.2 (by decide))]
      exact hI
  · have h' := h
    obtain ⟨_, ht, hf, hp, _⟩ := h'
    cases i with
    | timer =>
      simp only [step]
      rw [if_neg (fun c => by rw [ht] at c; exact absurd c.2 (by decide))]
      exact hI
    | fd_ready =>
      simp only [step]
      rw [if_neg (fun c => by rw [hf] at c; exact absurd c.2 (by decide))]
      exact hI
    | txn_ready =>
      simp only [step]
      rw [if_neg (fun c => by rw [hp] at c; exact absurd c.2 (by decide))]
      exact hI
    | pw_done e =>
      simp only [step]
      rw [if_neg (fun c => by rw [hp] at c; exact absurd c.2 (by decide))]
      exact hI
  · have h' := h
    obtain ⟨_, ht, hn, _⟩ := h'
    cases i with
    | timer =>
      simp only [step]
      rw [if_neg (fun c => by rw [ht] at c; exact absurd c.2 (by decide))]
      exact hI
    | fd_ready =>
      simp only [step, sdap_pam_loop, hn]
      split_ifs <;> exact hI
    | txn_ready =>
      simp only [step]
      split_ifs with c
      · exact inv2_cache_pw_op lib h c.2
      · exact hI
    | pw_done e =>
      simp only [step]
      split_ifs with c
      · exact inv2_cache_pw_callback lib h c.2 e
      · exact hI
  · have hc := h.2.2.2.1
    cases i <;> simp only [step] <;>
      rw [if_neg (fun c => by rw [hc] at c; exact absurd c.1 (by decide))] <;> exact hI

/-- Every execution preserves the second invariant. -/
theorem inv2_run (lib : LdapLib W) {ctx : sdap_ctx} {pd : pam_data} {cc : Bool}
    (inputs : List Input) {s : Sys W} (h : Inv2 ctx pd cc s) :
    Inv2 ctx pd cc (run lib s inputs) := by
  induction inputs generalizing s with
  | nil => exact h
  | cons i rest ih => exact ih (inv2_step lib h i)

/-- The second invariant holds in every state that a session reaches. -/
theorem inv2_reach (lib : LdapLib W) (w : W) (ctx : sdap_ctx) (pd : pam_data) (cc : Bool)
    (msgid0 : Int) (inputs : List Input) :
    Inv2 ctx pd cc (run lib (sdap_pam_handler lib w ctx pd cc msgid0) inputs) :=
  inv2_run lib inputs (inv2_handler lib w ctx pd cc msgid0)

/-! ## Summaries read off the second invariant -/

/-- What the milestones up to the end of the connection contain. -/
theorem Closed_facts {pre : List Event} (h : Closed pre) :
    (unbinds pre).length ≤ 1 ∧ replies pre = [] ∧ handoffs pre = [] ∧ writes pre = [] ∧
    cache_failures pre = [] ∧
    ∀ uri hd, Event.ev_ldap_init uri LDAP_SUCCESS (some hd) ∈ pre → unbinds pre = [some hd] := by
  rcases h with rfl | ⟨uri, r, h, rfl, hh⟩ | ⟨uri, h, rfl⟩
  · simp
  · refine ⟨by simp, by simp, by simp, by simp, by simp, ?_⟩
    intro uri2 hd hmem
    simp only [List.mem_singleton, Event.ev_ldap_init.injEq] at hmem
    obtain ⟨_, h1, h2⟩ := hmem
    have := hh h1.symm
    rw [this] at h2
    cases h2
  · refine ⟨by simp, by simp, by simp, by simp, by simp, ?_⟩
    intro uri2 hd hmem
    simp at hmem
    simp [hmem.2]

/-- What the milestones of the caching hand-off contain. -/
theorem CTail_facts {s : Sys W} {u : String} {p : Bytes} {tail : List Event}
    (h : CTail s u p tail) :
    unbinds tail = [] ∧ (∀ uri r hd, Event.ev_ldap_init uri r hd ∉ tail) ∧
    handoffs tail ≠ [] ∧ (∀ x ∈ writes tail, x = (u, p)) ∧
    (∀ r ∈ replies tail, r = PamStatus.PAM_SUCCESS) ∧ (replies tail).length ≤ 1 ∧
    (cache_failures tail ≠ [] → s.crashed = false →
      replies tail = [PamStatus.PAM_SUCCESS]) := by
  rcases h with ⟨rfl, hc, _⟩ | ⟨r, hr, _, rfl⟩ | ⟨_, rfl⟩ | ⟨hc, _, rfl⟩ | ⟨_, rfl⟩ |
    ⟨r, hr, _, rfl⟩ | ⟨_, rfl⟩ | ⟨e, _, rfl⟩
  all_goals simp_all [EOK]

/-- The summaries of a released session. -/
theorem D2_facts {ctx : sdap_ctx} {pd : pam_data} {cc : Bool} {s : Sys W}
    (h : D2 ctx pd cc s) :
    (unbinds s.log).length ≤ 1 ∧ replies s.log = [s.lr.pd.pam_status] ∧
    handoffs s.log = [] ∧ writes s.log = [] ∧ cache_failures s.log = [] ∧
    ∀ uri hd, Event.ev_ldap_init uri LDAP_SUCCESS (some hd) ∈ s.log →
      unbinds s.log = [some hd] := by
  obtain ⟨_, _, _, _, _, _, _, pre, hpre, hm⟩ := h
  obtain ⟨c1, c2, c3, c4, c5, c6⟩ := Closed_facts hpre
  rw [unbinds_milestones, replies_milestones, handoffs_milestones, writes_milestones,
    cache_failures_milestones, hm]
  refine ⟨by simpa using c1, by simp [c2], by simp [c3], by simp [c4], by simp [c5], ?_⟩
  intro uri hd hmem
  have hmem2 := mem_milestones hmem rfl
  rw [hm] at hmem2
  simp only [List.mem_append, List.mem_cons, List.mem_singleton, List.not_mem_nil, or_false,
    reduceCtorEq] at hmem2
  simp [c6 uri hd hmem2]

/-- The summaries of a session handed to the credential cache. -/
theorem C2_facts {ctx : sdap_ctx} {pd : pam_data} {cc : Bool} {s : Sys W}
    (h : C2 ctx pd cc s) :
    (unbinds s.log).length ≤ 1 ∧ handoffs s.log ≠ [] ∧
    (∀ x ∈ writes s.log, x = (pd.user, cached_password pd)) ∧
    (∀ r ∈ replies s.log, r = PamStatus.PAM_SUCCESS) ∧ (replies s.log).length ≤ 1 ∧
    (cache_failures s.log ≠ [] → s.crashed = false →
      replies s.log = [PamStatus.PAM_SUCCESS]) ∧
    ∀ uri hd, Event.ev_ldap_init uri LDAP_SUCCESS (some hd) ∈ s.log →
      unbinds s.log = [some hd] := by
  obtain ⟨_, _, _, _, _, _, _, _, pre, tail, hpre, hm, hT⟩ := h
  obtain ⟨c1, c2, c3, c4, c5, c6⟩ := Closed_facts hpre
  obtain ⟨t1, t2, t3, t4, t5, t6, t7⟩ := CTail_facts hT
  rw [unbinds_milestones, replies_milestones, handoffs_milestones, writes_milestones,
    cache_failures_milestones, hm]
  refine ⟨by simpa [t1] using c1, by simp [c3, t3], by simpa [c4] using t4,
    by simpa [c2] using t5, by simpa [c2] using t6, by simpa [c2, c5] using t7, ?_⟩
  intro uri hd hmem
  have hmem2 := mem_milestones hmem rfl
  rw [hm] at hmem2
  rcases List.mem_append.mp hmem2 with hx | hx
  · simp [c6 uri hd hx, t1]
  · exact absurd hx (t2 _ _ _)

/-- The summaries of a session that has not reached a terminal path. -/
theorem early_facts {ctx : sdap_ctx} {pd : pam_data} {cc : Bool} {s : Sys W}
    (h : T2 ctx pd cc s ∨ W2 ctx pd cc s) :
    unbinds s.log = [] ∧ replies s.log = [] ∧ handoffs s.log = [] ∧ writes s.log = [] ∧
    cache_failures s.log = [] ∧ failures s.log = [] := by
  rw [unbinds_milestones, replies_milestones, handoffs_milestones, writes_milestones,
    cache_failures_milestones]
  rcases h with h | h
  · obtain ⟨_, _, _, _, _, _, hm, hf, _⟩ := h
    simp [hm, hf]
  · obtain ⟨⟨_, _, _, _, _, ⟨uri, hm⟩, hf, _⟩, _⟩ := h
    simp [hm, hf]

/-- The summaries of a process that went down inside `sdap_pam_chauthtok`. -/
theorem X2_facts {ctx : sdap_ctx} {pd : pam_data} {cc : Bool} {s : Sys W}
    (h : X2 ctx pd cc s) :
    unbinds s.log = [] ∧ replies s.log = [] ∧ handoffs s.log = [] ∧ writes s.log = [] ∧
    cache_failures s.log = [] ∧ failures s.log = [] := by
  rw [unbinds_milestones, replies_milestones, handoffs_milestones, writes_milestones,
    cache_failures_milestones]
  obtain ⟨_, _, _, _, ⟨uri, hm⟩, hf, _⟩ := h
  simp [hm, hf]

theorem Inv2_searches {ctx : sdap_ctx} {pd : pam_data} {cc : Bool} {s : Sys W}
    (h : Inv2 ctx pd cc s) : SearchOK ctx pd s.log := by
  rcases h with h | h | h | h | h
  · obtain ⟨_, _, _, _, _, _, _, _, hS, _⟩ := h
    intro x hx
    simp [hS] at hx
  · exact h.1.2.2.2.2.2.2.2
  · exact h.2.2.2.2.1
  · exact h.2.2.2.2.2.2.1
  · exact h.2.2.2.2.2.2.1

/-- How far the TLS set-up has come in a reachable state. -/
theorem Inv2_stage {ctx : sdap_ctx} {pd : pam_data} {cc : Bool} {s : Sys W}
    (h : Inv2 ctx pd cc s) :
    (tls_steps s.log = [] ∧ ops s.log = []) ∨ TlsUp s.log ∨
    (TlsBad s.log ∧ ops s.log = [] ∧ replies s.log = [PamStatus.PAM_SYSTEM_ERR]) := by
  rcases h with h | h | h | h | h
  · obtain ⟨_, _, _, _, _, _, _, _, _, hT, hO⟩ := h
    exact Or.inl ⟨hT, hO⟩
  · rcases h.2 with ⟨_, hT, hO⟩ | ⟨_, hU⟩
    · exact Or.inl ⟨hT, hO⟩
    · exact Or.inr (Or.inl hU)
  · have hf := (D2_facts h).2.1
    obtain ⟨_, _, _, _, _, _, hG, _⟩ := h
    rcases hG with hG | hG | ⟨hB, hO, hst⟩
    · exact Or.inl hG
    · exact Or.inr (Or.inl hG)
    · exact Or.inr (Or.inr ⟨hB, hO, by rw [hf, hst]⟩)
  · exact Or.inr (Or.inl h.2.2.2.2.2.2.2.1)
  · exact Or.inr (Or.inl h.2.2.2.2.2.2.2)

/-! ## The claims on unbinding, caching and the order of operations -/

/-- What holds of the unbind: in every execution, once `ldap_initialize` has
given a handle, a step that the code takes to have failed (a refused option, a
failed `ldap_start_tls`, a failure of `wait_for_fd`, a failed poll, a result
that does not parse or is not `LDAP_SUCCESS`, a failed `ldap_install_tls`, a
failed search submission, a bind submission with `ret == -1 || msgid == -1`)
makes the log hold exactly one `ldap_unbind_ext`, on that handle; and no
execution holds more than one. -/
theorem unbind_exactly_once (lib : LdapLib W) (w : W) (ctx : sdap_ctx) (pd : pam_data)
    (cc : Bool) (msgid0 : Int) (inputs : List Input) :
    (∀ uri h, Event.ev_ldap_init uri LDAP_SUCCESS (some h) ∈
        (run lib (sdap_pam_handler lib w ctx pd cc msgid0) inputs).log →
      failures (run lib (sdap_pam_handler lib w ctx pd cc msgid0) inputs).log ≠ [] →
      unbinds (run lib (sdap_pam_handler lib w ctx pd cc msgid0) inputs).log = [some h]) ∧
    (unbinds (run lib (sdap_pam_handler lib w ctx pd cc msgid0) inputs).log).length ≤ 1 := by
  have hI := inv2_reach lib w ctx pd cc msgid0 inputs
  rcases hI with h | h | h | h | h
  · obtain ⟨e1, _, _, _, _, e6⟩ := early_facts (Or.inl h)
    exact ⟨fun _ _ _ hf => absurd e6 hf, by simp [e1]⟩
  · obtain ⟨e1, _, _, _, _, e6⟩ := early_facts (Or.inr h)
    exact ⟨fun _ _ _ hf => absurd e6 hf, by simp [e1]⟩
  · obtain ⟨d1, _, _, _, _, d6⟩ := D2_facts h
    exact ⟨fun uri hd hm _ => d6 uri hd hm, d1⟩
  · obtain ⟨c1, _, _, _, _, _, c7⟩ := C2_facts h
    exact ⟨fun uri hd hm _ => c7 uri hd hm, c1⟩
  · obtain ⟨e1, _, _, _, _, e6⟩ := X2_facts h
    exact ⟨fun _ _ _ hf => absurd e6 hf, by simp [e1]⟩

/-- On `stub_bind_error`, a session that waits for the answer to a bind that
was never sent waits on, whatever is delivered: nothing is unbound and nothing
is reported. -/
theorem bind_error_waits (more : List Input) (s : Sys Stub)
    (h1 : s.lr.next_step = sdap_auth_steps.SDAP_CHECK_STD_BIND) (h2 : s.w.last.1 = 0)
    (h3 : s.timer = false) (h4 : s.pending = Pending.nothing)
    (h5 : unbinds s.log = []) (h6 : replies s.log = []) :
    unbinds (run stub_bind_error s more).log = [] ∧
    replies (run stub_bind_error s more).log = [] := by
  induction more generalizing s with
  | nil => exact ⟨h5, h6⟩
  | cons i rest ih =>
    show unbinds (run stub_bind_error (step stub_bind_error s i) rest).log = [] ∧
      replies (run stub_bind_error (step stub_bind_error s i) rest).log = []
    cases i with
    | timer =>
      have e : step stub_bind_error s Input.timer = s := by simp [step, h3]
      rw [e]; exact ih s h1 h2 h3 h4 h5 h6
    | txn_ready =>
      have e : step stub_bind_error s Input.txn_ready = s := by simp [step, h4]
      rw [e]; exact ih s h1 h2 h3 h4 h5 h6
    | pw_done err =>
      have e : step stub_bind_error s (Input.pw_done err) = s := by simp [step, h4]
      rw [e]; exact ih s h1 h2 h3 h4 h5 h6
    | fd_ready =>
      by_cases hc : s.crashed = false ∧ s.fde = true
      · have e : step stub_bind_error s Input.fd_ready =
            { s with
              log := s.log ++ [Event.ev_result sdap_auth_steps.SDAP_CHECK_STD_BIND s.lr.ldap
                s.lr.msgid false 0 s.w.last.2]
              lr := { s.lr with next_task := NextTask.sdap_pam_loop,
                                next_step := sdap_auth_steps.SDAP_CHECK_STD_BIND } } := by
          simp only [step, if_pos hc, sdap_pam_loop, h1, case_check_std_bind, poll,
            stub_bind_error, stub, emit, setW, setLr, h2]
          simp
        rw [e]
        exact ih _ rfl h2 h3 h4 (by simp [h5]) (by simp [h6])
      · have e : step stub_bind_error s Input.fd_ready = s := by simp only [step, if_neg hc]
        rw [e]; exact ih s h1 h2 h3 h4 h5 h6

/-- C11 (the code at the failing input): `ldap_sasl_bind` fails to encode the
service bind and returns `LDAP_ENCODING_ERROR` (-3), a code that the test
`ret == -1 || msgid == -1` of `sdap_bind` lets through.  The handle 1 has been
created and the bind submission has failed, yet `ldap_unbind_ext` is never
called and the dispatcher is never answered: the session waits for the answer
to a bind that was not sent, whatever is delivered afterwards. -/
theorem bind_error_no_unbind (more : List Input) :
    Event.ev_ldap_init "ldap://stub" LDAP_SUCCESS (some 1) ∈
      (run stub_bind_error (sdap_pam_handler stub_bind_error scenario_dir scenario_ctx
        (scenario_pd PamCmd.SSS_PAM_AUTHENTICATE "alice" "s3cret" "") false 0)
        full_schedule).log ∧
    Event.ev_sasl_bind (some 1) (some "cn=svc") ⟨5, some (ascii "svcpw")⟩ (-3) 7 ∈
      (run stub_bind_error (sdap_pam_handler stub_bind_error scenario_dir scenario_ctx
        (scenario_pd PamCmd.SSS_PAM_AUTHENTICATE "alice" "s3cret" "") false 0)
        full_schedule).log ∧
    unbinds (run stub_bind_error (sdap_pam_handler stub_bind_error scenario_dir scenario_ctx
        (scenario_pd PamCmd.SSS_PAM_AUTHENTICATE "alice" "s3cret" "") false 0)
        (full_schedule ++ more)).log = [] ∧
    replies (run stub_bind_error (sdap_pam_handler stub_bind_error scenario_dir scenario_ctx
        (scenario_pd PamCmd.SSS_PAM_AUTHENTICATE "alice" "s3cret" "") false 0)
        (full_schedule ++ more)).log = [] := by
  refine ⟨by decide, by decide, ?_⟩
  rw [run_append]
  exact bind_error_waits more _ (by decide) (by decide) (by decide) (by decide) (by decide)
    (by decide)

/-- C13: at the `done:` label of `sdap_pam_loop` the caching hand-off starts
if and only if the command is `Authenticate` or `ChangeAuthTok`, the outcome
is `PAM_SUCCESS` and the domain caches credentials; otherwise nothing is
written to the cache and the outcome is reported at once.  In every execution
a hand-off or a write to the cache implies the three conditions, a write
implies a hand-off, and a session that reported without a hand-off did not
meet them. -/
theorem cache_handoff_iff (lib : LdapLib W) :
    (∀ (st : PamStatus) (s : Sys W),
      (handoffs (loop_done lib st s).log ≠ handoffs s.log ↔
        ((s.lr.pd.cmd = PamCmd.SSS_PAM_AUTHENTICATE ∨ s.lr.pd.cmd = PamCmd.SSS_PAM_CHAUTHTOK) ∧
          st = PamStatus.PAM_SUCCESS ∧ s.cache_credentials = true)) ∧
      (¬ ((s.lr.pd.cmd = PamCmd.SSS_PAM_AUTHENTICATE ∨
            s.lr.pd.cmd = PamCmd.SSS_PAM_CHAUTHTOK) ∧
          st = PamStatus.PAM_SUCCESS ∧ s.cache_credentials = true) →
        writes (loop_done lib st s).log = writes s.log ∧
        replies (loop_done lib st s).log = replies s.log ++ [st])) ∧
    (∀ (w : W) (ctx : sdap_ctx) (pd : pam_data) (cc : Bool) (msgid0 : Int)
      (inputs : List Input),
      (handoffs (run lib (sdap_pam_handler lib w ctx pd cc msgid0) inputs).log ≠ [] →
        is_auth pd.cmd ∧ cc = true ∧
        (run lib (sdap_pam_handler lib w ctx pd cc msgid0) inputs).lr.pd.pam_status =
          PamStatus.PAM_SUCCESS) ∧
      (writes (run lib (sdap_pam_handler lib w ctx pd cc msgid0) inputs).log ≠ [] →
        handoffs (run lib (sdap_pam_handler lib w ctx pd cc msgid0) inputs).log ≠ []) ∧
      (replies (run lib (sdap_pam_handler lib w ctx pd cc msgid0) inputs).log ≠ [] →
        handoffs (run lib (sdap_pam_handler lib w ctx pd cc msgid0) inputs).log = [] →
        ¬ (is_auth pd.cmd ∧ cc = true ∧
          (run lib (sdap_pam_handler lib w ctx pd cc msgid0) inputs).lr.pd.pam_status =
            PamStatus.PAM_SUCCESS))) := by
  constructor
  · intro st s
    unfold loop_done
    by_cases hcond : (s.lr.pd.cmd = PamCmd.SSS_PAM_AUTHENTICATE ∨
        s.lr.pd.cmd = PamCmd.SSS_PAM_CHAUTHTOK) ∧
        st = PamStatus.PAM_SUCCESS ∧ s.cache_credentials = true
    · by_cases hl : s.lr.ldap = none
      · simp only [hl, ne_eq, not_true_eq_false, if_false, setLr, hcond, and_self, if_true,
          sdap_cache_password, emit, setW, sdap_reply]
        split_ifs <;> simp
      · simp only [hl, ne_eq, not_false_eq_true, if_true, setLr, do_unbind, emit, setW, hcond,
          and_self, sdap_cache_password, sdap_reply]
        split_ifs <;> simp
    · by_cases hl : s.lr.ldap = none
      · simp only [hl, ne_eq, not_true_eq_false, if_false, setLr, hcond, sdap_reply, free_lr,
          emit]
        simp
      · simp only [hl, ne_eq, not_false_eq_true, if_true, setLr, do_unbind, emit, setW, hcond,
          if_false, sdap_reply, free_lr]
        simp
  · intro w ctx pd cc msgid0 inputs
    have hI := inv2_reach lib w ctx pd cc msgid0 inputs
    rcases hI with h | h | h | h | h
    · obtain ⟨_, e2, e3, e4, _, _⟩ := early_facts (Or.inl h)
      exact ⟨fun c => absurd e3 c, fun c => absurd e4 c, fun c => absurd e2 c⟩
    · obtain ⟨_, e2, e3, e4, _, _⟩ := early_facts (Or.inr h)
      exact ⟨fun c => absurd e3 c, fun c => absurd e4 c, fun c => absurd e2 c⟩
    · obtain ⟨_, _, d3, d4, _, _⟩ := D2_facts h
      obtain ⟨_, _, _, _, _, hn, _⟩ := h
      exact ⟨fun c => absurd d3 c, fun c => absurd d4 c,
        fun _ _ c => hn ⟨c.1, c.2.2, c.2.1⟩⟩
    · obtain ⟨_, c2, c3, _⟩ := C2_facts h
      obtain ⟨_, _, _, hst, ha, hcc, _⟩ := h
      exact ⟨fun _ => ⟨ha, hcc, hst⟩, fun _ => c2, fun _ c => absurd c c2⟩
    · obtain ⟨_, e2, e3, e4, _, _⟩ := X2_facts h
      exact ⟨fun c => absurd e3 c, fun c => absurd e4 c, fun c => absurd e2 c⟩

/-- Witness of C13: `alice` with a wrong password on a caching domain: the
outcome is `PAM_CRED_INSUFFICIENT` and nothing is handed to the cache. -/
theorem cache_handoff_iff_witness :
    replies (run stub (sdap_pam_handler stub scenario_dir scenario_ctx
        (scenario_pd PamCmd.SSS_PAM_AUTHENTICATE "alice" "wrong" "") true 0)
        full_schedule).log ≠ [] ∧
    handoffs (run stub (sdap_pam_handler stub scenario_dir scenario_ctx
        (scenario_pd PamCmd.SSS_PAM_AUTHENTICATE "alice" "wrong" "") true 0)
        full_schedule).log = [] ∧
    ¬ (is_auth (scenario_pd PamCmd.SSS_PAM_AUTHENTICATE "alice" "wrong" "").cmd ∧
      true = true ∧
      (run stub (sdap_pam_handler stub scenario_dir scenario_ctx
        (scenario_pd PamCmd.SSS_PAM_AUTHENTICATE "alice" "wrong" "") true 0)
        full_schedule).lr.pd.pam_status = PamStatus.PAM_SUCCESS) :=
  ⟨by decide, by decide,
   ((cache_handoff_iff stub).2 scenario_dir scenario_ctx
      (scenario_pd PamCmd.SSS_PAM_AUTHENTICATE "alice" "wrong" "") true 0 full_schedule).2.2
      (by decide) (by decide)⟩

theorem strndup_length (p : Bytes) : strndup p p.length = cstr p := by
  unfold strndup cstr
  rw [List.take_length]

/-- C14, as amended: in every execution, every password handed to
`sysdb_set_cached_password` goes with the user of the request and is the
request's authtok (`Authenticate`) or newauthtok (`ChangeAuthTok`) up to its
first NUL byte, hence the whole of it when it has no NUL byte. -/
theorem cached_password_is_cstr (lib : LdapLib W) (w : W) (ctx : sdap_ctx) (pd : pam_data)
    (cc : Bool) (msgid0 : Int) (inputs : List Input) (user : String) (password : Bytes)
    (hw : (user, password) ∈
      writes (run lib (sdap_pam_handler lib w ctx pd cc msgid0) inputs).log) :
    user = pd.user ∧ is_auth pd.cmd ∧
    (pd.cmd = PamCmd.SSS_PAM_AUTHENTICATE →
      password = cstr pd.authtok ∧ ((∀ b ∈ pd.authtok, b ≠ 0) → password = pd.authtok)) ∧
    (pd.cmd = PamCmd.SSS_PAM_CHAUTHTOK →
      password = cstr pd.newauthtok ∧
      ((∀ b ∈ pd.newauthtok, b ≠ 0) → password = pd.newauthtok)) := by
  have hI := inv2_reach lib w ctx pd cc msgid0 inputs
  rcases hI with h | h | h | h | h
  rotate_right
  · obtain ⟨_, _, _, e4, _, _⟩ := X2_facts h
    rw [e4] at hw; cases hw
  · obtain ⟨_, _, _, e4, _, _⟩ := early_facts (Or.inl h)
    rw [e4] at hw; cases hw
  · obtain ⟨_, _, _, e4, _, _⟩ := early_facts (Or.inr h)
    rw [e4] at hw; cases hw
  · obtain ⟨_, _, _, d4, _, _⟩ := D2_facts h
    rw [d4] at hw; cases hw
  · obtain ⟨_, _, c3, _⟩ := C2_facts h
    obtain ⟨_, _, _, _, ha, _⟩ := h
    have e := c3 _ hw
    simp only [Prod.mk.injEq] at e
    obtain ⟨e1, e2⟩ := e
    refine ⟨e1, ha, ?_, ?_⟩
    · intro hc
      have e3 : password = cstr pd.authtok := by
        rw [e2, cached_password, if_pos hc, strndup_length]
      exact ⟨e3, fun hn => by rw [e3, cstr_of_no_nul _ hn]⟩
    · intro hc
      have e3 : password = cstr pd.newauthtok := by
        rw [e2, cached_password, if_neg (by rw [hc]; decide), strndup_length]
      exact ⟨e3, fun hn => by rw [e3, cstr_of_no_nul _ hn]⟩

/-- Witness of C14: `alice` authenticates on a caching domain and her
password is written to the cache. -/
theorem cached_password_is_cstr_witness :
    ("alice", ascii "s3cret") ∈
      writes (run stub (sdap_pam_handler stub scenario_dir scenario_ctx
        (scenario_pd PamCmd.SSS_PAM_AUTHENTICATE "alice" "s3cret" "") true 0)
        full_schedule).log ∧
    ascii "s3cret" = cstr (scenario_pd PamCmd.SSS_PAM_AUTHENTICATE "alice" "s3cret" "").authtok :=
  ⟨by decide,
   ((cached_password_is_cstr stub scenario_dir scenario_ctx
      (scenario_pd PamCmd.SSS_PAM_AUTHENTICATE "alice" "s3cret" "") true 0 full_schedule
      "alice" (ascii "s3cret") (by decide)).2.2.1 rfl).1⟩

/-- Counterexample to C14 as stated: the authtok `a\0b` is accepted by the
directory, and the password handed to the cache is `a`, not the three bytes
of the authtok. -/
theorem cached_password_truncated :
    replies (run stub (sdap_pam_handler stub nul_dir scenario_ctx nul_pd true 0)
      full_schedule).log = [PamStatus.PAM_SUCCESS] ∧
    writes (run stub (sdap_pam_handler stub nul_dir scenario_ctx nul_pd true 0)
      full_schedule).log = [("alice", [97])] ∧
    nul_pd.authtok = [97, 0, 98] ∧ nul_pd.cmd = PamCmd.SSS_PAM_AUTHENTICATE := by
  decide

/-- What holds of the caching hand-off: in every execution, once the hand-off
has started the recorded outcome is `PAM_SUCCESS`, every status reported to the
dispatcher is `PAM_SUCCESS`, and a failure during caching (the transaction does
not start, the password is not copied, `sysdb_set_cached_password` fails at
once, an error reaches the completion callback) on a process that is still up
leaves exactly that one report. -/
theorem cache_failure_keeps_outcome (lib : LdapLib W) (w : W) (ctx : sdap_ctx)
    (pd : pam_data) (cc : Bool) (msgid0 : Int) (inputs : List Input)
    (hh : handoffs (run lib (sdap_pam_handler lib w ctx pd cc msgid0) inputs).log ≠ []) :
    (run lib (sdap_pam_handler lib w ctx pd cc msgid0) inputs).lr.pd.pam_status =
      PamStatus.PAM_SUCCESS ∧
    (∀ r ∈ replies (run lib (sdap_pam_handler lib w ctx pd cc msgid0) inputs).log,
      r = PamStatus.PAM_SUCCESS) ∧
    (cache_failures (run lib (sdap_pam_handler lib w ctx pd cc msgid0) inputs).log ≠ [] →
      (run lib (sdap_pam_handler lib w ctx pd cc msgid0) inputs).crashed = false →
      replies (run lib (sdap_pam_handler lib w ctx pd cc msgid0) inputs).log =
        [PamStatus.PAM_SUCCESS]) := by
  have hI := inv2_reach lib w ctx pd cc msgid0 inputs
  rcases hI with h | h | h | h | h
  · obtain ⟨_, _, e3, _⟩ := early_facts (Or.inl h)
    exact absurd e3 hh
  · obtain ⟨_, _, e3, _⟩ := early_facts (Or.inr h)
    exact absurd e3 hh
  · obtain ⟨_, _, d3, _⟩ := D2_facts h
    exact absurd d3 hh
  · obtain ⟨_, _, _, c4, _, c6, _⟩ := C2_facts h
    obtain ⟨_, _, _, hst, _⟩ := h
    exact ⟨hst, c4, c6⟩
  · obtain ⟨_, _, e3, _⟩ := X2_facts h
    exact absurd e3 hh

/-- C15 (the code at the failing input): a successful `Authenticate` with
credential caching enabled, when `talloc_strndup` cannot copy the password.
The hand-off has started and the recorded outcome is `PAM_SUCCESS`;
`sdap_cache_pw_op` calls `talloc_set_destructor` on the null copy before it
tests it, that call faults, and the dispatcher is never answered, whatever is
delivered afterwards. -/
theorem cache_copy_failure_no_reply (more : List Input) :
    handoffs (run stub_copy_fails (sdap_pam_handler stub_copy_fails scenario_dir scenario_ctx
      (scenario_pd PamCmd.SSS_PAM_AUTHENTICATE "alice" "s3cret" "") true 0)
      (full_schedule ++ more)).log ≠ [] ∧
    cache_failures (run stub_copy_fails (sdap_pam_handler stub_copy_fails scenario_dir
      scenario_ctx (scenario_pd PamCmd.SSS_PAM_AUTHENTICATE "alice" "s3cret" "") true 0)
      (full_schedule ++ more)).log ≠ [] ∧
    (run stub_copy_fails (sdap_pam_handler stub_copy_fails scenario_dir scenario_ctx
      (scenario_pd PamCmd.SSS_PAM_AUTHENTICATE "alice" "s3cret" "") true 0)
      (full_schedule ++ more)).lr.pd.pam_status = PamStatus.PAM_SUCCESS ∧
    (run stub_copy_fails (sdap_pam_handler stub_copy_fails scenario_dir scenario_ctx
      (scenario_pd PamCmd.SSS_PAM_AUTHENTICATE "alice" "s3cret" "") true 0)
      (full_schedule ++ more)).crashed = true ∧
    replies (run stub_copy_fails (sdap_pam_handler stub_copy_fails scenario_dir scenario_ctx
      (scenario_pd PamCmd.SSS_PAM_AUTHENTICATE "alice" "s3cret" "") true 0)
      (full_schedule ++ more)).log = [] := by
  rw [run_append, run_crashed _ _ (by decide)]
  decide

/-- C20: in every execution, every search submitted has the base
`user_search_base`, the scope `LDAP_SCOPE_SUBTREE`, the filter
`(&(<name attribute>=<user>)(objectclass=<object class>))` and the attribute
list `[LDAP_NO_ATTRS]`. -/
theorem search_arguments (lib : LdapLib W) (w : W) (ctx : sdap_ctx) (pd : pam_data)
    (cc : Bool) (msgid0 : Int) (inputs : List Input) (base : String) (scope : Int)
    (filter : String) (attrs : List String)
    (hs : (base, scope, filter, attrs) ∈
      searches (run lib (sdap_pam_handler lib w ctx pd cc msgid0) inputs).log) :
    base = ctx.user_search_base ∧ scope = LDAP_SCOPE_SUBTREE ∧
    filter = "(&(" ++ ctx.user_name_attribute ++ "=" ++ pd.user ++ ")(objectclass=" ++
      ctx.user_object_class ++ "))" ∧
    attrs = [LDAP_NO_ATTRS] := by
  have h := Inv2_searches (inv2_reach lib w ctx pd cc msgid0 inputs) _ hs
  simp only [Prod.mk.injEq] at h
  exact h

/-- Witness of C20: the search for `alice` in the stub directory. -/
theorem search_arguments_witness :
    ("ou=p,dc=x", 2, "(&(uid=alice)(objectclass=posixAccount))", ["1.1"]) ∈
      searches (run stub (sdap_pam_handler stub scenario_dir scenario_ctx
        (scenario_pd PamCmd.SSS_PAM_AUTHENTICATE "alice" "s3cret" "") false 0)
        full_schedule).log ∧
    "(&(uid=alice)(objectclass=posixAccount))" =
      "(&(" ++ scenario_ctx.user_name_attribute ++ "=" ++
        (scenario_pd PamCmd.SSS_PAM_AUTHENTICATE "alice" "s3cret" "").user ++
        ")(objectclass=" ++ scenario_ctx.user_object_class ++ "))" :=
  ⟨by decide,
   (search_arguments stub scenario_dir scenario_ctx
      (scenario_pd PamCmd.SSS_PAM_AUTHENTICATE "alice" "s3cret" "") false 0 full_schedule
      "ou=p,dc=x" 2 "(&(uid=alice)(objectclass=posixAccount))" ["1.1"] (by decide)).2.2.1⟩

/-- C21: in every execution, if anything was submitted to the directory (a
bind, a search, an extended operation) then before it the poll of the StartTLS
result delivered a result that parsed as `LDAP_SUCCESS` and `ldap_install_tls`
succeeded next on the same handle; and if the StartTLS result does not parse
or is not `LDAP_SUCCESS`, or `ldap_install_tls` fails, the dispatcher receives
exactly `PAM_SYSTEM_ERR` and nothing was submitted. -/
theorem no_operation_before_tls (lib : LdapLib W) (w : W) (ctx : sdap_ctx) (pd : pam_data)
    (cc : Bool) (msgid0 : Int) (inputs : List Input) :
    (ops (run lib (sdap_pam_handler lib w ctx pd cc msgid0) inputs).log ≠ [] →
      ∃ l1 l2 h m a ret res,
        (run lib (sdap_pam_handler lib w ctx pd cc msgid0) inputs).log =
          l1 ++ [Event.ev_result sdap_auth_steps.SDAP_CHECK_INIT_RESULT h m a ret res,
                 Event.ev_install_tls h LDAP_SUCCESS] ++ l2 ∧
        ops l1 = [] ∧ ret ≠ -1 ∧ ret ≠ 0 ∧ res.parse_ret = LDAP_SUCCESS ∧
        res.ldap_ret = LDAP_SUCCESS) ∧
    (∀ h m a ret res,
      Event.ev_result sdap_auth_steps.SDAP_CHECK_INIT_RESULT h m a ret res ∈
        (run lib (sdap_pam_handler lib w ctx pd cc msgid0) inputs).log →
      ret ≠ -1 → ret ≠ 0 → (res.parse_ret ≠ LDAP_SUCCESS ∨ res.ldap_ret ≠ LDAP_SUCCESS) →
      replies (run lib (sdap_pam_handler lib w ctx pd cc msgid0) inputs).log =
        [PamStatus.PAM_SYSTEM_ERR] ∧
      ops (run lib (sdap_pam_handler lib w ctx pd cc msgid0) inputs).log = []) ∧
    (∀ h r,
      Event.ev_install_tls h r ∈
        (run lib (sdap_pam_handler lib w ctx pd cc msgid0) inputs).log →
      r ≠ LDAP_SUCCESS →
      replies (run lib (sdap_pam_handler lib w ctx pd cc msgid0) inputs).log =
        [PamStatus.PAM_SYSTEM_ERR] ∧
      ops (run lib (sdap_pam_handler lib w ctx pd cc msgid0) inputs).log = []) := by
  have hI := Inv2_stage (inv2_reach lib w ctx pd cc msgid0 inputs)
  generalize (run lib (sdap_pam_handler lib w ctx pd cc msgid0) inputs).log = log at hI ⊢
  rcases hI with ⟨hT, hO⟩ | hU | ⟨_, hO, hR⟩
  · refine ⟨fun c => absurd hO c, ?_, ?_⟩
    · intro h m a ret res hm h1 h2 _
      have := mem_tls_steps hm (by simp [h1, h2])
      rw [hT] at this; cases this
    · intro h r hm _
      have := mem_tls_steps hm (by simp)
      rw [hT] at this; cases this
  · obtain ⟨h0, m0, a0, ret0, res0, hs, p1, p2⟩ := TlsUp_steps hU
    refine ⟨fun _ => ?_, ?_, ?_⟩
    · obtain ⟨l1, l2, h, m, a, ret, res, e, o1, _, _, r1, r2, q1, q2⟩ := hU
      exact ⟨l1, l2, h, m, a, ret, res, e, o1, r1, r2, q1, q2⟩
    · intro h m a ret res hm h1 h2 hbad
      have := mem_tls_steps hm (by simp [h1, h2])
      rw [hs] at this
      simp only [List.mem_cons, Event.ev_result.injEq, true_and, reduceCtorEq,
        List.mem_singleton, or_false, List.not_mem_nil] at this
      obtain ⟨_, _, _, _, e⟩ := this
      subst e
      rcases hbad with c | c
      · exact absurd p1 c
      · exact absurd p2 c
    · intro h r hm hr
      have := mem_tls_steps hm (by simp)
      rw [hs] at this
      simp only [List.mem_cons, reduceCtorEq, Event.ev_install_tls.injEq, List.mem_singleton,
        false_or, List.not_mem_nil, or_false] at this
      exact absurd this.2 hr
  · exact ⟨fun c => absurd hO c, fun _ _ _ _ _ _ _ _ _ => ⟨hR, hO⟩, fun _ _ _ _ => ⟨hR, hO⟩⟩

/-- Witness of C21: the directory refuses StartTLS; the dispatcher receives
`PAM_SYSTEM_ERR` and nothing was submitted. -/
theorem no_operation_before_tls_witness :
    Event.ev_result sdap_auth_steps.SDAP_CHECK_INIT_RESULT (some 1) 1 false LDAP_RES_EXTENDED
        ⟨[⟨LDAP_RES_EXTENDED, none⟩], LDAP_SUCCESS, LDAP_OTHER⟩ ∈
      (run stub_tls_refused (sdap_pam_handler stub_tls_refused scenario_dir scenario_ctx
        (scenario_pd PamCmd.SSS_PAM_AUTHENTICATE "alice" "s3cret" "") false 0)
        full_schedule).log ∧
    replies (run stub_tls_refused (sdap_pam_handler stub_tls_refused scenario_dir scenario_ctx
        (scenario_pd PamCmd.SSS_PAM_AUTHENTICATE "alice" "s3cret" "") false 0)
        full_schedule).log = [PamStatus.PAM_SYSTEM_ERR] ∧
    ops (run stub_tls_refused (sdap_pam_handler stub_tls_refused scenario_dir scenario_ctx
        (scenario_pd PamCmd.SSS_PAM_AUTHENTICATE "alice" "s3cret" "") false 0)
        full_schedule).log = [] :=
  ⟨by decide,
   (no_operation_before_tls stub_tls_refused scenario_dir scenario_ctx
      (scenario_pd PamCmd.SSS_PAM_AUTHENTICATE "alice" "s3cret" "") false 0 full_schedule).2.1
      (some 1) 1 false LDAP_RES_EXTENDED ⟨[⟨LDAP_RES_EXTENDED, none⟩], LDAP_SUCCESS, LDAP_OTHER⟩
      (by decide) (by decide) (by decide) (Or.inr (by decide))⟩

/-- C25: a readiness event at the step `SDAP_NOOP` leaves the state as it is
(no callback, no unbind, no submission, no poll, every field unchanged); and in
every execution a session handed to the credential cache is at the step
`SDAP_NOOP`, a readiness event leaves it as it is, and at most one status has
been reported. -/
theorem noop_is_inert (lib : LdapLib W) :
    (∀ s : Sys W, s.lr.next_step = sdap_auth_steps.SDAP_NOOP → sdap_pam_loop lib s = s) ∧
    (∀ (w : W) (ctx : sdap_ctx) (pd : pam_data) (cc : Bool) (msgid0 : Int)
      (inputs : List Input),
      handoffs (run lib (sdap_pam_handler lib w ctx pd cc msgid0) inputs).log ≠ [] →
      (run lib (sdap_pam_handler lib w ctx pd cc msgid0) inputs).lr.next_step =
        sdap_auth_steps.SDAP_NOOP ∧
      step lib (run lib (sdap_pam_handler lib w ctx pd cc msgid0) inputs) Input.fd_ready =
        run lib (sdap_pam_handler lib w ctx pd cc msgid0) inputs ∧
      (replies (run lib (sdap_pam_handler lib w ctx pd cc msgid0) inputs).log).length ≤ 1) := by
  have h1 : ∀ s : Sys W, s.lr.next_step = sdap_auth_steps.SDAP_NOOP →
      sdap_pam_loop lib s = s := by
    intro s hs
    unfold sdap_pam_loop
    rw [hs]
  refine ⟨h1, ?_⟩
  intro w ctx pd cc msgid0 inputs hh
  have hI := inv2_reach lib w ctx pd cc msgid0 inputs
  rcases hI with h | h | h | h | h
  rotate_right
  · obtain ⟨_, _, e3, _⟩ := X2_facts h
    exact absurd e3 hh
  · obtain ⟨_, _, e3, _⟩ := early_facts (Or.inl h)
    exact absurd e3 hh
  · obtain ⟨_, _, e3, _⟩ := early_facts (Or.inr h)
    exact absurd e3 hh
  · obtain ⟨_, _, d3, _⟩ := D2_facts h
    exact absurd d3 hh
  · obtain ⟨_, _, _, _, c5, _⟩ := C2_facts h
    obtain ⟨_, _, hn, _⟩ := h
    refine ⟨hn, ?_, c5⟩
    simp only [step]
    split_ifs
    · exact h1 _ hn
    · rfl

/-- Witness of C25: `alice` authenticates on a caching domain; while the
credential store has the session, a readiness event changes nothing. -/
theorem noop_is_inert_witness :
    handoffs (run stub (sdap_pam_handler stub scenario_dir scenario_ctx
        (scenario_pd PamCmd.SSS_PAM_AUTHENTICATE "alice" "s3cret" "") true 0)
        [Input.timer, Input.fd_ready]).log ≠ [] ∧
    step stub (run stub (sdap_pam_handler stub scenario_dir scenario_ctx
        (scenario_pd PamCmd.SSS_PAM_AUTHENTICATE "alice" "s3cret" "") true 0)
        [Input.timer, Input.fd_ready]) Input.fd_ready =
      run stub (sdap_pam_handler stub scenario_dir scenario_ctx
        (scenario_pd PamCmd.SSS_PAM_AUTHENTICATE "alice" "s3cret" "") true 0)
        [Input.timer, Input.fd_ready] :=
  ⟨by decide,
   ((noop_is_inert stub).2 scenario_dir scenario_ctx
      (scenario_pd PamCmd.SSS_PAM_AUTHENTICATE "alice" "s3cret" "") true 0
      [Input.timer, Input.fd_ready] (by decide)).2.1⟩

/-- C12: when the poll of an awaited step reports `NotReady`, the code from
the label of that step on suspends the session at that step, and so does
`sdap_pam_loop` entered at that step: `next_step` is the step, `next_task` is
`sdap_pam_loop`, the log grows by the poll alone (no callback, no unbind, no
new registration), the FD watch is as before, and `user_dn`, `msgid` and every
other field are unchanged. -/
theorem not_ready_suspends (lib : LdapLib W) (s : Sys W) :
    ((lib.ldap_result s.w s.lr.ldap s.lr.msgid false false).1.1 = 0 →
      Suspends sdap_auth_steps.SDAP_CHECK_INIT_RESULT s (case_check_init_result lib s) ∧
      Suspends sdap_auth_steps.SDAP_CHECK_STD_BIND s (case_check_std_bind lib s) ∧
      Suspends sdap_auth_steps.SDAP_CHECK_USER_BIND s (case_check_user_bind lib s)) ∧
    ((lib.ldap_result s.w s.lr.ldap s.lr.msgid true false).1.1 = 0 →
      Suspends sdap_auth_steps.SDAP_CHECK_SEARCH_DN_RESULT s
        (case_check_search_dn_result lib s)) ∧
    (∀ step, Awaited step → s.lr.next_step = step →
      (lib.ldap_result s.w s.lr.ldap s.lr.msgid
        (decide (step = sdap_auth_steps.SDAP_CHECK_SEARCH_DN_RESULT)) false).1.1 = 0 →
      Suspends step s (sdap_pam_loop lib s)) := by
  have hA : (lib.ldap_result s.w s.lr.ldap s.lr.msgid false false).1.1 = 0 →
      Suspends sdap_auth_steps.SDAP_CHECK_INIT_RESULT s (case_check_init_result lib s) ∧
      Suspends sdap_auth_steps.SDAP_CHECK_STD_BIND s (case_check_std_bind lib s) ∧
      Suspends sdap_auth_steps.SDAP_CHECK_USER_BIND s (case_check_user_bind lib s) := by
    intro h0
    unfold case_check_init_result case_check_std_bind case_check_user_bind poll
    generalize lib.ldap_result s.w s.lr.ldap s.lr.msgid false false = q at h0 ⊢
    obtain ⟨⟨ret, res⟩, w1⟩ := q
    dsimp only at h0
    subst h0
    simp only [emit, setW, setLr, if_true]
    exact ⟨⟨rfl, ⟨_, _, rfl⟩, rfl, rfl, rfl, rfl, rfl, rfl⟩,
      ⟨rfl, ⟨_, _, rfl⟩, rfl, rfl, rfl, rfl, rfl, rfl⟩,
      ⟨rfl, ⟨_, _, rfl⟩, rfl, rfl, rfl, rfl, rfl, rfl⟩⟩
  have hB : (lib.ldap_result s.w s.lr.ldap s.lr.msgid true false).1.1 = 0 →
      Suspends sdap_auth_steps.SDAP_CHECK_SEARCH_DN_RESULT s
        (case_check_search_dn_result lib s) := by
    intro h0
    unfold case_check_search_dn_result poll
    generalize lib.ldap_result s.w s.lr.ldap s.lr.msgid true false = q at h0 ⊢
    obtain ⟨⟨ret, res⟩, w1⟩ := q
    dsimp only at h0
    subst h0
    simp only [emit, setW, setLr, if_true]
    exact ⟨rfl, ⟨_, _, rfl⟩, rfl, rfl, rfl, rfl, rfl, rfl⟩
  refine ⟨hA, hB, ?_⟩
  intro step hS hs h0
  unfold sdap_pam_loop
  rw [hs]
  rcases hS with e | e | e | e <;> subst e
  · exact (hA h0).1
  · exact (hA h0).2.1
  · exact hB h0
  · exact (hA h0).2.2

/-- Witness of C12: the stub directory has no answer ready when the session
polls for the StartTLS result. -/
theorem not_ready_suspends_witness :
    (stub_not_ready.ldap_result
        (run stub_not_ready (sdap_pam_handler stub_not_ready scenario_dir scenario_ctx
          (scenario_pd PamCmd.SSS_PAM_AUTHENTICATE "alice" "s3cret" "") false 0)
          [Input.timer]).w
        (some 1) 1 false false).1.1 = 0 ∧
    Suspends sdap_auth_steps.SDAP_CHECK_INIT_RESULT
      (run stub_not_ready (sdap_pam_handler stub_not_ready scenario_dir scenario_ctx
        (scenario_pd PamCmd.SSS_PAM_AUTHENTICATE "alice" "s3cret" "") false 0) [Input.timer])
      (sdap_pam_loop stub_not_ready
        (run stub_not_ready (sdap_pam_handler stub_not_ready scenario_dir scenario_ctx
          (scenario_pd PamCmd.SSS_PAM_AUTHENTICATE "alice" "s3cret" "") false 0)
          [Input.timer])) :=
  ⟨rfl,
   (not_ready_suspends stub_not_ready
      (run stub_not_ready (sdap_pam_handler stub_not_ready scenario_dir scenario_ctx
        (scenario_pd PamCmd.SSS_PAM_AUTHENTICATE "alice" "s3cret" "") false 0)
        [Input.timer])).2.2
      sdap_auth_steps.SDAP_CHECK_INIT_RESULT (Or.inl rfl) rfl rfl⟩

/-- What holds of `sdap_bind`: it binds as `user_dn` with the request's
authtok when `user_dn` is set, else as `default_bind_dn` with `default_authtok`
when that is configured, else anonymously with no DN and an empty password.  It
submits exactly that bind; when the submission returns -1 or the message id is
-1 it returns `LDAP_OTHER` and leaves the session as it was, and in every other
case, whatever the submission returned, it returns `LDAP_SUCCESS` and stores
the message id. -/
theorem sdap_bind_credentials (lib : LdapLib W) (s : Sys W) :
    (∀ d, s.lr.user_dn = some d →
      bind_dn s.lr = some d ∧
      bind_pw s.lr = ⟨s.lr.pd.authtok.length, some s.lr.pd.authtok⟩) ∧
    (s.lr.user_dn = none → ∀ d, s.lr.sdap_ctx.default_bind_dn = some d →
      bind_dn s.lr = some d ∧
      bind_pw s.lr = ⟨s.lr.sdap_ctx.default_authtok_size, s.lr.sdap_ctx.default_authtok⟩) ∧
    (s.lr.user_dn = none → s.lr.sdap_ctx.default_bind_dn = none →
      bind_dn s.lr = none ∧ bind_pw s.lr = ⟨0, none⟩) ∧
    (sdap_bind lib s).2.log = s.log ++
      [Event.ev_sasl_bind s.lr.ldap (bind_dn s.lr) (bind_pw s.lr)
        (lib.ldap_sasl_bind s.w s.lr.ldap (bind_dn s.lr) (bind_pw s.lr)).1.1
        (lib.ldap_sasl_bind s.w s.lr.ldap (bind_dn s.lr) (bind_pw s.lr)).1.2] ∧
    (((lib.ldap_sasl_bind s.w s.lr.ldap (bind_dn s.lr) (bind_pw s.lr)).1.1 = -1 ∨
        (lib.ldap_sasl_bind s.w s.lr.ldap (bind_dn s.lr) (bind_pw s.lr)).1.2 = -1) →
      (sdap_bind lib s).1 = LDAP_OTHER ∧ (sdap_bind lib s).2.lr = s.lr) ∧
    (¬ ((lib.ldap_sasl_bind s.w s.lr.ldap (bind_dn s.lr) (bind_pw s.lr)).1.1 = -1 ∨
        (lib.ldap_sasl_bind s.w s.lr.ldap (bind_dn s.lr) (bind_pw s.lr)).1.2 = -1) →
      (sdap_bind lib s).1 = LDAP_SUCCESS ∧
      (sdap_bind lib s).2.lr =
        { s.lr with msgid :=
            (lib.ldap_sasl_bind s.w s.lr.ldap (bind_dn s.lr) (bind_pw s.lr)).1.2 }) := by
  refine ⟨?_, ?_, ?_, ?_, ?_, ?_⟩
  · intro d hd
    simp [bind_dn, bind_pw, hd]
  · intro hu d hd
    simp [bind_dn, bind_pw, hu, hd]
  · intro hu hd
    simp [bind_dn, bind_pw, hu, hd]
  · unfold sdap_bind
    simp only [emit, setW, setLr]
    split_ifs <;> rfl
  · intro h
    unfold sdap_bind
    simp only [emit, setW, setLr]
    rw [if_pos h]
    exact ⟨rfl, rfl⟩
  · intro h
    unfold sdap_bind
    simp only [emit, setW, setLr]
    rw [if_neg h]
    exact ⟨rfl, rfl⟩

/-- C22 (the code at the failing input): in every session state, when
`ldap_sasl_bind` fails with `LDAP_ENCODING_ERROR` (-3) and leaves the message
id 7 behind, `sdap_bind` returns `LDAP_SUCCESS`, not an error, and stores 7 as
the message id of the session: before, the message id of the session at hand
was 1. -/
theorem sdap_bind_error_stores_msgid :
    (∀ s : Sys Stub,
      (stub_bind_error.ldap_sasl_bind s.w s.lr.ldap (bind_dn s.lr) (bind_pw s.lr)).1 =
        (-3, 7) ∧
      (sdap_bind stub_bind_error s).1 = LDAP_SUCCESS ∧
      (sdap_bind stub_bind_error s).2.lr.msgid = 7) ∧
    (run stub_bind_error (sdap_pam_handler stub_bind_error scenario_dir scenario_ctx
      (scenario_pd PamCmd.SSS_PAM_AUTHENTICATE "alice" "s3cret" "") false 0)
      [Input.timer]).lr.msgid = 1 ∧
    (sdap_bind stub_bind_error
      (run stub_bind_error (sdap_pam_handler stub_bind_error scenario_dir scenario_ctx
        (scenario_pd PamCmd.SSS_PAM_AUTHENTICATE "alice" "s3cret" "") false 0)
        [Input.timer])).2.lr.msgid = 7 := by
  refine ⟨fun s => ⟨rfl, ?_, ?_⟩, by decide, by decide⟩
  · simp [sdap_bind, stub_bind_error, emit, setW, setLr]
  · simp [sdap_bind, stub_bind_error, emit, setW, setLr]

/-- C24 (the code at the failing input): two search results that differ by
the `SearchResultDone` after the entry of `alice`, so that they hold the same
`SearchEntry` messages.  The walk releases the chain at the entry and reads on
in the released memory; where what followed the entry reads as a `SearchEntry`
afterwards, the first result ends the `AcctMgmt` session with `PAM_SUCCESS`
and the second with `PAM_SYSTEM_ERR`. -/
theorem non_entry_message_changes_outcome :
    entries entry_dir.last.2.msgs = entries entry_done_dir.last.2.msgs ∧
    entry_done_dir.last.2.msgs = entry_dir.last.2.msgs ++ [⟨LDAP_RES_SEARCH_RESULT, none⟩] ∧
    replies (case_check_search_dn_result stub_stale
      (sdap_pam_handler stub_stale entry_dir scenario_ctx
        (scenario_pd PamCmd.SSS_PAM_ACCT_MGMT "alice" "" "") false 0)).log =
      [PamStatus.PAM_SUCCESS] ∧
    replies (case_check_search_dn_result stub_stale
      (sdap_pam_handler stub_stale entry_done_dir scenario_ctx
        (scenario_pd PamCmd.SSS_PAM_ACCT_MGMT "alice" "" "") false 0)).log =
      [PamStatus.PAM_SYSTEM_ERR] := by
  decide

/-! ## The claims on the initialisation -/

theorem tolower_eq_zero (c : Char) : tolower c = 0 ↔ c.toNat = 0 := by
  unfold tolower
  split_ifs with h
  · constructor
    · intro h2; simp at h2
    · intro h2; omega
  · rfl

/-- On strings without a NUL character, `strcasecmp` answers 0 exactly for
strings that are equal when the case of letters is ignored. -/
theorem strcasecmp_chars_zero (a b : List Char) (ha : ∀ c ∈ a, c.toNat ≠ 0)
    (hb : ∀ c ∈ b, c.toNat ≠ 0) :
    strcasecmp_chars a b = 0 ↔ a.map tolower = b.map tolower := by
  induction a generalizing b with
  | nil =>
    cases b with
    | nil => simp [strcasecmp_chars]
    | cons y ys =>
      have hy := hb y (List.mem_cons_self _ _)
      have : tolower y ≠ 0 := fun h => hy ((tolower_eq_zero y).mp h)
      simp only [strcasecmp_chars, List.map_nil, List.map_cons]
      constructor
      · intro h; omega
      · intro h; cases h
  | cons x xs ih =>
    cases b with
    | nil =>
      have hx := ha x (List.mem_cons_self _ _)
      have : tolower x ≠ 0 := fun h => hx ((tolower_eq_zero x).mp h)
      simp only [strcasecmp_chars, List.map_nil, List.map_cons]
      constructor
      · intro h; omega
      · intro h; cases h
    | cons y ys =>
      simp only [strcasecmp_chars, List.map_cons, List.cons.injEq]
      split_ifs with h
      · rw [ih ys (fun c hc => ha c (List.mem_cons_of_mem _ hc))
          (fun c hc => hb c (List.mem_cons_of_mem _ hc))]
        simp [h]
      · constructor
        · intro h2; omega
        · intro h2; exact absurd h2.1 h

theorem strcasecmp_zero (a b : String) (ha : ∀ c ∈ a.toList, c.toNat ≠ 0)
    (hb : ∀ c ∈ b.toList, c.toNat ≠ 0) :
    strcasecmp a b = 0 ↔ eq_ignoring_case a b :=
  strcasecmp_chars_zero a.toList b.toList ha hb

theorem lit_no_nul :
    (∀ c ∈ "never".toList, c.toNat ≠ 0) ∧ (∀ c ∈ "allow".toList, c.toNat ≠ 0) ∧
    (∀ c ∈ "try".toList, c.toNat ≠ 0) ∧ (∀ c ∈ "demand".toList, c.toNat ≠ 0) ∧
    (∀ c ∈ "hard".toList, c.toNat ≠ 0) := by
  decide

/-- The level chosen for a `tls_reqcert` string without a NUL character. -/
theorem reqcert_level_spec (v : String) (hnul : ∀ c ∈ v.toList, c.toNat ≠ 0) :
    (eq_ignoring_case v "never" → reqcert_level v = some LDAP_OPT_X_TLS_NEVER) ∧
    (eq_ignoring_case v "allow" → reqcert_level v = some LDAP_OPT_X_TLS_ALLOW) ∧
    (eq_ignoring_case v "try" → reqcert_level v = some LDAP_OPT_X_TLS_TRY) ∧
    (eq_ignoring_case v "demand" → reqcert_level v = some LDAP_OPT_X_TLS_DEMAND) ∧
    (eq_ignoring_case v "hard" → reqcert_level v = some LDAP_OPT_X_TLS_HARD) ∧
    (¬ (eq_ignoring_case v "never" ∨ eq_ignoring_case v "allow" ∨ eq_ignoring_case v "try" ∨
        eq_ignoring_case v "demand" ∨ eq_ignoring_case v "hard") →
      reqcert_level v = none) := by
  obtain ⟨n1, n2, n3, n4, n5⟩ := lit_no_nul
  unfold reqcert_level
  have e1 := strcasecmp_zero v "never" hnul n1
  have e2 := strcasecmp_zero v "allow" hnul n2
  have e3 := strcasecmp_zero v "try" hnul n3
  have e4 := strcasecmp_zero v "demand" hnul n4
  have e5 := strcasecmp_zero v "hard" hnul n5
  have d12 : eq_ignoring_case v "allow" → ¬ eq_ignoring_case v "never" := by
    unfold eq_ignoring_case; intro h; rw [h]; decide
  have d13 : eq_ignoring_case v "try" → ¬ eq_ignoring_case v "never" := by
    unfold eq_ignoring_case; intro h; rw [h]; decide
  have d14 : eq_ignoring_case v "demand" → ¬ eq_ignoring_case v "never" := by
    unfold eq_ignoring_case; intro h; rw [h]; decide
  have d15 : eq_ignoring_case v "hard" → ¬ eq_ignoring_case v "never" := by
    unfold eq_ignoring_case; intro h; rw [h]; decide
  have d23 : eq_ignoring_case v "try" → ¬ eq_ignoring_case v "allow" := by
    unfold eq_ignoring_case; intro h; rw [h]; decide
  have d24 : eq_ignoring_case v "demand" → ¬ eq_ignoring_case v "allow" := by
    unfold eq_ignoring_case; intro h; rw [h]; decide
  have d25 : eq_ignoring_case v "hard" → ¬ eq_ignoring_case v "allow" := by
    unfold eq_ignoring_case; intro h; rw [h]; decide
  have d34 : eq_ignoring_case v "demand" → ¬ eq_ignoring_case v "try" := by
    unfold eq_ignoring_case; intro h; rw [h]; decide
  have d35 : eq_ignoring_case v "hard" → ¬ eq_ignoring_case v "try" := by
    unfold eq_ignoring_case; intro h; rw [h]; decide
  have d45 : eq_ignoring_case v "hard" → ¬ eq_ignoring_case v "demand" := by
    unfold eq_ignoring_case; intro h; rw [h]; decide
  refine ⟨?_, ?_, ?_, ?_, ?_, ?_⟩
  · intro h; rw [if_pos (e1.mpr h)]
  · intro h; rw [if_neg (fun c => d12 h (e1.mp c)), if_pos (e2.mpr h)]
  · intro h
    rw [if_neg (fun c => d13 h (e1.mp c)), if_neg (fun c => d23 h (e2.mp c)),
      if_pos (e3.mpr h)]
  · intro h
    rw [if_neg (fun c => d14 h (e1.mp c)), if_neg (fun c => d24 h (e2.mp c)),
      if_neg (fun c => d34 h (e3.mp c)), if_pos (e4.mpr h)]
  · intro h
    rw [if_neg (fun c => d15 h (e1.mp c)), if_neg (fun c => d25 h (e2.mp c)),
      if_neg (fun c => d35 h (e3.mp c)), if_neg (fun c => d45 h (e4.mp c)),
      if_pos (e5.mpr h)]
  · intro h
    rw [if_neg (fun c => h (Or.inl (e1.mp c))),
      if_neg (fun c => h (Or.inr (Or.inl (e2.mp c)))),
      if_neg (fun c => h (Or.inr (Or.inr (Or.inl (e3.mp c))))),
      if_neg (fun c => h (Or.inr (Or.inr (Or.inr (Or.inl (e4.mp c)))))),
      if_neg (fun c => h (Or.inr (Or.inr (Or.inr (Or.inr (e5.mp c))))))]

/-- What `sssm_ldap_auth_init` does when the allocation and every lookup
succeed and `userSearchBase` is configured: it fills the context and decides on
`tls_reqcert`. -/
theorem init_eval (env : InitEnv) (ctx0 : sdap_ctx) (base : String)
    (hok : env.talloc_ok = true) (hret : ∀ k, env.lookup_ret k = EOK)
    (hbase : env.strings "userSearchBase" = some base) :
    ∃ c : sdap_ctx,
      c.user_search_base = base ∧
      c.network_timeout = (env.ints "opt_timeout").getD 5 ∧
      c.opt_timeout = ctx0.opt_timeout ∧
      c.default_authtok = (env.strings "defaultAuthtok").map ascii ∧
      sssm_ldap_auth_init env ctx0 =
        match env.strings "tls_reqcert" with
        | none =>
          { ret := EOK, ops := true, pvt_data := some c, require_cert := [], freed := none }
        | some v =>
          match reqcert_level v with
          | none => init_failed EINVAL c []
          | some level =>
            if env.require_cert_ret level ≠ LDAP_OPT_SUCCESS then init_failed EIO_ c [level]
            else
              { ret := EOK, ops := true, pvt_data := some c, require_cert := [level],
                freed := none } := by
  refine ⟨{ ctx0 with
      ldap_uri := (env.strings "ldapUri").getD "ldap://localhost"
      default_bind_dn := env.strings "defaultBindDn"
      default_authtok_type := env.strings "defaultAuthtokType"
      user_search_base := base
      user_name_attribute := (env.strings "userNameAttribute").getD "uid"
      user_object_class := (env.strings "userObjectClass").getD "posixAccount"
      default_authtok := (env.strings "defaultAuthtok").map ascii
      default_authtok_size :=
        match env.strings "defaultAuthtok" with
        | none => 0
        | some v => (cstr (ascii v)).length
      network_timeout := (env.ints "opt_timeout").getD 5 }, rfl, rfl, rfl, rfl, ?_⟩
  unfold sssm_ldap_auth_init
  simp only [confdb_get_string, confdb_get_string_null, confdb_get_int, hok, hret, hbase,
    ne_eq, not_true_eq_false, if_false, Bool.true_eq_false] <;> rfl

/-- The loop of `password_destructor` zeroes a string without an inner NUL. -/
theorem password_destructor_no_nul (l : Bytes) (h : ∀ x ∈ l, x ≠ 0) :
    password_destructor l = List.replicate l.length 0 := by
  induction l with
  | nil => rfl
  | cons b rest ih =>
    have hb : b ≠ 0 := h b (List.mem_cons_self _ _)
    simp only [password_destructor, hb, if_false, List.length_cons, List.replicate_succ,
      List.cons.injEq, true_and]
    exact ih (fun x hx => h x (List.mem_cons_of_mem _ hx))

/-- The destructor of the password copy leaves every byte of the copy zero. -/
theorem password_destructor_zeroes (p : Bytes) (n : Nat) :
    password_destructor (strndup p n) = List.replicate (strndup p n).length 0 := by
  apply password_destructor_no_nul
  intro x hx
  unfold strndup at hx
  have := List.mem_takeWhile_imp hx
  simpa using this

/-- A configuration without `userSearchBase` is refused with `EINVAL`. -/
theorem init_missing_base (env : InitEnv) (ctx0 : sdap_ctx) (hok : env.talloc_ok = true)
    (hret : ∀ k, env.lookup_ret k = EOK) (hbase : env.strings "userSearchBase" = none) :
    (sssm_ldap_auth_init env ctx0).ret = EINVAL ∧
    (sssm_ldap_auth_init env ctx0).ops = false ∧
    (sssm_ldap_auth_init env ctx0).pvt_data = none := by
  unfold sssm_ldap_auth_init
  simp only [confdb_get_string, confdb_get_string_null, confdb_get_int, hok, hret, hbase,
    ne_eq, not_true_eq_false, if_false, Bool.true_eq_false]
  exact ⟨rfl, rfl, rfl⟩

/-- C16: with the allocation, the lookups and `userSearchBase` in order, a
`tls_reqcert` string that equals `never`, `allow`, `try`, `demand` or `hard`
when case is ignored makes `sssm_ldap_auth_init` pass exactly the level of that
name to the library-global option, and the initialisation succeeds with the
operations table and the context iff the library takes the option (`EIO`
otherwise); every other string is answered with `EINVAL`, without operations
table, without context and without a call of the option. -/
theorem tls_reqcert_levels (env : InitEnv) (ctx0 : sdap_ctx) (base v : String)
    (hok : env.talloc_ok = true) (hret : ∀ k, env.lookup_ret k = EOK)
    (hbase : env.strings "userSearchBase" = some base)
    (htls : env.strings "tls_reqcert" = some v) (hnul : ∀ c ∈ v.toList, c.toNat ≠ 0) :
    (eq_ignoring_case v "never" →
      (sssm_ldap_auth_init env ctx0).require_cert = [LDAP_OPT_X_TLS_NEVER]) ∧
    (eq_ignoring_case v "allow" →
      (sssm_ldap_auth_init env ctx0).require_cert = [LDAP_OPT_X_TLS_ALLOW]) ∧
    (eq_ignoring_case v "try" →
      (sssm_ldap_auth_init env ctx0).require_cert = [LDAP_OPT_X_TLS_TRY]) ∧
    (eq_ignoring_case v "demand" →
      (sssm_ldap_auth_init env ctx0).require_cert = [LDAP_OPT_X_TLS_DEMAND]) ∧
    (eq_ignoring_case v "hard" →
      (sssm_ldap_auth_init env ctx0).require_cert = [LDAP_OPT_X_TLS_HARD]) ∧
    (∀ level, (sssm_ldap_auth_init env ctx0).require_cert = [level] →
      (env.require_cert_ret level = LDAP_OPT_SUCCESS →
        (sssm_ldap_auth_init env ctx0).ret = EOK ∧
        (sssm_ldap_auth_init env ctx0).ops = true ∧
        (sssm_ldap_auth_init env ctx0).pvt_data ≠ none) ∧
      (env.require_cert_ret level ≠ LDAP_OPT_SUCCESS →
        (sssm_ldap_auth_init env ctx0).ret = EIO_ ∧
        (sssm_ldap_auth_init env ctx0).ops = false ∧
        (sssm_ldap_auth_init env ctx0).pvt_data = none)) ∧
    (¬ (eq_ignoring_case v "never" ∨ eq_ignoring_case v "allow" ∨ eq_ignoring_case v "try" ∨
        eq_ignoring_case v "demand" ∨ eq_ignoring_case v "hard") →
      (sssm_ldap_auth_init env ctx0).ret = EINVAL ∧
      (sssm_ldap_auth_init env ctx0).ops = false ∧
      (sssm_ldap_auth_init env ctx0).pvt_data = none ∧
      (sssm_ldap_auth_init env ctx0).require_cert = []) := by
  obtain ⟨c, _, _, _, _, he⟩ := init_eval env ctx0 base hok hret hbase
  rw [he, htls]
  dsimp only
  obtain ⟨s1, s2, s3, s4, s5, s6⟩ := reqcert_level_spec v hnul
  have key : ∀ level, reqcert_level v = some level →
      (match reqcert_level v with
        | none => init_failed EINVAL c []
        | some level =>
          if env.require_cert_ret level ≠ LDAP_OPT_SUCCESS then init_failed EIO_ c [level]
          else
            { ret := EOK, ops := true, pvt_data := some c, require_cert := [level],
              freed := none }).require_cert = [level] := by
    intro level hl
    rw [hl]
    dsimp only
    split_ifs <;> rfl
  refine ⟨fun h => key _ (s1 h), fun h => key _ (s2 h), fun h => key _ (s3 h),
    fun h => key _ (s4 h), fun h => key _ (s5 h), ?_, ?_⟩
  · intro level hl
    cases hr : reqcert_level v with
    | none =>
      rw [hr] at hl
      simp [init_failed] at hl
    | some l2 =>
      rw [hr] at hl
      dsimp only at hl ⊢
      have : l2 = level := by
        split_ifs at hl <;> simpa [init_failed] using hl
      subst this
      constructor
      · intro h; rw [if_neg (not_not.mpr h)]; exact ⟨rfl, rfl, by simp⟩
      · intro h; rw [if_pos h]; exact ⟨rfl, rfl, rfl⟩
  · intro h
    rw [s6 h]
    exact ⟨rfl, rfl, rfl, rfl⟩

/-- Witness of C16: the value `NeVer` is taken as the level `never`. -/
theorem tls_reqcert_levels_witness :
    eq_ignoring_case "NeVer" "never" ∧
    (sssm_ldap_auth_init (scenario_env (some "NeVer") (some "ou=p,dc=x") none none)
      scenario_ctx).require_cert = [LDAP_OPT_X_TLS_NEVER] :=
  ⟨by unfold eq_ignoring_case; decide,
   (tls_reqcert_levels (scenario_env (some "NeVer") (some "ou=p,dc=x") none none) scenario_ctx
      "ou=p,dc=x" "NeVer" rfl (fun _ => rfl) (by decide) (by decide) (by decide)).1
      (by unfold eq_ignoring_case; decide)⟩

/-- C17: a configuration whose `userSearchBase` is the empty string is
accepted, and the context holds the empty base. -/
theorem init_accepts_empty_base (ctx0 : sdap_ctx) :
    (sssm_ldap_auth_init (scenario_env none (some "") none none) ctx0).ret = EOK ∧
    (sssm_ldap_auth_init (scenario_env none (some "") none none) ctx0).ops = true ∧
    ∃ c, (sssm_ldap_auth_init (scenario_env none (some "") none none) ctx0).pvt_data = some c ∧
      c.user_search_base = "" := by
  obtain ⟨c, hb, _, _, _, he⟩ := init_eval (scenario_env none (some "") none none) ctx0 ""
    rfl (fun _ => rfl) (by decide)
  have ht : (scenario_env none (some "") none none).strings "tls_reqcert" = none := by decide
  rw [he, ht]
  exact ⟨rfl, rfl, c, rfl, hb⟩

/-- C18: with `network_timeout = 7` and `opt_timeout = 9` configured, the
context holds 9 as its `network_timeout`, and its `opt_timeout` is what the
fresh allocation happened to contain. -/
theorem init_timeouts_mixed_up (ctx0 : sdap_ctx) :
    (sssm_ldap_auth_init (scenario_env none (some "ou=p,dc=x") (some 7) (some 9)) ctx0).ret =
      EOK ∧
    ∃ c, (sssm_ldap_auth_init (scenario_env none (some "ou=p,dc=x") (some 7) (some 9))
        ctx0).pvt_data = some c ∧
      c.network_timeout = 9 ∧ c.opt_timeout = ctx0.opt_timeout := by
  obtain ⟨c, _, hn, ho, _, he⟩ :=
    init_eval (scenario_env none (some "ou=p,dc=x") (some 7) (some 9)) ctx0 "ou=p,dc=x"
      rfl (fun _ => rfl) (by decide)
  have ht : (scenario_env none (some "ou=p,dc=x") (some 7) (some 9)).strings "tls_reqcert" =
      none := by decide
  rw [he, ht]
  refine ⟨rfl, c, rfl, ?_, ho⟩
  rw [hn]
  decide

/-- C19: when the initialisation fails on an unknown `tls_reqcert`, the
context is released with the configured `default_authtok` still in it, not
overwritten. -/
theorem init_failure_frees_authtok (ctx0 : sdap_ctx) :
    (sssm_ldap_auth_init (scenario_env (some "bogus") (some "ou=p,dc=x") none none) ctx0).ret =
      EINVAL ∧
    ∃ c, (sssm_ldap_auth_init (scenario_env (some "bogus") (some "ou=p,dc=x") none none)
        ctx0).freed = some c ∧
      c.default_authtok = some (ascii "svcpw") ∧
      ascii "svcpw" ≠ List.replicate (ascii "svcpw").length 0 := by
  obtain ⟨c, _, _, _, ha, he⟩ :=
    init_eval (scenario_env (some "bogus") (some "ou=p,dc=x") none none) ctx0 "ou=p,dc=x"
      rfl (fun _ => rfl) (by decide)
  have ht : (scenario_env (some "bogus") (some "ou=p,dc=x") none none).strings "tls_reqcert" =
      some "bogus" := by decide
  have hl : reqcert_level "bogus" = none := by decide
  have hd : (scenario_env (some "bogus") (some "ou=p,dc=x") none none).strings
      "defaultAuthtok" = some "svcpw" := by decide
  rw [he, ht]
  dsimp only
  rw [hl]
  refine ⟨rfl, c, rfl, ?_, by decide⟩
  rw [ha, hd]
  rfl

/-! ## Suspension is transparent -/

@[simp] theorem strip_nil : strip [] = [] := rfl

@[simp] theorem strip_append (a b : List Event) : strip (a ++ b) = strip a ++ strip b := by
  simp [strip]

@[simp] theorem strip_cons (e : Event) (l : List Event) :
    strip (e :: l) = if is_not_ready e = true then strip l else e :: strip l := by
  unfold strip
  by_cases h : is_not_ready e = true <;> simp [List.filter_cons, h]

theorem replies_strip (l : List Event) : replies (strip l) = replies l := by
  induction l with
  | nil => rfl
  | cons e l ih =>
    rw [strip_cons]
    by_cases h : is_not_ready e = true
    · rw [if_pos h, ih]
      cases e <;> simp [is_not_ready] at h ⊢
    · rw [if_neg h]
      simp [replies_cons, ih]

theorem ops_strip (l : List Event) : ops (strip l) = ops l := by
  induction l with
  | nil => rfl
  | cons e l ih =>
    rw [strip_cons]
    by_cases h : is_not_ready e = true
    · rw [if_pos h, ih]
      cases e <;> simp [is_not_ready] at h ⊢
    · rw [if_neg h]
      simp [ops_cons, ih]

theorem agree_und (sd : Sys (List Nat × W)) (t : NextTask) (st : sdap_auth_steps) :
    Agree sd (und sd t st) := ⟨t, st, rfl⟩

theorem settled_inert (lib : LdapLib W) (s : Sys W) (h : Settled s) :
    step lib s Input.fd_ready = s := by
  unfold step
  by_cases hc : s.crashed = false ∧ s.fde = true
  · rw [if_pos hc]
    rcases h with h | h | h
    · rw [hc.2] at h; exact absurd h (by decide)
    · unfold sdap_pam_loop; rw [h]
    · rw [hc.1] at h; exact absurd h (by decide)
  · rw [if_neg hc]

theorem settled_run (lib : LdapLib W) (s : Sys W) (h : Settled s) (n : Nat) :
    run lib s (List.replicate n Input.fd_ready) = s := by
  induction n with
  | zero => rfl
  | succ n ih =>
    rw [List.replicate_succ]
    show run lib (step lib s Input.fd_ready) _ = s
    rw [settled_inert lib s h, ih]

theorem settled_loop_done (lib : LdapLib W) (st : PamStatus) (s : Sys W)
    (h : st = PamStatus.PAM_SUCCESS → s.lr.next_step = sdap_auth_steps.SDAP_NOOP) :
    Settled (loop_done lib st s) := by
  unfold loop_done
  by_cases hc : ((setLr { (if s.lr.ldap ≠ none then do_unbind lib s else s).lr with
        pd := { (if s.lr.ldap ≠ none then do_unbind lib s else s).lr.pd with
          pam_status := st } } (if s.lr.ldap ≠ none then do_unbind lib s else s)).lr.pd.cmd =
        PamCmd.SSS_PAM_AUTHENTICATE ∨
      (setLr { (if s.lr.ldap ≠ none then do_unbind lib s else s).lr with
        pd := { (if s.lr.ldap ≠ none then do_unbind lib s else s).lr.pd with
          pam_status := st } } (if s.lr.ldap ≠ none then do_unbind lib s else s)).lr.pd.cmd =
        PamCmd.SSS_PAM_CHAUTHTOK) ∧
      (setLr { (if s.lr.ldap ≠ none then do_unbind lib s else s).lr with
        pd := { (if s.lr.ldap ≠ none then do_unbind lib s else s).lr.pd with
          pam_status := st } } (if s.lr.ldap ≠ none then do_unbind lib s else s)).lr.pd.pam_status =
        PamStatus.PAM_SUCCESS ∧
      (setLr { (if s.lr.ldap ≠ none then do_unbind lib s else s).lr with
        pd := { (if s.lr.ldap ≠ none then do_unbind lib s else s).lr.pd with
          pam_status := st } }
        (if s.lr.ldap ≠ none then do_unbind lib s else s)).cache_credentials = true
  · dsimp only
    rw [if_pos hc]
    have hst : st = PamStatus.PAM_SUCCESS := hc.2.1
    right; left
    have := h hst
    unfold sdap_cache_password
    by_cases hl : s.lr.ldap ≠ none
    · simp only [if_pos hl, do_unbind, emit, setW, setLr]
      split_ifs <;> simp [sdap_reply, emit, this]
    · simp only [if_neg hl, emit, setW, setLr]
      split_ifs <;> simp [sdap_reply, emit, this]
  · dsimp only
    rw [if_neg hc]
    left
    rfl

theorem loop_done_und (lib : LdapLib W) (st : PamStatus) (sd : Sys (List Nat × W))
    (t : NextTask) (x : sdap_auth_steps) :
    loop_done lib st (und sd t x) = und (loop_done (delayed lib) st sd) t x := by
  obtain ⟨⟨ds, w⟩, lr, cc, log, ti, fde, al, pe, cr⟩ := sd
  unfold loop_done sdap_cache_password
  by_cases hl : lr.ldap = none
  · simp only [und, do_unbind, free_lr, sdap_reply, emit, setW, setLr, delayed, hl, ne_eq,
      not_true_eq_false, if_false]
    split_ifs <;> simp [und, strip, is_not_ready]
  · simp only [und, do_unbind, free_lr, sdap_reply, emit, setW, setLr, delayed, hl, ne_eq,
      not_false_eq_true, if_true]
    split_ifs <;> simp [und, strip, is_not_ready]

theorem start_done_und (lib : LdapLib W) (st : PamStatus) (sd : Sys (List Nat × W))
    (t : NextTask) (x : sdap_auth_steps) :
    start_done lib st (und sd t x) = und (start_done (delayed lib) st sd) t x := by
  obtain ⟨⟨ds, w⟩, lr, cc, log, ti, fde, al, pe, cr⟩ := sd
  unfold start_done
  by_cases hl : lr.ldap = none
  · simp [und, do_unbind, free_lr, sdap_reply, emit, setW, setLr, delayed, hl, strip,
      is_not_ready]
  · simp [und, do_unbind, free_lr, sdap_reply, emit, setW, setLr, delayed, hl, strip,
      is_not_ready]

theorem chauthtok_und (lib : LdapLib W) (sd : Sys (List Nat × W))
    (t : NextTask) (x : sdap_auth_steps) :
    sdap_pam_chauthtok lib (und sd t x) =
      ((sdap_pam_chauthtok (delayed lib) sd).1,
        und (sdap_pam_chauthtok (delayed lib) sd).2 t x) := by
  obtain ⟨⟨ds, w⟩, lr, cc, log, ti, fde, al, pe, cr⟩ := sd
  unfold sdap_pam_chauthtok
  simp only [chauthtok_cleanup_uninit, und, emit, setW, setLr, delayed]
  generalize lib.ber_alloc_t w = a
  obtain ⟨a1, wa⟩ := a
  dsimp only
  generalize lib.ber_printf wa lr.user_dn (cstr lr.pd.authtok) (cstr lr.pd.newauthtok) = p
  obtain ⟨p1, wp⟩ := p
  dsimp only
  generalize lib.ber_bvfree wp = v1
  obtain ⟨v11, wv1⟩ := v1
  generalize lib.ber_flatten wp = f
  obtain ⟨f1, wf⟩ := f
  dsimp only
  generalize lib.ber_bvfree wf = v2
  obtain ⟨v21, wv2⟩ := v2
  generalize lib.ldap_extended_operation wf lr.ldap LDAP_EXOP_MODIFY_PASSWD lr.user_dn
    (cstr lr.pd.authtok) (cstr lr.pd.newauthtok) = x
  obtain ⟨⟨x1, x2⟩, wx⟩ := x
  dsimp only
  generalize lib.ldap_result wx lr.ldap x2 false true = r
  obtain ⟨⟨r1, r2⟩, wr⟩ := r
  dsimp only
  split_ifs <;> simp [und, strip, is_not_ready]

theorem chauthtok_delays (lib : LdapLib W) (sd : Sys (List Nat × W)) :
    (sdap_pam_chauthtok (delayed lib) sd).2.w.1 = sd.w.1 := by
  obtain ⟨⟨ds, w⟩, lr, cc, log, ti, fde, al, pe, cr⟩ := sd
  unfold sdap_pam_chauthtok
  simp only [chauthtok_cleanup_uninit, emit, setW, setLr, delayed]
  generalize lib.ber_alloc_t w = a
  obtain ⟨a1, wa⟩ := a
  dsimp only
  generalize lib.ber_printf wa lr.user_dn (cstr lr.pd.authtok) (cstr lr.pd.newauthtok) = p
  obtain ⟨p1, wp⟩ := p
  dsimp only
  generalize lib.ber_bvfree wp = v1
  obtain ⟨v11, wv1⟩ := v1
  generalize lib.ber_flatten wp = f
  obtain ⟨f1, wf⟩ := f
  dsimp only
  generalize lib.ber_bvfree wf = v2
  obtain ⟨v21, wv2⟩ := v2
  generalize lib.ldap_extended_operation wf lr.ldap LDAP_EXOP_MODIFY_PASSWD lr.user_dn
    (cstr lr.pd.authtok) (cstr lr.pd.newauthtok) = x
  obtain ⟨⟨x1, x2⟩, wx⟩ := x
  dsimp only
  generalize lib.ldap_result wx lr.ldap x2 false true = r
  obtain ⟨⟨r1, r2⟩, wr⟩ := r
  dsimp only
  split_ifs <;> rfl

theorem bind_und (lib : LdapLib W) (sd : Sys (List Nat × W))
    (t : NextTask) (x : sdap_auth_steps) :
    sdap_bind lib (und sd t x) =
      ((sdap_bind (delayed lib) sd).1, und (sdap_bind (delayed lib) sd).2 t x) := by
  obtain ⟨⟨ds, w⟩, lr, cc, log, ti, fde, al, pe, cr⟩ := sd
  unfold sdap_bind
  simp only [und, emit, setW, setLr, delayed, bind_dn, bind_pw]
  split_ifs <;> simp [und, strip, is_not_ready]

theorem search_und (lib : LdapLib W) (sd : Sys (List Nat × W))
    (t : NextTask) (x : sdap_auth_steps) :
    search_ext lib (und sd t x) =
      ((search_ext (delayed lib) sd).1, und (search_ext (delayed lib) sd).2 t x) := by
  obtain ⟨⟨ds, w⟩, lr, cc, log, ti, fde, al, pe, cr⟩ := sd
  unfold search_ext
  simp [und, emit, setW, setLr, delayed, search_filter, strip, is_not_ready]

theorem install_und (lib : LdapLib W) (sd : Sys (List Nat × W))
    (t : NextTask) (x : sdap_auth_steps) :
    install_tls lib (und sd t x) =
      ((install_tls (delayed lib) sd).1, und (install_tls (delayed lib) sd).2 t x) := by
  obtain ⟨⟨ds, w⟩, lr, cc, log, ti, fde, al, pe, cr⟩ := sd
  unfold install_tls
  simp [und, emit, setW, setLr, delayed, strip, is_not_ready]

theorem cache_pw_op_und (lib : LdapLib W) (sd : Sys (List Nat × W))
    (t : NextTask) (x : sdap_auth_steps) :
    sdap_cache_pw_op lib (und sd t x) = und (sdap_cache_pw_op (delayed lib) sd) t x := by
  obtain ⟨⟨ds, w⟩, lr, cc, log, ti, fde, al, pe, cr⟩ := sd
  obtain ⟨⟨cmd, user, authtok, newauthtok, pam_status⟩, ctx, ldap, dn, nt, ns, msgid⟩ := lr
  unfold sdap_cache_pw_op
  cases cmd <;> simp only [und, sdap_reply, emit, setW, setLr, delayed] <;>
    (try split_ifs) <;> simp [und, strip, is_not_ready]

theorem cache_pw_callback_und (lib : LdapLib W) (e : Int) (sd : Sys (List Nat × W))
    (t : NextTask) (x : sdap_auth_steps) :
    sdap_cache_pw_callback lib e (und sd t x) =
      und (sdap_cache_pw_callback (delayed lib) e sd) t x := by
  obtain ⟨⟨ds, w⟩, lr, cc, log, ti, fde, al, pe, cr⟩ := sd
  unfold sdap_cache_pw_callback
  simp [und, sdap_reply, emit, setW, setLr, delayed, strip, is_not_ready]

theorem agree_of_eq {sd : Sys (List Nat × W)} {s : Sys W}
    (h : s = und sd s.lr.next_task s.lr.next_step) : Agree sd s :=
  ⟨s.lr.next_task, s.lr.next_step, h⟩

theorem loop_done_timer (lib : LdapLib W) (st : PamStatus) (s : Sys W) :
    (loop_done lib st s).timer = s.timer := by
  unfold loop_done sdap_cache_password
  by_cases hl : s.lr.ldap = none
  · simp only [do_unbind, free_lr, sdap_reply, emit, setW, setLr, hl, ne_eq,
      not_true_eq_false, if_false]
    split_ifs <;> rfl
  · simp only [do_unbind, free_lr, sdap_reply, emit, setW, setLr, hl, ne_eq,
      not_false_eq_true, if_true]
    split_ifs <;> rfl

theorem landed_loop_done (lib : LdapLib W) (st : PamStatus) (X : Sys (List Nat × W))
    (Y : Sys W) (hA : Agree X Y)
    (h : st = PamStatus.PAM_SUCCESS →
      X.lr.next_step = sdap_auth_steps.SDAP_NOOP ∧ Y.lr.next_step = sdap_auth_steps.SDAP_NOOP)
    (ht : X.timer = false) (n : Nat) :
    Landed (run (delayed lib) (loop_done (delayed lib) st X)
      (List.replicate n Input.fd_ready)) (loop_done lib st Y) := by
  have h1 : Settled (loop_done (delayed lib) st X) :=
    settled_loop_done _ st X (fun e => (h e).1)
  have h2 : Settled (loop_done lib st Y) := settled_loop_done _ st Y (fun e => (h e).2)
  obtain ⟨t, x, rfl⟩ := hA
  rw [settled_run _ _ h1]
  refine ⟨?_, h1, h2, ?_⟩
  · show Agree _ (loop_done lib st (und X t x))
    rw [loop_done_und]
    exact agree_und _ _ _
  · rw [loop_done_timer]; exact ht

theorem landed_after_user_bind (lib : LdapLib W) (X : Sys (List Nat × W))
    (Y : Sys W) (hA : Agree X Y)
    (hX : X.lr.next_step = sdap_auth_steps.SDAP_NOOP)
    (hY : Y.lr.next_step = sdap_auth_steps.SDAP_NOOP)
    (ht : X.timer = false) (n : Nat) :
    Landed (run (delayed lib) (after_user_bind (delayed lib) X)
      (List.replicate n Input.fd_ready)) (after_user_bind lib Y) := by
  have hcmd : Y.lr.pd.cmd = X.lr.pd.cmd := by
    obtain ⟨t, x, rfl⟩ := hA; rfl
  unfold after_user_bind
  rw [hcmd]
  have hch : Agree (sdap_pam_chauthtok (delayed lib) X).2 (sdap_pam_chauthtok lib Y).2 ∧
      (sdap_pam_chauthtok lib Y).1 = (sdap_pam_chauthtok (delayed lib) X).1 := by
    obtain ⟨t, x, rfl⟩ := hA
    show Agree _ (sdap_pam_chauthtok lib (und X t x)).2 ∧
      (sdap_pam_chauthtok lib (und X t x)).1 = _
    rw [chauthtok_und]
    exact ⟨agree_und _ _ _, rfl⟩
  have hsX := chauthtok_spec (delayed lib) X
  have hsY := chauthtok_spec lib Y
  cases X.lr.pd.cmd with
  | SSS_PAM_CHAUTHTOK =>
    dsimp only
    rw [hch.2]
    cases (sdap_pam_chauthtok (delayed lib) X).1 with
    | none =>
      dsimp only
      have h1 : Settled ({ (sdap_pam_chauthtok (delayed lib) X).2 with crashed := true } :
          Sys (List Nat × W)) := Or.inr (Or.inr rfl)
      have h2 : Settled ({ (sdap_pam_chauthtok lib Y).2 with crashed := true } : Sys W) :=
        Or.inr (Or.inr rfl)
      rw [settled_run _ _ h1]
      refine ⟨?_, h1, h2, by rw [← ht, ← hsX.2.2.1]⟩
      obtain ⟨t, x, e⟩ := hch.1
      exact ⟨t, x, by rw [e]; rfl⟩
    | some st =>
      exact landed_loop_done lib _ _ _ hch.1
        (fun _ => ⟨by rw [hsX.1]; exact hX, by rw [hsY.1]; exact hY⟩)
        (by rw [hsX.2.2.1]; exact ht) n
  | _ => exact landed_loop_done lib _ _ _ hA (fun _ => ⟨hX, hY⟩) ht n

/-- Induction on the delay of the poll at hand. -/
theorem delay_induction (lib : LdapLib W) (S : sdap_auth_steps) (all : Bool)
    (Fd : Sys (List Nat × W) → Sys (List Nat × W)) (Fl : Sys W → Sys W)
    (hloop : ∀ sd : Sys (List Nat × W), sd.lr.next_step = S →
      sdap_pam_loop (delayed lib) sd = Fd sd)
    (hwait : ∀ (sd : Sys (List Nat × W)) k ds, sd.w.1 = (k + 1) :: ds →
      Fd sd = { sd with
        w := (k :: ds, sd.w.2)
        log := sd.log ++ [Event.ev_result S sd.lr.ldap sd.lr.msgid all 0 ⟨[], 0, 0⟩]
        lr := { sd.lr with next_task := NextTask.sdap_pam_loop, next_step := S } })
    (hready : ∀ (n : Nat) (sd : Sys (List Nat × W)) (s : Sys W), Agree sd s →
      (sd.w.1 = [] ∨ ∃ ds, sd.w.1 = 0 :: ds) → sd.w.1.sum ≤ n → sd.fde = true →
      sd.crashed = false → sd.timer = false →
      Landed (run (delayed lib) (Fd sd) (List.replicate n Input.fd_ready)) (Fl s))
    (n : Nat) (sd : Sys (List Nat × W)) (s : Sys W) (hA : Agree sd s)
    (hsum : sd.w.1.sum ≤ n) (hf : sd.fde = true) (hc : sd.crashed = false)
    (ht : sd.timer = false) :
    Landed (run (delayed lib) (Fd sd) (List.replicate n Input.fd_ready)) (Fl s) := by
  rcases hd : sd.w.1 with _ | ⟨k, ds⟩
  · exact hready n sd s hA (Or.inl hd) hsum hf hc ht
  · induction k generalizing sd n with
    | zero => exact hready n sd s hA (Or.inr ⟨ds, hd⟩) hsum hf hc ht
    | succ k ih =>
      rw [hwait sd k ds hd]
      rw [hd] at hsum
      simp only [List.sum_cons] at hsum
      obtain ⟨m, rfl⟩ : ∃ m, n = m + 1 := ⟨n - 1, by omega⟩
      rw [List.replicate_succ]
      show Landed (run (delayed lib) (step (delayed lib) _ Input.fd_ready) _) _
      have hstep : step (delayed lib)
          ({ sd with
            w := (k :: ds, sd.w.2)
            log := sd.log ++ [Event.ev_result S sd.lr.ldap sd.lr.msgid all 0 ⟨[], 0, 0⟩]
            lr := { sd.lr with next_task := NextTask.sdap_pam_loop, next_step := S } } :
            Sys (List Nat × W)) Input.fd_ready =
          Fd { sd with
            w := (k :: ds, sd.w.2)
            log := sd.log ++ [Event.ev_result S sd.lr.ldap sd.lr.msgid all 0 ⟨[], 0, 0⟩]
            lr := { sd.lr with next_task := NextTask.sdap_pam_loop, next_step := S } } := by
        simp only [step, hc, hf, and_self, if_true]
        exact hloop _ rfl
      rw [hstep]
      refine ih m _ ?_ ?_ hf hc ht rfl
      · obtain ⟨t, x, rfl⟩ := hA
        exact ⟨t, x, by simp [und, is_not_ready]⟩
      · simp only [List.sum_cons]; omega

theorem agree_user_dn {X : Sys (List Nat × W)} {Y : Sys W} (h : Agree X Y) :
    Y.lr.user_dn = X.lr.user_dn := by
  obtain ⟨t, x, rfl⟩ := h; rfl

theorem agree_cmd {X : Sys (List Nat × W)} {Y : Sys W} (h : Agree X Y) :
    Y.lr.pd.cmd = X.lr.pd.cmd := by
  obtain ⟨t, x, rfl⟩ := h; rfl

theorem pre_set_noop {n : Nat} {X : Sys (List Nat × W)} {Y : Sys W} (h : Pre n X Y) :
    Pre n (setLr { X.lr with next_step := sdap_auth_steps.SDAP_NOOP } X)
      (setLr { Y.lr with next_step := sdap_auth_steps.SDAP_NOOP } Y) := by
  obtain ⟨⟨t, x, rfl⟩, hs, hf, hc, ht⟩ := h
  exact ⟨⟨t, sdap_auth_steps.SDAP_NOOP, rfl⟩, hs, hf, hc, ht⟩

theorem pre_set_dn {n : Nat} {X : Sys (List Nat × W)} {Y : Sys W} (h : Pre n X Y)
    (d : Option String) :
    Pre n (setLr { X.lr with user_dn := d } X) (setLr { Y.lr with user_dn := d } Y) := by
  obtain ⟨⟨t, x, rfl⟩, hs, hf, hc, ht⟩ := h
  exact ⟨⟨t, x, rfl⟩, hs, hf, hc, ht⟩

theorem pre_bind (lib : LdapLib W) {n : Nat} {X : Sys (List Nat × W)} {Y : Sys W}
    (h : Pre n X Y) :
    Pre n (sdap_bind (delayed lib) X).2 (sdap_bind lib Y).2 ∧
    (sdap_bind lib Y).1 = (sdap_bind (delayed lib) X).1 ∧
    (sdap_bind (delayed lib) X).2.lr.next_step = X.lr.next_step ∧
    (sdap_bind lib Y).2.lr.next_step = Y.lr.next_step := by
  obtain ⟨⟨t, x, rfl⟩, hs, hf, hc, ht⟩ := h
  rw [bind_und]
  obtain ⟨⟨ds, w⟩, lr, cc, log, ti, fde, al, pe, cr⟩ := X
  refine ⟨⟨agree_und _ _ _, ?_, ?_, ?_, ?_⟩, rfl, ?_, ?_⟩ <;>
    (unfold sdap_bind; simp only [emit, setW, setLr, delayed, und]) <;> (try split_ifs) <;>
    first | exact hs | exact hf | exact hc | exact ht | rfl

theorem pre_search (lib : LdapLib W) {n : Nat} {X : Sys (List Nat × W)} {Y : Sys W}
    (h : Pre n X Y) :
    Pre n (search_ext (delayed lib) X).2 (search_ext lib Y).2 ∧
    (search_ext lib Y).1 = (search_ext (delayed lib) X).1 ∧
    (search_ext (delayed lib) X).2.lr.next_step = X.lr.next_step ∧
    (search_ext lib Y).2.lr.next_step = Y.lr.next_step := by
  obtain ⟨⟨t, x, rfl⟩, hs, hf, hc, ht⟩ := h
  rw [search_und]
  exact ⟨⟨agree_und _ _ _, hs, hf, hc, ht⟩, rfl, rfl, rfl⟩

theorem pre_install (lib : LdapLib W) {n : Nat} {X : Sys (List Nat × W)} {Y : Sys W}
    (h : Pre n X Y) :
    Pre n (install_tls (delayed lib) X).2 (install_tls lib Y).2 ∧
    (install_tls lib Y).1 = (install_tls (delayed lib) X).1 ∧
    (install_tls (delayed lib) X).2.lr.next_step = X.lr.next_step ∧
    (install_tls lib Y).2.lr.next_step = Y.lr.next_step := by
  obtain ⟨⟨t, x, rfl⟩, hs, hf, hc, ht⟩ := h
  rw [install_und]
  exact ⟨⟨agree_und _ _ _, hs, hf, hc, ht⟩, rfl, rfl, rfl⟩

theorem pre_poll (lib : LdapLib W)
    (hdef : ∀ w h m all, (lib.ldap_result w h m all false).1.1 ≠ 0)
    (S : sdap_auth_steps) (all : Bool) {n : Nat} {X : Sys (List Nat × W)} {Y : Sys W}
    (h : Pre n X Y) (hd : X.w.1 = [] ∨ ∃ ds, X.w.1 = 0 :: ds) :
    Pre n (poll (delayed lib) S all X).2 (poll lib S all Y).2 ∧
    (poll lib S all Y).1 = (poll (delayed lib) S all X).1 ∧
    (poll (delayed lib) S all X).1.1 ≠ 0 := by
  obtain ⟨⟨t, x, rfl⟩, hs, hf, hc, ht⟩ := h
  obtain ⟨⟨ds, w⟩, lr, cc, log, ti, fde, al, pe, cr⟩ := X
  have hq := hdef w lr.ldap lr.msgid all
  simp only at hd hs hf hc ht
  rcases hd with rfl | ⟨ds2, rfl⟩
  · simp only [poll, delayed, emit, setW, und]
    refine ⟨⟨agree_of_eq ?_, hs, hf, hc, ht⟩, trivial, hq⟩
    simp [und, is_not_ready, hq]
  · simp only [poll, delayed, emit, setW, und]
    refine ⟨⟨agree_of_eq ?_, ?_, hf, hc, ht⟩, trivial, hq⟩
    · simp [und, is_not_ready, hq]
    · simpa using hs

theorem wait_poll (lib : LdapLib W) (S : sdap_auth_steps) (all : Bool)
    (sd : Sys (List Nat × W)) (k : Nat) (ds : List Nat) (h : sd.w.1 = (k + 1) :: ds) :
    poll (delayed lib) S all sd =
      ((0, ⟨[], 0, 0⟩),
        { sd with
          w := (k :: ds, sd.w.2)
          log := sd.log ++ [Event.ev_result S sd.lr.ldap sd.lr.msgid all 0 ⟨[], 0, 0⟩] }) := by
  obtain ⟨⟨d, w⟩, lr, cc, log, ti, fde, al, pe, cr⟩ := sd
  simp only at h
  subst h
  simp only [poll, delayed, emit, setW]

theorem sim_user (lib : LdapLib W)
    (hdef : ∀ w h m all, (lib.ldap_result w h m all false).1.1 ≠ 0)
    (n : Nat) (X : Sys (List Nat × W)) (Y : Sys W) (h : Pre n X Y) :
    Landed (run (delayed lib) (case_check_user_bind (delayed lib) X)
      (List.replicate n Input.fd_ready)) (case_check_user_bind lib Y) := by
  obtain ⟨hA, hs, hf, hc, ht⟩ := h
  refine delay_induction lib sdap_auth_steps.SDAP_CHECK_USER_BIND false
    (case_check_user_bind (delayed lib)) (case_check_user_bind lib) ?_ ?_ ?_ n X Y hA hs hf hc ht
  · intro sd h
    unfold sdap_pam_loop
    rw [h]
  · intro sd k ds h
    rw [case_check_user_bind, wait_poll lib _ _ sd k ds h]
    rfl
  · intro n sd s hA hd hs hf hc ht
    have hP : Pre n sd s := ⟨hA, hs, hf, hc, ht⟩
    obtain ⟨hQ, he, hne⟩ := pre_poll lib hdef sdap_auth_steps.SDAP_CHECK_USER_BIND false hP hd
    have hN := pre_set_noop hQ
    simp only [case_check_user_bind]
    rw [he]
    by_cases h1 : (poll (delayed lib) sdap_auth_steps.SDAP_CHECK_USER_BIND false sd).1.1 = -1
    · simp only [if_pos h1]
      exact landed_loop_done lib _ _ _ hQ.1 (fun e => absurd e (by decide)) hQ.2.2.2.2 n
    · simp only [if_neg h1, if_neg hne]
      split_ifs
      · exact landed_loop_done lib _ _ _ hN.1 (fun _ => ⟨rfl, rfl⟩) hN.2.2.2.2 n
      · exact landed_after_user_bind lib _ _ hN.1 rfl rfl hN.2.2.2.2 n
      · exact landed_loop_done lib _ _ _ hN.1 (fun _ => ⟨rfl, rfl⟩) hN.2.2.2.2 n
      · exact landed_loop_done lib _ _ _ hN.1 (fun _ => ⟨rfl, rfl⟩) hN.2.2.2.2 n

theorem sim_after_search (lib : LdapLib W)
    (hdef : ∀ w h m all, (lib.ldap_result w h m all false).1.1 ≠ 0)
    (n : Nat) (X : Sys (List Nat × W)) (Y : Sys W) (h : Pre n X Y)
    (hX : X.lr.next_step = sdap_auth_steps.SDAP_NOOP)
    (hY : Y.lr.next_step = sdap_auth_steps.SDAP_NOOP) :
    Landed (run (delayed lib) (after_search (delayed lib) X)
      (List.replicate n Input.fd_ready)) (after_search lib Y) := by
  have hcmd := agree_cmd h.1
  obtain ⟨hB, he, -, -⟩ := pre_bind lib h
  have hbind : Landed (run (delayed lib)
      (if (sdap_bind (delayed lib) X).1 ≠ LDAP_SUCCESS then
        loop_done (delayed lib) PamStatus.PAM_SYSTEM_ERR (sdap_bind (delayed lib) X).2
      else case_check_user_bind (delayed lib) (sdap_bind (delayed lib) X).2)
      (List.replicate n Input.fd_ready))
      (if (sdap_bind lib Y).1 ≠ LDAP_SUCCESS then
        loop_done lib PamStatus.PAM_SYSTEM_ERR (sdap_bind lib Y).2
      else case_check_user_bind lib (sdap_bind lib Y).2) := by
    rw [he]
    by_cases hb : (sdap_bind (delayed lib) X).1 ≠ LDAP_SUCCESS
    · simp only [if_pos hb]
      exact landed_loop_done lib _ _ _ hB.1 (fun e => absurd e (by decide)) hB.2.2.2.2 n
    · simp only [if_neg hb]
      exact sim_user lib hdef n _ _ hB
  have hdone : ∀ st, Landed (run (delayed lib) (loop_done (delayed lib) st X)
      (List.replicate n Input.fd_ready)) (loop_done lib st Y) :=
    fun st => landed_loop_done lib _ _ _ h.1 (fun _ => ⟨hX, hY⟩) h.2.2.2.2 n
  unfold after_search
  rw [hcmd]
  cases X.lr.pd.cmd <;> first | exact hbind | exact hdone _

/-- What is read from a released chain does not depend on the delays. -/
theorem agree_freed_chain (lib : LdapLib W) {X : Sys (List Nat × W)} {Y : Sys W}
    (h : Agree X Y) (msgs : List LDAPMessage) :
    lib.freed_chain Y.w msgs = (delayed lib).freed_chain X.w msgs := by
  obtain ⟨t, x, e⟩ := h
  rw [e]
  rfl

theorem sim_search (lib : LdapLib W)
    (hdef : ∀ w h m all, (lib.ldap_result w h m all false).1.1 ≠ 0)
    (n : Nat) (X : Sys (List Nat × W)) (Y : Sys W) (h : Pre n X Y) :
    Landed (run (delayed lib) (case_check_search_dn_result (delayed lib) X)
      (List.replicate n Input.fd_ready)) (case_check_search_dn_result lib Y) := by
  obtain ⟨hA, hs, hf, hc, ht⟩ := h
  refine delay_induction lib sdap_auth_steps.SDAP_CHECK_SEARCH_DN_RESULT true
    (case_check_search_dn_result (delayed lib)) (case_check_search_dn_result lib)
    ?_ ?_ ?_ n X Y hA hs hf hc ht
  · intro sd h
    unfold sdap_pam_loop
    rw [h]
  · intro sd k ds h
    rw [case_check_search_dn_result, wait_poll lib _ _ sd k ds h]
    rfl
  · intro n sd s hA hd hs hf hc ht
    have hP : Pre n sd s := ⟨hA, hs, hf, hc, ht⟩
    obtain ⟨hQ, he, hne⟩ :=
      pre_poll lib hdef sdap_auth_steps.SDAP_CHECK_SEARCH_DN_RESULT true hP hd
    have hN := pre_set_noop hQ
    have hdn := agree_user_dn hN.1
    simp only [case_check_search_dn_result]
    rw [he, hdn]
    by_cases h1 :
        (poll (delayed lib) sdap_auth_steps.SDAP_CHECK_SEARCH_DN_RESULT true sd).1.1 = -1
    · simp only [if_pos h1]
      exact landed_loop_done lib _ _ _ hQ.1 (fun e => absurd e (by decide)) hQ.2.2.2.2 n
    · simp only [if_neg h1, if_neg hne]
      cases (poll (delayed lib) sdap_auth_steps.SDAP_CHECK_SEARCH_DN_RESULT true sd).1.2.msgs with
      | nil =>
        exact landed_loop_done lib _ _ _ hN.1 (fun _ => ⟨rfl, rfl⟩) hN.2.2.2.2 n
      | cons m ms =>
        dsimp only
        rw [agree_freed_chain lib hN.1]
        generalize search_walk _ _ (m :: ms) = k
        obtain ⟨k1, k2⟩ := k
        have hD := pre_set_dn hN k2
        cases k1 with
        | some st =>
          exact landed_loop_done lib _ _ _ hD.1 (fun _ => ⟨rfl, rfl⟩) hD.2.2.2.2 n
        | none =>
          exact sim_after_search lib hdef n _ _ hD rfl rfl

theorem sim_std (lib : LdapLib W)
    (hdef : ∀ w h m all, (lib.ldap_result w h m all false).1.1 ≠ 0)
    (n : Nat) (X : Sys (List Nat × W)) (Y : Sys W) (h : Pre n X Y) :
    Landed (run (delayed lib) (case_check_std_bind (delayed lib) X)
      (List.replicate n Input.fd_ready)) (case_check_std_bind lib Y) := by
  obtain ⟨hA, hs, hf, hc, ht⟩ := h
  refine delay_induction lib sdap_auth_steps.SDAP_CHECK_STD_BIND false
    (case_check_std_bind (delayed lib)) (case_check_std_bind lib)
    ?_ ?_ ?_ n X Y hA hs hf hc ht
  · intro sd h
    unfold sdap_pam_loop
    rw [h]
  · intro sd k ds h
    rw [case_check_std_bind, wait_poll lib _ _ sd k ds h]
    rfl
  · intro n sd s hA hd hs hf hc ht
    have hP : Pre n sd s := ⟨hA, hs, hf, hc, ht⟩
    obtain ⟨hQ, he, hne⟩ :=
      pre_poll lib hdef sdap_auth_steps.SDAP_CHECK_STD_BIND false hP hd
    have hN := pre_set_noop hQ
    obtain ⟨hS, hes, -, -⟩ := pre_search lib hN
    simp only [case_check_std_bind]
    rw [he, hes]
    by_cases h1 : (poll (delayed lib) sdap_auth_steps.SDAP_CHECK_STD_BIND false sd).1.1 = -1
    · simp only [if_pos h1]
      exact landed_loop_done lib _ _ _ hQ.1 (fun e => absurd e (by decide)) hQ.2.2.2.2 n
    · simp only [if_neg h1, if_neg hne]
      split_ifs
      · exact landed_loop_done lib _ _ _ hN.1 (fun _ => ⟨rfl, rfl⟩) hN.2.2.2.2 n
      · exact landed_loop_done lib _ _ _ hN.1 (fun _ => ⟨rfl, rfl⟩) hN.2.2.2.2 n
      · exact landed_loop_done lib _ _ _ hS.1 (fun e => absurd e (by decide)) hS.2.2.2.2 n
      · exact sim_search lib hdef n _ _ hS

theorem sim_init (lib : LdapLib W)
    (hdef : ∀ w h m all, (lib.ldap_result w h m all false).1.1 ≠ 0)
    (n : Nat) (X : Sys (List Nat × W)) (Y : Sys W) (h : Pre n X Y) :
    Landed (run (delayed lib) (case_check_init_result (delayed lib) X)
      (List.replicate n Input.fd_ready)) (case_check_init_result lib Y) := by
  obtain ⟨hA, hs, hf, hc, ht⟩ := h
  refine delay_induction lib sdap_auth_steps.SDAP_CHECK_INIT_RESULT false
    (case_check_init_result (delayed lib)) (case_check_init_result lib)
    ?_ ?_ ?_ n X Y hA hs hf hc ht
  · intro sd h
    unfold sdap_pam_loop
    rw [h]
  · intro sd k ds h
    rw [case_check_init_result, wait_poll lib _ _ sd k ds h]
    rfl
  · intro n sd s hA hd hs hf hc ht
    have hP : Pre n sd s := ⟨hA, hs, hf, hc, ht⟩
    obtain ⟨hQ, he, hne⟩ :=
      pre_poll lib hdef sdap_auth_steps.SDAP_CHECK_INIT_RESULT false hP hd
    have hN := pre_set_noop hQ
    obtain ⟨hI, hei, -, -⟩ := pre_install lib hN
    obtain ⟨hB, heb, -, -⟩ := pre_bind lib hI
    simp only [case_check_init_result]
    rw [he, hei, heb]
    by_cases h1 :
        (poll (delayed lib) sdap_auth_steps.SDAP_CHECK_INIT_RESULT false sd).1.1 = -1
    · simp only [if_pos h1]
      exact landed_loop_done lib _ _ _ hQ.1 (fun e => absurd e (by decide)) hQ.2.2.2.2 n
    · simp only [if_neg h1, if_neg hne]
      split_ifs
      · exact landed_loop_done lib _ _ _ hN.1 (fun _ => ⟨rfl, rfl⟩) hN.2.2.2.2 n
      · exact landed_loop_done lib _ _ _ hN.1 (fun _ => ⟨rfl, rfl⟩) hN.2.2.2.2 n
      · exact landed_loop_done lib _ _ _ hI.1 (fun e => absurd e (by decide)) hI.2.2.2.2 n
      · exact landed_loop_done lib _ _ _ hB.1 (fun e => absurd e (by decide)) hB.2.2.2.2 n
      · exact sim_std lib hdef n _ _ hB

theorem init_und (lib : LdapLib W) (sd : Sys (List Nat × W))
    (t : NextTask) (x : sdap_auth_steps) :
    sdap_init lib (und sd t x) =
      ((sdap_init (delayed lib) sd).1, und (sdap_init (delayed lib) sd).2 t x) := by
  obtain ⟨⟨ds, w⟩, lr, cc, log, ti, fde, al, pe, cr⟩ := sd
  unfold sdap_init
  simp only [set_opt, start_tls, sdap_init_cleanup, do_unbind, und, emit, setW, setLr, delayed]
  split_ifs <;> simp [und, is_not_ready]

theorem init_frame (lib : LdapLib W) (s : Sys W) :
    (sdap_init lib s).2.fde = s.fde ∧ (sdap_init lib s).2.crashed = s.crashed ∧
    (sdap_init lib s).2.timer = s.timer := by
  unfold sdap_init
  simp only [set_opt, start_tls, sdap_init_cleanup, do_unbind, emit, setW, setLr]
  split_ifs <;> exact ⟨rfl, rfl, rfl⟩

theorem init_delays (lib : LdapLib W) (sd : Sys (List Nat × W)) :
    (sdap_init (delayed lib) sd).2.w.1 = sd.w.1 := by
  unfold sdap_init
  simp only [set_opt, start_tls, sdap_init_cleanup, do_unbind, emit, setW, setLr, delayed]
  split_ifs <;> rfl

theorem wait_und (lib : LdapLib W) (sd : Sys (List Nat × W))
    (t : NextTask) (x : sdap_auth_steps) :
    wait_for_fd lib (und sd t x) =
      ((wait_for_fd (delayed lib) sd).1, und (wait_for_fd (delayed lib) sd).2 t x) := by
  obtain ⟨⟨ds, w⟩, lr, cc, log, ti, fde, al, pe, cr⟩ := sd
  unfold wait_for_fd
  simp only [und, emit, setW, setLr, delayed]
  split_ifs <;> simp [und, is_not_ready]

theorem wait_frame (lib : LdapLib W) (s : Sys W) :
    (wait_for_fd lib s).2.crashed = s.crashed ∧ (wait_for_fd lib s).2.timer = s.timer ∧
    (wait_for_fd lib s).2.lr = s.lr ∧
    ((wait_for_fd lib s).1 = EOK → (wait_for_fd lib s).2.fde = true) := by
  unfold wait_for_fd
  simp only [emit, setW, setLr]
  split_ifs with h1 h2
  · exact ⟨rfl, rfl, rfl, fun e => absurd e h1⟩
  · exact ⟨rfl, rfl, rfl, fun e => absurd e (show EIO_ ≠ EOK by decide)⟩
  · exact ⟨rfl, rfl, rfl, fun _ => rfl⟩

theorem wait_delays (lib : LdapLib W) (sd : Sys (List Nat × W)) :
    (wait_for_fd (delayed lib) sd).2.w.1 = sd.w.1 := by
  unfold wait_for_fd
  simp only [emit, setW, setLr, delayed]
  split_ifs <;> rfl

theorem start_done_settled (lib : LdapLib W) (st : PamStatus) (s : Sys W) :
    Settled (start_done lib st s) ∧ (start_done lib st s).timer = s.timer := by
  unfold start_done
  by_cases hl : s.lr.ldap = none
  · simp only [do_unbind, free_lr, sdap_reply, emit, setW, setLr, hl, ne_eq,
      not_true_eq_false, if_false]
    exact ⟨Or.inl rfl, trivial⟩
  · simp only [do_unbind, free_lr, sdap_reply, emit, setW, setLr, hl, ne_eq,
      not_false_eq_true, if_true]
    exact ⟨Or.inl rfl, trivial⟩

theorem landed_start_done (lib : LdapLib W) (st : PamStatus) (X : Sys (List Nat × W))
    (Y : Sys W) (hA : Agree X Y) (ht : X.timer = false) (m : Nat) :
    Landed (run (delayed lib) (start_done (delayed lib) st X)
      (List.replicate m Input.fd_ready)) (run lib (start_done lib st Y) [Input.fd_ready]) := by
  have h1 := start_done_settled (delayed lib) st X
  have h2 := start_done_settled lib st Y
  rw [settled_run _ _ h1.1]
  show Landed _ (step lib (start_done lib st Y) Input.fd_ready)
  rw [settled_inert _ _ h2.1]
  obtain ⟨t, x, rfl⟩ := hA
  refine ⟨?_, h1.1, h2.1, by rw [h1.2]; exact ht⟩
  rw [start_done_und]
  exact agree_und _ _ _

theorem landed_resume (lib : LdapLib W)
    (hdef : ∀ w h m all, (lib.ldap_result w h m all false).1.1 ≠ 0)
    (n : Nat) (X : Sys (List Nat × W)) (Y : Sys W) (h : Pre n X Y)
    (hX : X.lr.next_step = sdap_auth_steps.SDAP_CHECK_INIT_RESULT)
    (hY : Y.lr.next_step = sdap_auth_steps.SDAP_CHECK_INIT_RESULT) :
    Landed (run (delayed lib) X (List.replicate (n + 1) Input.fd_ready))
      (run lib Y [Input.fd_ready]) := by
  rw [List.replicate_succ]
  show Landed (run (delayed lib) (step (delayed lib) X Input.fd_ready) _)
    (step lib Y Input.fd_ready)
  have hYc : Y.crashed = false ∧ Y.fde = true := by
    obtain ⟨⟨t, x, rfl⟩, -, hf, hc, -⟩ := h
    exact ⟨hc, hf⟩
  have e1 : step (delayed lib) X Input.fd_ready = case_check_init_result (delayed lib) X := by
    simp only [step, h.2.2.2.1, h.2.2.1, and_self, if_true]
    unfold sdap_pam_loop
    rw [hX]
  have e2 : step lib Y Input.fd_ready = case_check_init_result lib Y := by
    simp only [step, hYc.1, hYc.2, and_self, if_true]
    unfold sdap_pam_loop
    rw [hY]
  rw [e1, e2]
  exact sim_init lib hdef n X Y h

theorem sim_start (lib : LdapLib W)
    (hdef : ∀ w h m all, (lib.ldap_result w h m all false).1.1 ≠ 0)
    (n : Nat) (X : Sys (List Nat × W)) (Y : Sys W) (hA : Agree X Y)
    (hs : X.w.1.sum ≤ n) (hc : X.crashed = false) (ht : X.timer = false) :
    Landed (run (delayed lib) (sdap_start (delayed lib) X)
      (List.replicate (n + 1) Input.fd_ready))
      (run lib (sdap_start lib Y) [Input.fd_ready]) := by
  obtain ⟨t, x, rfl⟩ := hA
  have hi := init_frame (delayed lib) X
  have hd := init_delays lib X
  simp only [sdap_start]
  rw [init_und]
  dsimp only
  by_cases h1 : (sdap_init (delayed lib) X).1 ≠ EOK
  · simp only [if_pos h1]
    exact landed_start_done lib _ _ _ ⟨t, x, rfl⟩ (by rw [← ht, ← hi.2.2]; rfl) _
  · simp only [if_neg h1]
    have e : (setLr { (und (sdap_init (delayed lib) X).2 t x).lr with
          next_task := NextTask.sdap_pam_loop,
          next_step := sdap_auth_steps.SDAP_CHECK_INIT_RESULT }
          (und (sdap_init (delayed lib) X).2 t x)) =
        und (setLr { (sdap_init (delayed lib) X).2.lr with
          next_task := NextTask.sdap_pam_loop,
          next_step := sdap_auth_steps.SDAP_CHECK_INIT_RESULT } (sdap_init (delayed lib) X).2)
          NextTask.sdap_pam_loop sdap_auth_steps.SDAP_CHECK_INIT_RESULT := rfl
    rw [e, wait_und]
    dsimp only
    have hw := wait_frame (delayed lib) (setLr { (sdap_init (delayed lib) X).2.lr with
          next_task := NextTask.sdap_pam_loop,
          next_step := sdap_auth_steps.SDAP_CHECK_INIT_RESULT } (sdap_init (delayed lib) X).2)
    have hwd := wait_delays lib (setLr { (sdap_init (delayed lib) X).2.lr with
          next_task := NextTask.sdap_pam_loop,
          next_step := sdap_auth_steps.SDAP_CHECK_INIT_RESULT } (sdap_init (delayed lib) X).2)
    by_cases h2 : (wait_for_fd (delayed lib) (setLr { (sdap_init (delayed lib) X).2.lr with
          next_task := NextTask.sdap_pam_loop,
          next_step := sdap_auth_steps.SDAP_CHECK_INIT_RESULT }
          (sdap_init (delayed lib) X).2)).1 ≠ EOK
    · simp only [if_pos h2]
      exact landed_start_done lib _ _ _ (agree_und _ _ _)
        (by rw [hw.2.1]; show (sdap_init (delayed lib) X).2.timer = false
            rw [hi.2.2]; exact ht) _
    · simp only [if_neg h2]
      refine landed_resume lib hdef n _ _ ⟨agree_und _ _ _, ?_, ?_, ?_, ?_⟩ ?_ rfl
      · rw [hwd]; show (sdap_init (delayed lib) X).2.w.1.sum ≤ n
        rw [hd]; exact hs
      · exact hw.2.2.2 (not_not.mp h2)
      · rw [hw.1]; show (sdap_init (delayed lib) X).2.crashed = false
        rw [hi.2.1]; exact hc
      · rw [hw.2.1]; show (sdap_init (delayed lib) X).2.timer = false
        rw [hi.2.2]; exact ht
      · rw [hw.2.2.1]; rfl

theorem schedule_und (lib : LdapLib W) (sd : Sys (List Nat × W))
    (t : NextTask) (x : sdap_auth_steps) :
    schedule_next_task lib (und sd t x) =
      ((schedule_next_task (delayed lib) sd).1,
        und (schedule_next_task (delayed lib) sd).2 t x) := by
  obtain ⟨⟨ds, w⟩, lr, cc, log, ti, fde, al, pe, cr⟩ := sd
  unfold schedule_next_task
  simp only [und, emit, setW, setLr, delayed]
  split_ifs <;> simp [und, is_not_ready]

theorem schedule_frame (lib : LdapLib W) (s : Sys W) :
    (schedule_next_task lib s).2.fde = s.fde ∧
    (schedule_next_task lib s).2.crashed = s.crashed ∧
    ((schedule_next_task lib s).1 ≠ EOK → (schedule_next_task lib s).2.timer = s.timer) := by
  unfold schedule_next_task
  simp only [emit, setW, setLr]
  split_ifs with h1 h2
  · exact ⟨rfl, rfl, fun _ => rfl⟩
  · exact ⟨rfl, rfl, fun _ => rfl⟩
  · exact ⟨rfl, rfl, fun e => absurd rfl e⟩

theorem schedule_delays (lib : LdapLib W) (sd : Sys (List Nat × W)) :
    (schedule_next_task (delayed lib) sd).2.w.1 = sd.w.1 := by
  unfold schedule_next_task
  simp only [emit, setW, setLr, delayed]
  split_ifs <;> rfl

theorem cache_pw_op_frame (lib : LdapLib W) (s : Sys W) :
    (sdap_cache_pw_op lib s).fde = s.fde ∧
    (sdap_cache_pw_op lib s).lr.next_step = s.lr.next_step ∧
    (sdap_cache_pw_op lib s).timer = s.timer ∧
    (s.crashed = true → (sdap_cache_pw_op lib s).crashed = true) := by
  unfold sdap_cache_pw_op
  split <;> simp only [sdap_reply, emit, setW] <;> (try split_ifs) <;> simp

theorem cache_pw_callback_frame (lib : LdapLib W) (e : Int) (s : Sys W) :
    (sdap_cache_pw_callback lib e s).fde = s.fde ∧
    (sdap_cache_pw_callback lib e s).lr.next_step = s.lr.next_step ∧
    (sdap_cache_pw_callback lib e s).timer = s.timer ∧
    (s.crashed = true → (sdap_cache_pw_callback lib e s).crashed = true) :=
  ⟨rfl, rfl, rfl, fun h => h⟩

theorem settled_frame {s r : Sys W} (h : Settled s) (h1 : r.fde = s.fde)
    (h2 : r.lr.next_step = s.lr.next_step) (h3 : s.crashed = true → r.crashed = true) :
    Settled r := by
  rcases h with h | h | h
  · exact Or.inl (h1.trans h)
  · exact Or.inr (Or.inl (h2.trans h))
  · exact Or.inr (Or.inr (h3 h))

theorem landed_step (lib : LdapLib W) (a : Sys (List Nat × W)) (b : Sys W)
    (h : Landed a b) (i : Input) : Landed (step (delayed lib) a i) (step lib b i) := by
  obtain ⟨hA, hSa, hSb, ht⟩ := h
  cases i with
  | timer =>
    obtain ⟨t, x, rfl⟩ := hA
    have e1 : step (delayed lib) a Input.timer = a := by
      simp only [step, ht, Bool.false_eq_true, and_false, if_false]
    have hb : (und a t x).timer = false := ht
    have e2 : step lib (und a t x) Input.timer = und a t x := by
      simp only [step, hb, Bool.false_eq_true, and_false, if_false]
    rw [e1, e2]
    exact ⟨⟨t, x, rfl⟩, hSa, hSb, ht⟩
  | fd_ready =>
    rw [settled_inert _ _ hSa, settled_inert _ _ hSb]
    exact ⟨hA, hSa, hSb, ht⟩
  | txn_ready =>
    obtain ⟨t, x, rfl⟩ := hA
    by_cases hp : a.crashed = false ∧ a.pending = Pending.txn
    · have hp2 : (und a t x).crashed = false ∧ (und a t x).pending = Pending.txn := hp
      have e1 : step (delayed lib) a Input.txn_ready =
          sdap_cache_pw_op (delayed lib) { a with pending := Pending.nothing } := by
        simp only [step, if_pos hp]
      have e2 : step lib (und a t x) Input.txn_ready =
          sdap_cache_pw_op lib (und { a with pending := Pending.nothing } t x) := by
        simp only [step, if_pos hp2]
        rfl
      have f1 := cache_pw_op_frame (delayed lib) { a with pending := Pending.nothing }
      have f2 := cache_pw_op_frame lib (und { a with pending := Pending.nothing } t x)
      rw [e1, e2]
      refine ⟨?_, settled_frame hSa f1.1 f1.2.1 f1.2.2.2, settled_frame hSb f2.1 f2.2.1 f2.2.2.2,
        f1.2.2.1.trans ht⟩
      rw [cache_pw_op_und]
      exact agree_und _ _ _
    · have hp2 : ¬ ((und a t x).crashed = false ∧ (und a t x).pending = Pending.txn) := hp
      have e1 : step (delayed lib) a Input.txn_ready = a := by
        simp only [step, if_neg hp]
      have e2 : step lib (und a t x) Input.txn_ready = und a t x := by
        simp only [step, if_neg hp2]
      rw [e1, e2]
      exact ⟨⟨t, x, rfl⟩, hSa, hSb, ht⟩
  | pw_done err =>
    obtain ⟨t, x, rfl⟩ := hA
    by_cases hp : a.crashed = false ∧ a.pending = Pending.pw
    · have hp2 : (und a t x).crashed = false ∧ (und a t x).pending = Pending.pw := hp
      have e1 : step (delayed lib) a (Input.pw_done err) =
          sdap_cache_pw_callback (delayed lib) err { a with pending := Pending.nothing } := by
        simp only [step, if_pos hp]
      have e2 : step lib (und a t x) (Input.pw_done err) =
          sdap_cache_pw_callback lib err (und { a with pending := Pending.nothing } t x) := by
        simp only [step, if_pos hp2]
        rfl
      have f1 := cache_pw_callback_frame (delayed lib) err { a with pending := Pending.nothing }
      have f2 := cache_pw_callback_frame lib err (und { a with pending := Pending.nothing } t x)
      rw [e1, e2]
      refine ⟨?_, settled_frame hSa f1.1 f1.2.1 f1.2.2.2, settled_frame hSb f2.1 f2.2.1 f2.2.2.2,
        f1.2.2.1.trans ht⟩
      rw [cache_pw_callback_und]
      exact agree_und _ _ _
    · have hp2 : ¬ ((und a t x).crashed = false ∧ (und a t x).pending = Pending.pw) := hp
      have e1 : step (delayed lib) a (Input.pw_done err) = a := by
        simp only [step, if_neg hp]
      have e2 : step lib (und a t x) (Input.pw_done err) = und a t x := by
        simp only [step, if_neg hp2]
      rw [e1, e2]
      exact ⟨⟨t, x, rfl⟩, hSa, hSb, ht⟩

theorem landed_run (lib : LdapLib W) (inputs : List Input) (a : Sys (List Nat × W))
    (b : Sys W) (h : Landed a b) : Landed (run (delayed lib) a inputs) (run lib b inputs) := by
  induction inputs generalizing a b with
  | nil => exact h
  | cons i rest ih => exact ih _ _ (landed_step lib a b h i)

theorem landed_dead (lib : LdapLib W) (a : Sys (List Nat × W)) (b : Sys W)
    (h : Landed a b) (m : Nat) :
    Landed (run (delayed lib) a (Input.timer :: List.replicate m Input.fd_ready))
      (run lib b [Input.timer, Input.fd_ready]) := by
  have h1 := landed_step lib a b h Input.timer
  have e1 : run (delayed lib) a (Input.timer :: List.replicate m Input.fd_ready) =
      run (delayed lib) (step (delayed lib) a Input.timer) (List.replicate m Input.fd_ready) :=
    rfl
  have e2 : run lib b [Input.timer, Input.fd_ready] =
      step lib (step lib b Input.timer) Input.fd_ready := rfl
  rw [e1, e2, settled_run _ _ h1.2.1, settled_inert _ _ h1.2.2.1]
  exact h1

theorem landed_armed (lib : LdapLib W)
    (hdef : ∀ w h m all, (lib.ldap_result w h m all false).1.1 ≠ 0)
    (n : Nat) (X : Sys (List Nat × W)) (Y : Sys W) (hA : Agree X Y)
    (hs : X.w.1.sum ≤ n) (hc : X.crashed = false) (ht : X.timer = true) :
    Landed (run (delayed lib) X (Input.timer :: List.replicate (n + 1) Input.fd_ready))
      (run lib Y [Input.timer, Input.fd_ready]) := by
  obtain ⟨t, x, rfl⟩ := hA
  have hc2 : (und X t x).crashed = false := hc
  have ht2 : (und X t x).timer = true := ht
  have e1 : run (delayed lib) X (Input.timer :: List.replicate (n + 1) Input.fd_ready) =
      run (delayed lib) (sdap_start (delayed lib) { X with timer := false })
        (List.replicate (n + 1) Input.fd_ready) := by
    show run (delayed lib) (step (delayed lib) X Input.timer) _ = _
    simp only [step, hc, ht, and_self, if_true]
  have e2 : run lib (und X t x) [Input.timer, Input.fd_ready] =
      run lib (sdap_start lib (und { X with timer := false } t x)) [Input.fd_ready] := by
    show run lib (step lib (und X t x) Input.timer) _ = _
    have e3 : step lib (und X t x) Input.timer =
        sdap_start lib (und { X with timer := false } t x) := by
      show (if (und X t x).crashed = false ∧ (und X t x).timer = true then
        sdap_start lib { und X t x with timer := false } else und X t x) = _
      rw [if_pos ⟨hc2, ht2⟩]
      rfl
    rw [e3]
  rw [e1, e2]
  exact sim_start lib hdef n _ _ (agree_und _ _ _) hs hc rfl

theorem sim_handler (lib : LdapLib W)
    (hdef : ∀ w h m all, (lib.ldap_result w h m all false).1.1 ≠ 0)
    (w : W) (ctx : sdap_ctx) (pd : pam_data) (cc : Bool) (msgid0 : Int) (ds : List Nat)
    (n : Nat) (hn : ds.sum ≤ n) :
    Landed
      (run (delayed lib) (sdap_pam_handler (delayed lib) (ds, w) ctx pd cc msgid0)
        (Input.timer :: List.replicate (n + 1) Input.fd_ready))
      (run lib (sdap_pam_handler lib w ctx pd cc msgid0) [Input.timer, Input.fd_ready]) := by
  unfold sdap_pam_handler schedule_next_task
  simp only [emit, setW, setLr, delayed]
  generalize lib.gettimeofday w = g
  obtain ⟨gr, w1⟩ := g
  dsimp only
  by_cases hg : gr = -1
  · simp only [hg, if_true]
    rw [if_pos (by decide), if_pos (by decide)]
    exact landed_dead lib _ _
      ⟨agree_of_eq (by simp [und, free_lr, sdap_reply, emit, setLr, is_not_ready]),
        Or.inl rfl, Or.inl rfl, rfl⟩ _
  · simp only [if_neg hg]
    generalize lib.tevent_add_timer w1 = g2
    obtain ⟨ok, w2⟩ := g2
    dsimp only
    cases ok with
    | false =>
      simp only [if_true]
      rw [if_pos (by decide), if_pos (by decide)]
      exact landed_dead lib _ _
        ⟨agree_of_eq (by simp [und, free_lr, sdap_reply, emit, setLr, is_not_ready]),
          Or.inl rfl, Or.inl rfl, rfl⟩ _
    | true =>
      simp only [Bool.true_eq_false, if_false]
      rw [if_neg (by decide), if_neg (by decide)]
      exact landed_armed lib hdef n _ _
        (agree_of_eq (by simp [und, is_not_ready])) hn rfl rfl

/-- C23: suspension is transparent.  For every library whose non-blocking
polls always deliver (answer or error), every request and every list `ds` of
delays (the k-th poll of the session is answered `NotReady` `ds[k]` times
before the answer of the library arrives, each `NotReady` followed by a
readiness callback that re-enters `sdap_pam_loop` at the stored step), the
execution with the delays and the execution without them report the same
statuses to the dispatcher, submit the same binds, searches and extended
operations with the same answers, find the same `user_dn` and record the same
outcome, whatever is delivered afterwards; their logs differ by the `NotReady`
polls alone. -/
theorem suspension_transparent (lib : LdapLib W)
    (hdef : ∀ w h m all, (lib.ldap_result w h m all false).1.1 ≠ 0)
    (w : W) (ctx : sdap_ctx) (pd : pam_data) (cc : Bool) (msgid0 : Int) (ds : List Nat)
    (n : Nat) (hn : ds.sum + 1 ≤ n) (rest : List Input) :
    replies (run (delayed lib) (sdap_pam_handler (delayed lib) (ds, w) ctx pd cc msgid0)
        (Input.timer :: List.replicate n Input.fd_ready ++ rest)).log =
      replies (run lib (sdap_pam_handler lib w ctx pd cc msgid0)
        (Input.timer :: Input.fd_ready :: rest)).log ∧
    ops (run (delayed lib) (sdap_pam_handler (delayed lib) (ds, w) ctx pd cc msgid0)
        (Input.timer :: List.replicate n Input.fd_ready ++ rest)).log =
      ops (run lib (sdap_pam_handler lib w ctx pd cc msgid0)
        (Input.timer :: Input.fd_ready :: rest)).log ∧
    (run (delayed lib) (sdap_pam_handler (delayed lib) (ds, w) ctx pd cc msgid0)
        (Input.timer :: List.replicate n Input.fd_ready ++ rest)).lr.user_dn =
      (run lib (sdap_pam_handler lib w ctx pd cc msgid0)
        (Input.timer :: Input.fd_ready :: rest)).lr.user_dn ∧
    (run (delayed lib) (sdap_pam_handler (delayed lib) (ds, w) ctx pd cc msgid0)
        (Input.timer :: List.replicate n Input.fd_ready ++ rest)).lr.pd.pam_status =
      (run lib (sdap_pam_handler lib w ctx pd cc msgid0)
        (Input.timer :: Input.fd_ready :: rest)).lr.pd.pam_status ∧
    strip (run (delayed lib) (sdap_pam_handler (delayed lib) (ds, w) ctx pd cc msgid0)
        (Input.timer :: List.replicate n Input.fd_ready ++ rest)).log =
      (run lib (sdap_pam_handler lib w ctx pd cc msgid0)
        (Input.timer :: Input.fd_ready :: rest)).log := by
  obtain ⟨m, rfl⟩ : ∃ m, n = m + 1 := ⟨n - 1, by omega⟩
  have hL := landed_run lib rest _ _
    (sim_handler lib hdef w ctx pd cc msgid0 ds m (by omega))
  have e1 : Input.timer :: List.replicate (m + 1) Input.fd_ready ++ rest =
      (Input.timer :: List.replicate (m + 1) Input.fd_ready) ++ rest := rfl
  have e2 : Input.timer :: Input.fd_ready :: rest = [Input.timer, Input.fd_ready] ++ rest := rfl
  rw [e1, e2, run_append, run_append]
  obtain ⟨⟨t, x, hb⟩, -⟩ := hL
  rw [hb]
  exact ⟨(replies_strip _).symm, (ops_strip _).symm, rfl, rfl, rfl⟩

/-- The polls of `stub_definitive` never report `NotReady`. -/
theorem stub_definitive_answers (w : Stub) (h : Option Nat) (m : Int) (all : Bool) :
    (stub_definitive.ldap_result w h m all false).1.1 ≠ 0 := by
  show (if w.last.1 = 0 then (-1 : Int) else w.last.1) ≠ 0
  split_ifs with h0
  · decide
  · exact h0

/-- Witness of C23: `alice` authenticates against the stub directory with
credential caching while the four polls are delayed by 2, 0, 1 and 3
`NotReady` answers. -/
theorem suspension_transparent_witness :
    (∀ w h m all, (stub_definitive.ldap_result w h m all false).1.1 ≠ 0) ∧
    [2, 0, 1, 3].sum + 1 ≤ 7 ∧
    replies (run (delayed stub_definitive)
        (sdap_pam_handler (delayed stub_definitive) ([2, 0, 1, 3], scenario_dir) scenario_ctx
          (scenario_pd PamCmd.SSS_PAM_AUTHENTICATE "alice" "s3cret" "") true 0)
        (Input.timer :: List.replicate 7 Input.fd_ready ++
          [Input.txn_ready, Input.pw_done 0])).log =
      replies (run stub_definitive
        (sdap_pam_handler stub_definitive scenario_dir scenario_ctx
          (scenario_pd PamCmd.SSS_PAM_AUTHENTICATE "alice" "s3cret" "") true 0)
        (Input.timer :: Input.fd_ready :: [Input.txn_ready, Input.pw_done 0])).log :=
  ⟨stub_definitive_answers, by decide,
    (suspension_transparent stub_definitive stub_definitive_answers scenario_dir scenario_ctx
      (scenario_pd PamCmd.SSS_PAM_AUTHENTICATE "alice" "s3cret" "") true 0 [2, 0, 1, 3] 7
      (by decide) [Input.txn_ready, Input.pw_done 0]).1⟩

/-- The delayed execution of the witness of C23 holds six `NotReady` polls and
reports `PAM_SUCCESS` once. -/
theorem delayed_run_value :
    replies (run (delayed stub_definitive)
        (sdap_pam_handler (delayed stub_definitive) ([2, 0, 1, 3], scenario_dir) scenario_ctx
          (scenario_pd PamCmd.SSS_PAM_AUTHENTICATE "alice" "s3cret" "") true 0)
        (Input.timer :: List.replicate 7 Input.fd_ready ++
          [Input.txn_ready, Input.pw_done 0])).log = [PamStatus.PAM_SUCCESS] ∧
    ((run (delayed stub_definitive)
        (sdap_pam_handler (delayed stub_definitive) ([2, 0, 1, 3], scenario_dir) scenario_ctx
          (scenario_pd PamCmd.SSS_PAM_AUTHENTICATE "alice" "s3cret" "") true 0)
        (Input.timer :: List.replicate 7 Input.fd_ready ++
          [Input.txn_ready, Input.pw_done 0])).log.filter is_not_ready).length = 6 := by
  decide

end Sdap
